import Mathlib

/-!
# Signal delivery of the kernel process subsystem (`kernel/ps/signals.c`)

A shallow embedding of the signal queueing and dequeueing routines of
`signals.c`, and theorems about them.

Conventions of the embedding.

* A `SIGNAL_SET` is the 64-bit mask of the C code, held in a `Nat`.
* A `PKTHREAD` is the index of the thread on the `ThreadListHead` of its
  owning process; `NULL` is `none`.
* A `LIST_ENTRY` list of queue entries is the `List` of its entries from head
  to tail; `INSERT_BEFORE (Entry, Head)` appends at the tail, and an entry that
  is on no list is detached (`ListEntry.Next == NULL`).
* Calls into collaborators that live outside `signals.c` are recorded in the
  state: `CompletedSignals` lists the entries handed to their completion
  routine, `WakeCalls` the `ObWakeBlockedThread` calls made on a thread,
  `ChildSignalsToParent` the child signals sent to the parent, `StopEvent`
  the signalled state of the stop event. The results of the system calls list
  the parameter blocks handed to `PsApplySynchronousSignal` and to
  `MmCopyToUserMode`, and the timeouts handed to `KeDelayExecution`.
* `PspTracerBreakBegin` follows `PspTracerBreak` from its entry to its return
  or to the first wait that only another thread or the tracer can end, and
  gives the state in which the thread returns or waits.
* A system call that waits is given what the rest of the system does while it
  runs: for each pass of its loop the signals that have arrived when the pass
  looks for one, and what the time counter and the wait return. The call
  gives no result when the thread never comes out of a wait.
-/

namespace PsSignals

/-! ## Constants -/

/-- Dimension of `PsSignalNames`: signals below it are kept in bitmaps. -/
def STANDARD_SIGNAL_COUNT : Nat := 32

/-- Modelled from the spec: the absolute end of the signal number range, the
width of a signal set (the header that defines it is not part of the
sources). -/
def SIGNAL_COUNT : Nat := 64

/-- Index of "Core Dump" in `PsSignalNames`. -/
def SIGNAL_REQUEST_CORE_DUMP : Nat := 3

/-- Index of "Illegal Instruction" in `PsSignalNames`. -/
def SIGNAL_ILLEGAL_INSTRUCTION : Nat := 4

/-- Index of "Trap" in `PsSignalNames`. -/
def SIGNAL_TRAP : Nat := 5

/-- Index of "Abort" in `PsSignalNames`. -/
def SIGNAL_ABORT : Nat := 6

/-- Index of "Bus Error" in `PsSignalNames`. -/
def SIGNAL_BUS_ERROR : Nat := 7

/-- Index of "Math Error" in `PsSignalNames`. -/
def SIGNAL_MATH_ERROR : Nat := 8

/-- Index of "Kill" in `PsSignalNames`. -/
def SIGNAL_KILL : Nat := 9

/-- Index of "Access Violation" in `PsSignalNames`. -/
def SIGNAL_ACCESS_VIOLATION : Nat := 11

/-- Index of "Child Process" in `PsSignalNames`. -/
def SIGNAL_CHILD_PROCESS_ACTIVITY : Nat := 16

/-- Index of "Continue" in `PsSignalNames`. -/
def SIGNAL_CONTINUE : Nat := 17

/-- Index of "Stop" in `PsSignalNames`. -/
def SIGNAL_STOP : Nat := 18

/-- Index of "File Size" in `PsSignalNames`. -/
def SIGNAL_FILE_SIZE_TOO_LARGE : Nat := 24

/-- Index of "Bad System Call" in `PsSignalNames`. -/
def SIGNAL_BAD_SYSTEM_CALL : Nat := 29

/-- Truncation of a value stored into a `ULONG` variable. -/
def ULONG (Value : Nat) : Nat := Value % 2 ^ 32

/-- The `ULONG` value of `-1`, returned when no signal is dequeued. -/
def ULONG_MINUS_ONE : Nat := 4294967295

/-! ## Signal set algebra -/

/-- A set of signals: bit `n - 1` stands for signal `n`. -/
abbrev SIGNAL_SET := Nat

/-- Modelled from the spec: the mask `1ULL << (SignalNumber - 1)` of one signal
in the fixed-width bitset (the signal set macros are not part of the sources).
Signal 0 is "no signal" and is never handed to the set macros. -/
def SIGNAL_BIT (SignalNumber : Nat) : Nat := (1 <<< (SignalNumber - 1)) % 2 ^ 64

/-- Modelled from the spec: bitwise complement of a 64-bit value. -/
def SIGNAL_SET_NOT (SignalSet : SIGNAL_SET) : SIGNAL_SET :=
  2 ^ 64 - (SignalSet % 2 ^ 64 + 1)

/-- Modelled from the spec: the empty signal set. -/
def INITIALIZE_SIGNAL_SET : SIGNAL_SET := 0

/-- Modelled from the spec: membership test of the bitset. -/
def IS_SIGNAL_SET (SignalSet : SIGNAL_SET) (SignalNumber : Nat) : Bool :=
  (SignalSet &&& SIGNAL_BIT SignalNumber) != 0

/-- Modelled from the spec: adds one signal to the bitset. -/
def ADD_SIGNAL (SignalSet : SIGNAL_SET) (SignalNumber : Nat) : SIGNAL_SET :=
  SignalSet ||| SIGNAL_BIT SignalNumber

/-- Modelled from the spec: removes one signal from the bitset. -/
def REMOVE_SIGNAL (SignalSet : SIGNAL_SET) (SignalNumber : Nat) : SIGNAL_SET :=
  SignalSet &&& SIGNAL_SET_NOT (SIGNAL_BIT SignalNumber)

/-- Modelled from the spec: union of two bitsets. -/
def OR_SIGNAL_SETS (Set1 Set2 : SIGNAL_SET) : SIGNAL_SET := Set1 ||| Set2

/-- Modelled from the spec: difference of two bitsets. -/
def REMOVE_SIGNALS_FROM_SET (SignalSet SignalsToRemove : SIGNAL_SET) : SIGNAL_SET :=
  SignalSet &&& SIGNAL_SET_NOT SignalsToRemove

/-- Modelled from the spec: emptiness test of the bitset. -/
def IS_SIGNAL_SET_EMPTY (SignalSet : SIGNAL_SET) : Bool := SignalSet == 0

/-- Scan for the lowest set bit, at most `Fuel` positions from `Index`. -/
def countTrailingZerosFrom (Value : Nat) : Nat → Nat → Nat
  | 0, Index => Index
  | Fuel + 1, Index =>
    if Value.testBit Index then Index
    else countTrailingZerosFrom Value Fuel (Index + 1)

/-- Modelled from the spec: the trailing-zero scan of a 64-bit value (the
runtime library routine is not part of the sources); 64 for the value 0. -/
def RtlCountTrailingZeros64 (Value : Nat) : Nat := countTrailingZerosFrom Value 64 0

/-- The signals that are bubbled up to the kernel debugger
(`KERNEL_REPORTED_USER_SIGNALS`). -/
def KERNEL_REPORTED_USER_SIGNALS : Nat :=
  (1 <<< (SIGNAL_ABORT - 1)) |||
  (1 <<< (SIGNAL_BUS_ERROR - 1)) |||
  (1 <<< (SIGNAL_MATH_ERROR - 1)) |||
  (1 <<< (SIGNAL_ILLEGAL_INSTRUCTION - 1)) |||
  (1 <<< (SIGNAL_ACCESS_VIOLATION - 1)) |||
  (1 <<< (SIGNAL_BAD_SYSTEM_CALL - 1)) |||
  (1 <<< (SIGNAL_TRAP - 1)) |||
  (1 <<< (SIGNAL_REQUEST_CORE_DUMP - 1)) |||
  (1 <<< (SIGNAL_FILE_SIZE_TOO_LARGE - 1))

/-! ## Data model -/

/-- Modelled from the spec: the tri-state `signalPending` of a thread, in the
order None, ChildOnly, Any (the enumeration is declared outside the sources). -/
inductive THREAD_SIGNAL_PENDING_TYPE where
  | ThreadNoSignalPending
  | ThreadChildSignalPending
  | ThreadSignalPending
  deriving DecidableEq, Repr

/-- The integer value of a pending state, used by the `<` comparisons. -/
def THREAD_SIGNAL_PENDING_TYPE.toNat : THREAD_SIGNAL_PENDING_TYPE → Nat
  | .ThreadNoSignalPending => 0
  | .ThreadChildSignalPending => 1
  | .ThreadSignalPending => 2

/-- Modelled from the spec: the reasons carried by a child signal. -/
inductive CHILD_SIGNAL_REASON where
  | CHILD_SIGNAL_REASON_EXITED
  | CHILD_SIGNAL_REASON_KILLED
  | CHILD_SIGNAL_REASON_DUMPED
  | CHILD_SIGNAL_REASON_TRAPPED
  | CHILD_SIGNAL_REASON_STOPPED
  | CHILD_SIGNAL_REASON_CONTINUED
  deriving DecidableEq, Repr

/-- The payload of a signal. -/
structure SIGNAL_PARAMETERS where
  SignalNumber : Nat
  SignalCode : Int
  SendingProcess : Nat
  SendingUserId : Nat
  Parameter : Nat
  deriving DecidableEq, Repr

/-- A queue entry. `Address` is the identity of the entry; `CompletionRoutine`
tells whether the completion routine pointer is non-null. -/
structure SIGNAL_QUEUE_ENTRY where
  Address : Nat
  Parameters : SIGNAL_PARAMETERS
  DestinationThread : Option Nat
  Delivered : Bool
  CompletionRoutine : Bool
  deriving DecidableEq, Repr

/-- The signal state of a thread. -/
structure KTHREAD where
  BlockedSignals : SIGNAL_SET
  PendingSignals : SIGNAL_SET
  RunningSignals : SIGNAL_SET
  SignalListHead : List SIGNAL_QUEUE_ENTRY
  SignalPending : THREAD_SIGNAL_PENDING_TYPE
  WakeCalls : List Bool
  deriving DecidableEq, Repr

/-- Modelled from the spec: the commands of a tracer that the tracer break
tells apart (the enumeration is declared outside the sources);
`DebugCommandContinue` stands for every other command. -/
inductive DEBUG_COMMAND_TYPE where
  | DebugCommandInvalid
  | DebugCommandContinue
  | DebugCommandSingleStep
  | DebugCommandRangeStep
  deriving DecidableEq, Repr

/-- The part of `PROCESS_DEBUG_COMMAND` that the tracer break reads and
writes. -/
structure PROCESS_DEBUG_COMMAND where
  Command : DEBUG_COMMAND_TYPE
  PreviousCommand : DEBUG_COMMAND_TYPE
  deriving DecidableEq, Repr

/-- The range of a range step, with its hole. -/
structure PROCESS_DEBUG_BREAK_RANGE where
  BreakRangeStart : Nat
  BreakRangeEnd : Nat
  RangeHoleStart : Nat
  RangeHoleEnd : Nat
  deriving DecidableEq, Repr

/-- The part of the debug data that the signal code reads and writes.
`TracerLock` tells whether the spin lock is held, `AllStoppedEvent` whether the
event is signalled. -/
structure PROCESS_DEBUG_DATA where
  TracingProcess : Option Nat
  TracerLock : Bool := false
  TracerStopRequested : Bool := false
  DebugLeaderThread : Option Nat := none
  DebugCommand : PROCESS_DEBUG_COMMAND :=
    { Command := .DebugCommandContinue, PreviousCommand := .DebugCommandContinue }
  BreakRange : PROCESS_DEBUG_BREAK_RANGE :=
    { BreakRangeStart := 0, BreakRangeEnd := 0, RangeHoleStart := 0, RangeHoleEnd := 0 }
  TracerSignalInformation : SIGNAL_PARAMETERS :=
    { SignalNumber := 0, SignalCode := 0, SendingProcess := 0, SendingUserId := 0,
      Parameter := 0 }
  AllStoppedEvent : Bool := false
  deriving DecidableEq, Repr

/-- The signal state of a process. -/
structure KPROCESS where
  IgnoredSignals : SIGNAL_SET
  HandledSignals : SIGNAL_SET
  PendingSignals : SIGNAL_SET
  SignalListHead : List SIGNAL_QUEUE_ENTRY
  BlockedSignalListHead : List SIGNAL_QUEUE_ENTRY
  ThreadListHead : List KTHREAD
  ThreadCount : Nat
  StopEvent : Bool
  DebugData : Option PROCESS_DEBUG_DATA
  Parent : Option Nat
  ExitReason : Option CHILD_SIGNAL_REASON
  ExitStatus : Nat
  CompletedSignals : List SIGNAL_QUEUE_ENTRY
  ChildSignalsToParent : List (Nat × CHILD_SIGNAL_REASON)
  StoppedThreadCount : Nat := 0
  deriving DecidableEq, Repr

/-- What the routines take from outside `signals.c`: the kernel debugger
probes, the reply of an attached tracer to a signal handed to it (what the
other threads and the tracer do while the thread waits in the tracer break is
not modelled beyond that reply), the default-ignore predicate and the pending
state that stands for "unknown". -/
structure KERNEL_ENVIRONMENT where
  KdIsDebuggerConnected : Bool
  KdAreUserModeExceptionsEnabled : Bool
  TracerReply : SIGNAL_PARAMETERS → Nat
  IS_SIGNAL_DEFAULT_IGNORE : Nat → Bool
  ThreadSignalPendingStateUnknown : THREAD_SIGNAL_PENDING_TYPE

/-- A zeroed thread, read through a thread pointer that is not on the list. -/
def KTHREAD.Zero : KTHREAD :=
  { BlockedSignals := 0, PendingSignals := 0, RunningSignals := 0,
    SignalListHead := [], SignalPending := .ThreadNoSignalPending, WakeCalls := [] }

/-- A zeroed parameter block (`RtlZeroMemory`). -/
def SIGNAL_PARAMETERS.Zero : SIGNAL_PARAMETERS :=
  { SignalNumber := 0, SignalCode := 0, SendingProcess := 0, SendingUserId := 0,
    Parameter := 0 }

/-- Dereference of a thread pointer. -/
def KPROCESS.Thread (Process : KPROCESS) (Thread : Nat) : KTHREAD :=
  Process.ThreadListHead.getD Thread KTHREAD.Zero

/-- Store through a thread pointer. -/
def KPROCESS.SetThread (Process : KPROCESS) (Thread : Nat) (Value : KTHREAD) : KPROCESS :=
  { Process with ThreadListHead := Process.ThreadListHead.set Thread Value }

/-- Modelled from the spec: a signal is blocked for a thread when it is in the
thread's blocked set (the macro is not part of the sources). -/
def IS_SIGNAL_BLOCKED (Thread : KTHREAD) (SignalNumber : Nat) : Bool :=
  IS_SIGNAL_SET Thread.BlockedSignals SignalNumber

/-- The test `(DebugData != NULL) && (DebugData->TracingProcess != NULL)`. -/
def KPROCESS.HasTracer (Process : KPROCESS) : Bool :=
  match Process.DebugData with
  | none => false
  | some DebugData => DebugData.TracingProcess.isSome

/-- The test `(DebugData == NULL) || (DebugData->TracingProcess != Parent)`. -/
def KPROCESS.TracerIsNotParent (Process : KPROCESS) : Bool :=
  match Process.DebugData with
  | none => true
  | some DebugData => DebugData.TracingProcess != Process.Parent

/-- The call `SignalEntry->CompletionRoutine (SignalEntry)` guarded by
`CompletionRoutine != NULL`. -/
def KPROCESS.Complete (Process : KPROCESS) (SignalEntry : SIGNAL_QUEUE_ENTRY) : KPROCESS :=
  if SignalEntry.CompletionRoutine then
    { Process with CompletedSignals := Process.CompletedSignals ++ [SignalEntry] }
  else Process

/-- The statement `INSERT_BEFORE (Entry, &(Process->BlockedSignalListHead))`. -/
def KPROCESS.InsertBlocked (Process : KPROCESS) (SignalEntry : SIGNAL_QUEUE_ENTRY) : KPROCESS :=
  { Process with BlockedSignalListHead := Process.BlockedSignalListHead ++ [SignalEntry] }

/-- Modelled from the spec: `PspSetProcessExitStatusUnlocked` records the exit
reason and status of the process (the routine is not part of the sources). -/
def PspSetProcessExitStatusUnlocked (Process : KPROCESS) (ExitReason : CHILD_SIGNAL_REASON)
    (ExitStatus : Nat) : KPROCESS :=
  { Process with ExitReason := some ExitReason, ExitStatus := ExitStatus }

/-- The effect of `PspQueueChildSignalToParent` on the child: when the process
has a parent the child signal is sent to it; the parent is another process, so
the call is recorded. -/
def PspQueueChildSignalToParent (Process : KPROCESS) (ExitStatus : Nat)
    (Reason : CHILD_SIGNAL_REASON) : KPROCESS :=
  if Process.Parent.isSome then
    { Process with
      ChildSignalsToParent := Process.ChildSignalsToParent ++ [(ExitStatus, Reason)] }
  else Process

/-! ## Tracer break -/

/-- The signal number left by `PspForwardUserModeExceptionToKernel`: a trap
signal that went to the kernel debugger is cleared. -/
def PspForwardUserModeExceptionToKernel (Env : KERNEL_ENVIRONMENT)
    (Signal : SIGNAL_PARAMETERS) : SIGNAL_PARAMETERS :=
  if Env.KdIsDebuggerConnected == false || Env.KdAreUserModeExceptionsEnabled == false then
    Signal
  else if decide (Signal.SignalNumber < STANDARD_SIGNAL_COUNT) &&
      !IS_SIGNAL_SET KERNEL_REPORTED_USER_SIGNALS Signal.SignalNumber then
    Signal
  else if Signal.SignalNumber == SIGNAL_TRAP then
    { Signal with SignalNumber := 0 }
  else Signal

/-- The signal left in the parameter block by `PspTracerBreak`. Without a
tracer the signal may be forwarded to the kernel debugger; with a tracer
attached the block comes back with the signal number the tracer replied. -/
def PspTracerBreak (Env : KERNEL_ENVIRONMENT) (Process : KPROCESS)
    (Signal : SIGNAL_PARAMETERS) : SIGNAL_PARAMETERS :=
  if !Process.HasTracer then
    if Signal.SignalNumber == SIGNAL_ABORT ||
        (!IS_SIGNAL_SET Process.HandledSignals Signal.SignalNumber &&
          (Signal.SignalNumber == SIGNAL_ILLEGAL_INSTRUCTION ||
           Signal.SignalNumber == SIGNAL_BUS_ERROR ||
           Signal.SignalNumber == SIGNAL_MATH_ERROR ||
           Signal.SignalNumber == SIGNAL_ACCESS_VIOLATION)) then
      PspForwardUserModeExceptionToKernel Env Signal
    else Signal
  else { Signal with SignalNumber := Env.TracerReply Signal }

/-! ## Dequeue -/

/-- The sequential part of `PspCheckForNonMaskableSignals`: with neither KILL
nor STOP pending the loop is left at once with `-1`. With KILL pending the
thread terminates and with STOP pending it enters the stop wait, which ends
only through other threads: both give `none`. -/
def PspCheckForNonMaskableSignals (Process : KPROCESS) (CurrentThread : Nat) : Option Nat :=
  let ThreadSignalMask := (Process.Thread CurrentThread).PendingSignals
  let ProcessSignalMask := Process.PendingSignals
  let CombinedSignalMask := ULONG (OR_SIGNAL_SETS ThreadSignalMask ProcessSignalMask)
  if IS_SIGNAL_SET CombinedSignalMask SIGNAL_KILL then none
  else if IS_SIGNAL_SET CombinedSignalMask SIGNAL_STOP then none
  else some ULONG_MINUS_ONE

/-- The repair of a clobbered pending state: when the thread is in "no signal
pending" and signals remain in the saved mask or on a queue, the state goes
back to "signal pending". -/
def PspRestoreSignalPending (Process : KPROCESS) (CurrentThread : Nat)
    (SavedSignalMask : SIGNAL_SET) : KPROCESS :=
  if (Process.Thread CurrentThread).SignalPending == .ThreadNoSignalPending then
    if IS_SIGNAL_SET_EMPTY SavedSignalMask == false ||
        Process.SignalListHead.isEmpty == false ||
        (Process.Thread CurrentThread).SignalListHead.isEmpty == false then
      Process.SetThread CurrentThread
        { Process.Thread CurrentThread with SignalPending := .ThreadSignalPending }
    else Process
  else Process

/-- The removal of a dequeued standard signal from the pending set that owns
it: the set of the thread if the snapped thread mask has the signal, else the
set of the process if the snapped process mask has it. -/
def PspClearPendingSignal (Process : KPROCESS) (CurrentThread : Nat)
    (ThreadSignalMask ProcessSignalMask : SIGNAL_SET) (SignalNumber : Nat) : KPROCESS :=
  if IS_SIGNAL_SET ThreadSignalMask SignalNumber then
    Process.SetThread CurrentThread
      { Process.Thread CurrentThread with
        PendingSignals :=
          REMOVE_SIGNAL (Process.Thread CurrentThread).PendingSignals SignalNumber }
  else if IS_SIGNAL_SET ProcessSignalMask SignalNumber then
    { Process with PendingSignals := REMOVE_SIGNAL Process.PendingSignals SignalNumber }
  else Process

/-- Result of the loop over the standard signals. -/
structure STANDARD_SIGNAL_LOOP where
  Dequeued : Option SIGNAL_PARAMETERS
  SavedSignalMask : SIGNAL_SET
  Process : KPROCESS

/-- The `for` loop of `PspDequeuePendingSignal` over the snapped standard
signals, from `SignalNumber` up to `STANDARD_SIGNAL_COUNT`; `Fuel` is the
number of iterations left. -/
def PspDequeueStandardSignals (Env : KERNEL_ENVIRONMENT) (CurrentThread : Nat)
    (ThreadSignalMask ProcessSignalMask CombinedSignalMask : SIGNAL_SET) :
    Nat → Nat → SIGNAL_SET → KPROCESS → STANDARD_SIGNAL_LOOP
  | 0, _, SavedSignalMask, Process => ⟨none, SavedSignalMask, Process⟩
  | Fuel + 1, SignalNumber, SavedSignalMask, Process =>
    if IS_SIGNAL_SET CombinedSignalMask SignalNumber then
      let Process1 :=
        PspClearPendingSignal Process CurrentThread ThreadSignalMask ProcessSignalMask
          SignalNumber
      let Saved1 :=
        if (Process1.Thread CurrentThread).SignalPending == .ThreadNoSignalPending then
          ULONG (REMOVE_SIGNAL SavedSignalMask SignalNumber)
        else SavedSignalMask
      let Process2 := PspRestoreSignalPending Process1 CurrentThread Saved1
      let Signal :=
        PspTracerBreak Env Process2 { SIGNAL_PARAMETERS.Zero with SignalNumber := SignalNumber }
      if Signal.SignalNumber != 0 then
        let Process3 :=
          if SignalNumber == SIGNAL_CONTINUE && SignalNumber == Signal.SignalNumber &&
              Process2.TracerIsNotParent then
            PspQueueChildSignalToParent Process2 SIGNAL_CONTINUE .CHILD_SIGNAL_REASON_CONTINUED
          else Process2
        ⟨some Signal, Saved1, Process3⟩
      else
        PspDequeueStandardSignals Env CurrentThread ThreadSignalMask ProcessSignalMask
          CombinedSignalMask Fuel (SignalNumber + 1) Saved1 Process2
    else
      PspDequeueStandardSignals Env CurrentThread ThreadSignalMask ProcessSignalMask
        CombinedSignalMask Fuel (SignalNumber + 1) SavedSignalMask Process

/-- Result of the walk over one signal queue. -/
structure SIGNAL_QUEUE_WALK where
  SignalEntry : Option SIGNAL_QUEUE_ENTRY
  Remaining : List SIGNAL_QUEUE_ENTRY
  Process : KPROCESS

/-- The inner `while` loop of `PspDequeuePendingSignal` over one queue. Every
entry that is looked at leaves the queue: it is discarded, moved to the
blocked list, taken, or (delivered already) left on no list. `Remaining` is
what stays on the queue behind the entry that was taken. -/
def PspDequeueWalkQueue (Env : KERNEL_ENVIRONMENT) (Thread : KTHREAD) :
    List SIGNAL_QUEUE_ENTRY → KPROCESS → SIGNAL_QUEUE_WALK
  | [], Process => ⟨none, [], Process⟩
  | SignalEntry :: Rest, Process =>
    let SignalNumber := SignalEntry.Parameters.SignalNumber
    let SignalHandled := IS_SIGNAL_SET Process.HandledSignals SignalNumber
    if SignalHandled == false && Env.IS_SIGNAL_DEFAULT_IGNORE SignalNumber then
      let Entry1 :=
        if Process.HasTracer then
          { SignalEntry with Parameters := PspTracerBreak Env Process SignalEntry.Parameters }
        else SignalEntry
      if SignalNumber == SIGNAL_CHILD_PROCESS_ACTIVITY then
        PspDequeueWalkQueue Env Thread Rest (Process.InsertBlocked Entry1)
      else
        PspDequeueWalkQueue Env Thread Rest (Process.Complete Entry1)
    else if IS_SIGNAL_BLOCKED Thread SignalNumber then
      PspDequeueWalkQueue Env Thread Rest (Process.InsertBlocked SignalEntry)
    else if SignalEntry.Delivered == false then
      ⟨some SignalEntry, Rest, Process⟩
    else
      PspDequeueWalkQueue Env Thread Rest Process

/-- What `PspDequeuePendingSignal` hands back: the returned signal number, the
caller's parameter block and the state. -/
structure DEQUEUE_RESULT where
  DequeuedSignal : Nat
  SignalParameters : SIGNAL_PARAMETERS
  Process : KPROCESS

/-- The pass of the `for` loop of `PspDequeuePendingSignal` with
`QueueLoop == 0`: the walk over the process queue. -/
def PspDequeueScanProcessQueue (Env : KERNEL_ENVIRONMENT) (CurrentThread : Nat)
    (Process : KPROCESS) : Option SIGNAL_QUEUE_ENTRY × KPROCESS :=
  let Walk :=
    PspDequeueWalkQueue Env (Process.Thread CurrentThread) Process.SignalListHead Process
  (Walk.SignalEntry, { Walk.Process with SignalListHead := Walk.Remaining })

/-- The pass of the `for` loop of `PspDequeuePendingSignal` with
`QueueLoop == 1`: the walk over the queue of the thread. -/
def PspDequeueScanThreadQueue (Env : KERNEL_ENVIRONMENT) (CurrentThread : Nat)
    (Process : KPROCESS) : Option SIGNAL_QUEUE_ENTRY × KPROCESS :=
  let Walk :=
    PspDequeueWalkQueue Env (Process.Thread CurrentThread)
      (Process.Thread CurrentThread).SignalListHead Process
  (Walk.SignalEntry,
    Walk.Process.SetThread CurrentThread
      { Walk.Process.Thread CurrentThread with SignalListHead := Walk.Remaining })

/-- The `for` loop of `PspDequeuePendingSignal` over the two queues: the
process queue is walked first, and the queue of the thread only when the
process queue gave no entry. The result is the entry taken, if any, and the
state with what is left on the queues. -/
def PspDequeueScanQueues (Env : KERNEL_ENVIRONMENT) (CurrentThread : Nat)
    (Process : KPROCESS) : Option SIGNAL_QUEUE_ENTRY × KPROCESS :=
  match (PspDequeueScanProcessQueue Env CurrentThread Process).1 with
  | some SignalEntry =>
    (some SignalEntry, (PspDequeueScanProcessQueue Env CurrentThread Process).2)
  | none =>
    PspDequeueScanThreadQueue Env CurrentThread
      (PspDequeueScanProcessQueue Env CurrentThread Process).2

/-- The outer `while (TRUE)` loop of `PspDequeuePendingSignal`. Each pass that
goes round again has taken an entry off a queue, so one more pass than there
are queued entries is enough; `Fuel` counts the passes left. -/
def PspDequeueQueuedSignal (Env : KERNEL_ENVIRONMENT) (CurrentThread : Nat)
    (SavedSignalMask : SIGNAL_SET) : Nat → KPROCESS → SIGNAL_PARAMETERS → DEQUEUE_RESULT
  | 0, Process, SignalParameters => ⟨ULONG_MINUS_ONE, SignalParameters, Process⟩
  | Fuel + 1, Process, SignalParameters =>
    let Scan := PspDequeueScanQueues Env CurrentThread Process
    let Process2 := PspRestoreSignalPending Scan.2 CurrentThread SavedSignalMask
    match Scan.1 with
    | some SignalEntry =>
      let Signal := PspTracerBreak Env Process2 SignalEntry.Parameters
      if Signal.SignalNumber != 0 then
        let Entry1 := { SignalEntry with Delivered := true }
        let Process3 :=
          if Entry1.Parameters.SignalNumber == SIGNAL_CHILD_PROCESS_ACTIVITY then
            Process2.InsertBlocked Entry1
          else Process2.Complete Entry1
        ⟨Signal.SignalNumber, Signal, Process3⟩
      else
        PspDequeueQueuedSignal Env CurrentThread SavedSignalMask Fuel
          (Process2.Complete SignalEntry) Signal
    | none => ⟨ULONG_MINUS_ONE, SignalParameters, Process2⟩

/-- The routine `PspDequeuePendingSignal` run by the thread `CurrentThread`;
`none` when the non-maskable check does not come back (see
`PspCheckForNonMaskableSignals`). -/
def PspDequeuePendingSignal (Env : KERNEL_ENVIRONMENT) (Process : KPROCESS)
    (CurrentThread : Nat) (SignalParameters : SIGNAL_PARAMETERS) : Option DEQUEUE_RESULT :=
  if (Process.Thread CurrentThread).SignalPending == .ThreadNoSignalPending then
    some ⟨ULONG_MINUS_ONE, SignalParameters, Process⟩
  else
    match PspCheckForNonMaskableSignals Process CurrentThread with
    | none => none
    | some DequeuedSignal =>
      if DequeuedSignal != ULONG_MINUS_ONE then
        some ⟨DequeuedSignal, SignalParameters, Process⟩
      else
        let Process1 :=
          Process.SetThread CurrentThread
            { Process.Thread CurrentThread with SignalPending := .ThreadNoSignalPending }
        let Thread := Process1.Thread CurrentThread
        if IS_SIGNAL_SET_EMPTY
              (ULONG (OR_SIGNAL_SETS Thread.PendingSignals Process1.PendingSignals)) &&
            Process1.SignalListHead.isEmpty && Thread.SignalListHead.isEmpty then
          some ⟨ULONG_MINUS_ONE, SignalParameters, Process1⟩
        else
          let ThreadSignalMask := Thread.PendingSignals
          let ProcessSignalMask := Process1.PendingSignals
          let Combined0 := ULONG (OR_SIGNAL_SETS ThreadSignalMask ProcessSignalMask)
          let Combined1 := ULONG (REMOVE_SIGNALS_FROM_SET Combined0 Thread.BlockedSignals)
          let Combined2 := ULONG (REMOVE_SIGNALS_FROM_SET Combined1 Thread.RunningSignals)
          let SavedSignalMask := Combined2
          let Combined3 := ULONG (REMOVE_SIGNAL Combined2 SIGNAL_STOP)
          let CombinedSignalMask := ULONG (REMOVE_SIGNAL Combined3 SIGNAL_KILL)
          let Loop : STANDARD_SIGNAL_LOOP :=
            if IS_SIGNAL_SET_EMPTY CombinedSignalMask == false then
              PspDequeueStandardSignals Env CurrentThread ThreadSignalMask ProcessSignalMask
                CombinedSignalMask
                (STANDARD_SIGNAL_COUNT - (RtlCountTrailingZeros64 CombinedSignalMask + 1))
                (RtlCountTrailingZeros64 CombinedSignalMask + 1) SavedSignalMask Process1
            else ⟨none, SavedSignalMask, Process1⟩
          match Loop.Dequeued with
          | some Signal => some ⟨Signal.SignalNumber, Signal, Loop.Process⟩
          | none =>
            some (PspDequeueQueuedSignal Env CurrentThread Loop.SavedSignalMask
              (Loop.Process.SignalListHead.length +
                (Loop.Process.Thread CurrentThread).SignalListHead.length + 1)
              Loop.Process SIGNAL_PARAMETERS.Zero)

/-! ## Enqueue -/

/-- The raise of one thread at the end of `PspQueueSignal`: the pending state
goes up to `SignalPendingType` when it is below it, and the thread is woken
with `ObWakeBlockedThread (Thread, OnlyWakeSuspendedThreads)`. -/
def PspRaiseSignalPending (Thread : KTHREAD) (SignalPendingType : THREAD_SIGNAL_PENDING_TYPE)
    (OnlyWakeSuspendedThreads : Bool) : KTHREAD :=
  { Thread with
    SignalPending :=
      if Thread.SignalPending.toNat < SignalPendingType.toNat then SignalPendingType
      else Thread.SignalPending
    WakeCalls := Thread.WakeCalls ++ [OnlyWakeSuspendedThreads] }

/-- The wake policy at the end of `PspQueueSignal`: the given thread, or a
walk over the thread list of the process. -/
def PspQueueSignalWake (Process : KPROCESS) (Thread : Option Nat) (SignalNumber : Nat)
    (SignalBlocked : Bool) (SignalPendingType : THREAD_SIGNAL_PENDING_TYPE)
    (OnlyWakeSuspendedThreads : Bool) : KPROCESS :=
  if SignalPendingType != .ThreadNoSignalPending then
    match Thread with
    | some Thread =>
      Process.SetThread Thread
        (PspRaiseSignalPending (Process.Thread Thread) SignalPendingType
          OnlyWakeSuspendedThreads)
    | none =>
      { Process with
        ThreadListHead :=
          Process.ThreadListHead.map fun Thread =>
            if !IS_SIGNAL_BLOCKED Thread SignalNumber ||
                SignalNumber == SIGNAL_CHILD_PROCESS_ACTIVITY then
              if SignalNumber == SIGNAL_CHILD_PROCESS_ACTIVITY && SignalBlocked then
                PspRaiseSignalPending Thread .ThreadChildSignalPending true
              else
                PspRaiseSignalPending Thread SignalPendingType OnlyWakeSuspendedThreads
            else Thread }
  else Process

/-- What the placement of a signal leaves for the wake policy: the state and
the locals `SignalPendingType` and `OnlyWakeSuspendedThreads`. -/
structure SIGNAL_PLACEMENT where
  Process : KPROCESS
  SignalPendingType : THREAD_SIGNAL_PENDING_TYPE
  OnlyWakeSuspendedThreads : Bool

/-- The branch `SignalQueueEntry != NULL` of `PspQueueSignal`; `Entry` has its
`DestinationThread` set already. An entry that was delivered before counts as
ignored. -/
def PspQueueSignalEntry (Env : KERNEL_ENVIRONMENT) (Process : KPROCESS) (Thread : Option Nat)
    (SignalNumber : Nat) (Entry : SIGNAL_QUEUE_ENTRY) (SignalIgnored SignalBlocked : Bool) :
    SIGNAL_PLACEMENT :=
  if ((if Entry.Delivered != false then true else SignalIgnored) != false ||
        (IS_SIGNAL_SET Process.HandledSignals SignalNumber == false &&
          Env.IS_SIGNAL_DEFAULT_IGNORE SignalNumber)) &&
      Process.HasTracer == false then
    if SignalNumber == SIGNAL_CHILD_PROCESS_ACTIVITY then
      ⟨Process.InsertBlocked Entry, .ThreadChildSignalPending, true⟩
    else ⟨Process.Complete Entry, .ThreadNoSignalPending, false⟩
  else if SignalBlocked != false then
    if SignalNumber == SIGNAL_CHILD_PROCESS_ACTIVITY then
      ⟨Process.InsertBlocked Entry, .ThreadChildSignalPending, true⟩
    else ⟨Process.InsertBlocked Entry, .ThreadNoSignalPending, false⟩
  else
    match Thread with
    | some Target =>
      ⟨Process.SetThread Target
          { Process.Thread Target with
            SignalListHead := (Process.Thread Target).SignalListHead ++ [Entry] },
        .ThreadSignalPending, false⟩
    | none =>
      ⟨{ Process with SignalListHead := Process.SignalListHead ++ [Entry] },
        .ThreadSignalPending, false⟩

/-- The branch `SignalQueueEntry == NULL` of `PspQueueSignal`: a bare signal
number. -/
def PspQueueSignalNumber (Process : KPROCESS) (Thread : Option Nat) (SignalNumber : Nat)
    (SignalIgnored SignalBlocked : Bool) : SIGNAL_PLACEMENT :=
  if SignalIgnored == false then
    ⟨match Thread with
      | some Target =>
        Process.SetThread Target
          { Process.Thread Target with
            PendingSignals := ADD_SIGNAL (Process.Thread Target).PendingSignals SignalNumber }
      | none =>
        { Process with PendingSignals := ADD_SIGNAL Process.PendingSignals SignalNumber },
      if SignalBlocked == false then .ThreadSignalPending else .ThreadNoSignalPending, false⟩
  else ⟨Process, .ThreadNoSignalPending, false⟩

/-- The placement of `PspQueueSignal`, entry or bare number. -/
def PspQueueSignalPlacement (Env : KERNEL_ENVIRONMENT) (Process : KPROCESS)
    (Thread : Option Nat) (SignalNumber : Nat) (SignalQueueEntry : Option SIGNAL_QUEUE_ENTRY)
    (SignalIgnored SignalBlocked : Bool) : SIGNAL_PLACEMENT :=
  match SignalQueueEntry with
  | some Entry =>
    PspQueueSignalEntry Env Process Thread SignalNumber
      { Entry with DestinationThread := Thread } SignalIgnored SignalBlocked
  | none => PspQueueSignalNumber Process Thread SignalNumber SignalIgnored SignalBlocked

/-- The body of `PspQueueSignal` from the point where `SignalIgnored` and
`SignalBlocked` have been computed: placement of the entry or of the bit, then
the wake policy. -/
def PspQueueSignalPlace (Env : KERNEL_ENVIRONMENT) (Process : KPROCESS) (Thread : Option Nat)
    (SignalNumber : Nat) (SignalQueueEntry : Option SIGNAL_QUEUE_ENTRY)
    (SignalIgnored SignalBlocked : Bool) : KPROCESS :=
  PspQueueSignalWake
    (PspQueueSignalPlacement Env Process Thread SignalNumber SignalQueueEntry SignalIgnored
      SignalBlocked).Process
    Thread SignalNumber SignalBlocked
    (PspQueueSignalPlacement Env Process Thread SignalNumber SignalQueueEntry SignalIgnored
      SignalBlocked).SignalPendingType
    (PspQueueSignalPlacement Env Process Thread SignalNumber SignalQueueEntry SignalIgnored
      SignalBlocked).OnlyWakeSuspendedThreads

/-- The call `PspQueueSignal (Process, Thread, SignalNumber, SignalQueueEntry,
FALSE)`: the flags come from the ignored set of the process and the blocked
set of the thread. -/
def PspQueueSignalUnforced (Env : KERNEL_ENVIRONMENT) (Process : KPROCESS)
    (Thread : Option Nat) (SignalNumber : Nat)
    (SignalQueueEntry : Option SIGNAL_QUEUE_ENTRY) : KPROCESS :=
  let SignalIgnored := IS_SIGNAL_SET Process.IgnoredSignals SignalNumber
  let SignalBlocked :=
    match Thread with
    | some Target => IS_SIGNAL_BLOCKED (Process.Thread Target) SignalNumber
    | none => false
  PspQueueSignalPlace Env Process Thread SignalNumber SignalQueueEntry SignalIgnored
    SignalBlocked

/-- The routine `PspQueueSignalToProcess`: the returned boolean tells the
caller to run the completion routine of the entry. The nested call of
`PspQueueSignal` is made without a thread and without force. -/
def PspQueueSignalToProcess (Env : KERNEL_ENVIRONMENT) (Process : KPROCESS)
    (SignalNumber : Nat) (SignalQueueEntry : Option SIGNAL_QUEUE_ENTRY) :
    Bool × KPROCESS :=
  if Process.ThreadCount == 0 then
    match SignalQueueEntry with
    | some Entry =>
      if Entry.CompletionRoutine then
        if SignalNumber != SIGNAL_CHILD_PROCESS_ACTIVITY then (false, Process.Complete Entry)
        else (true, Process)
      else (false, Process)
    | none => (false, Process)
  else
    let Process1 :=
      if SignalNumber == SIGNAL_STOP then
        if IS_SIGNAL_SET Process.PendingSignals SIGNAL_KILL == false then
          { Process with
            PendingSignals := REMOVE_SIGNAL Process.PendingSignals SIGNAL_CONTINUE
            StopEvent := false }
        else Process
      else if SignalNumber == SIGNAL_CONTINUE then
        { Process with
          PendingSignals := REMOVE_SIGNAL Process.PendingSignals SIGNAL_STOP
          StopEvent := true }
      else if SignalNumber == SIGNAL_KILL then
        { Process with
          PendingSignals :=
            REMOVE_SIGNAL (REMOVE_SIGNAL Process.PendingSignals SIGNAL_STOP) SIGNAL_CONTINUE
          StopEvent := true }
      else Process
    let Entry1 := SignalQueueEntry.map fun Entry => { Entry with Delivered := false }
    (false, PspQueueSignalUnforced Env Process1 none SignalNumber Entry1)

/-- The routine `PspQueueSignal`. A forced signal needs a thread
(`ASSERT (Thread != NULL)`); the nested `PspQueueSignalToProcess` of the kill
upgrade comes back into the unforced path. -/
def PspQueueSignal (Env : KERNEL_ENVIRONMENT) (Process : KPROCESS) (Thread : Option Nat)
    (SignalNumber : Nat) (SignalQueueEntry : Option SIGNAL_QUEUE_ENTRY) (Force : Bool) :
    KPROCESS :=
  if Force != false then
    match Thread with
    | none => Process
    | some Target =>
      let Process1 :=
        Process.SetThread Target
          { Process.Thread Target with
            BlockedSignals := REMOVE_SIGNAL (Process.Thread Target).BlockedSignals SignalNumber }
      if IS_SIGNAL_SET (Process1.Thread Target).RunningSignals SignalNumber then
        (PspQueueSignalToProcess Env
          (PspSetProcessExitStatusUnlocked Process1 .CHILD_SIGNAL_REASON_KILLED SignalNumber)
          SIGNAL_KILL none).2
      else
        PspQueueSignalPlace Env Process1 Thread SignalNumber SignalQueueEntry false false
  else
    PspQueueSignalUnforced Env Process Thread SignalNumber SignalQueueEntry

/-- The loop of `PspRequeueBlockedSignals`: the blocked list is emptied and
every entry that was on it is queued again, in list order, with the
destination thread it carries and without force. -/
def PspRequeueBlockedList (Env : KERNEL_ENVIRONMENT) (Process : KPROCESS) : KPROCESS :=
  if Process.BlockedSignalListHead.isEmpty == false then
    Process.BlockedSignalListHead.foldl
      (fun Current SignalQueueEntry =>
        PspQueueSignal Env Current SignalQueueEntry.DestinationThread
          SignalQueueEntry.Parameters.SignalNumber (some SignalQueueEntry) false)
      { Process with BlockedSignalListHead := [] }
  else Process

/-- The routine `PspRequeueBlockedSignals` run by the thread `CurrentThread`:
the blocked entries are queued again and the pending state of the thread is
set to "unknown". -/
def PspRequeueBlockedSignals (Env : KERNEL_ENVIRONMENT) (Process : KPROCESS)
    (CurrentThread : Nat) : KPROCESS :=
  (PspRequeueBlockedList Env Process).SetThread CurrentThread
    { (PspRequeueBlockedList Env Process).Thread CurrentThread with
      SignalPending := Env.ThreadSignalPendingStateUnknown }

/-! ## Mask system calls -/

/-- The routine `PsSetSignalMask` run by the thread `CurrentThread`: the
previous mask and the new state. -/
def PsSetSignalMask (Env : KERNEL_ENVIRONMENT) (Process : KPROCESS) (CurrentThread : Nat)
    (NewMask : SIGNAL_SET) : SIGNAL_SET × KPROCESS :=
  let NewMaskLocal :=
    REMOVE_SIGNAL (REMOVE_SIGNAL (REMOVE_SIGNAL NewMask SIGNAL_STOP) SIGNAL_KILL)
      SIGNAL_CONTINUE
  let OriginalMask := (Process.Thread CurrentThread).BlockedSignals
  let Process1 :=
    Process.SetThread CurrentThread
      { Process.Thread CurrentThread with BlockedSignals := NewMaskLocal }
  (OriginalMask, PspRequeueBlockedSignals Env Process1 CurrentThread)

/-- The mask a `SetSignalBehavior` call works on; `SignalMaskInvalid` stands
for every value outside the enumeration. -/
inductive SIGNAL_MASK_TYPE where
  | SignalMaskBlocked
  | SignalMaskIgnored
  | SignalMaskHandled
  | SignalMaskPending
  | SignalMaskInvalid
  deriving DecidableEq, Repr

/-- The operation on a mask; `SignalMaskOperationInvalid` stands for every
value outside the enumeration. -/
inductive SIGNAL_MASK_OPERATION where
  | SignalMaskOperationNone
  | SignalMaskOperationOverwrite
  | SignalMaskOperationSet
  | SignalMaskOperationClear
  | SignalMaskOperationInvalid
  deriving DecidableEq, Repr

/-- The parameters of the `SetSignalBehavior` system call. -/
structure SYSTEM_CALL_SET_SIGNAL_BEHAVIOR where
  MaskType : SIGNAL_MASK_TYPE
  Operation : SIGNAL_MASK_OPERATION
  SignalSet : SIGNAL_SET
  deriving DecidableEq, Repr

/-- The switch of `PsSysSetSignalBehavior` and of `PsSysSuspendExecution` that
changes a mask out. -/
def ApplySignalMaskOperation (Operation : SIGNAL_MASK_OPERATION)
    (DestinationSet NewMask : SIGNAL_SET) : SIGNAL_SET :=
  match Operation with
  | .SignalMaskOperationOverwrite => NewMask
  | .SignalMaskOperationSet => OR_SIGNAL_SETS DestinationSet NewMask
  | .SignalMaskOperationClear => REMOVE_SIGNALS_FROM_SET DestinationSet NewMask
  | _ => DestinationSet

/-- The routine `PsSysSetSignalBehavior` run by the thread `CurrentThread`: the
parameters as they are copied back, and the new state. -/
def PsSysSetSignalBehavior (Env : KERNEL_ENVIRONMENT) (Process : KPROCESS)
    (CurrentThread : Nat) (Parameters : SYSTEM_CALL_SET_SIGNAL_BEHAVIOR) :
    SYSTEM_CALL_SET_SIGNAL_BEHAVIOR × KPROCESS :=
  let NewMask0 := REMOVE_SIGNAL (REMOVE_SIGNAL Parameters.SignalSet SIGNAL_STOP) SIGNAL_KILL
  let Thread := Process.Thread CurrentThread
  let Requeue := fun (Current : KPROCESS) =>
    if Parameters.Operation != .SignalMaskOperationNone then
      PspRequeueBlockedSignals Env Current CurrentThread
    else Current
  match Parameters.MaskType with
  | .SignalMaskBlocked =>
    let NewMask := REMOVE_SIGNAL NewMask0 SIGNAL_CONTINUE
    ({ Parameters with SignalSet := Thread.BlockedSignals },
      Requeue (Process.SetThread CurrentThread
        { Thread with
          BlockedSignals :=
            ApplySignalMaskOperation Parameters.Operation Thread.BlockedSignals NewMask }))
  | .SignalMaskIgnored =>
    ({ Parameters with SignalSet := Process.IgnoredSignals },
      Requeue { Process with
        IgnoredSignals :=
          ApplySignalMaskOperation Parameters.Operation Process.IgnoredSignals NewMask0 })
  | .SignalMaskHandled =>
    let Process1 :=
      { Process with
        IgnoredSignals := REMOVE_SIGNALS_FROM_SET Process.IgnoredSignals NewMask0 }
    ({ Parameters with SignalSet := Process1.HandledSignals },
      Requeue { Process1 with
        HandledSignals :=
          ApplySignalMaskOperation Parameters.Operation Process1.HandledSignals NewMask0 })
  | .SignalMaskPending =>
    ({ Parameters with
        Operation := .SignalMaskOperationNone
        SignalSet :=
          Process.BlockedSignalListHead.foldl
            (fun SignalSet SignalQueueEntry =>
              if SignalQueueEntry.DestinationThread == none ||
                  SignalQueueEntry.DestinationThread == some CurrentThread then
                ADD_SIGNAL SignalSet SignalQueueEntry.Parameters.SignalNumber
              else SignalSet)
            (OR_SIGNAL_SETS Thread.PendingSignals Process.PendingSignals) },
      Process)
  | .SignalMaskInvalid => (Parameters, Process)

/-- What the first part of `PsSysSuspendExecution` leaves behind for the end
of the call. -/
structure SUSPEND_EXECUTION_MASK where
  OriginalMask : SIGNAL_SET
  RestoreOriginalMask : Bool
  NotImplemented : Bool
  Process : KPROCESS

/-- The temporary change of the blocked mask at the start of
`PsSysSuspendExecution`. -/
def PsSysSuspendExecutionModifyMask (Env : KERNEL_ENVIRONMENT) (Process : KPROCESS)
    (CurrentThread : Nat) (SignalOperation : SIGNAL_MASK_OPERATION)
    (SignalSet0 : SIGNAL_SET) : SUSPEND_EXECUTION_MASK :=
  if SignalOperation != .SignalMaskOperationNone then
    let SignalSet :=
      REMOVE_SIGNAL (REMOVE_SIGNAL (REMOVE_SIGNAL SignalSet0 SIGNAL_STOP) SIGNAL_CONTINUE)
        SIGNAL_KILL
    let Thread := Process.Thread CurrentThread
    let OriginalMask := Thread.BlockedSignals
    let NotImplemented :=
      match SignalOperation with
      | .SignalMaskOperationOverwrite => false
      | .SignalMaskOperationClear => false
      | .SignalMaskOperationSet => false
      | _ => true
    let Process1 :=
      Process.SetThread CurrentThread
        { Thread with
          BlockedSignals :=
            ApplySignalMaskOperation SignalOperation Thread.BlockedSignals SignalSet }
    if OriginalMask != (Process1.Thread CurrentThread).BlockedSignals then
      ⟨OriginalMask, true, NotImplemented,
        PspRequeueBlockedSignals Env Process1 CurrentThread⟩
    else ⟨OriginalMask, false, NotImplemented, Process1⟩
  else ⟨INITIALIZE_SIGNAL_SET, false, false, Process⟩

/-- The restoration of the blocked mask at the end of `PsSysSuspendExecution`. -/
def PsSysSuspendExecutionRestoreMask (Env : KERNEL_ENVIRONMENT) (Process : KPROCESS)
    (CurrentThread : Nat) (OriginalMask : SIGNAL_SET) (RestoreOriginalMask : Bool) :
    KPROCESS :=
  if RestoreOriginalMask != false then
    PspRequeueBlockedSignals Env
      (Process.SetThread CurrentThread
        { Process.Thread CurrentThread with BlockedSignals := OriginalMask })
      CurrentThread
  else Process

/-! ## Status codes -/

/-- Modelled from the spec: the status codes that the signal routines return
(the type `KSTATUS` and its constants are declared outside `signals.c`). -/
inductive KSTATUS where
  | STATUS_SUCCESS
  | STATUS_INVALID_PARAMETER
  | STATUS_NO_SUCH_THREAD
  | STATUS_NO_SUCH_PROCESS
  | STATUS_INSUFFICIENT_RESOURCES
  | STATUS_ACCESS_DENIED
  | STATUS_PERMISSION_DENIED
  | STATUS_TOO_LATE
  | STATUS_INTERRUPTED
  | STATUS_TIMEOUT
  | STATUS_NOT_IMPLEMENTED
  | STATUS_NO_DATA_AVAILABLE
  | STATUS_NO_ELIGIBLE_CHILDREN
  deriving DecidableEq, Repr

/-- Modelled from the spec: the test `KSUCCESS (Status)`, true of
`STATUS_SUCCESS` only. -/
def KSUCCESS (Status : KSTATUS) : Bool := Status == .STATUS_SUCCESS

/-! ## Cancellation -/

/-- Every queue entry that is linked on a list of the process: the
blocked-deferred list, the queue of the process and the queues of its
threads. -/
def KPROCESS.LinkedEntries (Process : KPROCESS) : List SIGNAL_QUEUE_ENTRY :=
  Process.BlockedSignalListHead ++ Process.SignalListHead ++
    Process.ThreadListHead.flatMap KTHREAD.SignalListHead

/-- The queue entry at an address, when it is linked: the test
`SignalQueueEntry->ListEntry.Next != NULL`. -/
def KPROCESS.EntryAt (Process : KPROCESS) (Address : Nat) : Option SIGNAL_QUEUE_ENTRY :=
  Process.LinkedEntries.find? fun SignalEntry => SignalEntry.Address == Address

/-- The statements `LIST_REMOVE (&(SignalQueueEntry->ListEntry))` and
`SignalQueueEntry->ListEntry.Next = NULL` for the entry at an address: the
entry leaves the list it is on. -/
def KPROCESS.Unlink (Process : KPROCESS) (Address : Nat) : KPROCESS :=
  { Process with
    SignalListHead := Process.SignalListHead.filter fun SignalEntry =>
      SignalEntry.Address != Address
    BlockedSignalListHead := Process.BlockedSignalListHead.filter fun SignalEntry =>
      SignalEntry.Address != Address
    ThreadListHead := Process.ThreadListHead.map fun Thread =>
      { Thread with
        SignalListHead := Thread.SignalListHead.filter fun SignalEntry =>
          SignalEntry.Address != Address } }

/-- The routine `PspCancelQueuedSignal`; the entry is given by its address.
`Status` starts as `STATUS_TOO_LATE` and becomes `STATUS_SUCCESS` when the entry
is linked; the completion routine runs under `KSUCCESS (Status)`. -/
def PspCancelQueuedSignal (Process : KPROCESS) (SignalQueueEntry : Nat) :
    KSTATUS × KPROCESS :=
  match Process.EntryAt SignalQueueEntry with
  | some SignalEntry =>
    (.STATUS_SUCCESS, (Process.Unlink SignalQueueEntry).Complete SignalEntry)
  | none => (.STATUS_TOO_LATE, Process)

/-! ## The processes of the system -/

/-- The user ids of `THREAD_IDENTITY` that the permission check reads. -/
structure THREAD_IDENTITY where
  RealUserId : Nat
  EffectiveUserId : Nat
  SavedUserId : Nat
  deriving DecidableEq, Repr

/-- The identifiers of a process that the send routines read. -/
structure PROCESS_IDENTIFIERS where
  ProcessId : Nat
  ProcessGroupId : Nat
  SessionId : Nat
  deriving DecidableEq, Repr

/-- Modelled from the spec: the resource usage of a process, a record of
counters (the structure is declared outside the sources); two counters stand
for the record. -/
structure RESOURCE_USAGE where
  UserCycles : Nat
  KernelCycles : Nat
  deriving DecidableEq, Repr

/-- A process as the send and wait routines see it: its signal state, its
identifiers, what `PspGetProcessIdentity` returns for it (a status and, on
success, the identity), its children (`ChildListHead`, as process pointers), its
reusable child signal entry `ChildSignal` with the destination that entry was
last sent to, and its resource usage counters. -/
structure SYSTEM_PROCESS where
  Process : KPROCESS
  Identifiers : PROCESS_IDENTIFIERS
  IdentityStatus : KSTATUS
  Identity : THREAD_IDENTITY
  ChildListHead : List Nat := []
  ChildSignal : SIGNAL_QUEUE_ENTRY :=
    { Address := 0
      Parameters :=
        { SignalNumber := 0, SignalCode := 0, SendingProcess := 0, SendingUserId := 0,
          Parameter := 0 }
      DestinationThread := none
      Delivered := false
      CompletionRoutine := false }
  ChildSignalDestination : Option Nat := none
  ResourceUsage : RESOURCE_USAGE := { UserCycles := 0, KernelCycles := 0 }
  ChildResourceUsage : RESOURCE_USAGE := { UserCycles := 0, KernelCycles := 0 }

/-- The part of the system that a send reads and writes. A `PKPROCESS` is the
index of the process on `Processes`. `CurrentIdentity` is
`CurrentThread->Identity`, `KillPermission` the status that
`PsCheckPermission (PERMISSION_KILL)` returns for the current thread,
`FreePool` the addresses that `MmAllocatePagedPool` hands out next (the
allocation fails on the empty list), `ThreadById` the lookup
`PspGetThreadById` in the current process, and `SIGNAL_CODE_USER` the
constant of that name. -/
structure KSYSTEM where
  Processes : List SYSTEM_PROCESS
  KernelProcess : Nat
  CurrentProcess : Nat
  CurrentThread : Nat
  CurrentIdentity : THREAD_IDENTITY
  KillPermission : KSTATUS
  FreePool : List Nat
  ThreadById : Nat → Option Nat
  SIGNAL_CODE_USER : Int

/-- A process with an empty signal state, for a pointer that names no process. -/
def SYSTEM_PROCESS.Zero : SYSTEM_PROCESS :=
  { Process :=
      { IgnoredSignals := 0, HandledSignals := 0, PendingSignals := 0, SignalListHead := [],
        BlockedSignalListHead := [], ThreadListHead := [], ThreadCount := 0, StopEvent := false,
        DebugData := none, Parent := none, ExitReason := none, ExitStatus := 0,
        CompletedSignals := [], ChildSignalsToParent := [] }
    Identifiers := ⟨0, 0, 0⟩
    IdentityStatus := .STATUS_NO_SUCH_PROCESS
    Identity := ⟨0, 0, 0⟩ }

/-- The process behind a process pointer. -/
def KSYSTEM.Process (System : KSYSTEM) (Process : Nat) : SYSTEM_PROCESS :=
  System.Processes.getD Process SYSTEM_PROCESS.Zero

/-- The system after a write to the signal state of one process. -/
def KSYSTEM.SetProcess (System : KSYSTEM) (Process : Nat) (Value : KPROCESS) : KSYSTEM :=
  { System with
    Processes := System.Processes.set Process { System.Process Process with Process := Value } }

/-- The signal state of the current process. -/
def KSYSTEM.CurrentSignals (System : KSYSTEM) : KPROCESS :=
  (System.Process System.CurrentProcess).Process

/-! ## Permission to send -/

/-- The routine `PspCheckSendSignalPermission` for the current thread. -/
def PspCheckSendSignalPermission (System : KSYSTEM) (Process : Nat) (Signal : Nat) : KSTATUS :=
  if !KSUCCESS (System.Process Process).IdentityStatus then
    (System.Process Process).IdentityStatus
  else if System.CurrentIdentity.EffectiveUserId == (System.Process Process).Identity.RealUserId ||
      System.CurrentIdentity.RealUserId == (System.Process Process).Identity.RealUserId ||
      System.CurrentIdentity.EffectiveUserId == (System.Process Process).Identity.SavedUserId ||
      System.CurrentIdentity.RealUserId == (System.Process Process).Identity.SavedUserId then
    .STATUS_SUCCESS
  else if Signal == SIGNAL_CONTINUE &&
      (System.Process System.CurrentProcess).Identifiers.SessionId ==
        (System.Process Process).Identifiers.SessionId then
    .STATUS_SUCCESS
  else System.KillPermission

/-! ## Send -/

/-- Modelled from the spec: `PspSetProcessExitStatus`, the locking form of
`PspSetProcessExitStatusUnlocked` (the routine is not part of the sources). -/
def PspSetProcessExitStatus (Process : KPROCESS) (ExitReason : CHILD_SIGNAL_REASON)
    (ExitStatus : Nat) : KPROCESS :=
  PspSetProcessExitStatusUnlocked Process ExitReason ExitStatus

/-- The first part of `PsSignalProcess`: the exit status for a KILL, and the
call of `PspQueueSignalToProcess` under the lock of the process. -/
def PsSignalProcessQueue (Env : KERNEL_ENVIRONMENT) (Process : KPROCESS) (SignalNumber : Nat)
    (SignalQueueEntry : Option SIGNAL_QUEUE_ENTRY) : Bool × KPROCESS :=
  PspQueueSignalToProcess Env
    (if SignalNumber == SIGNAL_KILL then
      PspSetProcessExitStatus Process .CHILD_SIGNAL_REASON_KILLED SIGNAL_KILL
    else Process) SignalNumber SignalQueueEntry

/-- The routine `PsSignalProcess` on the signal state of the target: the
completion routine runs after the lock is released when
`PspQueueSignalToProcess` asks for it. -/
def PsSignalProcess (Env : KERNEL_ENVIRONMENT) (Process : KPROCESS) (SignalNumber : Nat)
    (SignalQueueEntry : Option SIGNAL_QUEUE_ENTRY) : KPROCESS :=
  if (PsSignalProcessQueue Env Process SignalNumber SignalQueueEntry).1 then
    match SignalQueueEntry with
    | some Entry =>
      (PsSignalProcessQueue Env Process SignalNumber SignalQueueEntry).2.Complete Entry
    | none => (PsSignalProcessQueue Env Process SignalNumber SignalQueueEntry).2
  else (PsSignalProcessQueue Env Process SignalNumber SignalQueueEntry).2

/-- The routine `PsSignalThread` on the signal state of the owning process. -/
def PsSignalThread (Env : KERNEL_ENVIRONMENT) (Process : KPROCESS) (Thread : Nat)
    (SignalNumber : Nat) (SignalQueueEntry : Option SIGNAL_QUEUE_ENTRY) (Force : Bool) :
    KPROCESS :=
  if SignalNumber == SIGNAL_STOP || SignalNumber == SIGNAL_KILL ||
      SignalNumber == SIGNAL_CONTINUE then
    PsSignalProcess Env
      (if SignalNumber == SIGNAL_KILL then
        PspSetProcessExitStatus Process .CHILD_SIGNAL_REASON_KILLED SIGNAL_KILL
      else Process) SignalNumber SignalQueueEntry
  else
    PspQueueSignal Env Process (some Thread) SignalNumber
      (SignalQueueEntry.map fun Entry => { Entry with Delivered := false }) Force

/-- The queue entry that the send routines build for a queued signal after
`RtlZeroMemory`; the completion routine is `PsDefaultSignalCompletionRoutine`. -/
def NewSignalQueueEntry (Address SignalNumber : Nat) (SignalCode : Int)
    (SendingProcess SendingUserId Parameter : Nat) : SIGNAL_QUEUE_ENTRY :=
  { Address := Address
    Parameters :=
      { SignalNumber := SignalNumber
        SignalCode := SignalCode
        SendingProcess := SendingProcess
        SendingUserId := SendingUserId
        Parameter := Parameter }
    DestinationThread := none
    Delivered := false
    CompletionRoutine := true }

/-- The routine `PspSignalProcess`: a standard signal other than 0 is sent as a
bare number, a queued signal in a new entry. -/
def PspSignalProcess (Env : KERNEL_ENVIRONMENT) (System : KSYSTEM) (Process : Nat)
    (SignalNumber : Nat) (SignalCode : Int) (SignalParameter : Nat) : KSTATUS × KSYSTEM :=
  if SignalNumber < STANDARD_SIGNAL_COUNT then
    if SignalNumber != 0 then
      (.STATUS_SUCCESS,
        System.SetProcess Process
          (PsSignalProcess Env (System.Process Process).Process SignalNumber none))
    else (.STATUS_SUCCESS, System)
  else
    match System.FreePool with
    | [] => (.STATUS_INSUFFICIENT_RESOURCES, System)
    | Address :: FreePool =>
      (.STATUS_SUCCESS,
        ({ System with FreePool := FreePool } : KSYSTEM).SetProcess Process
          (PsSignalProcess Env (System.Process Process).Process SignalNumber
            (some (NewSignalQueueEntry Address SignalNumber SignalCode
              (System.Process System.CurrentProcess).Identifiers.ProcessId 0
              SignalParameter))))

/-- The type `SEND_SIGNAL_ITERATOR_CONTEXT`; `CurrentThread` is always the
current thread of the system. -/
structure SEND_SIGNAL_ITERATOR_CONTEXT where
  SkipProcess : Option Nat
  Signal : Nat
  QueueEntry : Option SIGNAL_QUEUE_ENTRY
  CheckPermissions : Bool
  SentSignals : Nat
  Status : KSTATUS

/-- The copy of `Iterator->QueueEntry` that `PspSendSignalIterator` allocates
for one process: none without a template or when the allocation fails. -/
def PspSendSignalIteratorEntry (System : KSYSTEM) (Iterator : SEND_SIGNAL_ITERATOR_CONTEXT) :
    Option SIGNAL_QUEUE_ENTRY :=
  match Iterator.QueueEntry with
  | none => none
  | some QueueEntry =>
    match System.FreePool with
    | [] => none
    | Address :: _ => some { QueueEntry with Address := Address }

/-- The system after the part of `PspSendSignalIterator` that follows the
checks: the allocation of the copy and the call of `PsSignalProcess`. -/
def PspSendSignalIteratorSend (Env : KERNEL_ENVIRONMENT) (System : KSYSTEM)
    (Iterator : SEND_SIGNAL_ITERATOR_CONTEXT) (Process : Nat) : KSYSTEM :=
  ({ System with
      FreePool := if Iterator.QueueEntry.isSome then System.FreePool.tail else System.FreePool }
    : KSYSTEM).SetProcess Process
    (PsSignalProcess Env (System.Process Process).Process Iterator.Signal
      (PspSendSignalIteratorEntry System Iterator))

/-- The routine `PspSendSignalIterator`, the callback of `PsIterateProcess`. -/
def PspSendSignalIterator (Env : KERNEL_ENVIRONMENT) (System : KSYSTEM)
    (Iterator : SEND_SIGNAL_ITERATOR_CONTEXT) (Process : Nat) :
    KSYSTEM × SEND_SIGNAL_ITERATOR_CONTEXT :=
  if some Process == Iterator.SkipProcess || Process == System.KernelProcess then
    (System, Iterator)
  else if Iterator.CheckPermissions != false &&
      !KSUCCESS (PspCheckSendSignalPermission System Process Iterator.Signal) then
    (System,
      { Iterator with Status := PspCheckSendSignalPermission System Process Iterator.Signal })
  else
    (PspSendSignalIteratorSend Env System Iterator Process,
      { Iterator with
        Status :=
          if Iterator.QueueEntry.isSome && System.FreePool.isEmpty then
            .STATUS_INSUFFICIENT_RESOURCES
          else Iterator.Status
        SentSignals := ULONG (Iterator.SentSignals + 1) })

/-- The identifier types that `PsSysSendSignal` passes to `PsIterateProcess`. -/
inductive PROCESS_ID_TYPE where
  | ProcessIdProcess
  | ProcessIdProcessGroup
  deriving DecidableEq, Repr

/-- Modelled from the spec: the processes that `PsIterateProcess` visits, in the
order of the process list (the routine is not part of the sources): those whose
identifier of the given type is `Match`, and every process when `Match` is
`-1`. -/
def PsIterateProcessMatches (System : KSYSTEM) (MatchType : PROCESS_ID_TYPE) (Match : Nat) :
    List Nat :=
  (List.range System.Processes.length).filter fun Process =>
    Match == ULONG_MINUS_ONE ||
      match MatchType with
      | .ProcessIdProcess => (System.Process Process).Identifiers.ProcessId == Match
      | .ProcessIdProcessGroup => (System.Process Process).Identifiers.ProcessGroupId == Match

/-- The iterator applied to a sequence of processes, one after the other. -/
def PspSendSignalIterate (Env : KERNEL_ENVIRONMENT) :
    List Nat → KSYSTEM → SEND_SIGNAL_ITERATOR_CONTEXT → KSYSTEM × SEND_SIGNAL_ITERATOR_CONTEXT
  | [], System, Iterator => (System, Iterator)
  | Process :: Rest, System, Iterator =>
    PspSendSignalIterate Env Rest (PspSendSignalIterator Env System Iterator Process).1
      (PspSendSignalIterator Env System Iterator Process).2

/-- Modelled from the spec: `PsIterateProcess` with `PspSendSignalIterator` as
its routine. -/
def PsIterateProcess (Env : KERNEL_ENVIRONMENT) (System : KSYSTEM) (MatchType : PROCESS_ID_TYPE)
    (Match : Nat) (Iterator : SEND_SIGNAL_ITERATOR_CONTEXT) :
    KSYSTEM × SEND_SIGNAL_ITERATOR_CONTEXT :=
  PspSendSignalIterate Env (PsIterateProcessMatches System MatchType Match) System Iterator

/-- The target types of the send system call; `SignalTargetInvalid` stands for
every value outside the enumeration. -/
inductive SIGNAL_TARGET_TYPE where
  | SignalTargetThread
  | SignalTargetCurrentProcess
  | SignalTargetProcess
  | SignalTargetCurrentProcessGroup
  | SignalTargetProcessGroup
  | SignalTargetAllProcesses
  | SignalTargetInvalid
  deriving DecidableEq, Repr

/-- The parameters of the `SendSignal` system call. -/
structure SYSTEM_CALL_SEND_SIGNAL where
  TargetType : SIGNAL_TARGET_TYPE
  TargetId : Nat
  SignalNumber : Nat
  SignalCode : Int
  SignalParameter : Nat
  Status : KSTATUS
  deriving DecidableEq, Repr

/-- Modelled from the spec: `PspGetProcessById`, the process with the given
identifier (the routine is not part of the sources). -/
def PspGetProcessById (System : KSYSTEM) (ProcessId : Nat) : Option Nat :=
  (List.range System.Processes.length).find? fun Process =>
    (System.Process Process).Identifiers.ProcessId == ProcessId

/-- The case `SignalTargetThread` of `PsSysSendSignal`: the status and the new
system. -/
def PsSysSendSignalToThread (Env : KERNEL_ENVIRONMENT) (System : KSYSTEM)
    (Request : SYSTEM_CALL_SEND_SIGNAL) : KSTATUS × KSYSTEM :=
  match (if Request.TargetId == 0 then some System.CurrentThread
      else System.ThreadById Request.TargetId) with
  | none => (.STATUS_NO_SUCH_THREAD, System)
  | some Thread =>
    if !KSUCCESS (PspCheckSendSignalPermission System System.CurrentProcess
        Request.SignalNumber) then
      (PspCheckSendSignalPermission System System.CurrentProcess Request.SignalNumber, System)
    else if Request.SignalNumber < STANDARD_SIGNAL_COUNT then
      if Request.SignalNumber != 0 then
        (.STATUS_SUCCESS,
          System.SetProcess System.CurrentProcess
            (PsSignalThread Env (System.Process System.CurrentProcess).Process Thread
              Request.SignalNumber none false))
      else (.STATUS_SUCCESS, System)
    else
      match System.FreePool with
      | [] => (.STATUS_INSUFFICIENT_RESOURCES, System)
      | Address :: FreePool =>
        (.STATUS_SUCCESS,
          ({ System with FreePool := FreePool } : KSYSTEM).SetProcess System.CurrentProcess
            (PsSignalThread Env (System.Process System.CurrentProcess).Process Thread
              Request.SignalNumber
              (some (NewSignalQueueEntry Address Request.SignalNumber Request.SignalCode
                (System.Process System.CurrentProcess).Identifiers.ProcessId
                System.CurrentIdentity.RealUserId Request.SignalParameter))
              false))

/-- The iterator context that `PsSysSendSignal` sets up for the target types
that name more than one process. -/
def PsSysSendSignalIterator (System : KSYSTEM) (Request : SYSTEM_CALL_SEND_SIGNAL) :
    SEND_SIGNAL_ITERATOR_CONTEXT :=
  { SkipProcess :=
      if Request.TargetType == .SignalTargetAllProcesses then some System.CurrentProcess
      else none
    Signal := Request.SignalNumber
    QueueEntry := none
    CheckPermissions := true
    SentSignals := 0
    Status := .STATUS_SUCCESS }

/-- The call of `PsIterateProcess` in `PsSysSendSignal`: every process
(`ProcessIdProcess`, `-1`) for `SignalTargetAllProcesses`, the group of the
current process or the group `TargetId` otherwise. -/
def PsSysSendSignalIterate (Env : KERNEL_ENVIRONMENT) (System : KSYSTEM)
    (Request : SYSTEM_CALL_SEND_SIGNAL) : KSYSTEM × SEND_SIGNAL_ITERATOR_CONTEXT :=
  PsIterateProcess Env System
    (if Request.TargetType == .SignalTargetAllProcesses then .ProcessIdProcess
     else .ProcessIdProcessGroup)
    (if Request.TargetType == .SignalTargetAllProcesses then ULONG_MINUS_ONE
     else if Request.TargetType == .SignalTargetCurrentProcessGroup then
       (System.Process System.CurrentProcess).Identifiers.ProcessGroupId
     else Request.TargetId)
    (PsSysSendSignalIterator System Request)

/-- The cases `SignalTargetCurrentProcessGroup`, `SignalTargetProcessGroup` and
`SignalTargetAllProcesses` of `PsSysSendSignal`. -/
def PsSysSendSignalToProcesses (Env : KERNEL_ENVIRONMENT) (System : KSYSTEM)
    (Request : SYSTEM_CALL_SEND_SIGNAL) : KSTATUS × KSYSTEM :=
  if KSUCCESS (PsSysSendSignalIterate Env System Request).2.Status &&
      (PsSysSendSignalIterate Env System Request).2.SentSignals == 0 then
    (.STATUS_NO_SUCH_PROCESS, (PsSysSendSignalIterate Env System Request).1)
  else
    ((PsSysSendSignalIterate Env System Request).2.Status,
      (PsSysSendSignalIterate Env System Request).1)

/-- The end of the cases `SignalTargetCurrentProcess` and `SignalTargetProcess`
of `PsSysSendSignal`, once the process is known: the permission check and
`PspSignalProcess`. -/
def PsSysSendSignalToProcess (Env : KERNEL_ENVIRONMENT) (System : KSYSTEM)
    (Request : SYSTEM_CALL_SEND_SIGNAL) (Process : Nat) : KSTATUS × KSYSTEM :=
  if KSUCCESS (PspCheckSendSignalPermission System Process Request.SignalNumber) then
    PspSignalProcess Env System Process Request.SignalNumber Request.SignalCode
      Request.SignalParameter
  else (PspCheckSendSignalPermission System Process Request.SignalNumber, System)

/-- The body of `PsSysSendSignal` after the check of the signal number and the
change of a positive signal code to `SIGNAL_CODE_USER`. -/
def PsSysSendSignalDispatch (Env : KERNEL_ENVIRONMENT) (System : KSYSTEM)
    (Request : SYSTEM_CALL_SEND_SIGNAL) : KSTATUS × KSYSTEM :=
  match Request.TargetType with
  | .SignalTargetThread => PsSysSendSignalToThread Env System Request
  | .SignalTargetCurrentProcessGroup => PsSysSendSignalToProcesses Env System Request
  | .SignalTargetProcessGroup => PsSysSendSignalToProcesses Env System Request
  | .SignalTargetAllProcesses => PsSysSendSignalToProcesses Env System Request
  | .SignalTargetCurrentProcess =>
    PsSysSendSignalToProcess Env System Request System.CurrentProcess
  | .SignalTargetProcess =>
    if (System.Process System.CurrentProcess).Identifiers.ProcessId != Request.TargetId &&
        Request.TargetId != 0 then
      match PspGetProcessById System Request.TargetId with
      | none => (.STATUS_NO_SUCH_PROCESS, System)
      | some Process =>
        if Process == System.KernelProcess then (.STATUS_ACCESS_DENIED, System)
        else PsSysSendSignalToProcess Env System Request Process
    else PsSysSendSignalToProcess Env System Request System.CurrentProcess
  | .SignalTargetInvalid => (.STATUS_INVALID_PARAMETER, System)

/-- The routine `PsSysSendSignal`: the request as it is copied back, and the new
system. -/
def PsSysSendSignal (Env : KERNEL_ENVIRONMENT) (System : KSYSTEM)
    (Request : SYSTEM_CALL_SEND_SIGNAL) : SYSTEM_CALL_SEND_SIGNAL × KSYSTEM :=
  if Request.SignalNumber ≥ SIGNAL_COUNT then
    ({ Request with Status := .STATUS_INVALID_PARAMETER }, System)
  else
    ({ Request with
        SignalCode := if Request.SignalCode > 0 then System.SIGNAL_CODE_USER
          else Request.SignalCode
        Status :=
          (PsSysSendSignalDispatch Env System
            { Request with
              SignalCode := if Request.SignalCode > 0 then System.SIGNAL_CODE_USER
                else Request.SignalCode }).1 },
      (PsSysSendSignalDispatch Env System
        { Request with
          SignalCode := if Request.SignalCode > 0 then System.SIGNAL_CODE_USER
            else Request.SignalCode }).2)


/-! ## Default processing -/

/-- Index of "Hangup" in `PsSignalNames`. -/
def SIGNAL_CONTROLLING_TERMINAL_CLOSED : Nat := 1

/-- Index of "Interrupt" in `PsSignalNames`. -/
def SIGNAL_KEYBOARD_INTERRUPT : Nat := 2

/-- Index of "Application1" in `PsSignalNames`. -/
def SIGNAL_APPLICATION1 : Nat := 10

/-- Index of "Application2" in `PsSignalNames`. -/
def SIGNAL_APPLICATION2 : Nat := 12

/-- Index of "Broken Pipe" in `PsSignalNames`. -/
def SIGNAL_BROKEN_PIPE : Nat := 13

/-- Index of "Timer" in `PsSignalNames`. -/
def SIGNAL_TIMER : Nat := 14

/-- Index of "Request Termination" in `PsSignalNames`. -/
def SIGNAL_REQUEST_TERMINATION : Nat := 15

/-- Index of "Request Stop" in `PsSignalNames`. -/
def SIGNAL_REQUEST_STOP : Nat := 19

/-- Index of "Background Input" in `PsSignalNames`. -/
def SIGNAL_BACKGROUND_TERMINAL_INPUT : Nat := 20

/-- Index of "Background Output" in `PsSignalNames`. -/
def SIGNAL_BACKGROUND_TERMINAL_OUTPUT : Nat := 21

/-- Index of "CPU Quota" in `PsSignalNames`. -/
def SIGNAL_CPU_QUOTA_REACHED : Nat := 23

/-- Index of "Execution Timer" in `PsSignalNames`. -/
def SIGNAL_EXECUTION_TIMER_EXPIRED : Nat := 25

/-- Index of "Profile Timer" in `PsSignalNames`. -/
def SIGNAL_PROFILE_TIMER : Nat := 26

/-- Index of "Asynchronous I/O" in `PsSignalNames`. -/
def SIGNAL_ASYNCHRONOUS_IO_COMPLETE : Nat := 28

/-- What the part of `PspSignalAttemptDefaultProcessing` that runs under the
lock of the process leaves behind: the locals `Result` and `SendSignal`, and the
state. -/
structure DEFAULT_ACTION where
  Result : Bool
  SendSignal : Nat
  Process : KPROCESS

/-- The default action table of `PspSignalAttemptDefaultProcessing`, the
`if` chain under the lock of the process. `SignalHandlerRoutine` tells whether
`Process->SignalHandlerRoutine` is non-null. -/
def PspSignalDefaultAction (Process : KPROCESS) (SignalHandlerRoutine : Bool) (Signal : Nat) :
    DEFAULT_ACTION :=
  if Signal == SIGNAL_ABORT || Signal == SIGNAL_BUS_ERROR || Signal == SIGNAL_MATH_ERROR ||
      Signal == SIGNAL_ILLEGAL_INSTRUCTION || Signal == SIGNAL_REQUEST_CORE_DUMP ||
      Signal == SIGNAL_ACCESS_VIOLATION || Signal == SIGNAL_BAD_SYSTEM_CALL ||
      Signal == SIGNAL_TRAP || Signal == SIGNAL_CPU_QUOTA_REACHED ||
      Signal == SIGNAL_FILE_SIZE_TOO_LARGE then
    ⟨true, SIGNAL_KILL,
      { Process with ExitReason := some .CHILD_SIGNAL_REASON_DUMPED, ExitStatus := Signal }⟩
  else if Signal == SIGNAL_TIMER || Signal == SIGNAL_CONTROLLING_TERMINAL_CLOSED ||
      Signal == SIGNAL_KEYBOARD_INTERRUPT || Signal == SIGNAL_BROKEN_PIPE ||
      Signal == SIGNAL_REQUEST_TERMINATION || Signal == SIGNAL_APPLICATION1 ||
      Signal == SIGNAL_APPLICATION2 || Signal == SIGNAL_ASYNCHRONOUS_IO_COMPLETE ||
      Signal == SIGNAL_PROFILE_TIMER || Signal == SIGNAL_EXECUTION_TIMER_EXPIRED ||
      decide (Signal ≥ STANDARD_SIGNAL_COUNT) then
    ⟨true, SIGNAL_KILL,
      { Process with ExitReason := some .CHILD_SIGNAL_REASON_KILLED, ExitStatus := Signal }⟩
  else if Signal == SIGNAL_REQUEST_STOP || Signal == SIGNAL_BACKGROUND_TERMINAL_INPUT ||
      Signal == SIGNAL_BACKGROUND_TERMINAL_OUTPUT then
    ⟨true, SIGNAL_STOP,
      { Process with ExitReason := some .CHILD_SIGNAL_REASON_STOPPED, ExitStatus := Signal }⟩
  else if SignalHandlerRoutine == false then
    ⟨true, SIGNAL_KILL,
      { Process with ExitReason := some .CHILD_SIGNAL_REASON_DUMPED, ExitStatus := Signal }⟩
  else ⟨false, 0, Process⟩

/-- The routine `PspSignalAttemptDefaultProcessing` run in the process
`Process`: the returned boolean and the new state. `SignalHandlerRoutine`
tells whether `Process->SignalHandlerRoutine` is non-null. -/
def PspSignalAttemptDefaultProcessing (Env : KERNEL_ENVIRONMENT) (Process : KPROCESS)
    (SignalHandlerRoutine : Bool) (Signal : Nat) : Bool × KPROCESS :=
  if Signal == SIGNAL_KILL || Signal == SIGNAL_STOP then (true, Process)
  else if IS_SIGNAL_SET Process.HandledSignals Signal != false && SignalHandlerRoutine then
    (false, Process)
  else if Signal == SIGNAL_CONTINUE then (true, Process)
  else if Env.IS_SIGNAL_DEFAULT_IGNORE Signal then (true, Process)
  else
    ((PspSignalDefaultAction Process SignalHandlerRoutine Signal).Result,
      if (PspSignalDefaultAction Process SignalHandlerRoutine Signal).SendSignal != 0 then
        PsSignalProcess Env (PspSignalDefaultAction Process SignalHandlerRoutine Signal).Process
          (PspSignalDefaultAction Process SignalHandlerRoutine Signal).SendSignal none
      else (PspSignalDefaultAction Process SignalHandlerRoutine Signal).Process)


/-! ## Suspend execution -/

/-- Truncation of a value stored into a `ULONGLONG` variable. -/
def ULONGLONG (Value : Nat) : Nat := Value % 2 ^ 64

/-- The timeout that stands for "no timeout": the largest `ULONG` (the
constant is declared outside the sources). -/
def SYS_WAIT_TIME_INDEFINITE : Nat := 4294967295

/-- The constant `MILLISECONDS_PER_SECOND`. -/
def MILLISECONDS_PER_SECOND : Nat := 1000

/-- The constant `MICROSECONDS_PER_MILLISECOND`. -/
def MICROSECONDS_PER_MILLISECOND : Nat := 1000

/-- A signal that reaches the process from outside the running call: a call
`PsSignalThread (Thread, SignalNumber, SignalQueueEntry, FALSE)` when a thread
is named, a call `PsSignalProcess (Process, SignalNumber, SignalQueueEntry)`
otherwise. -/
structure SIGNAL_ARRIVAL where
  Thread : Option Nat
  SignalNumber : Nat
  SignalQueueEntry : Option SIGNAL_QUEUE_ENTRY

/-- The effect of one arriving signal on the signal state of the process. -/
def PsSignalArrival (Env : KERNEL_ENVIRONMENT) (Process : KPROCESS)
    (Arrival : SIGNAL_ARRIVAL) : KPROCESS :=
  match Arrival.Thread with
  | some Thread =>
    PsSignalThread Env Process Thread Arrival.SignalNumber Arrival.SignalQueueEntry false
  | none => PsSignalProcess Env Process Arrival.SignalNumber Arrival.SignalQueueEntry

/-- What the rest of the system contributes to one pass of the wait loop of
`PsSysSuspendExecution`: the signals that `PsCheckRuntimeTimers` and the other
threads have sent when the pass dequeues, the value that
`KeGetRecentTimeCounter` returns in the pass, and the status that
`KeDelayExecution` returns for the wait of the pass. -/
structure SUSPEND_ROUND where
  Arrivals : List SIGNAL_ARRIVAL
  CurrentTime : Nat
  DelayStatus : KSTATUS

/-- The timeout in milliseconds that a pass of the wait loop of
`PsSysSuspendExecution` uses: the statement under "Adjust the timeout if this is
the second time around". -/
def PsSysSuspendExecutionTimeout (Frequency TimeoutInMilliseconds PreviousDelayStart
    CurrentTime : Nat) : Nat :=
  if PreviousDelayStart != 0 then
    ULONGLONG
      (ULONGLONG (ULONGLONG (CurrentTime + (2 ^ 64 - ULONGLONG PreviousDelayStart)) *
        MILLISECONDS_PER_SECOND) / Frequency)
  else TimeoutInMilliseconds

/-- What the wait loop of `PsSysSuspendExecution` leaves behind: the locals
`SignalNumber`, `SignalParameters` and `Status`, the state, and the timeouts in
microseconds that were handed to `KeDelayExecution`, in call order. -/
structure SUSPEND_WAIT where
  SignalNumber : Nat
  SignalParameters : SIGNAL_PARAMETERS
  Status : KSTATUS
  Timeouts : List Nat
  Process : KPROCESS

/-- The loop `while (TRUE)` of `PsSysSuspendExecution` run by the thread
`CurrentThread`, one `SUSPEND_ROUND` for each pass. The result is `none` when
the dequeue of a pass does not come back, and when the thread is still waiting
after the last round. -/
def PsSysSuspendExecutionWait (Env : KERNEL_ENVIRONMENT) (CurrentThread Frequency : Nat) :
    List SUSPEND_ROUND → Nat → Nat → KSTATUS → List Nat → SIGNAL_PARAMETERS → KPROCESS →
      Option SUSPEND_WAIT
  | [], _, _, _, _, _, _ => none
  | Round :: Rounds, TimeoutInMilliseconds, PreviousDelayStart, Status, Timeouts,
      SignalParameters, Process =>
    match PspDequeuePendingSignal Env (Round.Arrivals.foldl (PsSignalArrival Env) Process)
        CurrentThread SignalParameters with
    | none => none
    | some Dequeue =>
      if Dequeue.DequeuedSignal != ULONG_MINUS_ONE then
        some ⟨Dequeue.DequeuedSignal, Dequeue.SignalParameters, Status, Timeouts,
          Dequeue.Process⟩
      else if TimeoutInMilliseconds != SYS_WAIT_TIME_INDEFINITE then
        if KSUCCESS Round.DelayStatus then
          some ⟨Dequeue.DequeuedSignal, Dequeue.SignalParameters, .STATUS_TIMEOUT,
            Timeouts ++
              [ULONGLONG (PsSysSuspendExecutionTimeout Frequency TimeoutInMilliseconds
                PreviousDelayStart Round.CurrentTime * MICROSECONDS_PER_MILLISECOND)],
            Dequeue.Process⟩
        else if Round.DelayStatus != .STATUS_INTERRUPTED then
          some ⟨Dequeue.DequeuedSignal, Dequeue.SignalParameters, Round.DelayStatus,
            Timeouts ++
              [ULONGLONG (PsSysSuspendExecutionTimeout Frequency TimeoutInMilliseconds
                PreviousDelayStart Round.CurrentTime * MICROSECONDS_PER_MILLISECOND)],
            Dequeue.Process⟩
        else
          PsSysSuspendExecutionWait Env CurrentThread Frequency Rounds
            (PsSysSuspendExecutionTimeout Frequency TimeoutInMilliseconds PreviousDelayStart
              Round.CurrentTime)
            Round.CurrentTime Round.DelayStatus
            (Timeouts ++
              [ULONGLONG (PsSysSuspendExecutionTimeout Frequency TimeoutInMilliseconds
                PreviousDelayStart Round.CurrentTime * MICROSECONDS_PER_MILLISECOND)])
            Dequeue.SignalParameters Dequeue.Process
      else
        PsSysSuspendExecutionWait Env CurrentThread Frequency Rounds TimeoutInMilliseconds
          PreviousDelayStart Status Timeouts Dequeue.SignalParameters Dequeue.Process

/-- The parameters of the `SuspendExecution` system call; `SignalParameters`
tells whether the user pointer of that name is non-null. -/
structure SYSTEM_CALL_SUSPEND_EXECUTION where
  SignalOperation : SIGNAL_MASK_OPERATION
  SignalSet : SIGNAL_SET
  TimeoutInMilliseconds : Nat
  SignalParameters : Bool
  Status : KSTATUS

/-- The value of `Parameters->SignalSet` after the first part of
`PsSysSuspendExecution`: STOP, CONTINUE and KILL are removed when an operation
is asked for. -/
def PsSysSuspendExecutionSignalSet (Parameters : SYSTEM_CALL_SUSPEND_EXECUTION) : SIGNAL_SET :=
  if Parameters.SignalOperation != .SignalMaskOperationNone then
    REMOVE_SIGNAL (REMOVE_SIGNAL (REMOVE_SIGNAL Parameters.SignalSet SIGNAL_STOP)
      SIGNAL_CONTINUE) SIGNAL_KILL
  else Parameters.SignalSet

/-- The local `ApplySignal` of `PsSysSuspendExecution` for a dequeued signal. -/
def PsSysSuspendExecutionApplySignal (SignalOperation : SIGNAL_MASK_OPERATION)
    (SignalSet : SIGNAL_SET) (SignalNumber : Nat) : Bool :=
  if SignalOperation == .SignalMaskOperationClear then
    if IS_SIGNAL_SET SignalSet SignalNumber != false then false else true
  else true

/-- The status of `PsSysSuspendExecution` for a dequeued signal;
`CopyStatus` is what `MmCopyToUserMode` returns. -/
def PsSysSuspendExecutionSignalStatus (SignalOperation : SIGNAL_MASK_OPERATION)
    (SignalSet : SIGNAL_SET) (UserParameters : Bool) (CopyStatus : KSTATUS)
    (SignalNumber : Nat) : KSTATUS :=
  if UserParameters then CopyStatus
  else if SignalOperation == .SignalMaskOperationClear then
    if IS_SIGNAL_SET SignalSet SignalNumber != false then .STATUS_SUCCESS
    else .STATUS_INTERRUPTED
  else .STATUS_SUCCESS

/-- What a `SuspendExecution` system call leaves behind: the parameters as
they are handed back, the dequeued signal, the parameter blocks that were given
to `PsApplySynchronousSignal` and to `MmCopyToUserMode`, the timeouts in
microseconds handed to `KeDelayExecution`, and the state. -/
structure SUSPEND_EXECUTION where
  Parameters : SYSTEM_CALL_SUSPEND_EXECUTION
  SignalNumber : Nat
  AppliedSignals : List SIGNAL_PARAMETERS
  CopiedParameters : List SIGNAL_PARAMETERS
  Timeouts : List Nat
  Process : KPROCESS

/-- The part of `PsSysSuspendExecution` that follows the wait loop. -/
def PsSysSuspendExecutionEnd (Env : KERNEL_ENVIRONMENT) (CurrentThread : Nat)
    (CopyStatus : KSTATUS) (Parameters : SYSTEM_CALL_SUSPEND_EXECUTION)
    (OriginalMask : SIGNAL_SET) (RestoreOriginalMask : Bool) (Wait : SUSPEND_WAIT) :
    SUSPEND_EXECUTION :=
  if Wait.SignalNumber != ULONG_MINUS_ONE then
    { Parameters :=
        { Parameters with
          SignalSet := PsSysSuspendExecutionSignalSet Parameters
          Status :=
            PsSysSuspendExecutionSignalStatus Parameters.SignalOperation
              (PsSysSuspendExecutionSignalSet Parameters) Parameters.SignalParameters
              CopyStatus Wait.SignalNumber }
      SignalNumber := Wait.SignalNumber
      AppliedSignals :=
        if PsSysSuspendExecutionApplySignal Parameters.SignalOperation
            (PsSysSuspendExecutionSignalSet Parameters) Wait.SignalNumber != false then
          [Wait.SignalParameters]
        else []
      CopiedParameters := if Parameters.SignalParameters then [Wait.SignalParameters] else []
      Timeouts := Wait.Timeouts
      Process :=
        PsSysSuspendExecutionRestoreMask Env Wait.Process CurrentThread OriginalMask
          RestoreOriginalMask }
  else
    { Parameters :=
        { Parameters with
          SignalSet := PsSysSuspendExecutionSignalSet Parameters
          Status := Wait.Status }
      SignalNumber := Wait.SignalNumber
      AppliedSignals := []
      CopiedParameters := []
      Timeouts := Wait.Timeouts
      Process :=
        PsSysSuspendExecutionRestoreMask Env Wait.Process CurrentThread OriginalMask
          RestoreOriginalMask }

/-- The routine `PsSysSuspendExecution` run by the thread `CurrentThread`.
`Frequency` is what `HlQueryTimeCounterFrequency` returns, `CopyStatus` what
`MmCopyToUserMode` returns, and `Rounds` what the rest of the system does in
each pass of the wait loop. `PsDequeuePendingSignal` is
`PspDequeuePendingSignal`, and the call of `PsApplySynchronousSignal`, which
works on the trap frame, is recorded. -/
def PsSysSuspendExecution (Env : KERNEL_ENVIRONMENT) (Process : KPROCESS)
    (CurrentThread Frequency : Nat) (CopyStatus : KSTATUS)
    (Parameters : SYSTEM_CALL_SUSPEND_EXECUTION) (Rounds : List SUSPEND_ROUND) :
    Option SUSPEND_EXECUTION :=
  if (PsSysSuspendExecutionModifyMask Env Process CurrentThread Parameters.SignalOperation
      Parameters.SignalSet).NotImplemented then
    some
      { Parameters :=
          { Parameters with
            SignalSet := PsSysSuspendExecutionSignalSet Parameters
            Status := .STATUS_NOT_IMPLEMENTED }
        SignalNumber := ULONG_MINUS_ONE
        AppliedSignals := []
        CopiedParameters := []
        Timeouts := []
        Process :=
          PsSysSuspendExecutionRestoreMask Env
            (PsSysSuspendExecutionModifyMask Env Process CurrentThread
              Parameters.SignalOperation Parameters.SignalSet).Process
            CurrentThread
            (PsSysSuspendExecutionModifyMask Env Process CurrentThread
              Parameters.SignalOperation Parameters.SignalSet).OriginalMask
            (PsSysSuspendExecutionModifyMask Env Process CurrentThread
              Parameters.SignalOperation Parameters.SignalSet).RestoreOriginalMask }
  else
    (PsSysSuspendExecutionWait Env CurrentThread Frequency Rounds
      (ULONGLONG Parameters.TimeoutInMilliseconds) 0 .STATUS_SUCCESS [] SIGNAL_PARAMETERS.Zero
      (PsSysSuspendExecutionModifyMask Env Process CurrentThread Parameters.SignalOperation
        Parameters.SignalSet).Process).map
      (PsSysSuspendExecutionEnd Env CurrentThread CopyStatus Parameters
        (PsSysSuspendExecutionModifyMask Env Process CurrentThread Parameters.SignalOperation
          Parameters.SignalSet).OriginalMask
        (PsSysSuspendExecutionModifyMask Env Process CurrentThread Parameters.SignalOperation
          Parameters.SignalSet).RestoreOriginalMask)


/-! ## Wait for a child process -/

/-- The wait flag "return immediately". The header that gives the wait flags
their values is not part of the sources; the routines use a flag only in tests
of the form `(WaitFlags & FLAG) != 0`. -/
def SYSTEM_CALL_WAIT_FLAG_RETURN_IMMEDIATELY : Nat := 1

/-- The wait flag "stopped children". -/
def SYSTEM_CALL_WAIT_FLAG_STOPPED_CHILDREN : Nat := 2

/-- The wait flag "continued children". -/
def SYSTEM_CALL_WAIT_FLAG_CONTINUED_CHILDREN : Nat := 4

/-- The wait flag "exited children". -/
def SYSTEM_CALL_WAIT_FLAG_EXITED_CHILDREN : Nat := 8

/-- The wait flag "do not discard the child". -/
def SYSTEM_CALL_WAIT_FLAG_DONT_DISCARD_CHILD : Nat := 16

/-- The three flags that name a class of children. -/
def SYSTEM_CALL_WAIT_FLAG_CHILD_MASK : Nat :=
  SYSTEM_CALL_WAIT_FLAG_STOPPED_CHILDREN ||| SYSTEM_CALL_WAIT_FLAG_CONTINUED_CHILDREN |||
    SYSTEM_CALL_WAIT_FLAG_EXITED_CHILDREN

/-- The value of a reason constant `CHILD_SIGNAL_REASON_*` (the header that
defines the constants is not part of the sources; they are distinct and not
zero). -/
def CHILD_SIGNAL_REASON.Code : CHILD_SIGNAL_REASON → Nat
  | .CHILD_SIGNAL_REASON_EXITED => 1
  | .CHILD_SIGNAL_REASON_KILLED => 2
  | .CHILD_SIGNAL_REASON_DUMPED => 3
  | .CHILD_SIGNAL_REASON_TRAPPED => 4
  | .CHILD_SIGNAL_REASON_STOPPED => 5
  | .CHILD_SIGNAL_REASON_CONTINUED => 6

/-- Conversion of a signal code to the `USHORT` variable `Reason`. -/
def USHORT (Value : Int) : Nat := (Value % 65536).toNat

/-- The local `MatchingProcess` of `PspValidateWaitParameters` when the loop
over the children is reached. -/
def PspValidateWaitMatchingProcess (ProcessId : Int) : Int :=
  if ProcessId == 0 then 0
  else if ProcessId > 0 then ProcessId
  else 0

/-- The local `MatchingProcessGroup` of `PspValidateWaitParameters` when the
loop over the children is reached. The negation is taken in the integers: the
least `LONG` has no negation in C. -/
def PspValidateWaitMatchingProcessGroup (System : KSYSTEM) (Process : Nat) (ProcessId : Int) :
    Int :=
  if ProcessId == 0 then ((System.Process Process).Identifiers.ProcessGroupId : Int)
  else if ProcessId > 0 then 0
  else -ProcessId

/-- The routine `PspValidateWaitParameters`. -/
def PspValidateWaitParameters (System : KSYSTEM) (Process : Nat) (ProcessId : Int) : KSTATUS :=
  if ProcessId == -1 then
    if (System.Process Process).ChildListHead.isEmpty == false then .STATUS_SUCCESS
    else .STATUS_NO_ELIGIBLE_CHILDREN
  else if (System.Process Process).ChildListHead.any fun Child =>
      ((System.Process Child).Identifiers.ProcessId : Int) ==
          PspValidateWaitMatchingProcess ProcessId ||
        ((System.Process Child).Identifiers.ProcessGroupId : Int) ==
          PspValidateWaitMatchingProcessGroup System Process ProcessId then
    .STATUS_SUCCESS
  else .STATUS_NO_ELIGIBLE_CHILDREN

/-- The lookup `PspGetChildProcessById`, which is declared outside
`signals.c`: the child of the process that has the given process identifier. -/
def PspGetChildProcessById (System : KSYSTEM) (Process : Nat) (ProcessId : Nat) : Option Nat :=
  (System.Process Process).ChildListHead.find? fun Child =>
    (System.Process Child).Identifiers.ProcessId == ProcessId

/-- The first part of `PspMatchChildWaitRequestWithProcessId`: the match of the
sender of a child signal against the request. The lookup of the child is
expected to succeed (`ASSERT (Process != NULL)`); without a child there is no
match. -/
def PspMatchChildWaitProcess (System : KSYSTEM) (WaitPidRequest : Int)
    (SignalParameters : SIGNAL_PARAMETERS) : Bool :=
  if WaitPidRequest > 0 then (SignalParameters.SendingProcess : Int) == WaitPidRequest
  else if WaitPidRequest == 0 then
    match PspGetChildProcessById System System.CurrentProcess
        SignalParameters.SendingProcess with
    | some Process =>
      (System.Process System.CurrentProcess).Identifiers.ProcessGroupId ==
        (System.Process Process).Identifiers.ProcessGroupId
    | none => false
  else if WaitPidRequest == -1 then true
  else
    match PspGetChildProcessById System System.CurrentProcess
        SignalParameters.SendingProcess with
    | some Process =>
      ((System.Process Process).Identifiers.ProcessGroupId : Int) == -WaitPidRequest
    | none => false

/-- The second part of `PspMatchChildWaitRequestWithProcessId`: the `switch`
that filters the reason of the child signal against the wait flags. -/
def PspMatchChildWaitReason (WaitFlags : Nat) (Reason : Nat) : Bool :=
  if Reason == CHILD_SIGNAL_REASON.CHILD_SIGNAL_REASON_EXITED.Code ||
      Reason == CHILD_SIGNAL_REASON.CHILD_SIGNAL_REASON_KILLED.Code ||
      Reason == CHILD_SIGNAL_REASON.CHILD_SIGNAL_REASON_DUMPED.Code then
    WaitFlags &&& SYSTEM_CALL_WAIT_FLAG_EXITED_CHILDREN != 0
  else if Reason == CHILD_SIGNAL_REASON.CHILD_SIGNAL_REASON_STOPPED.Code ||
      Reason == CHILD_SIGNAL_REASON.CHILD_SIGNAL_REASON_TRAPPED.Code then
    WaitFlags &&& SYSTEM_CALL_WAIT_FLAG_STOPPED_CHILDREN != 0
  else if Reason == CHILD_SIGNAL_REASON.CHILD_SIGNAL_REASON_CONTINUED.Code then
    WaitFlags &&& SYSTEM_CALL_WAIT_FLAG_CONTINUED_CHILDREN != 0
  else false

/-- The routine `PspMatchChildWaitRequestWithProcessId`. -/
def PspMatchChildWaitRequestWithProcessId (System : KSYSTEM) (WaitPidRequest : Int)
    (WaitFlags : Nat) (SignalQueueEntry : SIGNAL_QUEUE_ENTRY) : Bool :=
  if SignalQueueEntry.Parameters.SignalNumber != SIGNAL_CHILD_PROCESS_ACTIVITY then false
  else if PspMatchChildWaitProcess System WaitPidRequest SignalQueueEntry.Parameters != false then
    PspMatchChildWaitReason WaitFlags (USHORT SignalQueueEntry.Parameters.SignalCode)
  else false

/-- Modelled from the spec: `PspAddResourceUsages` adds the counters of `Add`
to those of `Destination` (the routine is not part of the sources). -/
def PspAddResourceUsages (Destination Add : RESOURCE_USAGE) : RESOURCE_USAGE :=
  { UserCycles := Destination.UserCycles + Add.UserCycles
    KernelCycles := Destination.KernelCycles + Add.KernelCycles }

/-- The process that holds a child signal entry,
`PARENT_STRUCTURE (SignalEntry, KPROCESS, ChildSignal)`: the process whose
`ChildSignal` is at the address of the entry. -/
def KSYSTEM.ChildSignalOwner (System : KSYSTEM) (SignalEntry : SIGNAL_QUEUE_ENTRY) :
    SYSTEM_PROCESS :=
  (System.Processes.find? fun Process =>
    Process.ChildSignal.Address == SignalEntry.Address).getD SYSTEM_PROCESS.Zero

/-- The system after a write to `Process->ChildResourceUsage`. -/
def KSYSTEM.SetChildResourceUsage (System : KSYSTEM) (Process : Nat)
    (Value : RESOURCE_USAGE) : KSYSTEM :=
  { System with
    Processes :=
      System.Processes.set Process { System.Process Process with ChildResourceUsage := Value } }

/-- The accumulation of the resource usage of a child at the end of
`PspGetChildSignalEntry`, under the test of the "exited children" flag. -/
def PspAccumulateChildResourceUsage (System : KSYSTEM) (WaitFlags : Nat)
    (SignalEntry : SIGNAL_QUEUE_ENTRY) : KSYSTEM :=
  if WaitFlags &&& SYSTEM_CALL_WAIT_FLAG_EXITED_CHILDREN != 0 then
    System.SetChildResourceUsage System.CurrentProcess
      (PspAddResourceUsages
        (PspAddResourceUsages (System.Process System.CurrentProcess).ChildResourceUsage
          (System.ChildSignalOwner SignalEntry).ResourceUsage)
        (System.ChildSignalOwner SignalEntry).ChildResourceUsage)
  else System

/-- The routine `PspGetChildSignalEntry` run in the current process: the entry
that is returned, and the new state. The blocked-deferred list is searched
first, then the queue of the process; `LIST_REMOVE` takes the entry that was
found, the first match, off the list it was found on. -/
def PspGetChildSignalEntry (System : KSYSTEM) (ProcessId : Int) (WaitFlags : Nat) :
    Option SIGNAL_QUEUE_ENTRY × KSYSTEM :=
  match (System.Process System.CurrentProcess).Process.BlockedSignalListHead.find?
      (PspMatchChildWaitRequestWithProcessId System ProcessId WaitFlags) with
  | some SignalEntry =>
    if WaitFlags &&& SYSTEM_CALL_WAIT_FLAG_DONT_DISCARD_CHILD != 0 then (some SignalEntry, System)
    else
      (some SignalEntry,
        PspAccumulateChildResourceUsage
          (System.SetProcess System.CurrentProcess
            { (System.Process System.CurrentProcess).Process with
              BlockedSignalListHead :=
                (System.Process System.CurrentProcess).Process.BlockedSignalListHead.eraseP
                  (PspMatchChildWaitRequestWithProcessId System ProcessId WaitFlags) })
          WaitFlags SignalEntry)
  | none =>
    match (System.Process System.CurrentProcess).Process.SignalListHead.find?
        (PspMatchChildWaitRequestWithProcessId System ProcessId WaitFlags) with
    | some SignalEntry =>
      if WaitFlags &&& SYSTEM_CALL_WAIT_FLAG_DONT_DISCARD_CHILD != 0 then
        (some SignalEntry, System)
      else
        (some SignalEntry,
          PspAccumulateChildResourceUsage
            (System.SetProcess System.CurrentProcess
              { (System.Process System.CurrentProcess).Process with
                SignalListHead :=
                  (System.Process System.CurrentProcess).Process.SignalListHead.eraseP
                    (PspMatchChildWaitRequestWithProcessId System ProcessId WaitFlags) })
            WaitFlags SignalEntry)
    | none => (none, System)


/-- The parameters of the `WaitForChildProcess` system call; `ResourceUsage`
tells whether the user pointer of that name is non-null. -/
structure SYSTEM_CALL_WAIT_FOR_CHILD where
  Flags : Nat
  ChildPid : Int
  Reason : Int
  ChildExitValue : Nat
  ResourceUsage : Bool
  Status : KSTATUS
  deriving DecidableEq, Repr

/-- What a `WaitForChildProcess` system call leaves behind: the parameters as
they are handed back, the parameter blocks that the signal dispatch gave to
`PsApplySynchronousSignal`, the resource usage records given to
`MmCopyToUserMode`, and the state. -/
structure WAIT_FOR_CHILD where
  Parameters : SYSTEM_CALL_WAIT_FOR_CHILD
  AppliedSignals : List SIGNAL_PARAMETERS
  CopiedUsage : List RESOURCE_USAGE
  System : KSYSTEM

/-- What `PsDispatchPendingSignalsOnCurrentThread` leaves behind: the returned
signal number, the parameter block given to `PsApplySynchronousSignal` if a
signal was dequeued, and the state. -/
structure DISPATCH_RESULT where
  SignalNumber : Nat
  AppliedSignals : List SIGNAL_PARAMETERS
  Process : KPROCESS

/-- The routine `PsDispatchPendingSignalsOnCurrentThread` run by the thread
`CurrentThread`; `none` when the dequeue does not come back. The call of
`PsApplySynchronousSignal`, which works on the trap frame, is recorded. -/
def PsDispatchPendingSignalsOnCurrentThread (Env : KERNEL_ENVIRONMENT) (Process : KPROCESS)
    (CurrentThread : Nat) : Option DISPATCH_RESULT :=
  match PspDequeuePendingSignal Env Process CurrentThread SIGNAL_PARAMETERS.Zero with
  | none => none
  | some Dequeue =>
    if Dequeue.DequeuedSignal == ULONG_MINUS_ONE then
      some ⟨ULONG_MINUS_ONE, [], Dequeue.Process⟩
    else some ⟨Dequeue.DequeuedSignal, [Dequeue.SignalParameters], Dequeue.Process⟩

/-- The end of `PsSysWaitForChildProcess`: the statements after the label
`SysWaitForChildProcessEnd`. -/
def PsSysWaitForChildProcessEnd (Parameters : SYSTEM_CALL_WAIT_FOR_CHILD) (Status : KSTATUS) :
    SYSTEM_CALL_WAIT_FOR_CHILD :=
  if !KSUCCESS Status then { Parameters with ChildPid := -1, Status := Status }
  else { Parameters with Status := Status }

/-- The part of a pass of the loop of `PsSysWaitForChildProcess` that follows
the signal dispatch: `SignalNumber` is what the dispatch returned, `Applied` the
parameter blocks applied so far, `CopyStatus` what `MmCopyToUserMode` returns.
The result is `none` when the pass ends in `KeSuspendExecution`. The completion
routine of a discarded entry is recorded in the current process. -/
def PsSysWaitForChildProcessPass (CopyStatus : KSTATUS)
    (Parameters : SYSTEM_CALL_WAIT_FOR_CHILD) (SignalNumber : Nat)
    (Applied : List SIGNAL_PARAMETERS) (System : KSYSTEM) : Option WAIT_FOR_CHILD :=
  match (PspGetChildSignalEntry System Parameters.ChildPid Parameters.Flags).1 with
  | some SignalQueueEntry =>
    some
      { Parameters :=
          PsSysWaitForChildProcessEnd
            { Parameters with
              ChildPid := (SignalQueueEntry.Parameters.SendingProcess : Int)
              Reason := SignalQueueEntry.Parameters.SignalCode
              ChildExitValue := SignalQueueEntry.Parameters.Parameter }
            (if Parameters.ResourceUsage then CopyStatus else .STATUS_SUCCESS)
        AppliedSignals := Applied
        CopiedUsage :=
          if Parameters.ResourceUsage then
            [((PspGetChildSignalEntry System Parameters.ChildPid
              Parameters.Flags).2.ChildSignalOwner SignalQueueEntry).ResourceUsage]
          else []
        System :=
          if ((PspGetChildSignalEntry System Parameters.ChildPid
                Parameters.Flags).2.CurrentSignals.EntryAt SignalQueueEntry.Address).isNone then
            (PspGetChildSignalEntry System Parameters.ChildPid Parameters.Flags).2.SetProcess
              System.CurrentProcess
              ((PspGetChildSignalEntry System Parameters.ChildPid
                Parameters.Flags).2.CurrentSignals.Complete SignalQueueEntry)
          else (PspGetChildSignalEntry System Parameters.ChildPid Parameters.Flags).2 }
  | none =>
    if Parameters.Flags &&& SYSTEM_CALL_WAIT_FLAG_RETURN_IMMEDIATELY != 0 then
      some
        { Parameters := PsSysWaitForChildProcessEnd Parameters .STATUS_NO_DATA_AVAILABLE
          AppliedSignals := Applied
          CopiedUsage := []
          System := (PspGetChildSignalEntry System Parameters.ChildPid Parameters.Flags).2 }
    else if SignalNumber != ULONG_MINUS_ONE then
      some
        { Parameters := PsSysWaitForChildProcessEnd Parameters .STATUS_INTERRUPTED
          AppliedSignals := Applied
          CopiedUsage := []
          System := (PspGetChildSignalEntry System Parameters.ChildPid Parameters.Flags).2 }
    else none

/-- The loop `while (TRUE)` of `PsSysWaitForChildProcess`, one list of arriving
signals for each pass: the signals that `PsCheckRuntimeTimers` and the other
threads and processes have sent to the current process when the pass dispatches.
The result is `none` when the dispatch of a pass does not come back, and when
the thread is still suspended after the last round. -/
def PsSysWaitForChildProcessLoop (Env : KERNEL_ENVIRONMENT) (CopyStatus : KSTATUS) :
    List (List SIGNAL_ARRIVAL) → SYSTEM_CALL_WAIT_FOR_CHILD → List SIGNAL_PARAMETERS →
      KSYSTEM → Option WAIT_FOR_CHILD
  | [], _, _, _ => none
  | Arrivals :: Rounds, Parameters, Applied, System =>
    if !KSUCCESS (PspValidateWaitParameters System System.CurrentProcess Parameters.ChildPid) then
      some
        { Parameters :=
            PsSysWaitForChildProcessEnd Parameters
              (PspValidateWaitParameters System System.CurrentProcess Parameters.ChildPid)
          AppliedSignals := Applied
          CopiedUsage := []
          System := System }
    else
      match PsDispatchPendingSignalsOnCurrentThread Env
          (Arrivals.foldl (PsSignalArrival Env) System.CurrentSignals) System.CurrentThread with
      | none => none
      | some Dispatch =>
        match PsSysWaitForChildProcessPass CopyStatus Parameters Dispatch.SignalNumber
            (Applied ++ Dispatch.AppliedSignals)
            (System.SetProcess System.CurrentProcess Dispatch.Process) with
        | some Result => some Result
        | none =>
          PsSysWaitForChildProcessLoop Env CopyStatus Rounds Parameters
            (Applied ++ Dispatch.AppliedSignals)
            (System.SetProcess System.CurrentProcess Dispatch.Process)

/-- The routine `PsSysWaitForChildProcess`. `PsDispatchPendingSignals` is
`PsDispatchPendingSignalsOnCurrentThread`. -/
def PsSysWaitForChildProcess (Env : KERNEL_ENVIRONMENT) (System : KSYSTEM)
    (CopyStatus : KSTATUS) (Parameters : SYSTEM_CALL_WAIT_FOR_CHILD)
    (Rounds : List (List SIGNAL_ARRIVAL)) : Option WAIT_FOR_CHILD :=
  if Parameters.Flags &&& SYSTEM_CALL_WAIT_FLAG_CHILD_MASK == 0 then
    some
      { Parameters := PsSysWaitForChildProcessEnd Parameters .STATUS_INVALID_PARAMETER
        AppliedSignals := []
        CopiedUsage := []
        System := System }
  else PsSysWaitForChildProcessLoop Env CopyStatus Rounds Parameters [] System

/-! ## Child signals -/

/-- The test `SignalQueueEntry->ListEntry.Next != NULL` for the entry at an
address: the entry is on a list of some process. -/
def KSYSTEM.Linked (System : KSYSTEM) (Address : Nat) : Bool :=
  System.Processes.any fun Process => (Process.Process.EntryAt Address).isSome

/-- The statement `LIST_REMOVE (&(SignalQueueEntry->ListEntry))` for the entry
at an address: the entry leaves the list it is on, in whichever process that
list is. -/
def KSYSTEM.ListRemove (System : KSYSTEM) (Address : Nat) : KSYSTEM :=
  { System with
    Processes :=
      System.Processes.map fun Process =>
        { Process with Process := Process.Process.Unlink Address } }

/-- The system after a write to the child signal entry of a process and to its
`ChildSignalDestination`. -/
def KSYSTEM.SetChildSignal (System : KSYSTEM) (Process : Nat)
    (ChildSignal : SIGNAL_QUEUE_ENTRY) (Destination : Option Nat) : KSYSTEM :=
  { System with
    Processes :=
      System.Processes.set Process
        { System.Process Process with
          ChildSignal := ChildSignal
          ChildSignalDestination := Destination } }

/-- The child signal entry of a process as `PspQueueChildSignal` fills it in;
the completion routine is `PspChildSignalCompletionRoutine`. -/
def PspChildSignalEntry (System : KSYSTEM) (Process : Nat) (ExitStatus : Nat)
    (Reason : CHILD_SIGNAL_REASON) : SIGNAL_QUEUE_ENTRY :=
  { (System.Process Process).ChildSignal with
    Parameters :=
      { SignalNumber := SIGNAL_CHILD_PROCESS_ACTIVITY
        SignalCode := (Reason.Code : Int)
        SendingProcess := (System.Process Process).Identifiers.ProcessId
        SendingUserId := 0
        Parameter := ExitStatus }
    CompletionRoutine := true }

/-- The routine `PspQueueChildSignal` for the child `Process`. The `ChildSignal`
field of the child records the address, the parameters and the completion
routine of its entry; the entry as it is linked is on a list of the destination.
A linked entry is on a list of `ChildSignalDestination`, whose lock is taken for
the removal. The object references are not modelled. -/
def PspQueueChildSignal (Env : KERNEL_ENVIRONMENT) (System : KSYSTEM) (Process : Nat)
    (Destination : Option Nat) (ExitStatus : Nat) (Reason : CHILD_SIGNAL_REASON) : KSYSTEM :=
  match Destination with
  | none => System
  | some Destination =>
    if Destination == System.KernelProcess then System
    else
      ((if System.Linked (System.Process Process).ChildSignal.Address then
          System.ListRemove (System.Process Process).ChildSignal.Address
        else System).SetChildSignal Process
          (PspChildSignalEntry System Process ExitStatus Reason) (some Destination)).SetProcess
        Destination
        (PsSignalProcess Env
          ((if System.Linked (System.Process Process).ChildSignal.Address then
              System.ListRemove (System.Process Process).ChildSignal.Address
            else System).Process Destination).Process
          SIGNAL_CHILD_PROCESS_ACTIVITY
          (some (PspChildSignalEntry System Process ExitStatus Reason)))

/-! ## Tracer break: the stop of the process -/

/-- The update of `Process->DebugData->...`, when the process has debug
data. -/
def KPROCESS.SetDebugData (Process : KPROCESS)
    (Update : PROCESS_DEBUG_DATA → PROCESS_DEBUG_DATA) : KPROCESS :=
  { Process with DebugData := Process.DebugData.map Update }

/-- The signalled state of `Process->DebugData->AllStoppedEvent`. -/
def KPROCESS.AllStoppedEvent (Process : KPROCESS) : Bool :=
  match Process.DebugData with
  | some DebugData => DebugData.AllStoppedEvent
  | none => false

/-- The routine `PspMarkThreadStopped`: the returned boolean is `*FirstThread`.
The count of stopped threads is a 32-bit value; with debug data present the
thread that brings it up to the thread count signals the all-stopped event. -/
def PspMarkThreadStopped (Process : KPROCESS) : Bool × KPROCESS :=
  (ULONG (Process.StoppedThreadCount + 1) == 1,
    if ULONG (Process.StoppedThreadCount + 1) == Process.ThreadCount then
      ({ Process with StoppedThreadCount := ULONG (Process.StoppedThreadCount + 1) } :
        KPROCESS).SetDebugData fun DebugData => { DebugData with AllStoppedEvent := true }
    else { Process with StoppedThreadCount := ULONG (Process.StoppedThreadCount + 1) })

/-- What `PspTracerBreak` has done when it returns or enters a wait: the
parameter block, the local `StopHandled` (stored through `ThreadStopHandled`
at the end of the routine), the calls `PspArchSetOrClearSingleStep (TrapFrame,
Set)` in order, the child signals queued to the tracing process, each as exit
status and reason, and the state of the process. -/
structure TRACER_BREAK where
  Signal : SIGNAL_PARAMETERS
  StopHandled : Bool
  SingleStep : List Bool
  ChildSignalsToTracer : List (Nat × CHILD_SIGNAL_REASON)
  Process : KPROCESS
  deriving DecidableEq

/-- How far the thread gets in `PspTracerBreak` on its own: it returns, or it
comes to a wait that only another thread or the tracer can end (the tracer lock
held by another thread, the all-stopped event, the stop event). -/
inductive TRACER_BREAK_OUTCOME where
  | Returned (Break : TRACER_BREAK)
  | WaitsForTracerLock (Break : TRACER_BREAK)
  | WaitsForAllStopped (Break : TRACER_BREAK)
  | WaitsForStopEvent (Break : TRACER_BREAK)
  deriving DecidableEq

/-- The code at the label `TracerBreakEnd`: the tracer lock is released when
the routine holds it. -/
def PspTracerBreakEnd (LockHeld : Bool) (Break : TRACER_BREAK) : TRACER_BREAK :=
  if LockHeld != false then
    { Break with
      Process := Break.Process.SetDebugData fun DebugData =>
        { DebugData with TracerLock := false } }
  else Break

/-- The local `InRange` of `PspTracerBreak`: the instruction pointer is inside
the break range and not inside the hole. -/
def PspTracerBreakInRange (BreakRange : PROCESS_DEBUG_BREAK_RANGE)
    (InstructionPointer : Nat) : Bool :=
  if decide (InstructionPointer ≥ BreakRange.BreakRangeStart) &&
      decide (InstructionPointer < BreakRange.BreakRangeEnd) then
    if decide (InstructionPointer ≥ BreakRange.RangeHoleStart) &&
        decide (InstructionPointer < BreakRange.RangeHoleEnd) then false
    else true
  else false

/-- The removal of STOP from the pending sets before the tracer is told: from
the set of the thread when the signal is STOP and the thread has it pending,
and from the set of the process when a STOP was sent or the thread had none. -/
def PspTracerBreakRemoveStop (Process : KPROCESS) (CurrentThread : Nat)
    (Signal : SIGNAL_PARAMETERS) (StopSent : Bool) : KPROCESS :=
  if Signal.SignalNumber == SIGNAL_STOP || StopSent != false then
    if Signal.SignalNumber == SIGNAL_STOP then
      if IS_SIGNAL_SET (Process.Thread CurrentThread).PendingSignals SIGNAL_STOP != false then
        if StopSent != false then
          { Process.SetThread CurrentThread
              { Process.Thread CurrentThread with
                PendingSignals :=
                  REMOVE_SIGNAL (Process.Thread CurrentThread).PendingSignals SIGNAL_STOP } with
            PendingSignals := REMOVE_SIGNAL Process.PendingSignals SIGNAL_STOP }
        else
          Process.SetThread CurrentThread
            { Process.Thread CurrentThread with
              PendingSignals :=
                REMOVE_SIGNAL (Process.Thread CurrentThread).PendingSignals SIGNAL_STOP }
      else { Process with PendingSignals := REMOVE_SIGNAL Process.PendingSignals SIGNAL_STOP }
    else { Process with PendingSignals := REMOVE_SIGNAL Process.PendingSignals SIGNAL_STOP }
  else Process

/-- The part of `PspTracerBreak` behind the check for a pending KILL, up to
the wait for the tracer: the debug command is invalidated and the stop event
unsignalled, the thread is marked stopped unless it is already, the tracer stop
is requested, a STOP is sent to a process of more than one thread, and the
thread waits for the all-stopped event. When that event is signalled the thread
becomes the debug leader, takes STOP out of the pending sets, queues the child
signal to the tracing process and waits on the stop event. -/
def PspTracerBreakStopThreads (Env : KERNEL_ENVIRONMENT) (Process : KPROCESS)
    (CurrentThread : Nat) (Signal : SIGNAL_PARAMETERS) (ThreadAlreadyStopped : Bool)
    (SingleStep : List Bool) : TRACER_BREAK_OUTCOME :=
  let Process1 : KPROCESS :=
    { (Process.SetDebugData fun DebugData =>
        { DebugData with
          DebugCommand := { DebugData.DebugCommand with Command := .DebugCommandInvalid } }) with
      StopEvent := false }
  let Process2 :=
    if ThreadAlreadyStopped == false then (PspMarkThreadStopped Process1).2 else Process1
  let Process3 :=
    Process2.SetDebugData fun DebugData => { DebugData with TracerStopRequested := true }
  let StopSent := decide (Process3.ThreadCount > 1)
  let Process4 :=
    if StopSent then PsSignalProcess Env Process3 SIGNAL_STOP none else Process3
  if Process4.AllStoppedEvent == false then
    .WaitsForAllStopped ⟨Signal, false, SingleStep, [], Process4⟩
  else
    let Process5 :=
      Process4.SetDebugData fun DebugData =>
        { DebugData with
          AllStoppedEvent := false
          TracerStopRequested := false
          DebugLeaderThread := some CurrentThread }
    .WaitsForStopEvent
      ⟨Signal, false, SingleStep,
        [(Signal.SignalNumber,
          if Signal.SignalNumber == SIGNAL_CONTINUE then .CHILD_SIGNAL_REASON_CONTINUED
          else .CHILD_SIGNAL_REASON_TRAPPED)],
        PspTracerBreakRemoveStop Process5 CurrentThread Signal StopSent⟩

/-- The part of `PspTracerBreak` that copies the signal into the tracer signal
information and then, under the lock of the process, looks for a pending KILL:
with KILL pending the routine goes to its end. -/
def PspTracerBreakSynchronize (Env : KERNEL_ENVIRONMENT) (Process : KPROCESS)
    (CurrentThread : Nat) (Signal : SIGNAL_PARAMETERS) (ThreadAlreadyStopped : Bool)
    (SingleStep : List Bool) : TRACER_BREAK_OUTCOME :=
  if IS_SIGNAL_SET Process.PendingSignals SIGNAL_KILL != false then
    .Returned
      (PspTracerBreakEnd true
        ⟨Signal, false, SingleStep, [],
          Process.SetDebugData fun DebugData =>
            { DebugData with TracerSignalInformation := Signal }⟩)
  else
    PspTracerBreakStopThreads Env
      (Process.SetDebugData fun DebugData =>
        { DebugData with TracerSignalInformation := Signal })
      CurrentThread Signal ThreadAlreadyStopped SingleStep

/-- The part of `PspTracerBreak` that runs once the tracer lock is held: the
second look at the tracing process, and the end of a single step or of a range
step on a trap signal. -/
def PspTracerBreakLocked (Env : KERNEL_ENVIRONMENT) (Process : KPROCESS)
    (DebugData : PROCESS_DEBUG_DATA) (CurrentThread : Nat) (Signal : SIGNAL_PARAMETERS)
    (InstructionPointer : Nat) (ThreadAlreadyStopped : Bool) : TRACER_BREAK_OUTCOME :=
  if DebugData.TracingProcess == none then
    .Returned (PspTracerBreakEnd true ⟨Signal, false, [], [], Process⟩)
  else if Signal.SignalNumber == SIGNAL_TRAP &&
      (DebugData.DebugCommand.PreviousCommand == .DebugCommandSingleStep ||
        DebugData.DebugCommand.PreviousCommand == .DebugCommandRangeStep) then
    if DebugData.DebugCommand.PreviousCommand == .DebugCommandRangeStep &&
        PspTracerBreakInRange DebugData.BreakRange InstructionPointer == false then
      .Returned
        (PspTracerBreakEnd true
          ⟨{ Signal with SignalNumber := 0 }, false, [false, true], [], Process⟩)
    else
      PspTracerBreakSynchronize Env Process CurrentThread Signal ThreadAlreadyStopped [false]
  else PspTracerBreakSynchronize Env Process CurrentThread Signal ThreadAlreadyStopped []

/-- The routine `PspTracerBreak` run by the thread `CurrentThread`, from its
entry to its return or to its first wait. `InstructionPointer` is what
`ArGetInstructionPointer (TrapFrame)` gives. Without a tracer the parameter
block is the one of `PspTracerBreak` above. With a tracer the thread tries for
the tracer lock: when another thread holds it the thread spins, or stops when
a tracer stop is requested; when the lock is free the thread takes it and goes
on. -/
def PspTracerBreakBegin (Env : KERNEL_ENVIRONMENT) (Process : KPROCESS) (CurrentThread : Nat)
    (Signal : SIGNAL_PARAMETERS) (InstructionPointer : Nat) (ThreadAlreadyStopped : Bool) :
    TRACER_BREAK_OUTCOME :=
  if !Process.HasTracer then
    .Returned (PspTracerBreakEnd false ⟨PspTracerBreak Env Process Signal, false, [], [], Process⟩)
  else
    match Process.DebugData with
    | none => .Returned (PspTracerBreakEnd false ⟨Signal, false, [], [], Process⟩)
    | some DebugData =>
      if DebugData.TracerLock then
        if DebugData.TracerStopRequested != false then
          .WaitsForStopEvent
            ⟨Signal, false, [], [],
              if ThreadAlreadyStopped == false then (PspMarkThreadStopped Process).2
              else Process⟩
        else .WaitsForTracerLock ⟨Signal, false, [], [], Process⟩
      else
        PspTracerBreakLocked Env
          (Process.SetDebugData fun DebugData => { DebugData with TracerLock := true })
          DebugData CurrentThread Signal InstructionPointer ThreadAlreadyStopped

/-! ## Sets and predicates of the specification -/

/-- The set `effective` of the specification: the signals pending for the
thread or the process that the thread neither blocks nor runs, without STOP
and KILL. -/
def EffectiveSignals (Process : KPROCESS) (CurrentThread : Nat) : SIGNAL_SET :=
  REMOVE_SIGNAL
    (REMOVE_SIGNAL
      (REMOVE_SIGNALS_FROM_SET
        (REMOVE_SIGNALS_FROM_SET
          (OR_SIGNAL_SETS (Process.Thread CurrentThread).PendingSignals Process.PendingSignals)
          (Process.Thread CurrentThread).BlockedSignals)
        (Process.Thread CurrentThread).RunningSignals)
      SIGNAL_STOP)
    SIGNAL_KILL

/-- KILL or STOP is pending for the thread or for its process. -/
def NonMaskablePending (Process : KPROCESS) (CurrentThread : Nat) : Bool :=
  IS_SIGNAL_SET (Process.Thread CurrentThread).PendingSignals SIGNAL_KILL ||
  IS_SIGNAL_SET Process.PendingSignals SIGNAL_KILL ||
  IS_SIGNAL_SET (Process.Thread CurrentThread).PendingSignals SIGNAL_STOP ||
  IS_SIGNAL_SET Process.PendingSignals SIGNAL_STOP

/-- The pending sets of the thread and of the process hold standard signals
only (signals 1 to 31, bits 0 to 30). -/
def PendingSignalsStandard (Process : KPROCESS) (CurrentThread : Nat) : Prop :=
  (Process.Thread CurrentThread).PendingSignals < 2 ^ (STANDARD_SIGNAL_COUNT - 1) ∧
  Process.PendingSignals < 2 ^ (STANDARD_SIGNAL_COUNT - 1)

/-- The mask `SavedSignalMask` of `PspDequeuePendingSignal`, from the state in
which the routine is entered. -/
def DequeueSavedSignalMask (Process : KPROCESS) (CurrentThread : Nat) : SIGNAL_SET :=
  ULONG (REMOVE_SIGNALS_FROM_SET
    (ULONG (REMOVE_SIGNALS_FROM_SET
      (ULONG (OR_SIGNAL_SETS (Process.Thread CurrentThread).PendingSignals
        Process.PendingSignals))
      (Process.Thread CurrentThread).BlockedSignals))
    (Process.Thread CurrentThread).RunningSignals)

/-- The mask `CombinedSignalMask` of `PspDequeuePendingSignal` when the loop
over the standard signals starts. -/
def DequeueCombinedSignalMask (Process : KPROCESS) (CurrentThread : Nat) : SIGNAL_SET :=
  ULONG (REMOVE_SIGNAL
    (ULONG (REMOVE_SIGNAL (DequeueSavedSignalMask Process CurrentThread) SIGNAL_STOP))
    SIGNAL_KILL)

/-- The state of `PspDequeuePendingSignal` after "no signal pending" has been
stored. -/
def DequeueClearedPending (Process : KPROCESS) (CurrentThread : Nat) : KPROCESS :=
  Process.SetThread CurrentThread
    { Process.Thread CurrentThread with SignalPending := .ThreadNoSignalPending }

/-- The loop over the standard signals as `PspDequeuePendingSignal` runs it. -/
def DequeueStandardLoop (Env : KERNEL_ENVIRONMENT) (Process : KPROCESS)
    (CurrentThread : Nat) : STANDARD_SIGNAL_LOOP :=
  if IS_SIGNAL_SET_EMPTY (DequeueCombinedSignalMask Process CurrentThread) == false then
    PspDequeueStandardSignals Env CurrentThread (Process.Thread CurrentThread).PendingSignals
      Process.PendingSignals (DequeueCombinedSignalMask Process CurrentThread)
      (STANDARD_SIGNAL_COUNT -
        (RtlCountTrailingZeros64 (DequeueCombinedSignalMask Process CurrentThread) + 1))
      (RtlCountTrailingZeros64 (DequeueCombinedSignalMask Process CurrentThread) + 1)
      (DequeueSavedSignalMask Process CurrentThread)
      (DequeueClearedPending Process CurrentThread)
  else
    ⟨none, DequeueSavedSignalMask Process CurrentThread,
      DequeueClearedPending Process CurrentThread⟩

/-- What the dequeue path keeps of a process state: the tracer, the handled
set, the threads on the list, the blocked set and the queue of the thread, the
process queue and the blocked-deferred list. -/
def DequeueFrame (CurrentThread : Nat) (Before After : KPROCESS) : Prop :=
  After.HasTracer = Before.HasTracer ∧
  After.HandledSignals = Before.HandledSignals ∧
  After.ThreadListHead.length = Before.ThreadListHead.length ∧
  (After.Thread CurrentThread).BlockedSignals = (Before.Thread CurrentThread).BlockedSignals ∧
  After.SignalListHead = Before.SignalListHead ∧
  After.BlockedSignalListHead = Before.BlockedSignalListHead ∧
  (After.Thread CurrentThread).SignalListHead = (Before.Thread CurrentThread).SignalListHead ∧
  After.CompletedSignals = Before.CompletedSignals

/-- The entry is on the blocked-deferred list, on the process queue or on the
queue of the thread. -/
def EntryLinked (Process : KPROCESS) (CurrentThread : Nat) (Entry : SIGNAL_QUEUE_ENTRY) :
    Prop :=
  Entry ∈ Process.BlockedSignalListHead ∨ Entry ∈ Process.SignalListHead ∨
    Entry ∈ (Process.Thread CurrentThread).SignalListHead

/-- The queue walk discards the entry: its signal is not handled, ignored by
default and not the child signal. -/
def EntryDiscarded (Env : KERNEL_ENVIRONMENT) (Process : KPROCESS)
    (Entry : SIGNAL_QUEUE_ENTRY) : Bool :=
  IS_SIGNAL_SET Process.HandledSignals Entry.Parameters.SignalNumber == false &&
    Env.IS_SIGNAL_DEFAULT_IGNORE Entry.Parameters.SignalNumber &&
    Entry.Parameters.SignalNumber != SIGNAL_CHILD_PROCESS_ACTIVITY

/-- The queue walk takes the entry: its signal is not ignored by default while
unhandled, it is not blocked for the thread and the entry has not been
delivered yet. -/
def EntryEligible (Env : KERNEL_ENVIRONMENT) (Process : KPROCESS) (Thread : KTHREAD)
    (Entry : SIGNAL_QUEUE_ENTRY) : Bool :=
  !(IS_SIGNAL_SET Process.HandledSignals Entry.Parameters.SignalNumber == false &&
      Env.IS_SIGNAL_DEFAULT_IGNORE Entry.Parameters.SignalNumber) &&
    !IS_SIGNAL_BLOCKED Thread Entry.Parameters.SignalNumber &&
    Entry.Delivered == false

/-- The entry, marked delivered, is handed to its completion routine, or is
put on the blocked-deferred list when it is a child signal. -/
def EntryDelivered (Process : KPROCESS) (Entry : SIGNAL_QUEUE_ENTRY) : Prop :=
  if Entry.Parameters.SignalNumber = SIGNAL_CHILD_PROCESS_ACTIVITY then
    { Entry with Delivered := true } ∈ Process.BlockedSignalListHead
  else
    Entry.CompletionRoutine = true → { Entry with Delivered := true } ∈ Process.CompletedSignals

/-- STOP and KILL are absent from a signal set. -/
def NoStopKill (SignalSet : SIGNAL_SET) : Prop :=
  IS_SIGNAL_SET SignalSet SIGNAL_STOP = false ∧ IS_SIGNAL_SET SignalSet SIGNAL_KILL = false

/-- The operations that touch a blocked set: `PsSetSignalMask`,
`PsSysSetSignalBehavior`, the two mask phases of `PsSysSuspendExecution`, and
`PspQueueSignal`. -/
inductive MASK_OPERATION where
  | SetSignalMask (CurrentThread : Nat) (NewMask : SIGNAL_SET)
  | SetSignalBehavior (CurrentThread : Nat) (Parameters : SYSTEM_CALL_SET_SIGNAL_BEHAVIOR)
  | SuspendExecutionModifyMask (CurrentThread : Nat) (SignalOperation : SIGNAL_MASK_OPERATION)
      (SignalSet : SIGNAL_SET)
  | SuspendExecutionRestoreMask (CurrentThread : Nat)
  | QueueSignal (Thread : Option Nat) (SignalNumber : Nat)
      (SignalQueueEntry : Option SIGNAL_QUEUE_ENTRY) (Force : Bool)

/-- A run of mask operations: the process, and for every thread that is inside
`PsSysSuspendExecution` the locals `OriginalMask` and `RestoreOriginalMask` of
its call. -/
structure MASK_RUN where
  Process : KPROCESS
  Suspended : List (Nat × SIGNAL_SET × Bool)

/-- One operation of a run. A suspend call saves its locals when it changes
the mask and takes them back when it restores it. -/
def StepMaskOperation (Env : KERNEL_ENVIRONMENT) (Run : MASK_RUN) :
    MASK_OPERATION → MASK_RUN
  | .SetSignalMask CurrentThread NewMask =>
    { Run with Process := (PsSetSignalMask Env Run.Process CurrentThread NewMask).2 }
  | .SetSignalBehavior CurrentThread Parameters =>
    { Run with Process := (PsSysSetSignalBehavior Env Run.Process CurrentThread Parameters).2 }
  | .SuspendExecutionModifyMask CurrentThread SignalOperation SignalSet =>
    let Modified :=
      PsSysSuspendExecutionModifyMask Env Run.Process CurrentThread SignalOperation SignalSet
    { Process := Modified.Process
      Suspended :=
        (CurrentThread, Modified.OriginalMask, Modified.RestoreOriginalMask) :: Run.Suspended }
  | .SuspendExecutionRestoreMask CurrentThread =>
    match Run.Suspended.find? (fun Saved => Saved.1 == CurrentThread) with
    | some Saved =>
      { Process :=
          PsSysSuspendExecutionRestoreMask Env Run.Process CurrentThread Saved.2.1 Saved.2.2
        Suspended := Run.Suspended.filter (fun Other => Other.1 != CurrentThread) }
    | none => Run
  | .QueueSignal Thread SignalNumber SignalQueueEntry Force =>
    { Run with
      Process := PspQueueSignal Env Run.Process Thread SignalNumber SignalQueueEntry Force }

/-- A sequence of mask operations, run from left to right. -/
def RunMaskOperations (Env : KERNEL_ENVIRONMENT) (Operations : List MASK_OPERATION)
    (Run : MASK_RUN) : MASK_RUN :=
  Operations.foldl (StepMaskOperation Env) Run

/-- The invariant of a run for the thread `Thread`: its blocked set holds
neither STOP nor KILL, and neither does a mask that a suspend call of the
thread has saved. -/
def MaskRunInvariant (Thread : Nat) (Run : MASK_RUN) : Prop :=
  NoStopKill (Run.Process.Thread Thread).BlockedSignals ∧
  ∀ Saved ∈ Run.Suspended, Saved.1 = Thread → NoStopKill Saved.2.1

/-- The state after the statement `REMOVE_SIGNAL (Thread->BlockedSignals,
SignalNumber)` of a forced signal. -/
def ForceUnblocked (Process : KPROCESS) (Target SignalNumber : Nat) : KPROCESS :=
  Process.SetThread Target
    { Process.Thread Target with
      BlockedSignals := REMOVE_SIGNAL (Process.Thread Target).BlockedSignals SignalNumber }

/-- No signal is a member of both sets. -/
def SignalSetsDisjoint (Set1 Set2 : SIGNAL_SET) : Prop :=
  ∀ SignalNumber, IS_SIGNAL_SET Set1 SignalNumber = true →
    IS_SIGNAL_SET Set2 SignalNumber = false

/-- The local `NewMask` of `PsSysSetSignalBehavior` after STOP and KILL have
been removed from the input set. -/
def BehaviorNewMask (SignalSet : SIGNAL_SET) : SIGNAL_SET :=
  REMOVE_SIGNAL (REMOVE_SIGNAL SignalSet SIGNAL_STOP) SIGNAL_KILL

/-- The state after `PsSysSetSignalBehavior` with operation Overwrite. -/
def SetBehaviorOverwrite (Env : KERNEL_ENVIRONMENT) (Process : KPROCESS) (CurrentThread : Nat)
    (MaskType : SIGNAL_MASK_TYPE) (SignalSet : SIGNAL_SET) : KPROCESS :=
  (PsSysSetSignalBehavior Env Process CurrentThread
    ⟨MaskType, .SignalMaskOperationOverwrite, SignalSet⟩).2

/-- The state after two `PsSysSetSignalBehavior` calls with operation Overwrite
on the same mask, the first with `SignalSet1` and the second with
`SignalSet2`. -/
def SetBehaviorOverwriteTwice (Env : KERNEL_ENVIRONMENT) (Process : KPROCESS)
    (CurrentThread : Nat) (MaskType : SIGNAL_MASK_TYPE) (SignalSet1 SignalSet2 : SIGNAL_SET) :
    KPROCESS :=
  SetBehaviorOverwrite Env (SetBehaviorOverwrite Env Process CurrentThread MaskType SignalSet1)
    CurrentThread MaskType SignalSet2

/-- An entry with this address is on a list of the process. -/
def KPROCESS.Linked (Process : KPROCESS) (Address : Nat) : Prop :=
  ∃ SignalEntry : SIGNAL_QUEUE_ENTRY, SignalEntry.Address = Address ∧
    (SignalEntry ∈ Process.BlockedSignalListHead ∨ SignalEntry ∈ Process.SignalListHead ∨
      ∃ Thread ∈ Process.ThreadListHead, SignalEntry ∈ Thread.SignalListHead)

/-- A process that the iterator does not pass over: it is neither the process
to skip nor the kernel process. -/
def SendExamined (System : KSYSTEM) (Iterator : SEND_SIGNAL_ITERATOR_CONTEXT) (Process : Nat) :
    Bool :=
  !(some Process == Iterator.SkipProcess || Process == System.KernelProcess)

/-- An examined process whose permission check fails. -/
def SendRefused (System : KSYSTEM) (Iterator : SEND_SIGNAL_ITERATOR_CONTEXT) (Process : Nat) :
    Bool :=
  SendExamined System Iterator Process && Iterator.CheckPermissions &&
    !KSUCCESS (PspCheckSendSignalPermission System Process Iterator.Signal)

/-- An examined process whose permission check succeeds, or is not made. -/
def SendEligible (System : KSYSTEM) (Iterator : SEND_SIGNAL_ITERATOR_CONTEXT) (Process : Nat) :
    Bool :=
  SendExamined System Iterator Process &&
    (!Iterator.CheckPermissions ||
      KSUCCESS (PspCheckSendSignalPermission System Process Iterator.Signal))

/-- The signal of the iterator sent to each process of a sequence, in order. -/
def SendToEach (Env : KERNEL_ENVIRONMENT) (Iterator : SEND_SIGNAL_ITERATOR_CONTEXT) :
    List Nat → KSYSTEM → KSYSTEM
  | [], System => System
  | Process :: Rest, System =>
    SendToEach Env Iterator Rest (PspSendSignalIteratorSend Env System Iterator Process)

/-- The status of the last process of the sequence whose permission check
failed, or the given status when no check failed. -/
def LastRefusalStatus (System : KSYSTEM) (Iterator : SEND_SIGNAL_ITERATOR_CONTEXT)
    (Sequence : List Nat) (Status : KSTATUS) : KSTATUS :=
  match (Sequence.filter (SendRefused System Iterator)).getLast? with
  | some Process => PspCheckSendSignalPermission System Process Iterator.Signal
  | none => Status

/-- Two systems in which every permission check has the same outcome and the
kernel process is the same. -/
def SamePermissions (System1 System2 : KSYSTEM) : Prop :=
  System2.KernelProcess = System1.KernelProcess ∧
    ∀ Process Signal, PspCheckSendSignalPermission System2 Process Signal =
      PspCheckSendSignalPermission System1 Process Signal


/-- The abort class of the default action table. -/
def DefaultAbortClass (Signal : Nat) : Prop :=
  Signal = SIGNAL_ABORT ∨ Signal = SIGNAL_BUS_ERROR ∨ Signal = SIGNAL_MATH_ERROR ∨
  Signal = SIGNAL_ILLEGAL_INSTRUCTION ∨ Signal = SIGNAL_REQUEST_CORE_DUMP ∨
  Signal = SIGNAL_ACCESS_VIOLATION ∨ Signal = SIGNAL_BAD_SYSTEM_CALL ∨ Signal = SIGNAL_TRAP ∨
  Signal = SIGNAL_CPU_QUOTA_REACHED ∨ Signal = SIGNAL_FILE_SIZE_TOO_LARGE

/-- The terminate class of the default action table, with every signal number
from `STANDARD_SIGNAL_COUNT` on. -/
def DefaultTerminateClass (Signal : Nat) : Prop :=
  Signal = SIGNAL_TIMER ∨ Signal = SIGNAL_CONTROLLING_TERMINAL_CLOSED ∨
  Signal = SIGNAL_KEYBOARD_INTERRUPT ∨ Signal = SIGNAL_BROKEN_PIPE ∨
  Signal = SIGNAL_REQUEST_TERMINATION ∨ Signal = SIGNAL_APPLICATION1 ∨
  Signal = SIGNAL_APPLICATION2 ∨ Signal = SIGNAL_ASYNCHRONOUS_IO_COMPLETE ∨
  Signal = SIGNAL_PROFILE_TIMER ∨ Signal = SIGNAL_EXECUTION_TIMER_EXPIRED ∨
  STANDARD_SIGNAL_COUNT ≤ Signal

/-- The stop class of the default action table. -/
def DefaultStopClass (Signal : Nat) : Prop :=
  Signal = SIGNAL_REQUEST_STOP ∨ Signal = SIGNAL_BACKGROUND_TERMINAL_INPUT ∨
  Signal = SIGNAL_BACKGROUND_TERMINAL_OUTPUT

instance (Signal : Nat) : Decidable (DefaultAbortClass Signal) := by
  unfold DefaultAbortClass; infer_instance

instance (Signal : Nat) : Decidable (DefaultTerminateClass Signal) := by
  unfold DefaultTerminateClass; infer_instance

instance (Signal : Nat) : Decidable (DefaultStopClass Signal) := by
  unfold DefaultStopClass; infer_instance

/-- The state in which the exit reason and the exit status have been set and
`SendSignal` has then been sent to the whole process with `PsSignalProcess`. -/
def DefaultActionTaken (Env : KERNEL_ENVIRONMENT) (Process : KPROCESS)
    (ExitReason : CHILD_SIGNAL_REASON) (Signal SendSignal : Nat) : KPROCESS :=
  PsSignalProcess Env { Process with ExitReason := some ExitReason, ExitStatus := Signal }
    SendSignal none


/-- The wait selector is valid for the process in the words of the
specification: any child for `-1`, a child in the process group of the caller
for `0`, the child with that process identifier for a positive selector, a
child in the process group that is the negated selector otherwise. -/
def WaitSelectorValid (System : KSYSTEM) (Process : Nat) (ProcessId : Int) : Prop :=
  if ProcessId = -1 then (System.Process Process).ChildListHead ≠ []
  else if ProcessId = 0 then
    ∃ Child ∈ (System.Process Process).ChildListHead,
      (System.Process Child).Identifiers.ProcessGroupId =
        (System.Process Process).Identifiers.ProcessGroupId
  else if 0 < ProcessId then
    ∃ Child ∈ (System.Process Process).ChildListHead,
      ((System.Process Child).Identifiers.ProcessId : Int) = ProcessId
  else
    ∃ Child ∈ (System.Process Process).ChildListHead,
      ((System.Process Child).Identifiers.ProcessGroupId : Int) = -ProcessId

instance (System : KSYSTEM) (Process : Nat) (ProcessId : Int) :
    Decidable (WaitSelectorValid System Process ProcessId) := by
  unfold WaitSelectorValid; infer_instance

/-- No child of the process has the process identifier 0 or the process group
identifier 0. -/
def ChildIdentifiersNonZero (System : KSYSTEM) (Process : Nat) : Prop :=
  ∀ Child ∈ (System.Process Process).ChildListHead,
    (System.Process Child).Identifiers.ProcessId ≠ 0 ∧
    (System.Process Child).Identifiers.ProcessGroupId ≠ 0

instance (System : KSYSTEM) (Process : Nat) : Decidable (ChildIdentifiersNonZero System Process) := by
  unfold ChildIdentifiersNonZero; infer_instance

/-- The wait flag that stands for the class of a reason: exited, killed and
dumped children are "exited children", stopped and trapped children are
"stopped children", continued children are "continued children". -/
def ReasonClassFlag : CHILD_SIGNAL_REASON → Nat
  | .CHILD_SIGNAL_REASON_EXITED => SYSTEM_CALL_WAIT_FLAG_EXITED_CHILDREN
  | .CHILD_SIGNAL_REASON_KILLED => SYSTEM_CALL_WAIT_FLAG_EXITED_CHILDREN
  | .CHILD_SIGNAL_REASON_DUMPED => SYSTEM_CALL_WAIT_FLAG_EXITED_CHILDREN
  | .CHILD_SIGNAL_REASON_STOPPED => SYSTEM_CALL_WAIT_FLAG_STOPPED_CHILDREN
  | .CHILD_SIGNAL_REASON_TRAPPED => SYSTEM_CALL_WAIT_FLAG_STOPPED_CHILDREN
  | .CHILD_SIGNAL_REASON_CONTINUED => SYSTEM_CALL_WAIT_FLAG_CONTINUED_CHILDREN

/-- The wait flags contain the class of the reason that the entry carries. -/
def WaitFlagsAcceptReason (WaitFlags : Nat) (SignalEntry : SIGNAL_QUEUE_ENTRY) : Prop :=
  ∃ Reason : CHILD_SIGNAL_REASON,
    Reason.Code = USHORT SignalEntry.Parameters.SignalCode ∧
    WaitFlags &&& ReasonClassFlag Reason ≠ 0

/-- The entry that a wait for a child asks for, in the words of the
specification: the first entry of the blocked-deferred list that matches the
request, otherwise the first entry of the queue of the process that matches,
otherwise none. -/
def FirstChildSignalEntry (System : KSYSTEM) (ProcessId : Int) (WaitFlags : Nat) :
    Option SIGNAL_QUEUE_ENTRY :=
  match System.CurrentSignals.BlockedSignalListHead.find?
      (PspMatchChildWaitRequestWithProcessId System ProcessId WaitFlags) with
  | some SignalEntry => some SignalEntry
  | none =>
    System.CurrentSignals.SignalListHead.find?
      (PspMatchChildWaitRequestWithProcessId System ProcessId WaitFlags)

/-- The addresses of the linked entries of a process are distinct: no entry is
on two lists, or twice on one. -/
def KPROCESS.EntriesDistinct (Process : KPROCESS) : Prop :=
  (Process.LinkedEntries.map SIGNAL_QUEUE_ENTRY.Address).Nodup

/-- The entry reports a child that exited, was killed or dumped. -/
def EntryReportsExit (SignalEntry : SIGNAL_QUEUE_ENTRY) : Prop :=
  USHORT SignalEntry.Parameters.SignalCode = CHILD_SIGNAL_REASON.CHILD_SIGNAL_REASON_EXITED.Code ∨
  USHORT SignalEntry.Parameters.SignalCode = CHILD_SIGNAL_REASON.CHILD_SIGNAL_REASON_KILLED.Code ∨
  USHORT SignalEntry.Parameters.SignalCode = CHILD_SIGNAL_REASON.CHILD_SIGNAL_REASON_DUMPED.Code


/-- The entry is linked exactly once in the process, on the blocked-deferred
list or on the queue of the process: one of the two lists holds it once, and
neither the other list nor the queue of a thread holds an entry at its
address. -/
def LinkedOnce (Process : KPROCESS) (SignalEntry : SIGNAL_QUEUE_ENTRY) : Prop :=
  ((Process.BlockedSignalListHead.filter (fun Other => Other.Address == SignalEntry.Address) =
        [SignalEntry] ∧
      Process.SignalListHead.filter (fun Other => Other.Address == SignalEntry.Address) = []) ∨
    (Process.BlockedSignalListHead.filter (fun Other => Other.Address == SignalEntry.Address) =
        [] ∧
      Process.SignalListHead.filter (fun Other => Other.Address == SignalEntry.Address) =
        [SignalEntry])) ∧
  ∀ Thread ∈ Process.ThreadListHead, ∀ Other ∈ Thread.SignalListHead,
    Other.Address ≠ SignalEntry.Address

/-- The parameters that a child signal carries: the child signal number, the
reason as code, the process identifier of the child as sender, and the exit
status as parameter. -/
def ChildSignalParameters (System : KSYSTEM) (Process : Nat) (ExitStatus : Nat)
    (Reason : CHILD_SIGNAL_REASON) : SIGNAL_PARAMETERS :=
  { SignalNumber := SIGNAL_CHILD_PROCESS_ACTIVITY
    SignalCode := (Reason.Code : Int)
    SendingProcess := (System.Process Process).Identifiers.ProcessId
    SendingUserId := 0
    Parameter := ExitStatus }

/-- The routine `PspDequeuePendingSignal` comes to the point where it takes the
lock of the process: the thread is not in "no signal pending", neither KILL nor
STOP is pending, and a pending set or a queue is not empty. -/
def DequeueTakesLock (Process : KPROCESS) (CurrentThread : Nat) : Prop :=
  (Process.Thread CurrentThread).SignalPending ≠ .ThreadNoSignalPending ∧
    NonMaskablePending Process CurrentThread = false ∧
    (IS_SIGNAL_SET_EMPTY
          (ULONG (OR_SIGNAL_SETS (Process.Thread CurrentThread).PendingSignals
            Process.PendingSignals)) &&
        Process.SignalListHead.isEmpty &&
        (Process.Thread CurrentThread).SignalListHead.isEmpty) = false

instance (Process : KPROCESS) (CurrentThread : Nat) :
    Decidable (DequeueTakesLock Process CurrentThread) := by
  unfold DequeueTakesLock
  infer_instance

/-- Pending state remains for the thread: its pending set or the pending set
of the process is not empty, or the queue of the process or the queue of the
thread is not empty. -/
def PendingStateRemains (Process : KPROCESS) (CurrentThread : Nat) : Prop :=
  IS_SIGNAL_SET_EMPTY (Process.Thread CurrentThread).PendingSignals = false ∨
    IS_SIGNAL_SET_EMPTY Process.PendingSignals = false ∨
    Process.SignalListHead ≠ [] ∨
    (Process.Thread CurrentThread).SignalListHead ≠ []

instance (Process : KPROCESS) (CurrentThread : Nat) :
    Decidable (PendingStateRemains Process CurrentThread) := by
  unfold PendingStateRemains
  infer_instance

/-- Pending state that the thread can take remains in the state `After` of a
call that began in the state `Before`: the queue of the process or the queue of
the thread is not empty, or a signal from 1 to 32 that the thread neither
blocked nor ran when the call began is still in the pending set of the thread,
or is in the pending set of the process and was not pending for the thread as
well when the call began. -/
def DeliverableStateRemains (Before After : KPROCESS) (CurrentThread : Nat) : Prop :=
  After.SignalListHead ≠ [] ∨
    (After.Thread CurrentThread).SignalListHead ≠ [] ∨
    ∃ SignalNumber, 1 ≤ SignalNumber ∧ SignalNumber ≤ STANDARD_SIGNAL_COUNT ∧
      IS_SIGNAL_SET (Before.Thread CurrentThread).BlockedSignals SignalNumber = false ∧
      IS_SIGNAL_SET (Before.Thread CurrentThread).RunningSignals SignalNumber = false ∧
      (IS_SIGNAL_SET (After.Thread CurrentThread).PendingSignals SignalNumber = true ∨
        (IS_SIGNAL_SET After.PendingSignals SignalNumber = true ∧
          IS_SIGNAL_SET (Before.Thread CurrentThread).PendingSignals SignalNumber = false))

/-- The signal has left the pending sets as far as the dequeue loop clears it:
it is not pending for the thread, and it is pending for the process only if
the snapped mask of the thread held it as well. -/
def SignalCleared (Process : KPROCESS) (CurrentThread : Nat) (ThreadSignalMask : SIGNAL_SET)
    (SignalNumber : Nat) : Prop :=
  IS_SIGNAL_SET (Process.Thread CurrentThread).PendingSignals SignalNumber = false ∧
    (IS_SIGNAL_SET Process.PendingSignals SignalNumber = true →
      IS_SIGNAL_SET ThreadSignalMask SignalNumber = true)

/-- What the saved mask stands for while the thread is in "no signal pending":
every signal of the mask as it was snapped is still in the saved mask or has
been cleared. -/
def DequeueSavedInvariant (CurrentThread : Nat) (ThreadSignalMask Snapped Saved : SIGNAL_SET)
    (Process : KPROCESS) : Prop :=
  (Process.Thread CurrentThread).SignalPending = .ThreadSignalPending ∨
    ((Process.Thread CurrentThread).SignalPending = .ThreadNoSignalPending ∧
      ∀ n, 1 ≤ n → IS_SIGNAL_SET Snapped n = true →
        IS_SIGNAL_SET Saved n = true ∨ SignalCleared Process CurrentThread ThreadSignalMask n)

/-- The state in which the routine may leave the thread: in "signal pending",
or in "no signal pending" with both queues empty and every signal of the
snapped mask cleared. -/
def DequeueSettled (CurrentThread : Nat) (ThreadSignalMask Snapped : SIGNAL_SET)
    (Process : KPROCESS) : Prop :=
  (Process.Thread CurrentThread).SignalPending = .ThreadSignalPending ∨
    ((Process.Thread CurrentThread).SignalPending = .ThreadNoSignalPending ∧
      Process.SignalListHead = [] ∧ (Process.Thread CurrentThread).SignalListHead = [] ∧
      ∀ n, 1 ≤ n → IS_SIGNAL_SET Snapped n = true →
        SignalCleared Process CurrentThread ThreadSignalMask n)

/-- The pending sets hold no signal that the snapped masks do not hold. -/
def PendingWithin (CurrentThread : Nat) (ThreadSignalMask ProcessSignalMask : SIGNAL_SET)
    (Process : KPROCESS) : Prop :=
  (∀ n, IS_SIGNAL_SET (Process.Thread CurrentThread).PendingSignals n = true →
      IS_SIGNAL_SET ThreadSignalMask n = true) ∧
    ∀ n, IS_SIGNAL_SET Process.PendingSignals n = true →
      IS_SIGNAL_SET ProcessSignalMask n = true

/-- The entry as the queue walk leaves it when its signal is not handled and
ignored by default: with a tracer attached the parameters are those that
`PspTracerBreak` hands back. -/
def EntryShownToTracer (Env : KERNEL_ENVIRONMENT) (Process : KPROCESS)
    (SignalEntry : SIGNAL_QUEUE_ENTRY) : SIGNAL_QUEUE_ENTRY :=
  if Process.HasTracer then
    { SignalEntry with Parameters := PspTracerBreak Env Process SignalEntry.Parameters }
  else SignalEntry

/-- The number of places on the lists of the process (the blocked-deferred
list, the queue of the process and the queues of its threads) that hold an
entry with this address. -/
def KPROCESS.LinkCount (Process : KPROCESS) (Address : Nat) : Nat :=
  Process.LinkedEntries.countP fun SignalEntry => SignalEntry.Address == Address

/-- The number of times a completion routine has been run on an entry with
this address. -/
def KPROCESS.CompletionCount (Process : KPROCESS) (Address : Nat) : Nat :=
  Process.CompletedSignals.countP fun SignalEntry => SignalEntry.Address == Address

/-- Over a call, exactly one of the two has happened to the entry at the
address: it is linked at exactly one place of the lists and its completion
routine has not been run, or it is linked nowhere and its completion routine
has been run exactly once. -/
def LinkedOrCompleted (Before After : KPROCESS) (Address : Nat) : Prop :=
  (After.LinkCount Address = 1 ∧
      After.CompletionCount Address = Before.CompletionCount Address) ∨
    (After.LinkCount Address = 0 ∧
      After.CompletionCount Address = Before.CompletionCount Address + 1)

instance (Before After : KPROCESS) (Address : Nat) :
    Decidable (LinkedOrCompleted Before After Address) := by
  unfold LinkedOrCompleted
  infer_instance

/-- The call `PspQueueSignal` is forced and names a thread that is running the
signal already. -/
def ForcedWhileRunning (Process : KPROCESS) (Thread : Option Nat) (SignalNumber : Nat)
    (Force : Bool) : Prop :=
  Force = true ∧ ∃ Target, Thread = some Target ∧
    IS_SIGNAL_SET (Process.Thread Target).RunningSignals SignalNumber = true

/-- The discard test of `PspQueueSignal` for the entry of a forced signal,
where `SignalIgnored` starts as `FALSE`: the entry has been delivered before or
its signal is not handled and ignored by default, and no tracer is attached. -/
def ForcedEntryDiscarded (Env : KERNEL_ENVIRONMENT) (Process : KPROCESS) (SignalNumber : Nat)
    (Entry : SIGNAL_QUEUE_ENTRY) : Bool :=
  (Entry.Delivered ||
      (IS_SIGNAL_SET Process.HandledSignals SignalNumber == false &&
        Env.IS_SIGNAL_DEFAULT_IGNORE SignalNumber)) &&
    !Process.HasTracer

/-- What the queue walk of `PspDequeuePendingSignal` has done with an entry
whose signal the thread blocks once it has come to it, `Before` being the state
in which the routine was entered and `After` the state it leaves: an entry that
the walk discards (signal not handled, ignored by default and not the child
signal) has been handed to its completion routine, and any other entry is on
the blocked-deferred list with its record, the delivered flag included, as it
was. -/
def BlockedEntryDeferred (Env : KERNEL_ENVIRONMENT) (Before After : KPROCESS)
    (Entry : SIGNAL_QUEUE_ENTRY) : Prop :=
  if EntryDiscarded Env Before Entry = true then
    Entry.CompletionRoutine = true → Entry ∈ After.CompletedSignals
  else Entry ∈ After.BlockedSignalListHead

/-! ## Example states -/

/-- An environment without a kernel debugger, in which the child signal and
the signals 22 and 27 are ignored by default. -/
def ExampleEnvironment : KERNEL_ENVIRONMENT :=
  { KdIsDebuggerConnected := false
    KdAreUserModeExceptionsEnabled := false
    TracerReply := fun Signal => Signal.SignalNumber
    IS_SIGNAL_DEFAULT_IGNORE := fun SignalNumber =>
      SignalNumber == SIGNAL_CHILD_PROCESS_ACTIVITY || SignalNumber == 22 || SignalNumber == 27
    ThreadSignalPendingStateUnknown := .ThreadSignalPending }

/-- A queue entry for the queued signal 40. -/
def ExampleEntry : SIGNAL_QUEUE_ENTRY :=
  { Address := 1
    Parameters := { SIGNAL_PARAMETERS.Zero with SignalNumber := 40 }
    DestinationThread := none
    Delivered := false
    CompletionRoutine := true }

/-- A thread that blocks signal 3 and has the signals 2 and 3 pending. -/
def ExampleThread : KTHREAD :=
  { BlockedSignals := 4
    PendingSignals := 6
    RunningSignals := 0
    SignalListHead := []
    SignalPending := .ThreadSignalPending
    WakeCalls := [] }

/-- A thread with nothing blocked and nothing pending. -/
def ExampleIdleThread : KTHREAD :=
  { KTHREAD.Zero with SignalPending := .ThreadSignalPending }

/-- A process with the thread `ExampleThread`, signal 10 pending for the
process, and no tracer. -/
def ExampleProcess : KPROCESS :=
  { IgnoredSignals := 0
    HandledSignals := 0
    PendingSignals := 512
    SignalListHead := []
    BlockedSignalListHead := []
    ThreadListHead := [ExampleThread]
    ThreadCount := 1
    StopEvent := true
    DebugData := none
    Parent := some 1
    ExitReason := none
    ExitStatus := 0
    CompletedSignals := []
    ChildSignalsToParent := [] }

/-- A queue entry for the signal 22, which `ExampleEnvironment` ignores by
default. -/
def ExampleIgnoredEntry : SIGNAL_QUEUE_ENTRY :=
  { ExampleEntry with
    Address := 2
    Parameters := { SIGNAL_PARAMETERS.Zero with SignalNumber := 22 } }

/-- A queue entry for the queued signal 41. -/
def ExampleLastEntry : SIGNAL_QUEUE_ENTRY :=
  { ExampleEntry with
    Address := 3
    Parameters := { SIGNAL_PARAMETERS.Zero with SignalNumber := 41 } }

/-- A thread that blocks signal 3 and has only signal 3 pending. -/
def ExampleBlockingThread : KTHREAD :=
  { ExampleThread with PendingSignals := 4 }

/-- A process with the thread `ExampleBlockingThread`, no pending bitmap signal
to deliver, and three entries on its queue. -/
def ExampleQueueProcess : KPROCESS :=
  { ExampleProcess with
    PendingSignals := 0
    SignalListHead := [ExampleIgnoredEntry, ExampleEntry, ExampleLastEntry]
    ThreadListHead := [ExampleBlockingThread] }

/-- A thread that is running the handler of the access violation signal. -/
def ExampleRunningThread : KTHREAD :=
  { ExampleIdleThread with RunningSignals := 1024 }

/-- A process whose thread is running the handler of the access violation
signal. -/
def ExampleRunningProcess : KPROCESS :=
  { ExampleProcess with ThreadListHead := [ExampleRunningThread] }

/-- A process with two threads: `ExampleThread` blocks signal 3 and
`ExampleIdleThread`, here with no signal pending, does not. -/
def ExampleTwoThreadProcess : KPROCESS :=
  { ExampleProcess with
    ThreadListHead := [ExampleThread, KTHREAD.Zero]
    ThreadCount := 2 }

/-- A run of every operation that changes a blocked set, each one asking for
STOP and KILL to be blocked. -/
def ExampleMaskOperations : List MASK_OPERATION :=
  [ .SetSignalMask 0 18446744073709551615,
    .SetSignalBehavior 0 ⟨.SignalMaskBlocked, .SignalMaskOperationSet, 18446744073709551615⟩,
    .SuspendExecutionModifyMask 0 .SignalMaskOperationOverwrite 18446744073709551615,
    .QueueSignal (some 0) SIGNAL_STOP none false,
    .QueueSignal (some 0) 3 none true,
    .SuspendExecutionRestoreMask 0 ]

/-- An entry of the child signal, as a child process sends it to its parent. -/
def ExampleChildEntry : SIGNAL_QUEUE_ENTRY :=
  { ExampleEntry with
    Address := 4
    Parameters := { SIGNAL_PARAMETERS.Zero with SignalNumber := SIGNAL_CHILD_PROCESS_ACTIVITY } }

/-- A thread that blocks the child signal and has no signal pending. -/
def ExampleChildBlockingThread : KTHREAD :=
  { KTHREAD.Zero with BlockedSignals := SIGNAL_BIT SIGNAL_CHILD_PROCESS_ACTIVITY }

/-- A process that handles the child signal and whose thread blocks it. -/
def ExampleChildHandlerProcess : KPROCESS :=
  { ExampleProcess with
    HandledSignals := SIGNAL_BIT SIGNAL_CHILD_PROCESS_ACTIVITY
    PendingSignals := 0
    ThreadListHead := [ExampleChildBlockingThread] }

/-- A process with two entries on its blocked-deferred list: one for the whole
process and one for a thread other than thread 0. -/
def ExampleDeferredProcess : KPROCESS :=
  { ExampleProcess with
    BlockedSignalListHead :=
      [ExampleEntry, { ExampleLastEntry with DestinationThread := some 1 }] }

/-- A process that ignores signal 5. -/
def ExampleIgnoringProcess : KPROCESS :=
  { ExampleProcess with IgnoredSignals := SIGNAL_BIT 5 }

/-- A process whose thread blocks signal 40 and that has an entry of signal 40
for that thread on the blocked-deferred list. -/
def ExampleBlockedEntryProcess : KPROCESS :=
  { ExampleProcess with
    ThreadListHead := [{ ExampleIdleThread with BlockedSignals := SIGNAL_BIT 40 }]
    BlockedSignalListHead := [{ ExampleEntry with DestinationThread := some 0 }] }

/-- A process entry for `ExampleTwoThreadProcess`-like targets: process
identifier 7, group 3, session 1, owned by user 1000. -/
def ExampleSender : SYSTEM_PROCESS :=
  { Process := ExampleProcess
    Identifiers := ⟨7, 3, 1⟩
    IdentityStatus := .STATUS_SUCCESS
    Identity := ⟨1000, 1000, 1000⟩ }

/-- A target process of user 1000 in group 3 whose only thread has nothing
blocked and no signal pending. -/
def ExampleTarget : SYSTEM_PROCESS :=
  { Process := { ExampleProcess with PendingSignals := 0, ThreadListHead := [KTHREAD.Zero] }
    Identifiers := ⟨8, 3, 1⟩
    IdentityStatus := .STATUS_SUCCESS
    Identity := ⟨1000, 1000, 1000⟩ }

/-- A target process of user 2000, to which user 1000 may not send. -/
def ExampleForeignTarget : SYSTEM_PROCESS :=
  { ExampleTarget with
    Identifiers := ⟨9, 3, 2⟩
    Identity := ⟨2000, 2000, 2000⟩ }

/-- A system of the kernel process (index 0), the sender (index 1) and one
target (index 2); the current thread belongs to user 1000 and has no kill
permission. -/
def ExampleSystem : KSYSTEM :=
  { Processes := [SYSTEM_PROCESS.Zero, ExampleSender, ExampleTarget]
    KernelProcess := 0
    CurrentProcess := 1
    CurrentThread := 0
    CurrentIdentity := ⟨1000, 1000, 1000⟩
    KillPermission := .STATUS_PERMISSION_DENIED
    FreePool := [100, 101, 102]
    ThreadById := fun ThreadId => if ThreadId == 1 then some 0 else none
    SIGNAL_CODE_USER := 0 }

/-- The system `ExampleSystem` with a process of another user in front of the
target. -/
def ExampleMixedSystem : KSYSTEM :=
  { ExampleSystem with
    Processes := [SYSTEM_PROCESS.Zero, ExampleSender, ExampleForeignTarget, ExampleTarget] }


/-- One pass of the wait loop in which nothing arrives and the wait, if one is
made, runs to its end. -/
def ExampleQuietRound : SUSPEND_ROUND :=
  { Arrivals := [], CurrentTime := 5000, DelayStatus := .STATUS_SUCCESS }

/-- A `SuspendExecution` call that unblocks signal 3 for the time of the call
and waits without a timeout; the caller does not ask for the signal
parameters. -/
def ExampleSuspendClear : SYSTEM_CALL_SUSPEND_EXECUTION :=
  { SignalOperation := .SignalMaskOperationClear
    SignalSet := SIGNAL_BIT 3
    TimeoutInMilliseconds := SYS_WAIT_TIME_INDEFINITE
    SignalParameters := false
    Status := .STATUS_SUCCESS }


/-- A process with one thread that has nothing blocked and no signal
pending. -/
def ExampleIdleProcess : KPROCESS :=
  { ExampleProcess with PendingSignals := 0, ThreadListHead := [KTHREAD.Zero] }

/-- A `SuspendExecution` call with a timeout of 100 milliseconds and no change
of the blocked set. -/
def ExampleSuspendTimeout : SYSTEM_CALL_SUSPEND_EXECUTION :=
  { SignalOperation := .SignalMaskOperationNone
    SignalSet := 0
    TimeoutInMilliseconds := 100
    SignalParameters := false
    Status := .STATUS_SUCCESS }

/-- Three passes of the wait loop on a time counter of 1000 ticks per second:
the first wait starts at tick 5000 and is interrupted, the second starts 90
milliseconds later and is interrupted, the third starts another 90 milliseconds
later and runs to its end. No signal for the thread arrives in between (a signal
sent to the process was taken by another thread each time). -/
def ExampleInterruptedRounds : List SUSPEND_ROUND :=
  [ { Arrivals := [], CurrentTime := 5000, DelayStatus := .STATUS_INTERRUPTED },
    { Arrivals := [], CurrentTime := 5090, DelayStatus := .STATUS_INTERRUPTED },
    { Arrivals := [], CurrentTime := 5180, DelayStatus := .STATUS_SUCCESS } ]


/-- The child signal entry of the process 8, which exited with the status
42. -/
def ExampleExitedEntry : SIGNAL_QUEUE_ENTRY :=
  { Address := 20
    Parameters :=
      { SignalNumber := SIGNAL_CHILD_PROCESS_ACTIVITY
        SignalCode := 1
        SendingProcess := 8
        SendingUserId := 0
        Parameter := 42 }
    DestinationThread := none
    Delivered := false
    CompletionRoutine := true }

/-- The child signal entry of the process 9, which was stopped by the signal
19. -/
def ExampleStoppedEntry : SIGNAL_QUEUE_ENTRY :=
  { ExampleExitedEntry with
    Address := 21
    Parameters :=
      { SignalNumber := SIGNAL_CHILD_PROCESS_ACTIVITY
        SignalCode := 5
        SendingProcess := 9
        SendingUserId := 0
        Parameter := 19 } }

/-- A parent process, identifier 7 in group 3, with the children at the
indices 2 and 3. Its blocked-deferred list holds the entry of the stopped child
and then that of the exited child, and the entry of signal 40 is on its queue.
The children it has waited for so far used 100 and 200 cycles. -/
def ExampleParent : SYSTEM_PROCESS :=
  { ExampleSender with
    Process :=
      { ExampleIdleProcess with
        BlockedSignalListHead := [ExampleStoppedEntry, ExampleExitedEntry]
        SignalListHead := [ExampleEntry] }
    ChildListHead := [2, 3]
    ChildResourceUsage := { UserCycles := 100, KernelCycles := 200 } }

/-- The child 8 of `ExampleParent`, in group 3; it used 10 and 20 cycles and
its own children 1 and 2 cycles. -/
def ExampleExitedChild : SYSTEM_PROCESS :=
  { ExampleTarget with
    Identifiers := ⟨8, 3, 1⟩
    ChildSignal := ExampleExitedEntry
    ChildSignalDestination := some 1
    ResourceUsage := { UserCycles := 10, KernelCycles := 20 }
    ChildResourceUsage := { UserCycles := 1, KernelCycles := 2 } }

/-- The child 9 of `ExampleParent`, in group 4. -/
def ExampleStoppedChild : SYSTEM_PROCESS :=
  { ExampleTarget with
    Identifiers := ⟨9, 4, 1⟩
    ChildSignal := ExampleStoppedEntry
    ChildSignalDestination := some 1
    ResourceUsage := { UserCycles := 30, KernelCycles := 40 } }

/-- A system of the kernel process (index 0), `ExampleParent` (index 1, the
current process) and its two children (indices 2 and 3). -/
def ExampleWaitSystem : KSYSTEM :=
  { ExampleSystem with
    Processes := [SYSTEM_PROCESS.Zero, ExampleParent, ExampleExitedChild, ExampleStoppedChild] }

/-- The system `ExampleWaitSystem` in which the current process has no
children. -/
def ExampleChildlessSystem : KSYSTEM :=
  { ExampleSystem with
    Processes := [SYSTEM_PROCESS.Zero, ExampleSender] }

/-- A system in which the only child of the current process has the process
identifier 8 and the process group identifier 0. -/
def ExampleGroupZeroSystem : KSYSTEM :=
  { ExampleSystem with
    Processes :=
      [SYSTEM_PROCESS.Zero, { ExampleSender with ChildListHead := [2] },
        { ExampleTarget with Identifiers := ⟨8, 0, 1⟩ }] }


/-- A wait for any continued child that returns at once. -/
def ExampleWaitContinued : SYSTEM_CALL_WAIT_FOR_CHILD :=
  { Flags :=
      SYSTEM_CALL_WAIT_FLAG_CONTINUED_CHILDREN ||| SYSTEM_CALL_WAIT_FLAG_RETURN_IMMEDIATELY
    ChildPid := -1
    Reason := 0
    ChildExitValue := 0
    ResourceUsage := false
    Status := .STATUS_SUCCESS }

/-- A wait for any exited child that returns at once. -/
def ExampleWaitExited : SYSTEM_CALL_WAIT_FOR_CHILD :=
  { ExampleWaitContinued with
    Flags := SYSTEM_CALL_WAIT_FLAG_EXITED_CHILDREN ||| SYSTEM_CALL_WAIT_FLAG_RETURN_IMMEDIATELY }

/-- Signal 2 sent to thread 0 of the process. -/
def ExampleArrival : SIGNAL_ARRIVAL :=
  { Thread := some 0, SignalNumber := 2, SignalQueueEntry := none }


/-- A second parent, identifier 10, with one idle thread and empty lists. -/
def ExampleSecondParent : SYSTEM_PROCESS :=
  { ExampleTarget with Identifiers := ⟨10, 3, 1⟩ }

/-- The system `ExampleWaitSystem` with `ExampleSecondParent` at index 4. The
entry of the exited child (index 2) is queued at the first parent (index 1). -/
def ExampleTwoParentSystem : KSYSTEM :=
  { ExampleSystem with
    Processes :=
      [SYSTEM_PROCESS.Zero, ExampleParent, ExampleExitedChild, ExampleStoppedChild,
        ExampleSecondParent] }

/-- A process whose thread is in the state "no signal pending" although
signal 2 is pending for the thread, signal 10 for the process, and entries are
on the queue of the thread, on the queue of the process and on the
blocked-deferred list. -/
def ExampleDormantProcess : KPROCESS :=
  { ExampleProcess with
    SignalListHead := [ExampleEntry]
    BlockedSignalListHead := [ExampleLastEntry]
    ThreadListHead :=
      [{ ExampleThread with
         SignalPending := .ThreadNoSignalPending
         SignalListHead := [ExampleIgnoredEntry] }] }

/-- A process whose thread is in "signal pending", blocks signal 3 and has
signal 3 pending; nothing else is pending or queued. -/
def ExampleBlockedPendingProcess : KPROCESS :=
  { ExampleProcess with PendingSignals := 0, ThreadListHead := [ExampleBlockingThread] }

/-- A process that is traced by process 9: one thread with nothing blocked,
no signal pending in a bitmap and nothing queued. -/
def ExampleTracedProcess : KPROCESS :=
  { ExampleProcess with
    PendingSignals := 0
    ThreadListHead := [ExampleIdleThread]
    DebugData := some { TracingProcess := some 9 } }

/-- The traced process with an entry of signal 22 on its queue: the signal is
not handled and `ExampleEnvironment` ignores it by default. -/
def ExampleTracedIgnoreProcess : KPROCESS :=
  { ExampleTracedProcess with SignalListHead := [ExampleIgnoredEntry] }

/-- A traced process that handles the child signal. -/
def ExampleTracedHandlerProcess : KPROCESS :=
  { ExampleTracedProcess with HandledSignals := SIGNAL_BIT SIGNAL_CHILD_PROCESS_ACTIVITY }

/-- The state of `ExampleTracedHandlerProcess` after a child signal has been
sent to it and its thread has dequeued it: the entry of the child, marked
delivered, waits on the blocked-deferred list. -/
def ExampleDeliveredChildProcess : KPROCESS :=
  match PspDequeuePendingSignal ExampleEnvironment
      (PspQueueSignalToProcess ExampleEnvironment ExampleTracedHandlerProcess
        SIGNAL_CHILD_PROCESS_ACTIVITY (some ExampleChildEntry)).2 0 SIGNAL_PARAMETERS.Zero with
  | some Result => Result.Process
  | none => ExampleTracedHandlerProcess

/-- The state of `ExampleDeliveredChildProcess` after its thread has set its
signal mask to the empty set: the delivered entry of the child is back on the
queue of the process. -/
def ExampleRequeuedChildProcess : KPROCESS :=
  (PsSetSignalMask ExampleEnvironment ExampleDeliveredChildProcess 0 0).2

/-- An entry of the access violation signal with a completion routine. -/
def ExampleFaultEntry : SIGNAL_QUEUE_ENTRY :=
  { ExampleEntry with
    Address := 5
    Parameters := { SIGNAL_PARAMETERS.Zero with SignalNumber := SIGNAL_ACCESS_VIOLATION } }

/-- A process whose thread blocks signal 3, has signal 3 pending and is in the
state "no signal pending"; nothing is pending for the process. -/
def ExampleDeferredSignalProcess : KPROCESS :=
  { ExampleProcess with
    PendingSignals := 0
    ThreadListHead := [{ ExampleBlockingThread with SignalPending := .ThreadNoSignalPending }] }

/-- An environment with the kernel debugger connected and user mode exceptions
handed to it. -/
def ExampleDebuggerEnvironment : KERNEL_ENVIRONMENT :=
  { ExampleEnvironment with
    KdIsDebuggerConnected := true
    KdAreUserModeExceptionsEnabled := true }

/-- The traced process with KILL pending for the process. -/
def ExampleTracedKilledProcess : KPROCESS :=
  { ExampleTracedProcess with PendingSignals := SIGNAL_BIT SIGNAL_KILL }

/-- A process whose thread has signal 2 pending while signal 2 is pending for
the process as well; nothing is blocked. -/
def ExampleBothPendingProcess : KPROCESS :=
  { ExampleProcess with
    PendingSignals := SIGNAL_BIT 2
    ThreadListHead := [{ ExampleIdleThread with PendingSignals := SIGNAL_BIT 2 }] }

/-- A process whose thread blocks signal 22, which `ExampleEnvironment` ignores
by default and the process does not handle, with one entry of that signal on
the process queue; no bitmap signal is pending and no tracer is attached. -/
def ExampleBlockedIgnoreProcess : KPROCESS :=
  { ExampleProcess with
    PendingSignals := 0
    SignalListHead := [ExampleIgnoredEntry]
    ThreadListHead := [{ ExampleIdleThread with BlockedSignals := SIGNAL_BIT 22 }] }

/-- A process whose thread blocks signal 40, with an entry of signal 40 and
behind it an entry of signal 41 on the process queue; no bitmap signal is
pending and no tracer is attached. -/
def ExampleBlockedQueueProcess : KPROCESS :=
  { ExampleProcess with
    PendingSignals := 0
    SignalListHead := [ExampleEntry, ExampleLastEntry]
    ThreadListHead := [{ ExampleIdleThread with BlockedSignals := SIGNAL_BIT 40 }] }

/-! ## Signal set lemmas -/

theorem testBit_SIGNAL_BIT (n i : Nat) :
    (SIGNAL_BIT n).testBit i = (decide (i < 64) && decide (n - 1 = i)) := by
  unfold SIGNAL_BIT
  rw [Nat.one_shiftLeft, Nat.testBit_mod_two_pow, Nat.testBit_two_pow]

theorem testBit_SIGNAL_SET_NOT (s i : Nat) :
    (SIGNAL_SET_NOT s).testBit i = (decide (i < 64) && !s.testBit i) := by
  unfold SIGNAL_SET_NOT
  rw [Nat.testBit_two_pow_sub_succ (Nat.mod_lt _ (by decide)), Nat.testBit_mod_two_pow]
  by_cases h : i < 64 <;> simp [h]

theorem IS_SIGNAL_SET_eq (s n : Nat) :
    IS_SIGNAL_SET s n = (decide (n - 1 < 64) && s.testBit (n - 1)) := by
  unfold IS_SIGNAL_SET SIGNAL_BIT
  rw [Nat.one_shiftLeft]
  by_cases h : n - 1 < 64
  · rw [Nat.mod_eq_of_lt (Nat.pow_lt_pow_right (by decide) h), Nat.and_two_pow]
    cases hb : s.testBit (n - 1) <;> simp [h, Nat.pos_pow_of_pos]
  · have : 2 ^ (n - 1) % 2 ^ 64 = 0 :=
      Nat.mod_eq_zero_of_dvd (Nat.pow_dvd_pow 2 (by omega))
    rw [this]
    simp [h]

theorem IS_SIGNAL_SET_ADD_SIGNAL (s n m : Nat) :
    IS_SIGNAL_SET (ADD_SIGNAL s n) m =
      (IS_SIGNAL_SET s m || (decide (m - 1 < 64) && decide (n - 1 = m - 1))) := by
  simp only [IS_SIGNAL_SET_eq, ADD_SIGNAL, Nat.testBit_or, testBit_SIGNAL_BIT]
  by_cases h : m - 1 < 64 <;> simp [h]

theorem IS_SIGNAL_SET_REMOVE_SIGNAL (s n m : Nat) :
    IS_SIGNAL_SET (REMOVE_SIGNAL s n) m =
      (IS_SIGNAL_SET s m && !decide (n - 1 = m - 1)) := by
  simp only [IS_SIGNAL_SET_eq, REMOVE_SIGNAL, Nat.testBit_and, testBit_SIGNAL_SET_NOT,
    testBit_SIGNAL_BIT]
  by_cases h : m - 1 < 64 <;> simp [h]

theorem IS_SIGNAL_SET_OR_SIGNAL_SETS (a b m : Nat) :
    IS_SIGNAL_SET (OR_SIGNAL_SETS a b) m = (IS_SIGNAL_SET a m || IS_SIGNAL_SET b m) := by
  simp only [IS_SIGNAL_SET_eq, OR_SIGNAL_SETS, Nat.testBit_or]
  by_cases h : m - 1 < 64 <;> simp [h]

theorem IS_SIGNAL_SET_REMOVE_SIGNALS_FROM_SET (a b m : Nat) :
    IS_SIGNAL_SET (REMOVE_SIGNALS_FROM_SET a b) m =
      (IS_SIGNAL_SET a m && !IS_SIGNAL_SET b m) := by
  simp only [IS_SIGNAL_SET_eq, REMOVE_SIGNALS_FROM_SET, Nat.testBit_and, testBit_SIGNAL_SET_NOT]
  by_cases h : m - 1 < 64 <;> simp [h]

theorem IS_SIGNAL_SET_ULONG (s m : Nat) :
    IS_SIGNAL_SET (ULONG s) m = (decide (m - 1 < 32) && IS_SIGNAL_SET s m) := by
  simp only [IS_SIGNAL_SET_eq, ULONG, Nat.testBit_mod_two_pow]
  by_cases h : m - 1 < 32
  · have : m - 1 < 64 := by omega
    simp [h, this]
  · simp [h]

theorem countTrailingZerosFrom_spec (v : Nat) :
    ∀ (fuel idx k : Nat), idx ≤ k → k < idx + fuel → v.testBit k = true →
      v.testBit (countTrailingZerosFrom v fuel idx) = true ∧
      countTrailingZerosFrom v fuel idx ≤ k ∧
      ∀ j, idx ≤ j → j < countTrailingZerosFrom v fuel idx → v.testBit j = false := by
  intro fuel
  induction fuel with
  | zero => intro idx k h1 h2; omega
  | succ f ih =>
    intro idx k h1 h2 hk
    unfold countTrailingZerosFrom
    by_cases hb : v.testBit idx = true
    · simp only [hb, if_true]
      exact ⟨trivial, h1, fun j hj1 hj2 => by omega⟩
    · simp only [hb]
      have hne : idx ≠ k := by
        intro e; rw [e] at hb; exact hb hk
      obtain ⟨a, b, c⟩ := ih (idx + 1) k (by omega) (by omega) hk
      refine ⟨a, b, fun j hj1 hj2 => ?_⟩
      by_cases e : j = idx
      · rw [e]; simpa using hb
      · exact c j (by omega) hj2

theorem RtlCountTrailingZeros64_spec (v k : Nat) (hk : k < 64) (hb : v.testBit k = true) :
    v.testBit (RtlCountTrailingZeros64 v) = true ∧ RtlCountTrailingZeros64 v ≤ k ∧
      ∀ j, j < RtlCountTrailingZeros64 v → v.testBit j = false := by
  obtain ⟨a, b, c⟩ := countTrailingZerosFrom_spec v 64 0 k (Nat.zero_le _) (by omega) hb
  exact ⟨a, b, fun j hj => c j (Nat.zero_le _) hj⟩

theorem IS_SIGNAL_SET_EMPTY_iff (s : Nat) : IS_SIGNAL_SET_EMPTY s = true ↔ s = 0 := by
  simp [IS_SIGNAL_SET_EMPTY]

theorem IS_SIGNAL_SET_large (s n : Nat) (h : 64 < n) : IS_SIGNAL_SET s n = false := by
  rw [IS_SIGNAL_SET_eq]
  have : ¬ (n - 1 < 64) := by omega
  simp [this]

/-! ## Thread pointer lemmas -/

theorem Thread_SetThread_same (Process : KPROCESS) (t : Nat) (v : KTHREAD)
    (h : t < Process.ThreadListHead.length) : (Process.SetThread t v).Thread t = v := by
  simp [KPROCESS.Thread, KPROCESS.SetThread, List.getD_eq_getElem?_getD, h]

theorem Thread_SetThread_ne (Process : KPROCESS) (t u : Nat) (v : KTHREAD) (h : t ≠ u) :
    (Process.SetThread t v).Thread u = Process.Thread u := by
  simp [KPROCESS.Thread, KPROCESS.SetThread, List.getD_eq_getElem?_getD, List.getElem?_set, h]

@[simp] theorem length_SetThread (Process : KPROCESS) (t : Nat) (v : KTHREAD) :
    (Process.SetThread t v).ThreadListHead.length = Process.ThreadListHead.length := by
  simp [KPROCESS.SetThread]

theorem SetThread_Thread_self (Process : KPROCESS) (t : Nat) :
    Process.SetThread t (Process.Thread t) = Process := by
  cases Process with
  | mk a b c d e l g h i j k m n o =>
    simp only [KPROCESS.SetThread, KPROCESS.Thread, KPROCESS.mk.injEq, true_and, and_true]
    apply List.ext_getElem?
    intro i
    by_cases hi : t = i
    · subst hi
      by_cases hl : t < l.length
      · simp [List.getElem?_set, hl, List.getD_eq_getElem?_getD]
      · simp [List.getElem?_set, hl]
        omega
    · simp [List.getElem?_set, hi]

/-! ## Projections of the state updates -/

@[simp] theorem SetThread_IgnoredSignals (Process : KPROCESS) (t : Nat) (v : KTHREAD) :
    (Process.SetThread t v).IgnoredSignals = Process.IgnoredSignals := by
  rfl

@[simp] theorem SetThread_HandledSignals (Process : KPROCESS) (t : Nat) (v : KTHREAD) :
    (Process.SetThread t v).HandledSignals = Process.HandledSignals := by
  rfl

@[simp] theorem SetThread_PendingSignals (Process : KPROCESS) (t : Nat) (v : KTHREAD) :
    (Process.SetThread t v).PendingSignals = Process.PendingSignals := by
  rfl

@[simp] theorem SetThread_SignalListHead (Process : KPROCESS) (t : Nat) (v : KTHREAD) :
    (Process.SetThread t v).SignalListHead = Process.SignalListHead := by
  rfl

@[simp] theorem SetThread_BlockedSignalListHead (Process : KPROCESS) (t : Nat) (v : KTHREAD) :
    (Process.SetThread t v).BlockedSignalListHead = Process.BlockedSignalListHead := by
  rfl

@[simp] theorem SetThread_ThreadCount (Process : KPROCESS) (t : Nat) (v : KTHREAD) :
    (Process.SetThread t v).ThreadCount = Process.ThreadCount := by
  rfl

@[simp] theorem SetThread_StopEvent (Process : KPROCESS) (t : Nat) (v : KTHREAD) :
    (Process.SetThread t v).StopEvent = Process.StopEvent := by
  rfl

@[simp] theorem SetThread_DebugData (Process : KPROCESS) (t : Nat) (v : KTHREAD) :
    (Process.SetThread t v).DebugData = Process.DebugData := by
  rfl

@[simp] theorem SetThread_Parent (Process : KPROCESS) (t : Nat) (v : KTHREAD) :
    (Process.SetThread t v).Parent = Process.Parent := by
  rfl

@[simp] theorem SetThread_ExitReason (Process : KPROCESS) (t : Nat) (v : KTHREAD) :
    (Process.SetThread t v).ExitReason = Process.ExitReason := by
  rfl

@[simp] theorem SetThread_ExitStatus (Process : KPROCESS) (t : Nat) (v : KTHREAD) :
    (Process.SetThread t v).ExitStatus = Process.ExitStatus := by
  rfl

@[simp] theorem SetThread_CompletedSignals (Process : KPROCESS) (t : Nat) (v : KTHREAD) :
    (Process.SetThread t v).CompletedSignals = Process.CompletedSignals := by
  rfl

@[simp] theorem SetThread_ChildSignalsToParent (Process : KPROCESS) (t : Nat) (v : KTHREAD) :
    (Process.SetThread t v).ChildSignalsToParent = Process.ChildSignalsToParent := by
  rfl

@[simp] theorem SetThread_HasTracer (Process : KPROCESS) (t : Nat) (v : KTHREAD) :
    (Process.SetThread t v).HasTracer = Process.HasTracer := by
  rfl

@[simp] theorem SetThread_TracerIsNotParent (Process : KPROCESS) (t : Nat) (v : KTHREAD) :
    (Process.SetThread t v).TracerIsNotParent = Process.TracerIsNotParent := by
  rfl

@[simp] theorem Complete_IgnoredSignals (Process : KPROCESS) (e : SIGNAL_QUEUE_ENTRY) :
    (Process.Complete e).IgnoredSignals = Process.IgnoredSignals := by
  unfold KPROCESS.Complete; split <;> rfl

@[simp] theorem Complete_HandledSignals (Process : KPROCESS) (e : SIGNAL_QUEUE_ENTRY) :
    (Process.Complete e).HandledSignals = Process.HandledSignals := by
  unfold KPROCESS.Complete; split <;> rfl

@[simp] theorem Complete_PendingSignals (Process : KPROCESS) (e : SIGNAL_QUEUE_ENTRY) :
    (Process.Complete e).PendingSignals = Process.PendingSignals := by
  unfold KPROCESS.Complete; split <;> rfl

@[simp] theorem Complete_SignalListHead (Process : KPROCESS) (e : SIGNAL_QUEUE_ENTRY) :
    (Process.Complete e).SignalListHead = Process.SignalListHead := by
  unfold KPROCESS.Complete; split <;> rfl

@[simp] theorem Complete_BlockedSignalListHead (Process : KPROCESS) (e : SIGNAL_QUEUE_ENTRY) :
    (Process.Complete e).BlockedSignalListHead = Process.BlockedSignalListHead := by
  unfold KPROCESS.Complete; split <;> rfl

@[simp] theorem Complete_ThreadListHead (Process : KPROCESS) (e : SIGNAL_QUEUE_ENTRY) :
    (Process.Complete e).ThreadListHead = Process.ThreadListHead := by
  unfold KPROCESS.Complete; split <;> rfl

@[simp] theorem Complete_ThreadCount (Process : KPROCESS) (e : SIGNAL_QUEUE_ENTRY) :
    (Process.Complete e).ThreadCount = Process.ThreadCount := by
  unfold KPROCESS.Complete; split <;> rfl

@[simp] theorem Complete_StopEvent (Process : KPROCESS) (e : SIGNAL_QUEUE_ENTRY) :
    (Process.Complete e).StopEvent = Process.StopEvent := by
  unfold KPROCESS.Complete; split <;> rfl

@[simp] theorem Complete_DebugData (Process : KPROCESS) (e : SIGNAL_QUEUE_ENTRY) :
    (Process.Complete e).DebugData = Process.DebugData := by
  unfold KPROCESS.Complete; split <;> rfl

@[simp] theorem Complete_Parent (Process : KPROCESS) (e : SIGNAL_QUEUE_ENTRY) :
    (Process.Complete e).Parent = Process.Parent := by
  unfold KPROCESS.Complete; split <;> rfl

@[simp] theorem Complete_ExitReason (Process : KPROCESS) (e : SIGNAL_QUEUE_ENTRY) :
    (Process.Complete e).ExitReason = Process.ExitReason := by
  unfold KPROCESS.Complete; split <;> rfl

@[simp] theorem Complete_ExitStatus (Process : KPROCESS) (e : SIGNAL_QUEUE_ENTRY) :
    (Process.Complete e).ExitStatus = Process.ExitStatus := by
  unfold KPROCESS.Complete; split <;> rfl

@[simp] theorem Complete_ChildSignalsToParent (Process : KPROCESS) (e : SIGNAL_QUEUE_ENTRY) :
    (Process.Complete e).ChildSignalsToParent = Process.ChildSignalsToParent := by
  unfold KPROCESS.Complete; split <;> rfl

@[simp] theorem Complete_HasTracer (Process : KPROCESS) (e : SIGNAL_QUEUE_ENTRY) :
    (Process.Complete e).HasTracer = Process.HasTracer := by
  unfold KPROCESS.Complete; split <;> rfl

@[simp] theorem Complete_TracerIsNotParent (Process : KPROCESS) (e : SIGNAL_QUEUE_ENTRY) :
    (Process.Complete e).TracerIsNotParent = Process.TracerIsNotParent := by
  unfold KPROCESS.Complete; split <;> rfl

@[simp] theorem InsertBlocked_IgnoredSignals (Process : KPROCESS) (e : SIGNAL_QUEUE_ENTRY) :
    (Process.InsertBlocked e).IgnoredSignals = Process.IgnoredSignals := by
  rfl

@[simp] theorem InsertBlocked_HandledSignals (Process : KPROCESS) (e : SIGNAL_QUEUE_ENTRY) :
    (Process.InsertBlocked e).HandledSignals = Process.HandledSignals := by
  rfl

@[simp] theorem InsertBlocked_PendingSignals (Process : KPROCESS) (e : SIGNAL_QUEUE_ENTRY) :
    (Process.InsertBlocked e).PendingSignals = Process.PendingSignals := by
  rfl

@[simp] theorem InsertBlocked_SignalListHead (Process : KPROCESS) (e : SIGNAL_QUEUE_ENTRY) :
    (Process.InsertBlocked e).SignalListHead = Process.SignalListHead := by
  rfl

@[simp] theorem InsertBlocked_ThreadListHead (Process : KPROCESS) (e : SIGNAL_QUEUE_ENTRY) :
    (Process.InsertBlocked e).ThreadListHead = Process.ThreadListHead := by
  rfl

@[simp] theorem InsertBlocked_ThreadCount (Process : KPROCESS) (e : SIGNAL_QUEUE_ENTRY) :
    (Process.InsertBlocked e).ThreadCount = Process.ThreadCount := by
  rfl

@[simp] theorem InsertBlocked_StopEvent (Process : KPROCESS) (e : SIGNAL_QUEUE_ENTRY) :
    (Process.InsertBlocked e).StopEvent = Process.StopEvent := by
  rfl

@[simp] theorem InsertBlocked_DebugData (Process : KPROCESS) (e : SIGNAL_QUEUE_ENTRY) :
    (Process.InsertBlocked e).DebugData = Process.DebugData := by
  rfl

@[simp] theorem InsertBlocked_Parent (Process : KPROCESS) (e : SIGNAL_QUEUE_ENTRY) :
    (Process.InsertBlocked e).Parent = Process.Parent := by
  rfl

@[simp] theorem InsertBlocked_ExitReason (Process : KPROCESS) (e : SIGNAL_QUEUE_ENTRY) :
    (Process.InsertBlocked e).ExitReason = Process.ExitReason := by
  rfl

@[simp] theorem InsertBlocked_ExitStatus (Process : KPROCESS) (e : SIGNAL_QUEUE_ENTRY) :
    (Process.InsertBlocked e).ExitStatus = Process.ExitStatus := by
  rfl

@[simp] theorem InsertBlocked_CompletedSignals (Process : KPROCESS) (e : SIGNAL_QUEUE_ENTRY) :
    (Process.InsertBlocked e).CompletedSignals = Process.CompletedSignals := by
  rfl

@[simp] theorem InsertBlocked_ChildSignalsToParent (Process : KPROCESS) (e : SIGNAL_QUEUE_ENTRY) :
    (Process.InsertBlocked e).ChildSignalsToParent = Process.ChildSignalsToParent := by
  rfl

@[simp] theorem InsertBlocked_HasTracer (Process : KPROCESS) (e : SIGNAL_QUEUE_ENTRY) :
    (Process.InsertBlocked e).HasTracer = Process.HasTracer := by
  rfl

@[simp] theorem InsertBlocked_TracerIsNotParent (Process : KPROCESS) (e : SIGNAL_QUEUE_ENTRY) :
    (Process.InsertBlocked e).TracerIsNotParent = Process.TracerIsNotParent := by
  rfl

@[simp] theorem PspQueueChildSignalToParent_IgnoredSignals (Process : KPROCESS) (n : Nat) (r : CHILD_SIGNAL_REASON) :
    (PspQueueChildSignalToParent Process n r).IgnoredSignals = Process.IgnoredSignals := by
  unfold PspQueueChildSignalToParent; split <;> rfl

@[simp] theorem PspQueueChildSignalToParent_HandledSignals (Process : KPROCESS) (n : Nat) (r : CHILD_SIGNAL_REASON) :
    (PspQueueChildSignalToParent Process n r).HandledSignals = Process.HandledSignals := by
  unfold PspQueueChildSignalToParent; split <;> rfl

@[simp] theorem PspQueueChildSignalToParent_PendingSignals (Process : KPROCESS) (n : Nat) (r : CHILD_SIGNAL_REASON) :
    (PspQueueChildSignalToParent Process n r).PendingSignals = Process.PendingSignals := by
  unfold PspQueueChildSignalToParent; split <;> rfl

@[simp] theorem PspQueueChildSignalToParent_SignalListHead (Process : KPROCESS) (n : Nat) (r : CHILD_SIGNAL_REASON) :
    (PspQueueChildSignalToParent Process n r).SignalListHead = Process.SignalListHead := by
  unfold PspQueueChildSignalToParent; split <;> rfl

@[simp] theorem PspQueueChildSignalToParent_BlockedSignalListHead (Process : KPROCESS) (n : Nat) (r : CHILD_SIGNAL_REASON) :
    (PspQueueChildSignalToParent Process n r).BlockedSignalListHead = Process.BlockedSignalListHead := by
  unfold PspQueueChildSignalToParent; split <;> rfl

@[simp] theorem PspQueueChildSignalToParent_ThreadListHead (Process : KPROCESS) (n : Nat) (r : CHILD_SIGNAL_REASON) :
    (PspQueueChildSignalToParent Process n r).ThreadListHead = Process.ThreadListHead := by
  unfold PspQueueChildSignalToParent; split <;> rfl

@[simp] theorem PspQueueChildSignalToParent_ThreadCount (Process : KPROCESS) (n : Nat) (r : CHILD_SIGNAL_REASON) :
    (PspQueueChildSignalToParent Process n r).ThreadCount = Process.ThreadCount := by
  unfold PspQueueChildSignalToParent; split <;> rfl

@[simp] theorem PspQueueChildSignalToParent_StopEvent (Process : KPROCESS) (n : Nat) (r : CHILD_SIGNAL_REASON) :
    (PspQueueChildSignalToParent Process n r).StopEvent = Process.StopEvent := by
  unfold PspQueueChildSignalToParent; split <;> rfl

@[simp] theorem PspQueueChildSignalToParent_DebugData (Process : KPROCESS) (n : Nat) (r : CHILD_SIGNAL_REASON) :
    (PspQueueChildSignalToParent Process n r).DebugData = Process.DebugData := by
  unfold PspQueueChildSignalToParent; split <;> rfl

@[simp] theorem PspQueueChildSignalToParent_Parent (Process : KPROCESS) (n : Nat) (r : CHILD_SIGNAL_REASON) :
    (PspQueueChildSignalToParent Process n r).Parent = Process.Parent := by
  unfold PspQueueChildSignalToParent; split <;> rfl

@[simp] theorem PspQueueChildSignalToParent_ExitReason (Process : KPROCESS) (n : Nat) (r : CHILD_SIGNAL_REASON) :
    (PspQueueChildSignalToParent Process n r).ExitReason = Process.ExitReason := by
  unfold PspQueueChildSignalToParent; split <;> rfl

@[simp] theorem PspQueueChildSignalToParent_ExitStatus (Process : KPROCESS) (n : Nat) (r : CHILD_SIGNAL_REASON) :
    (PspQueueChildSignalToParent Process n r).ExitStatus = Process.ExitStatus := by
  unfold PspQueueChildSignalToParent; split <;> rfl

@[simp] theorem PspQueueChildSignalToParent_CompletedSignals (Process : KPROCESS) (n : Nat) (r : CHILD_SIGNAL_REASON) :
    (PspQueueChildSignalToParent Process n r).CompletedSignals = Process.CompletedSignals := by
  unfold PspQueueChildSignalToParent; split <;> rfl

@[simp] theorem PspQueueChildSignalToParent_HasTracer (Process : KPROCESS) (n : Nat) (r : CHILD_SIGNAL_REASON) :
    (PspQueueChildSignalToParent Process n r).HasTracer = Process.HasTracer := by
  unfold PspQueueChildSignalToParent; split <;> rfl

@[simp] theorem PspQueueChildSignalToParent_TracerIsNotParent (Process : KPROCESS) (n : Nat) (r : CHILD_SIGNAL_REASON) :
    (PspQueueChildSignalToParent Process n r).TracerIsNotParent = Process.TracerIsNotParent := by
  unfold PspQueueChildSignalToParent; split <;> rfl

@[simp] theorem PspSetProcessExitStatusUnlocked_IgnoredSignals (Process : KPROCESS) (r : CHILD_SIGNAL_REASON) (n : Nat) :
    (PspSetProcessExitStatusUnlocked Process r n).IgnoredSignals = Process.IgnoredSignals := by
  rfl

@[simp] theorem PspSetProcessExitStatusUnlocked_HandledSignals (Process : KPROCESS) (r : CHILD_SIGNAL_REASON) (n : Nat) :
    (PspSetProcessExitStatusUnlocked Process r n).HandledSignals = Process.HandledSignals := by
  rfl

@[simp] theorem PspSetProcessExitStatusUnlocked_PendingSignals (Process : KPROCESS) (r : CHILD_SIGNAL_REASON) (n : Nat) :
    (PspSetProcessExitStatusUnlocked Process r n).PendingSignals = Process.PendingSignals := by
  rfl

@[simp] theorem PspSetProcessExitStatusUnlocked_SignalListHead (Process : KPROCESS) (r : CHILD_SIGNAL_REASON) (n : Nat) :
    (PspSetProcessExitStatusUnlocked Process r n).SignalListHead = Process.SignalListHead := by
  rfl

@[simp] theorem PspSetProcessExitStatusUnlocked_BlockedSignalListHead (Process : KPROCESS) (r : CHILD_SIGNAL_REASON) (n : Nat) :
    (PspSetProcessExitStatusUnlocked Process r n).BlockedSignalListHead = Process.BlockedSignalListHead := by
  rfl

@[simp] theorem PspSetProcessExitStatusUnlocked_ThreadListHead (Process : KPROCESS) (r : CHILD_SIGNAL_REASON) (n : Nat) :
    (PspSetProcessExitStatusUnlocked Process r n).ThreadListHead = Process.ThreadListHead := by
  rfl

@[simp] theorem PspSetProcessExitStatusUnlocked_ThreadCount (Process : KPROCESS) (r : CHILD_SIGNAL_REASON) (n : Nat) :
    (PspSetProcessExitStatusUnlocked Process r n).ThreadCount = Process.ThreadCount := by
  rfl

@[simp] theorem PspSetProcessExitStatusUnlocked_StopEvent (Process : KPROCESS) (r : CHILD_SIGNAL_REASON) (n : Nat) :
    (PspSetProcessExitStatusUnlocked Process r n).StopEvent = Process.StopEvent := by
  rfl

@[simp] theorem PspSetProcessExitStatusUnlocked_DebugData (Process : KPROCESS) (r : CHILD_SIGNAL_REASON) (n : Nat) :
    (PspSetProcessExitStatusUnlocked Process r n).DebugData = Process.DebugData := by
  rfl

@[simp] theorem PspSetProcessExitStatusUnlocked_Parent (Process : KPROCESS) (r : CHILD_SIGNAL_REASON) (n : Nat) :
    (PspSetProcessExitStatusUnlocked Process r n).Parent = Process.Parent := by
  rfl

@[simp] theorem PspSetProcessExitStatusUnlocked_CompletedSignals (Process : KPROCESS) (r : CHILD_SIGNAL_REASON) (n : Nat) :
    (PspSetProcessExitStatusUnlocked Process r n).CompletedSignals = Process.CompletedSignals := by
  rfl

@[simp] theorem PspSetProcessExitStatusUnlocked_ChildSignalsToParent (Process : KPROCESS) (r : CHILD_SIGNAL_REASON) (n : Nat) :
    (PspSetProcessExitStatusUnlocked Process r n).ChildSignalsToParent = Process.ChildSignalsToParent := by
  rfl

@[simp] theorem PspSetProcessExitStatusUnlocked_HasTracer (Process : KPROCESS) (r : CHILD_SIGNAL_REASON) (n : Nat) :
    (PspSetProcessExitStatusUnlocked Process r n).HasTracer = Process.HasTracer := by
  rfl

@[simp] theorem PspSetProcessExitStatusUnlocked_TracerIsNotParent (Process : KPROCESS) (r : CHILD_SIGNAL_REASON) (n : Nat) :
    (PspSetProcessExitStatusUnlocked Process r n).TracerIsNotParent = Process.TracerIsNotParent := by
  rfl

@[simp] theorem PspRestoreSignalPending_IgnoredSignals (Process : KPROCESS) (t : Nat) (s : SIGNAL_SET) :
    (PspRestoreSignalPending Process t s).IgnoredSignals = Process.IgnoredSignals := by
  unfold PspRestoreSignalPending
  split
  · split <;> rfl
  · rfl

@[simp] theorem PspRestoreSignalPending_HandledSignals (Process : KPROCESS) (t : Nat) (s : SIGNAL_SET) :
    (PspRestoreSignalPending Process t s).HandledSignals = Process.HandledSignals := by
  unfold PspRestoreSignalPending
  split
  · split <;> rfl
  · rfl

@[simp] theorem PspRestoreSignalPending_PendingSignals (Process : KPROCESS) (t : Nat) (s : SIGNAL_SET) :
    (PspRestoreSignalPending Process t s).PendingSignals = Process.PendingSignals := by
  unfold PspRestoreSignalPending
  split
  · split <;> rfl
  · rfl

@[simp] theorem PspRestoreSignalPending_SignalListHead (Process : KPROCESS) (t : Nat) (s : SIGNAL_SET) :
    (PspRestoreSignalPending Process t s).SignalListHead = Process.SignalListHead := by
  unfold PspRestoreSignalPending
  split
  · split <;> rfl
  · rfl

@[simp] theorem PspRestoreSignalPending_BlockedSignalListHead (Process : KPROCESS) (t : Nat) (s : SIGNAL_SET) :
    (PspRestoreSignalPending Process t s).BlockedSignalListHead = Process.BlockedSignalListHead := by
  unfold PspRestoreSignalPending
  split
  · split <;> rfl
  · rfl

@[simp] theorem PspRestoreSignalPending_ThreadCount (Process : KPROCESS) (t : Nat) (s : SIGNAL_SET) :
    (PspRestoreSignalPending Process t s).ThreadCount = Process.ThreadCount := by
  unfold PspRestoreSignalPending
  split
  · split <;> rfl
  · rfl

@[simp] theorem PspRestoreSignalPending_StopEvent (Process : KPROCESS) (t : Nat) (s : SIGNAL_SET) :
    (PspRestoreSignalPending Process t s).StopEvent = Process.StopEvent := by
  unfold PspRestoreSignalPending
  split
  · split <;> rfl
  · rfl

@[simp] theorem PspRestoreSignalPending_DebugData (Process : KPROCESS) (t : Nat) (s : SIGNAL_SET) :
    (PspRestoreSignalPending Process t s).DebugData = Process.DebugData := by
  unfold PspRestoreSignalPending
  split
  · split <;> rfl
  · rfl

@[simp] theorem PspRestoreSignalPending_Parent (Process : KPROCESS) (t : Nat) (s : SIGNAL_SET) :
    (PspRestoreSignalPending Process t s).Parent = Process.Parent := by
  unfold PspRestoreSignalPending
  split
  · split <;> rfl
  · rfl

@[simp] theorem PspRestoreSignalPending_ExitReason (Process : KPROCESS) (t : Nat) (s : SIGNAL_SET) :
    (PspRestoreSignalPending Process t s).ExitReason = Process.ExitReason := by
  unfold PspRestoreSignalPending
  split
  · split <;> rfl
  · rfl

@[simp] theorem PspRestoreSignalPending_ExitStatus (Process : KPROCESS) (t : Nat) (s : SIGNAL_SET) :
    (PspRestoreSignalPending Process t s).ExitStatus = Process.ExitStatus := by
  unfold PspRestoreSignalPending
  split
  · split <;> rfl
  · rfl

@[simp] theorem PspRestoreSignalPending_CompletedSignals (Process : KPROCESS) (t : Nat) (s : SIGNAL_SET) :
    (PspRestoreSignalPending Process t s).CompletedSignals = Process.CompletedSignals := by
  unfold PspRestoreSignalPending
  split
  · split <;> rfl
  · rfl

@[simp] theorem PspRestoreSignalPending_ChildSignalsToParent (Process : KPROCESS) (t : Nat) (s : SIGNAL_SET) :
    (PspRestoreSignalPending Process t s).ChildSignalsToParent = Process.ChildSignalsToParent := by
  unfold PspRestoreSignalPending
  split
  · split <;> rfl
  · rfl

@[simp] theorem PspRestoreSignalPending_HasTracer (Process : KPROCESS) (t : Nat) (s : SIGNAL_SET) :
    (PspRestoreSignalPending Process t s).HasTracer = Process.HasTracer := by
  unfold PspRestoreSignalPending
  split
  · split <;> rfl
  · rfl

@[simp] theorem PspRestoreSignalPending_TracerIsNotParent (Process : KPROCESS) (t : Nat) (s : SIGNAL_SET) :
    (PspRestoreSignalPending Process t s).TracerIsNotParent = Process.TracerIsNotParent := by
  unfold PspRestoreSignalPending
  split
  · split <;> rfl
  · rfl

@[simp] theorem Complete_Thread (Process : KPROCESS) (e : SIGNAL_QUEUE_ENTRY) (u : Nat) :
    (Process.Complete e).Thread u = Process.Thread u := by
  simp [KPROCESS.Thread]

@[simp] theorem InsertBlocked_Thread (Process : KPROCESS) (e : SIGNAL_QUEUE_ENTRY) (u : Nat) :
    (Process.InsertBlocked e).Thread u = Process.Thread u := by
  simp [KPROCESS.Thread]

@[simp] theorem PspQueueChildSignalToParent_Thread (Process : KPROCESS) (n : Nat) (r : CHILD_SIGNAL_REASON) (u : Nat) :
    (PspQueueChildSignalToParent Process n r).Thread u = Process.Thread u := by
  simp [KPROCESS.Thread]

@[simp] theorem PspSetProcessExitStatusUnlocked_Thread (Process : KPROCESS) (r : CHILD_SIGNAL_REASON) (n : Nat) (u : Nat) :
    (PspSetProcessExitStatusUnlocked Process r n).Thread u = Process.Thread u := by
  simp [KPROCESS.Thread]

theorem Thread_SetThread (Process : KPROCESS) (t u : Nat) (v : KTHREAD) :
    (Process.SetThread t v).Thread u =
      if t = u ∧ t < Process.ThreadListHead.length then v else Process.Thread u := by
  by_cases h : t = u
  · subst h
    by_cases hl : t < Process.ThreadListHead.length
    · simp [hl, Thread_SetThread_same]
    · have hl2 : Process.ThreadListHead.length ≤ t := by omega
      simp [hl, KPROCESS.Thread, KPROCESS.SetThread, List.getD_eq_getElem?_getD,
        List.getElem?_set, List.getElem?_eq_none hl2]
  · simp [h, Thread_SetThread_ne]

@[simp] theorem PspRestoreSignalPending_length (Process : KPROCESS) (t : Nat) (s : SIGNAL_SET) :
    (PspRestoreSignalPending Process t s).ThreadListHead.length =
      Process.ThreadListHead.length := by
  unfold PspRestoreSignalPending
  split
  · split <;> simp [length_SetThread]
  · rfl

theorem PspRestoreSignalPending_Thread_ne (Process : KPROCESS) (t u : Nat) (s : SIGNAL_SET)
    (h : t ≠ u) : (PspRestoreSignalPending Process t s).Thread u = Process.Thread u := by
  unfold PspRestoreSignalPending
  split
  · split <;> simp [Thread_SetThread_ne, h]
  · rfl

theorem PspRestoreSignalPending_Thread (Process : KPROCESS) (t : Nat) (s : SIGNAL_SET) :
    ∃ sp, (PspRestoreSignalPending Process t s).Thread t =
      { Process.Thread t with SignalPending := sp } := by
  unfold PspRestoreSignalPending
  split
  · split
    · rw [Thread_SetThread]
      split
      · exact ⟨_, rfl⟩
      · exact ⟨(Process.Thread t).SignalPending, rfl⟩
    · exact ⟨(Process.Thread t).SignalPending, rfl⟩
  · exact ⟨(Process.Thread t).SignalPending, rfl⟩

@[simp] theorem PspRestoreSignalPending_Thread_BlockedSignals (Process : KPROCESS) (t u : Nat)
    (s : SIGNAL_SET) :
    ((PspRestoreSignalPending Process t s).Thread u).BlockedSignals = (Process.Thread u).BlockedSignals := by
  by_cases h : t = u
  · subst h
    obtain ⟨sp, hsp⟩ := PspRestoreSignalPending_Thread Process t s
    rw [hsp]
  · rw [PspRestoreSignalPending_Thread_ne _ _ _ _ h]

@[simp] theorem PspRestoreSignalPending_Thread_PendingSignals (Process : KPROCESS) (t u : Nat)
    (s : SIGNAL_SET) :
    ((PspRestoreSignalPending Process t s).Thread u).PendingSignals = (Process.Thread u).PendingSignals := by
  by_cases h : t = u
  · subst h
    obtain ⟨sp, hsp⟩ := PspRestoreSignalPending_Thread Process t s
    rw [hsp]
  · rw [PspRestoreSignalPending_Thread_ne _ _ _ _ h]

@[simp] theorem PspRestoreSignalPending_Thread_RunningSignals (Process : KPROCESS) (t u : Nat)
    (s : SIGNAL_SET) :
    ((PspRestoreSignalPending Process t s).Thread u).RunningSignals = (Process.Thread u).RunningSignals := by
  by_cases h : t = u
  · subst h
    obtain ⟨sp, hsp⟩ := PspRestoreSignalPending_Thread Process t s
    rw [hsp]
  · rw [PspRestoreSignalPending_Thread_ne _ _ _ _ h]

@[simp] theorem PspRestoreSignalPending_Thread_SignalListHead (Process : KPROCESS) (t u : Nat)
    (s : SIGNAL_SET) :
    ((PspRestoreSignalPending Process t s).Thread u).SignalListHead = (Process.Thread u).SignalListHead := by
  by_cases h : t = u
  · subst h
    obtain ⟨sp, hsp⟩ := PspRestoreSignalPending_Thread Process t s
    rw [hsp]
  · rw [PspRestoreSignalPending_Thread_ne _ _ _ _ h]

@[simp] theorem PspRestoreSignalPending_Thread_WakeCalls (Process : KPROCESS) (t u : Nat)
    (s : SIGNAL_SET) :
    ((PspRestoreSignalPending Process t s).Thread u).WakeCalls = (Process.Thread u).WakeCalls := by
  by_cases h : t = u
  · subst h
    obtain ⟨sp, hsp⟩ := PspRestoreSignalPending_Thread Process t s
    rw [hsp]
  · rw [PspRestoreSignalPending_Thread_ne _ _ _ _ h]

/-! ## Tracer break without a tracer -/

theorem PspTracerBreak_no_tracer (Env : KERNEL_ENVIRONMENT) (Process : KPROCESS)
    (Signal : SIGNAL_PARAMETERS) (h : Process.HasTracer = false) :
    PspTracerBreak Env Process Signal = Signal := by
  unfold PspTracerBreak PspForwardUserModeExceptionToKernel
  simp only [h, Bool.not_false, if_true]
  split
  · rename_i hf
    split
    · rfl
    · split
      · rfl
      · split
        · rename_i ht
          exfalso
          simp only [Bool.or_eq_true, Bool.and_eq_true, beq_iff_eq] at hf
          simp only [beq_iff_eq] at ht
          rw [ht] at hf
          revert hf
          simp [SIGNAL_TRAP, SIGNAL_ABORT, SIGNAL_ILLEGAL_INSTRUCTION, SIGNAL_BUS_ERROR,
            SIGNAL_MATH_ERROR, SIGNAL_ACCESS_VIOLATION]
        · rfl
  · rfl

/-! ## Dequeue: the standard signals -/

theorem PspCheckForNonMaskableSignals_eq (Process : KPROCESS) (t : Nat)
    (h : NonMaskablePending Process t = false) :
    PspCheckForNonMaskableSignals Process t = some ULONG_MINUS_ONE := by
  simp only [NonMaskablePending, Bool.or_eq_false_iff] at h
  obtain ⟨⟨⟨h1, h2⟩, h3⟩, h4⟩ := h
  simp [PspCheckForNonMaskableSignals, IS_SIGNAL_SET_ULONG, IS_SIGNAL_SET_OR_SIGNAL_SETS,
    h1, h2, h3, h4]

theorem PspCheckForNonMaskableSignals_none (Process : KPROCESS) (t : Nat)
    (h : NonMaskablePending Process t = true) :
    PspCheckForNonMaskableSignals Process t = none := by
  simp only [NonMaskablePending, Bool.or_eq_true] at h
  simp only [PspCheckForNonMaskableSignals, IS_SIGNAL_SET_ULONG, IS_SIGNAL_SET_OR_SIGNAL_SETS,
    SIGNAL_KILL, SIGNAL_STOP] at h ⊢
  rcases h with ((h | h) | h) | h <;> simp [h]

theorem testBit_combined (a b bl ru i : Nat) :
    (ULONG (REMOVE_SIGNAL (ULONG (REMOVE_SIGNAL
      (ULONG (REMOVE_SIGNALS_FROM_SET (ULONG (REMOVE_SIGNALS_FROM_SET
        (ULONG (OR_SIGNAL_SETS a b)) bl)) ru)) SIGNAL_STOP)) SIGNAL_KILL)).testBit i =
    (decide (i < 32) &&
      (REMOVE_SIGNAL (REMOVE_SIGNAL (REMOVE_SIGNALS_FROM_SET (REMOVE_SIGNALS_FROM_SET
        (OR_SIGNAL_SETS a b) bl) ru) SIGNAL_STOP) SIGNAL_KILL).testBit i) := by
  simp only [ULONG, REMOVE_SIGNAL, REMOVE_SIGNALS_FROM_SET, OR_SIGNAL_SETS,
    Nat.testBit_mod_two_pow, Nat.testBit_and, Nat.testBit_or, testBit_SIGNAL_SET_NOT,
    testBit_SIGNAL_BIT]
  by_cases h : i < 32
  · have : i < 64 := by omega
    simp [h, this]
  · simp [h]

theorem PspDequeuePendingSignal_eq (Env : KERNEL_ENVIRONMENT) (Process : KPROCESS) (t : Nat)
    (SignalParameters : SIGNAL_PARAMETERS) (hThread : t < Process.ThreadListHead.length)
    (hPending : (Process.Thread t).SignalPending ≠ .ThreadNoSignalPending)
    (hNonMaskable : NonMaskablePending Process t = false) :
    PspDequeuePendingSignal Env Process t SignalParameters =
      if IS_SIGNAL_SET_EMPTY
            (ULONG (OR_SIGNAL_SETS (Process.Thread t).PendingSignals Process.PendingSignals)) &&
          Process.SignalListHead.isEmpty && (Process.Thread t).SignalListHead.isEmpty then
        some ⟨ULONG_MINUS_ONE, SignalParameters, DequeueClearedPending Process t⟩
      else
        match (DequeueStandardLoop Env Process t).Dequeued with
        | some Signal =>
          some ⟨Signal.SignalNumber, Signal, (DequeueStandardLoop Env Process t).Process⟩
        | none =>
          some (PspDequeueQueuedSignal Env t (DequeueStandardLoop Env Process t).SavedSignalMask
            ((DequeueStandardLoop Env Process t).Process.SignalListHead.length +
              ((DequeueStandardLoop Env Process t).Process.Thread t).SignalListHead.length + 1)
            (DequeueStandardLoop Env Process t).Process SIGNAL_PARAMETERS.Zero) := by
  unfold PspDequeuePendingSignal
  rw [PspCheckForNonMaskableSignals_eq _ _ hNonMaskable]
  simp only [beq_iff_eq, hPending, if_false, bne_self_eq_false, Bool.false_eq_true,
    Thread_SetThread_same _ _ _ hThread, SetThread_PendingSignals, SetThread_SignalListHead,
    DequeueStandardLoop, DequeueCombinedSignalMask, DequeueSavedSignalMask,
    DequeueClearedPending]

theorem PspDequeueStandardSignals_hit (Env : KERNEL_ENVIRONMENT) (t Tm Pm C f n Saved : Nat)
    (Process : KPROCESS) (hThread : t < Process.ThreadListHead.length)
    (hTracer : Process.HasTracer = false) (hn : IS_SIGNAL_SET C n = true) (hn0 : n ≠ 0) :
    (PspDequeueStandardSignals Env t Tm Pm C (f + 1) n Saved Process).Dequeued =
        some { SIGNAL_PARAMETERS.Zero with SignalNumber := n } ∧
      (PspDequeueStandardSignals Env t Tm Pm C (f + 1) n Saved Process).Process.PendingSignals =
        (if IS_SIGNAL_SET Tm n then Process.PendingSignals
         else if IS_SIGNAL_SET Pm n then REMOVE_SIGNAL Process.PendingSignals n
         else Process.PendingSignals) ∧
      ((PspDequeueStandardSignals Env t Tm Pm C (f + 1) n Saved Process).Process.Thread
          t).PendingSignals =
        (if IS_SIGNAL_SET Tm n then REMOVE_SIGNAL (Process.Thread t).PendingSignals n
         else (Process.Thread t).PendingSignals) ∧
      (∀ u, u ≠ t →
        (PspDequeueStandardSignals Env t Tm Pm C (f + 1) n Saved Process).Process.Thread u =
          Process.Thread u) ∧
      (PspDequeueStandardSignals Env t Tm Pm C (f + 1) n Saved Process).Process.SignalListHead =
        Process.SignalListHead ∧
      (PspDequeueStandardSignals Env t Tm Pm C (f + 1) n Saved
          Process).Process.BlockedSignalListHead = Process.BlockedSignalListHead ∧
      ((PspDequeueStandardSignals Env t Tm Pm C (f + 1) n Saved Process).Process.Thread
          t).SignalListHead = (Process.Thread t).SignalListHead ∧
      (PspDequeueStandardSignals Env t Tm Pm C (f + 1) n Saved Process).Process.CompletedSignals =
        Process.CompletedSignals := by
  have hfin : ∀ (Q : KPROCESS), Q.HasTracer = false →
      (∀ u, (Q.Thread u).SignalListHead = (Process.Thread u).SignalListHead) →
      (∀ u, u ≠ t → Q.Thread u = Process.Thread u) →
      Q.SignalListHead = Process.SignalListHead →
      Q.BlockedSignalListHead = Process.BlockedSignalListHead →
      Q.CompletedSignals = Process.CompletedSignals →
      ∀ (S : SIGNAL_SET),
      (PspTracerBreak Env (PspRestoreSignalPending Q t S)
          { SIGNAL_PARAMETERS.Zero with SignalNumber := n } =
        { SIGNAL_PARAMETERS.Zero with SignalNumber := n }) ∧
      ∀ (R : KPROCESS),
        (R = PspRestoreSignalPending Q t S ∨
          R = PspQueueChildSignalToParent (PspRestoreSignalPending Q t S) SIGNAL_CONTINUE
            .CHILD_SIGNAL_REASON_CONTINUED) →
        R.PendingSignals = Q.PendingSignals ∧
        (R.Thread t).PendingSignals = (Q.Thread t).PendingSignals ∧
        (∀ u, u ≠ t → R.Thread u = Process.Thread u) ∧
        R.SignalListHead = Process.SignalListHead ∧
        R.BlockedSignalListHead = Process.BlockedSignalListHead ∧
        (R.Thread t).SignalListHead = (Process.Thread t).SignalListHead ∧
        R.CompletedSignals = Process.CompletedSignals := by
    intro Q hQ hQl hQu hQs hQb hQc S
    refine ⟨PspTracerBreak_no_tracer _ _ _ (by simp [hQ]), ?_⟩
    intro R hR
    rcases hR with hR | hR <;> subst hR
    · refine ⟨by simp, by simp, ?_, by simp [hQs], by simp [hQb], by simp [hQl], by simp [hQc]⟩
      intro u hu
      simp [PspRestoreSignalPending_Thread_ne _ _ _ _ (Ne.symm hu), hQu u hu]
    · refine ⟨by simp, by simp, ?_, by simp [hQs], by simp [hQb], by simp [hQl], by simp [hQc]⟩
      intro u hu
      simp [PspRestoreSignalPending_Thread_ne _ _ _ _ (Ne.symm hu), hQu u hu]
  have key : ∀ (Q : KPROCESS), Q.HasTracer = false →
      (∀ u, (Q.Thread u).SignalListHead = (Process.Thread u).SignalListHead) →
      (∀ u, u ≠ t → Q.Thread u = Process.Thread u) →
      Q.SignalListHead = Process.SignalListHead →
      Q.BlockedSignalListHead = Process.BlockedSignalListHead →
      Q.CompletedSignals = Process.CompletedSignals →
      ∀ (S : SIGNAL_SET) (c : Bool),
      let Signal := PspTracerBreak Env (PspRestoreSignalPending Q t S)
          { SIGNAL_PARAMETERS.Zero with SignalNumber := n }
      let R := if c then
          PspQueueChildSignalToParent (PspRestoreSignalPending Q t S) SIGNAL_CONTINUE
            .CHILD_SIGNAL_REASON_CONTINUED
        else PspRestoreSignalPending Q t S
      Signal = { SIGNAL_PARAMETERS.Zero with SignalNumber := n } ∧
        R.PendingSignals = Q.PendingSignals ∧
        (R.Thread t).PendingSignals = (Q.Thread t).PendingSignals ∧
        (∀ u, u ≠ t → R.Thread u = Process.Thread u) ∧
        R.SignalListHead = Process.SignalListHead ∧
        R.BlockedSignalListHead = Process.BlockedSignalListHead ∧
        (R.Thread t).SignalListHead = (Process.Thread t).SignalListHead ∧
        R.CompletedSignals = Process.CompletedSignals := by
    intro Q hQ hQl hQu hQs hQb hQc S c
    obtain ⟨h1, h2⟩ := hfin Q hQ hQl hQu hQs hQb hQc S
    refine ⟨h1, ?_⟩
    cases c
    · exact h2 _ (Or.inl rfl)
    · exact h2 _ (Or.inr rfl)
  by_cases hT : IS_SIGNAL_SET Tm n = true
  · have hk := key (Process.SetThread t { Process.Thread t with
        PendingSignals := REMOVE_SIGNAL (Process.Thread t).PendingSignals n })
      (by simp [hTracer])
      (by
        intro u
        rw [Thread_SetThread]
        split
        · rename_i h; rw [← h.1]
        · rfl)
      (fun u hu => Thread_SetThread_ne _ _ _ _ (Ne.symm hu)) rfl rfl rfl
    simp only [PspDequeueStandardSignals, PspClearPendingSignal, hn, hT, if_true]
    obtain ⟨hs, h2⟩ := hk
      (if ((Process.SetThread t { Process.Thread t with
          PendingSignals := REMOVE_SIGNAL (Process.Thread t).PendingSignals n }).Thread
            t).SignalPending == .ThreadNoSignalPending
        then ULONG (REMOVE_SIGNAL Saved n) else Saved)
      (n == SIGNAL_CONTINUE && n == n &&
        (PspRestoreSignalPending (Process.SetThread t { Process.Thread t with
          PendingSignals := REMOVE_SIGNAL (Process.Thread t).PendingSignals n }) t
          (if ((Process.SetThread t { Process.Thread t with
            PendingSignals := REMOVE_SIGNAL (Process.Thread t).PendingSignals n }).Thread
              t).SignalPending == .ThreadNoSignalPending
          then ULONG (REMOVE_SIGNAL Saved n) else Saved)).TracerIsNotParent)
    rw [hs]
    simp only [bne_iff_ne, ne_eq, hn0, not_false_eq_true, if_true, SetThread_PendingSignals,
      Thread_SetThread_same _ _ _ hThread] at h2 ⊢
    exact ⟨trivial, h2⟩
  · by_cases hP : IS_SIGNAL_SET Pm n = true
    · have hk := key { Process with PendingSignals := REMOVE_SIGNAL Process.PendingSignals n }
        hTracer (fun u => rfl) (fun u hu => rfl) rfl rfl rfl
      simp only [PspDequeueStandardSignals, PspClearPendingSignal, hn, hT, hP, if_true, if_false,
        Bool.false_eq_true]
      obtain ⟨hs, h2⟩ := hk
        (if (({ Process with PendingSignals := REMOVE_SIGNAL Process.PendingSignals n } :
            KPROCESS).Thread t).SignalPending == .ThreadNoSignalPending
          then ULONG (REMOVE_SIGNAL Saved n) else Saved)
        (n == SIGNAL_CONTINUE && n == n &&
          (PspRestoreSignalPending
            { Process with PendingSignals := REMOVE_SIGNAL Process.PendingSignals n } t
            (if (({ Process with PendingSignals := REMOVE_SIGNAL Process.PendingSignals n } :
              KPROCESS).Thread t).SignalPending == .ThreadNoSignalPending
            then ULONG (REMOVE_SIGNAL Saved n) else Saved)).TracerIsNotParent)
      rw [hs]
      simp only [bne_iff_ne, ne_eq, hn0, not_false_eq_true, if_true]
      exact ⟨trivial, h2⟩
    · have hk := key Process hTracer (fun u => rfl) (fun u hu => rfl) rfl rfl rfl
      simp only [PspDequeueStandardSignals, PspClearPendingSignal, hn, hT, hP, if_true, if_false,
        Bool.false_eq_true]
      obtain ⟨hs, h2⟩ := hk
        (if (Process.Thread t).SignalPending == .ThreadNoSignalPending
          then ULONG (REMOVE_SIGNAL Saved n) else Saved)
        (n == SIGNAL_CONTINUE && n == n &&
          (PspRestoreSignalPending Process t
            (if (Process.Thread t).SignalPending == .ThreadNoSignalPending
            then ULONG (REMOVE_SIGNAL Saved n) else Saved)).TracerIsNotParent)
      rw [hs]
      simp only [bne_iff_ne, ne_eq, hn0, not_false_eq_true, if_true]
      exact ⟨trivial, h2⟩

theorem effective_testBit_lt (Process : KPROCESS) (t i : Nat)
    (hStandard : PendingSignalsStandard Process t)
    (h : (EffectiveSignals Process t).testBit i = true) : i < 31 := by
  by_contra hi
  have hor := Nat.or_lt_two_pow hStandard.1 hStandard.2
  have h2 : ((Process.Thread t).PendingSignals ||| Process.PendingSignals) < 2 ^ i :=
    Nat.lt_of_lt_of_le hor (Nat.pow_le_pow_right (by decide) (by
      simp only [STANDARD_SIGNAL_COUNT]; omega))
  have h3 := Nat.testBit_lt_two_pow h2
  simp only [EffectiveSignals, REMOVE_SIGNAL, REMOVE_SIGNALS_FROM_SET, OR_SIGNAL_SETS,
    Nat.testBit_and, Bool.and_eq_true] at h
  rw [h3] at h
  simp at h

theorem DequeueCombinedSignalMask_eq (Process : KPROCESS) (t : Nat)
    (hStandard : PendingSignalsStandard Process t) :
    DequeueCombinedSignalMask Process t = EffectiveSignals Process t := by
  apply Nat.eq_of_testBit_eq
  intro i
  unfold DequeueCombinedSignalMask DequeueSavedSignalMask
  rw [testBit_combined]
  by_cases hi : i < 32
  · simp [hi, EffectiveSignals]
  · simp only [hi, decide_False, Bool.false_and]
    cases hb : (EffectiveSignals Process t).testBit i
    · rfl
    · have := effective_testBit_lt Process t i hStandard hb
      omega

theorem DequeueCombinedSignalMask_testBit (Process : KPROCESS) (t i : Nat) :
    (DequeueCombinedSignalMask Process t).testBit i =
      (decide (i < 32) && (EffectiveSignals Process t).testBit i) := by
  unfold DequeueCombinedSignalMask DequeueSavedSignalMask
  rw [testBit_combined]
  rfl

/-- C3: with no tracer attached, no KILL or STOP pending and `signalPending`
not None, when the set `effective` holds a standard signal (a signal below
`STANDARD_SIGNAL_COUNT`), `PspDequeuePendingSignal` returns the lowest-numbered
signal of `effective`, which is a standard signal, clears its bit from the
pending set of the thread when it was set there and from the pending set of
the process otherwise, and leaves the other pending bits, the pending sets of
the other threads, the process queue, the thread queues and the
blocked-deferred list as they were. -/
theorem C3_dequeue_lowest_standard_signal (Env : KERNEL_ENVIRONMENT) (Process : KPROCESS)
    (t : Nat) (SignalParameters : SIGNAL_PARAMETERS)
    (hThread : t < Process.ThreadListHead.length)
    (hTracer : Process.HasTracer = false)
    (hNonMaskable : NonMaskablePending Process t = false)
    (hPending : (Process.Thread t).SignalPending ≠ .ThreadNoSignalPending)
    (hEffective : ∃ SignalNumber, 1 ≤ SignalNumber ∧ SignalNumber < STANDARD_SIGNAL_COUNT ∧
      IS_SIGNAL_SET (EffectiveSignals Process t) SignalNumber = true) :
    ∃ Result, PspDequeuePendingSignal Env Process t SignalParameters = some Result ∧
      1 ≤ Result.DequeuedSignal ∧
      Result.DequeuedSignal < STANDARD_SIGNAL_COUNT ∧
      IS_SIGNAL_SET (EffectiveSignals Process t) Result.DequeuedSignal = true ∧
      (∀ m, 1 ≤ m → m < Result.DequeuedSignal →
        IS_SIGNAL_SET (EffectiveSignals Process t) m = false) ∧
      (Result.Process.Thread t).PendingSignals =
        (if IS_SIGNAL_SET (Process.Thread t).PendingSignals Result.DequeuedSignal then
          REMOVE_SIGNAL (Process.Thread t).PendingSignals Result.DequeuedSignal
        else (Process.Thread t).PendingSignals) ∧
      Result.Process.PendingSignals =
        (if IS_SIGNAL_SET (Process.Thread t).PendingSignals Result.DequeuedSignal then
          Process.PendingSignals
        else REMOVE_SIGNAL Process.PendingSignals Result.DequeuedSignal) ∧
      (∀ u, u ≠ t → Result.Process.Thread u = Process.Thread u) ∧
      Result.Process.SignalListHead = Process.SignalListHead ∧
      Result.Process.BlockedSignalListHead = Process.BlockedSignalListHead ∧
      (Result.Process.Thread t).SignalListHead = (Process.Thread t).SignalListHead ∧
      Result.Process.CompletedSignals = Process.CompletedSignals := by
  obtain ⟨n0, hn1, hn2, hn3⟩ := hEffective
  simp only [STANDARD_SIGNAL_COUNT] at hn2
  have hkE : (EffectiveSignals Process t).testBit (n0 - 1) = true := by
    rw [IS_SIGNAL_SET_eq] at hn3
    simp only [Bool.and_eq_true] at hn3
    exact hn3.2
  have hkC : (DequeueCombinedSignalMask Process t).testBit (n0 - 1) = true := by
    rw [DequeueCombinedSignalMask_testBit, hkE]
    have : n0 - 1 < 32 := by omega
    simp [this]
  obtain ⟨hc1, hc2, hc3⟩ :=
    RtlCountTrailingZeros64_spec (DequeueCombinedSignalMask Process t) (n0 - 1) (by omega) hkC
  have hn : IS_SIGNAL_SET (DequeueCombinedSignalMask Process t)
      (RtlCountTrailingZeros64 (DequeueCombinedSignalMask Process t) + 1) = true := by
    rw [IS_SIGNAL_SET_eq]
    have : RtlCountTrailingZeros64 (DequeueCombinedSignalMask Process t) < 64 := by omega
    simp [hc1, this]
  have hnE : IS_SIGNAL_SET (EffectiveSignals Process t)
      (RtlCountTrailingZeros64 (DequeueCombinedSignalMask Process t) + 1) = true := by
    rw [IS_SIGNAL_SET_eq]
    have : RtlCountTrailingZeros64 (DequeueCombinedSignalMask Process t) < 64 := by omega
    rw [DequeueCombinedSignalMask_testBit] at hc1
    simp only [Bool.and_eq_true] at hc1
    simp [hc1.2, this]
  have hCne : IS_SIGNAL_SET_EMPTY (DequeueCombinedSignalMask Process t) = false := by
    cases hz : IS_SIGNAL_SET_EMPTY (DequeueCombinedSignalMask Process t)
    · rfl
    · rw [IS_SIGNAL_SET_EMPTY_iff] at hz
      rw [hz] at hkC
      simp at hkC
  obtain ⟨f, hf⟩ : ∃ f, STANDARD_SIGNAL_COUNT -
      (RtlCountTrailingZeros64 (DequeueCombinedSignalMask Process t) + 1) = f + 1 :=
    ⟨30 - RtlCountTrailingZeros64 (DequeueCombinedSignalMask Process t), by
      simp only [STANDARD_SIGNAL_COUNT]; omega⟩
  have hmem : IS_SIGNAL_SET (Process.Thread t).PendingSignals
        (RtlCountTrailingZeros64 (DequeueCombinedSignalMask Process t) + 1) = true ∨
      IS_SIGNAL_SET Process.PendingSignals
        (RtlCountTrailingZeros64 (DequeueCombinedSignalMask Process t) + 1) = true := by
    have := hnE
    simp only [EffectiveSignals, IS_SIGNAL_SET_REMOVE_SIGNAL,
      IS_SIGNAL_SET_REMOVE_SIGNALS_FROM_SET, IS_SIGNAL_SET_OR_SIGNAL_SETS, Bool.and_eq_true,
      Bool.or_eq_true] at this
    exact this.1.1.1.1
  have hfast : IS_SIGNAL_SET_EMPTY
      (ULONG (OR_SIGNAL_SETS (Process.Thread t).PendingSignals Process.PendingSignals)) =
        false := by
    cases hz : IS_SIGNAL_SET_EMPTY
      (ULONG (OR_SIGNAL_SETS (Process.Thread t).PendingSignals Process.PendingSignals))
    · rfl
    · exfalso
      rw [IS_SIGNAL_SET_EMPTY_iff] at hz
      have h1 : IS_SIGNAL_SET
          (ULONG (OR_SIGNAL_SETS (Process.Thread t).PendingSignals Process.PendingSignals))
          (RtlCountTrailingZeros64 (DequeueCombinedSignalMask Process t) + 1) = true := by
        rw [IS_SIGNAL_SET_ULONG, IS_SIGNAL_SET_OR_SIGNAL_SETS]
        have : RtlCountTrailingZeros64 (DequeueCombinedSignalMask Process t) < 32 := by omega
        rcases hmem with h | h <;> simp [h, this]
      rw [hz] at h1
      simp [IS_SIGNAL_SET] at h1
  have hTracer1 : (DequeueClearedPending Process t).HasTracer = false := by
    simp [DequeueClearedPending, hTracer]
  have hThread1 : t < (DequeueClearedPending Process t).ThreadListHead.length := by
    simp [DequeueClearedPending, hThread]
  obtain ⟨h1, h2, h3, h4, h5, h6, h7, h8⟩ :=
    PspDequeueStandardSignals_hit Env t (Process.Thread t).PendingSignals
      Process.PendingSignals (DequeueCombinedSignalMask Process t) f
      (RtlCountTrailingZeros64 (DequeueCombinedSignalMask Process t) + 1)
      (DequeueSavedSignalMask Process t) (DequeueClearedPending Process t) hThread1 hTracer1 hn
      (by omega)
  rw [PspDequeuePendingSignal_eq Env Process t SignalParameters hThread hPending hNonMaskable]
  simp only [hfast, Bool.false_and, Bool.false_eq_true, if_false, DequeueStandardLoop,
    hCne, beq_self_eq_true, if_true, hf, h1]
  refine ⟨_, rfl, ?_, ?_, hnE, ?_, ?_, ?_, ?_, ?_, ?_, ?_, ?_⟩
  · simp
  · simp only [STANDARD_SIGNAL_COUNT]
    show RtlCountTrailingZeros64 (DequeueCombinedSignalMask Process t) + 1 < 32
    omega
  · intro m hm1 hm2
    rw [IS_SIGNAL_SET_eq]
    simp only [Bool.and_eq_false_imp, decide_eq_true_eq]
    intro _
    have hm3 : m - 1 < RtlCountTrailingZeros64 (DequeueCombinedSignalMask Process t) := by
      simp at hm2; omega
    have := hc3 (m - 1) hm3
    rw [DequeueCombinedSignalMask_testBit] at this
    have h32 : m - 1 < 32 := by omega
    simpa [h32] using this
  · show ((PspDequeueStandardSignals Env t (Process.Thread t).PendingSignals
      Process.PendingSignals (DequeueCombinedSignalMask Process t) (f + 1)
      (RtlCountTrailingZeros64 (DequeueCombinedSignalMask Process t) + 1)
      (DequeueSavedSignalMask Process t) (DequeueClearedPending Process t)).Process.Thread
        t).PendingSignals = _
    rw [h3]
    simp [DequeueClearedPending, Thread_SetThread_same, hThread]
  · show (PspDequeueStandardSignals Env t (Process.Thread t).PendingSignals
      Process.PendingSignals (DequeueCombinedSignalMask Process t) (f + 1)
      (RtlCountTrailingZeros64 (DequeueCombinedSignalMask Process t) + 1)
      (DequeueSavedSignalMask Process t) (DequeueClearedPending Process t)).Process.PendingSignals
        = _
    rw [h2]
    simp only [DequeueClearedPending, SetThread_PendingSignals]
    rcases hmem with h | h
    · simp [h]
    · simp [h]
  · intro u hu
    exact (h4 u hu).trans (by
      simp [DequeueClearedPending, Thread_SetThread_ne _ _ _ _ (Ne.symm hu)])
  · exact h5.trans (by simp [DequeueClearedPending])
  · exact h6.trans (by simp [DequeueClearedPending])
  · exact h7.trans (by simp [DequeueClearedPending, Thread_SetThread_same, hThread])
  · exact h8.trans (by simp [DequeueClearedPending])

/-- C3, a pending signal above the standard range: the bare signal 40 is sent
to the thread of `ExampleIdleProcess` with `PspQueueSignal`, which puts it in
the pending set of the thread and raises the thread to "signal pending". No
tracer is attached and neither KILL nor STOP is pending; the set `effective`
holds signal 40. `PspDequeuePendingSignal` returns -1: the masks of the routine
are `ULONG` values, so the check in front of the lock sees no signal, signal 40
stays in the pending set and the thread is left in "no signal pending". -/
theorem C3_signal_above_standard_range_counterexample :
    (PspQueueSignal ExampleEnvironment ExampleIdleProcess (some 0) 40 none false).HasTracer =
        false ∧
      NonMaskablePending
        (PspQueueSignal ExampleEnvironment ExampleIdleProcess (some 0) 40 none false) 0 = false ∧
      ((PspQueueSignal ExampleEnvironment ExampleIdleProcess (some 0) 40 none false).Thread
        0).SignalPending = .ThreadSignalPending ∧
      IS_SIGNAL_SET (EffectiveSignals
        (PspQueueSignal ExampleEnvironment ExampleIdleProcess (some 0) 40 none false) 0) 40 =
          true ∧
      (PspDequeuePendingSignal ExampleEnvironment
          (PspQueueSignal ExampleEnvironment ExampleIdleProcess (some 0) 40 none false) 0
          SIGNAL_PARAMETERS.Zero).map
        (fun Result => (Result.DequeuedSignal,
          IS_SIGNAL_SET (Result.Process.Thread 0).PendingSignals 40,
          (Result.Process.Thread 0).SignalPending)) =
        some (ULONG_MINUS_ONE, true, .ThreadNoSignalPending) := by
  decide

/-! ## Dequeue: what is kept -/

theorem SetThread_Thread_proj {α : Type} (f : KTHREAD → α) (Process : KPROCESS) (t u : Nat)
    (v : KTHREAD) (h : f v = f (Process.Thread t)) :
    f ((Process.SetThread t v).Thread u) = f (Process.Thread u) := by
  rw [Thread_SetThread]
  split
  · rename_i hc
    rw [h, hc.1]
  · rfl

theorem DequeueFrame_refl (t : Nat) (P : KPROCESS) : DequeueFrame t P P :=
  ⟨rfl, rfl, rfl, rfl, rfl, rfl, rfl, rfl⟩

theorem DequeueFrame_trans (t : Nat) (P Q R : KPROCESS) (h1 : DequeueFrame t P Q)
    (h2 : DequeueFrame t Q R) : DequeueFrame t P R := by
  obtain ⟨a1, a2, a3, a4, a5, a6, a7, a8⟩ := h1
  obtain ⟨b1, b2, b3, b4, b5, b6, b7, b8⟩ := h2
  exact ⟨b1.trans a1, b2.trans a2, b3.trans a3, b4.trans a4, b5.trans a5, b6.trans a6,
    b7.trans a7, b8.trans a8⟩

theorem DequeueFrame_restore (t : Nat) (P : KPROCESS) (s : SIGNAL_SET) :
    DequeueFrame t P (PspRestoreSignalPending P t s) := by
  refine ⟨?_, ?_, ?_, ?_, ?_, ?_, ?_, ?_⟩ <;> simp

theorem DequeueFrame_child (t : Nat) (P : KPROCESS) (n : Nat) (r : CHILD_SIGNAL_REASON) :
    DequeueFrame t P (PspQueueChildSignalToParent P n r) := by
  refine ⟨?_, ?_, ?_, ?_, ?_, ?_, ?_, ?_⟩ <;> simp

theorem DequeueFrame_pending (t : Nat) (P : KPROCESS) (s : SIGNAL_SET) :
    DequeueFrame t P { P with PendingSignals := s } :=
  ⟨rfl, rfl, rfl, rfl, rfl, rfl, rfl, rfl⟩

theorem DequeueFrame_thread (t : Nat) (P : KPROCESS) (v : KTHREAD)
    (h1 : v.BlockedSignals = (P.Thread t).BlockedSignals)
    (h2 : v.SignalListHead = (P.Thread t).SignalListHead) :
    DequeueFrame t P (P.SetThread t v) := by
  refine ⟨rfl, rfl, by simp, ?_, rfl, rfl, ?_, rfl⟩
  · exact SetThread_Thread_proj KTHREAD.BlockedSignals P t t v h1
  · exact SetThread_Thread_proj KTHREAD.SignalListHead P t t v h2

theorem DequeueFrame_clear (t : Nat) (P : KPROCESS) (Tm Pm n : Nat) :
    DequeueFrame t P (PspClearPendingSignal P t Tm Pm n) := by
  unfold PspClearPendingSignal
  split_ifs
  · exact DequeueFrame_thread t P _ rfl rfl
  · exact DequeueFrame_pending t P _
  · exact DequeueFrame_refl t P

theorem PspDequeueStandardSignals_frame (Env : KERNEL_ENVIRONMENT) (t Tm Pm C : Nat) :
    ∀ (Fuel n Saved : Nat) (P : KPROCESS),
      DequeueFrame t P (PspDequeueStandardSignals Env t Tm Pm C Fuel n Saved P).Process := by
  intro Fuel
  induction Fuel with
  | zero => intro n Saved P; exact DequeueFrame_refl t P
  | succ f ih =>
    intro n Saved P
    have hP1 := DequeueFrame_clear t P Tm Pm n
    simp only [PspDequeueStandardSignals]
    split_ifs <;>
    first
    | exact DequeueFrame_trans _ _ _ _ hP1
        (DequeueFrame_trans _ _ _ _ (DequeueFrame_restore _ _ _) (DequeueFrame_child _ _ _ _))
    | exact DequeueFrame_trans _ _ _ _ hP1 (DequeueFrame_restore _ _ _)
    | exact DequeueFrame_trans _ _ _ _ (DequeueFrame_trans _ _ _ _ hP1
        (DequeueFrame_restore _ _ _)) (ih _ _ _)
    | exact ih _ _ _

theorem PspDequeueStandardSignals_mem (Env : KERNEL_ENVIRONMENT) (t Tm Pm C : Nat) :
    ∀ (Fuel n Saved : Nat) (P : KPROCESS) (S : SIGNAL_PARAMETERS), P.HasTracer = false →
      (PspDequeueStandardSignals Env t Tm Pm C Fuel n Saved P).Dequeued = some S →
      IS_SIGNAL_SET C S.SignalNumber = true := by
  intro Fuel
  induction Fuel with
  | zero => intro n Saved P S _ h; simp [PspDequeueStandardSignals] at h
  | succ f ih =>
    intro n Saved P S hT h
    have hP1 := DequeueFrame_clear t P Tm Pm n
    simp only [PspDequeueStandardSignals] at h
    have hT2 : ∀ s, (PspRestoreSignalPending (PspClearPendingSignal P t Tm Pm n) t s).HasTracer =
        false := fun s =>
      (DequeueFrame_trans _ _ _ _ hP1 (DequeueFrame_restore _ _ _)).1.trans hT
    split_ifs at h with h1 <;>
    first
    | exact ih _ _ _ _ (hT2 _) h
    | exact ih _ _ _ _ hT h
    | (simp only [STANDARD_SIGNAL_LOOP.mk.injEq, Option.some.injEq] at h
       rw [← h, PspTracerBreak_no_tracer _ _ _ (hT2 _)]
       exact h1)

/-! ## Dequeue: the queue walk -/

theorem Complete_eq (P : KPROCESS) (e : SIGNAL_QUEUE_ENTRY) :
    P.Complete e =
      { P with CompletedSignals := P.CompletedSignals ++ (if e.CompletionRoutine then [e] else []) } := by
  unfold KPROCESS.Complete
  split <;> simp

theorem PspDequeueWalkQueue_shape (Env : KERNEL_ENVIRONMENT) (T : KTHREAD) :
    ∀ (L : List SIGNAL_QUEUE_ENTRY) (P : KPROCESS), ∃ bl cs,
      (PspDequeueWalkQueue Env T L P).Process =
        { P with
          BlockedSignalListHead := P.BlockedSignalListHead ++ bl
          CompletedSignals := P.CompletedSignals ++ cs } := by
  intro L
  induction L with
  | nil => intro P; exact ⟨[], [], by simp [PspDequeueWalkQueue]⟩
  | cons e rest ih =>
    intro P
    have hIns : ∀ x, ∃ bl cs, (PspDequeueWalkQueue Env T rest (P.InsertBlocked x)).Process =
        { P with
          BlockedSignalListHead := P.BlockedSignalListHead ++ bl
          CompletedSignals := P.CompletedSignals ++ cs } := by
      intro x
      obtain ⟨bl, cs, h⟩ := ih (P.InsertBlocked x)
      refine ⟨x :: bl, cs, ?_⟩
      rw [h]
      simp [KPROCESS.InsertBlocked]
    have hCom : ∀ x, ∃ bl cs, (PspDequeueWalkQueue Env T rest (P.Complete x)).Process =
        { P with
          BlockedSignalListHead := P.BlockedSignalListHead ++ bl
          CompletedSignals := P.CompletedSignals ++ cs } := by
      intro x
      obtain ⟨bl, cs, h⟩ := ih (P.Complete x)
      refine ⟨bl, (if x.CompletionRoutine then [x] else []) ++ cs, ?_⟩
      rw [h, Complete_eq]
      simp
    have hNil : ∃ bl cs, P =
        { P with
          BlockedSignalListHead := P.BlockedSignalListHead ++ bl
          CompletedSignals := P.CompletedSignals ++ cs } := ⟨[], [], by simp⟩
    simp only [PspDequeueWalkQueue]
    split_ifs
    all_goals first
      | exact hIns _
      | exact hCom _
      | exact ih P
      | exact hNil

theorem PspDequeueWalkQueue_take (Env : KERNEL_ENVIRONMENT) (T : KTHREAD)
    (e : SIGNAL_QUEUE_ENTRY) (post : List SIGNAL_QUEUE_ENTRY) :
    ∀ (pre : List SIGNAL_QUEUE_ENTRY) (P : KPROCESS),
      (∀ x ∈ pre, EntryEligible Env P T x = false) → EntryEligible Env P T e = true →
      (PspDequeueWalkQueue Env T (pre ++ e :: post) P).SignalEntry = some e ∧
      (PspDequeueWalkQueue Env T (pre ++ e :: post) P).Remaining = post := by
  intro pre
  induction pre with
  | nil =>
    intro P _ he
    simp only [EntryEligible, Bool.and_eq_true, Bool.not_eq_true'] at he
    obtain ⟨⟨h1, h2⟩, h3⟩ := he
    simp only [List.nil_append, PspDequeueWalkQueue]
    rw [if_neg (Bool.eq_false_iff.mp h1), if_neg (Bool.eq_false_iff.mp h2), if_pos h3]
    exact ⟨rfl, rfl⟩
  | cons x pre ih =>
    intro P hpre he
    have hx := hpre x (List.mem_cons_self _ _)
    have hrest : ∀ (Q : KPROCESS), Q.HandledSignals = P.HandledSignals →
        (PspDequeueWalkQueue Env T (pre ++ e :: post) Q).SignalEntry = some e ∧
        (PspDequeueWalkQueue Env T (pre ++ e :: post) Q).Remaining = post := by
      intro Q hQ
      apply ih Q
      · intro y hy
        have := hpre y (List.mem_cons_of_mem _ hy)
        simpa [EntryEligible, hQ] using this
      · simpa [EntryEligible, hQ] using he
    simp only [List.cons_append, PspDequeueWalkQueue]
    by_cases c1 : (IS_SIGNAL_SET P.HandledSignals x.Parameters.SignalNumber == false &&
        Env.IS_SIGNAL_DEFAULT_IGNORE x.Parameters.SignalNumber) = true
    · rw [if_pos c1]
      split_ifs <;> exact hrest _ (by simp)
    · rw [if_neg c1]
      by_cases c2 : IS_SIGNAL_BLOCKED T x.Parameters.SignalNumber = true
      · rw [if_pos c2]
        exact hrest _ (by simp)
      · rw [if_neg c2]
        by_cases c3 : (x.Delivered == false) = true
        · exfalso
          simp only [Bool.not_eq_true] at c1 c2
          rw [EntryEligible, c1, c2, c3] at hx
          simp at hx
        · rw [if_neg c3]
          exact hrest _ rfl

theorem PspDequeueWalkQueue_none (Env : KERNEL_ENVIRONMENT) (T : KTHREAD) :
    ∀ (L : List SIGNAL_QUEUE_ENTRY) (P : KPROCESS),
      (∀ x ∈ L, EntryEligible Env P T x = false) →
      (PspDequeueWalkQueue Env T L P).SignalEntry = none ∧
      (PspDequeueWalkQueue Env T L P).Remaining = [] := by
  intro L
  induction L with
  | nil => intro P _; exact ⟨rfl, rfl⟩
  | cons x L ih =>
    intro P hL
    have hx := hL x (List.mem_cons_self _ _)
    have hrest : ∀ (Q : KPROCESS), Q.HandledSignals = P.HandledSignals →
        (PspDequeueWalkQueue Env T L Q).SignalEntry = none ∧
        (PspDequeueWalkQueue Env T L Q).Remaining = [] := by
      intro Q hQ
      apply ih Q
      intro y hy
      have := hL y (List.mem_cons_of_mem _ hy)
      simpa [EntryEligible, hQ] using this
    simp only [PspDequeueWalkQueue]
    by_cases c1 : (IS_SIGNAL_SET P.HandledSignals x.Parameters.SignalNumber == false &&
        Env.IS_SIGNAL_DEFAULT_IGNORE x.Parameters.SignalNumber) = true
    · rw [if_pos c1]
      split_ifs <;> exact hrest _ (by simp)
    · rw [if_neg c1]
      by_cases c2 : IS_SIGNAL_BLOCKED T x.Parameters.SignalNumber = true
      · rw [if_pos c2]
        exact hrest _ (by simp)
      · rw [if_neg c2]
        by_cases c3 : (x.Delivered == false) = true
        · exfalso
          simp only [Bool.not_eq_true] at c1 c2
          rw [EntryEligible, c1, c2, c3] at hx
          simp at hx
        · rw [if_neg c3]
          exact hrest _ rfl

/-- Every queue is either without an eligible entry or splits around its first
eligible entry. -/
theorem first_eligible_split (p : SIGNAL_QUEUE_ENTRY → Bool) :
    ∀ (L : List SIGNAL_QUEUE_ENTRY),
      (∀ x ∈ L, p x = false) ∨
      ∃ pre e post, L = pre ++ e :: post ∧ (∀ x ∈ pre, p x = false) ∧ p e = true := by
  intro L
  induction L with
  | nil => left; simp
  | cons x L ih =>
    cases hp : p x
    · rcases ih with h | ⟨pre, e, post, h1, h2, h3⟩
      · left
        intro y hy
        rcases List.mem_cons.mp hy with rfl | hy
        · exact hp
        · exact h y hy
      · right
        refine ⟨x :: pre, e, post, by simp [h1], ?_, h3⟩
        intro y hy
        rcases List.mem_cons.mp hy with rfl | hy
        · exact hp
        · exact h2 y hy
    · right
      exact ⟨[], x, L, rfl, by simp, hp⟩

theorem PspDequeueWalkQueue_blocked_mono (Env : KERNEL_ENVIRONMENT) (T : KTHREAD)
    (L : List SIGNAL_QUEUE_ENTRY) (P : KPROCESS) (x : SIGNAL_QUEUE_ENTRY)
    (h : x ∈ P.BlockedSignalListHead) :
    x ∈ (PspDequeueWalkQueue Env T L P).Process.BlockedSignalListHead := by
  obtain ⟨bl, cs, hs⟩ := PspDequeueWalkQueue_shape Env T L P
  rw [hs]
  exact List.mem_append_left _ h

theorem PspDequeueWalkQueue_retain (Env : KERNEL_ENVIRONMENT) (T : KTHREAD)
    (x : SIGNAL_QUEUE_ENTRY) (hb : IS_SIGNAL_BLOCKED T x.Parameters.SignalNumber = true) :
    ∀ (L : List SIGNAL_QUEUE_ENTRY) (P : KPROCESS), P.HasTracer = false →
      EntryDiscarded Env P x = false → x ∈ L →
      x ∈ (PspDequeueWalkQueue Env T L P).Remaining ∨
        x ∈ (PspDequeueWalkQueue Env T L P).Process.BlockedSignalListHead := by
  intro L
  induction L with
  | nil => intro P _ _ h; simp at h
  | cons e rest ih =>
    intro P hT hd hx
    have hrest : ∀ (Q : KPROCESS), Q.HasTracer = false → Q.HandledSignals = P.HandledSignals →
        (x ∈ rest ∨ x ∈ Q.BlockedSignalListHead) →
        x ∈ (PspDequeueWalkQueue Env T rest Q).Remaining ∨
          x ∈ (PspDequeueWalkQueue Env T rest Q).Process.BlockedSignalListHead := by
      intro Q hQ hQh hmem
      rcases hmem with hmem | hmem
      · exact ih Q hQ (by simpa [EntryDiscarded, hQh] using hd) hmem
      · exact Or.inr (PspDequeueWalkQueue_blocked_mono Env T rest Q x hmem)
    simp only [PspDequeueWalkQueue, hT, Bool.false_eq_true, if_false]
    rcases List.mem_cons.mp hx with hxe | hxr
    · subst hxe
      by_cases c1 : (IS_SIGNAL_SET P.HandledSignals x.Parameters.SignalNumber == false &&
          Env.IS_SIGNAL_DEFAULT_IGNORE x.Parameters.SignalNumber) = true
      · rw [if_pos c1]
        have hchild : (x.Parameters.SignalNumber == SIGNAL_CHILD_PROCESS_ACTIVITY) = true := by
          simp only [EntryDiscarded] at hd
          rw [c1] at hd
          simpa using hd
        rw [if_pos hchild]
        exact hrest _ (by simp [hT]) (by simp) (Or.inr (by simp [KPROCESS.InsertBlocked]))
      · rw [if_neg c1, if_pos hb]
        exact hrest _ (by simp [hT]) (by simp) (Or.inr (by simp [KPROCESS.InsertBlocked]))
    · by_cases c1 : (IS_SIGNAL_SET P.HandledSignals e.Parameters.SignalNumber == false &&
          Env.IS_SIGNAL_DEFAULT_IGNORE e.Parameters.SignalNumber) = true
      · rw [if_pos c1]
        split_ifs
        · exact hrest _ (by simp [hT]) (by simp) (Or.inl hxr)
        · exact hrest _ (by simp [hT]) (by simp) (Or.inl hxr)
      · rw [if_neg c1]
        split_ifs
        · exact hrest _ (by simp [hT]) (by simp) (Or.inl hxr)
        · exact Or.inl hxr
        · exact hrest _ hT rfl (Or.inl hxr)

theorem PspDequeueWalkQueue_entry (Env : KERNEL_ENVIRONMENT) (T : KTHREAD)
    (L : List SIGNAL_QUEUE_ENTRY) (P : KPROCESS) (e : SIGNAL_QUEUE_ENTRY)
    (h : (PspDequeueWalkQueue Env T L P).SignalEntry = some e) :
    EntryEligible Env P T e = true ∧ e ∈ L := by
  rcases first_eligible_split (EntryEligible Env P T) L with hn | ⟨pre, e2, post, h1, h2, h3⟩
  · rw [(PspDequeueWalkQueue_none Env T L P hn).1] at h
    simp at h
  · rw [h1, (PspDequeueWalkQueue_take Env T e2 post pre P h2 h3).1] at h
    simp only [Option.some.injEq] at h
    subst h
    exact ⟨h3, by simp [h1]⟩

theorem PspDequeueWalkQueue_remaining (Env : KERNEL_ENVIRONMENT) (T : KTHREAD) :
    ∀ (L : List SIGNAL_QUEUE_ENTRY) (P : KPROCESS) (x : SIGNAL_QUEUE_ENTRY),
      x ∈ (PspDequeueWalkQueue Env T L P).Remaining → x ∈ L := by
  intro L P x h
  rcases first_eligible_split (EntryEligible Env P T) L with hn | ⟨pre, e2, post, h1, h2, h3⟩
  · rw [(PspDequeueWalkQueue_none Env T L P hn).2] at h
    simp at h
  · rw [h1, (PspDequeueWalkQueue_take Env T e2 post pre P h2 h3).2] at h
    rw [h1]
    simp [h]

/-! ## Dequeue: one pass over the two queues -/

theorem PspDequeueScanProcessQueue_shape (Env : KERNEL_ENVIRONMENT) (t : Nat) (P : KPROCESS) :
    ∃ bl cs, (PspDequeueScanProcessQueue Env t P).2 =
      { P with
        SignalListHead := (PspDequeueWalkQueue Env (P.Thread t) P.SignalListHead P).Remaining
        BlockedSignalListHead := P.BlockedSignalListHead ++ bl
        CompletedSignals := P.CompletedSignals ++ cs } := by
  obtain ⟨bl0, cs0, h0⟩ := PspDequeueWalkQueue_shape Env (P.Thread t) P.SignalListHead P
  exact ⟨bl0, cs0, by simp [PspDequeueScanProcessQueue, h0]⟩

theorem PspDequeueScanThreadQueue_shape (Env : KERNEL_ENVIRONMENT) (t : Nat) (P : KPROCESS) :
    ∃ bl cs, (PspDequeueScanThreadQueue Env t P).2 =
      ({ P with
        BlockedSignalListHead := P.BlockedSignalListHead ++ bl
        CompletedSignals := P.CompletedSignals ++ cs } : KPROCESS).SetThread t
        { P.Thread t with
          SignalListHead :=
            (PspDequeueWalkQueue Env (P.Thread t) (P.Thread t).SignalListHead P).Remaining } := by
  obtain ⟨bl0, cs0, h0⟩ := PspDequeueWalkQueue_shape Env (P.Thread t) (P.Thread t).SignalListHead P
  refine ⟨bl0, cs0, ?_⟩
  simp only [PspDequeueScanThreadQueue, h0]
  rfl

/-- What a pass over the queues keeps of the state. -/
theorem PspDequeueScanProcessQueue_frame (Env : KERNEL_ENVIRONMENT) (t : Nat) (P : KPROCESS) :
    (PspDequeueScanProcessQueue Env t P).2.HasTracer = P.HasTracer ∧
    (PspDequeueScanProcessQueue Env t P).2.HandledSignals = P.HandledSignals ∧
    (PspDequeueScanProcessQueue Env t P).2.PendingSignals = P.PendingSignals ∧
    (PspDequeueScanProcessQueue Env t P).2.ThreadListHead = P.ThreadListHead := by
  obtain ⟨bl, cs, h⟩ := PspDequeueScanProcessQueue_shape Env t P
  rw [h]
  exact ⟨rfl, rfl, rfl, rfl⟩

theorem PspDequeueScanThreadQueue_frame (Env : KERNEL_ENVIRONMENT) (t : Nat) (P : KPROCESS) :
    (PspDequeueScanThreadQueue Env t P).2.HasTracer = P.HasTracer ∧
    (PspDequeueScanThreadQueue Env t P).2.HandledSignals = P.HandledSignals ∧
    (PspDequeueScanThreadQueue Env t P).2.PendingSignals = P.PendingSignals ∧
    (PspDequeueScanThreadQueue Env t P).2.SignalListHead = P.SignalListHead ∧
    (PspDequeueScanThreadQueue Env t P).2.ThreadListHead.length = P.ThreadListHead.length ∧
    (∀ u, u ≠ t → (PspDequeueScanThreadQueue Env t P).2.Thread u = P.Thread u) ∧
    ((PspDequeueScanThreadQueue Env t P).2.Thread t).BlockedSignals =
      (P.Thread t).BlockedSignals ∧
    ((PspDequeueScanThreadQueue Env t P).2.Thread t).PendingSignals =
      (P.Thread t).PendingSignals := by
  obtain ⟨bl, cs, h⟩ := PspDequeueScanThreadQueue_shape Env t P
  rw [h]
  refine ⟨rfl, rfl, rfl, rfl, by simp, ?_, ?_, ?_⟩
  · intro u hu
    rw [Thread_SetThread_ne _ _ _ _ (Ne.symm hu)]
    rfl
  · exact SetThread_Thread_proj KTHREAD.BlockedSignals _ t t _ rfl
  · exact SetThread_Thread_proj KTHREAD.PendingSignals _ t t _ rfl

theorem PspDequeueScanProcessQueue_retain (Env : KERNEL_ENVIRONMENT) (t : Nat) (P : KPROCESS)
    (x : SIGNAL_QUEUE_ENTRY) (hT : P.HasTracer = false)
    (hb : IS_SIGNAL_BLOCKED (P.Thread t) x.Parameters.SignalNumber = true)
    (hd : EntryDiscarded Env P x = false) (hx : EntryLinked P t x) :
    EntryLinked (PspDequeueScanProcessQueue Env t P).2 t x := by
  have hmono := PspDequeueWalkQueue_blocked_mono Env (P.Thread t) P.SignalListHead P x
  have hret := PspDequeueWalkQueue_retain Env (P.Thread t) x hb P.SignalListHead P hT hd
  obtain ⟨bl0, cs0, h0⟩ := PspDequeueWalkQueue_shape Env (P.Thread t) P.SignalListHead P
  have hth : ((PspDequeueScanProcessQueue Env t P).2.Thread t) = P.Thread t := by
    simp only [PspDequeueScanProcessQueue, h0]
    rfl
  unfold EntryLinked
  rw [hth]
  simp only [PspDequeueScanProcessQueue]
  rcases hx with hx | hx | hx
  · exact Or.inl (hmono hx)
  · rcases hret hx with h | h
    · exact Or.inr (Or.inl h)
    · exact Or.inl h
  · exact Or.inr (Or.inr hx)

theorem PspDequeueScanThreadQueue_retain (Env : KERNEL_ENVIRONMENT) (t : Nat) (P : KPROCESS)
    (x : SIGNAL_QUEUE_ENTRY) (hThread : t < P.ThreadListHead.length) (hT : P.HasTracer = false)
    (hb : IS_SIGNAL_BLOCKED (P.Thread t) x.Parameters.SignalNumber = true)
    (hd : EntryDiscarded Env P x = false) (hx : EntryLinked P t x) :
    EntryLinked (PspDequeueScanThreadQueue Env t P).2 t x := by
  have hmono := PspDequeueWalkQueue_blocked_mono Env (P.Thread t) (P.Thread t).SignalListHead P x
  have hret := PspDequeueWalkQueue_retain Env (P.Thread t) x hb (P.Thread t).SignalListHead P
    hT hd
  obtain ⟨bl0, cs0, h0⟩ := PspDequeueWalkQueue_shape Env (P.Thread t)
    (P.Thread t).SignalListHead P
  have hlen : t < (PspDequeueWalkQueue Env (P.Thread t) (P.Thread t).SignalListHead
      P).Process.ThreadListHead.length := by
    rw [h0]; exact hThread
  have hslh : (PspDequeueWalkQueue Env (P.Thread t) (P.Thread t).SignalListHead
      P).Process.SignalListHead = P.SignalListHead := by
    rw [h0]
  unfold EntryLinked
  simp only [PspDequeueScanThreadQueue, Thread_SetThread_same _ _ _ hlen,
    SetThread_BlockedSignalListHead, SetThread_SignalListHead, hslh]
  rcases hx with hx | hx | hx
  · exact Or.inl (hmono hx)
  · exact Or.inr (Or.inl hx)
  · rcases hret hx with h | h
    · exact Or.inr (Or.inr h)
    · exact Or.inl h

theorem PspDequeueScanQueues_frame (Env : KERNEL_ENVIRONMENT) (t : Nat) (P : KPROCESS) :
    (PspDequeueScanQueues Env t P).2.HasTracer = P.HasTracer ∧
    (PspDequeueScanQueues Env t P).2.HandledSignals = P.HandledSignals ∧
    (PspDequeueScanQueues Env t P).2.PendingSignals = P.PendingSignals ∧
    (PspDequeueScanQueues Env t P).2.ThreadListHead.length = P.ThreadListHead.length ∧
    (∀ u, u ≠ t → (PspDequeueScanQueues Env t P).2.Thread u = P.Thread u) ∧
    ((PspDequeueScanQueues Env t P).2.Thread t).BlockedSignals = (P.Thread t).BlockedSignals ∧
    ((PspDequeueScanQueues Env t P).2.Thread t).PendingSignals =
      (P.Thread t).PendingSignals := by
  obtain ⟨a1, a2, a3, a4⟩ := PspDequeueScanProcessQueue_frame Env t P
  have hth : ∀ u, (PspDequeueScanProcessQueue Env t P).2.Thread u = P.Thread u := by
    intro u; simp [KPROCESS.Thread, a4]
  unfold PspDequeueScanQueues
  split
  · exact ⟨a1, a2, a3, by rw [a4], fun u _ => hth u, by rw [hth], by rw [hth]⟩
  · obtain ⟨b1, b2, b3, _, b5, b6, b7, b8⟩ :=
      PspDequeueScanThreadQueue_frame Env t (PspDequeueScanProcessQueue Env t P).2
    exact ⟨b1.trans a1, b2.trans a2, b3.trans a3, b5.trans (by rw [a4]),
      fun u hu => (b6 u hu).trans (hth u), b7.trans (by rw [hth]), b8.trans (by rw [hth])⟩

theorem PspDequeueScanQueues_entry (Env : KERNEL_ENVIRONMENT) (t : Nat) (P : KPROCESS)
    (e : SIGNAL_QUEUE_ENTRY) (h : (PspDequeueScanQueues Env t P).1 = some e) :
    EntryEligible Env P (P.Thread t) e = true := by
  obtain ⟨a1, a2, a3, a4⟩ := PspDequeueScanProcessQueue_frame Env t P
  have hth : ∀ u, (PspDequeueScanProcessQueue Env t P).2.Thread u = P.Thread u := by
    intro u; simp [KPROCESS.Thread, a4]
  unfold PspDequeueScanQueues at h
  split at h
  · rename_i e0 hsome
    simp only [Prod.mk.injEq, Option.some.injEq] at h
    rw [← h]
    exact (PspDequeueWalkQueue_entry Env _ _ _ _ hsome).1
  · have := (PspDequeueWalkQueue_entry Env _ _ _ _ h).1
    simpa [EntryEligible, hth, a2] using this

theorem PspDequeueScanQueues_retain (Env : KERNEL_ENVIRONMENT) (t : Nat) (P : KPROCESS)
    (x : SIGNAL_QUEUE_ENTRY) (hThread : t < P.ThreadListHead.length)
    (hT : P.HasTracer = false)
    (hb : IS_SIGNAL_BLOCKED (P.Thread t) x.Parameters.SignalNumber = true)
    (hd : EntryDiscarded Env P x = false) (hx : EntryLinked P t x) :
    EntryLinked (PspDequeueScanQueues Env t P).2 t x := by
  obtain ⟨a1, a2, a3, a4⟩ := PspDequeueScanProcessQueue_frame Env t P
  have hth : ∀ u, (PspDequeueScanProcessQueue Env t P).2.Thread u = P.Thread u := by
    intro u; simp [KPROCESS.Thread, a4]
  have h0 := PspDequeueScanProcessQueue_retain Env t P x hT hb hd hx
  unfold PspDequeueScanQueues
  split
  · exact h0
  · exact PspDequeueScanThreadQueue_retain Env t _ x (by rw [a4]; exact hThread) (a1.trans hT)
      (by rw [hth]; exact hb) (by simpa [EntryDiscarded, a2] using hd) h0

/-! ## Dequeue: the loop over the queued entries -/

theorem IS_SIGNAL_SET_ULONG_MINUS_ONE (s : SIGNAL_SET) :
    IS_SIGNAL_SET s ULONG_MINUS_ONE = false :=
  IS_SIGNAL_SET_large _ _ (by decide)

theorem EntryLinked_restore (P : KPROCESS) (t : Nat) (s : SIGNAL_SET) (x : SIGNAL_QUEUE_ENTRY)
    (h : EntryLinked P t x) : EntryLinked (PspRestoreSignalPending P t s) t x := by
  unfold EntryLinked at h ⊢
  simpa using h

theorem EntryLinked_complete (P : KPROCESS) (t : Nat) (e x : SIGNAL_QUEUE_ENTRY)
    (h : EntryLinked P t x) : EntryLinked (P.Complete e) t x := by
  unfold EntryLinked at h ⊢
  simpa using h

theorem EntryLinked_insert (P : KPROCESS) (t : Nat) (e x : SIGNAL_QUEUE_ENTRY)
    (h : EntryLinked P t x) : EntryLinked (P.InsertBlocked e) t x := by
  unfold EntryLinked at h ⊢
  rcases h with h | h | h
  · exact Or.inl (by simp [KPROCESS.InsertBlocked, h])
  · exact Or.inr (Or.inl (by simpa using h))
  · exact Or.inr (Or.inr (by simpa using h))

theorem PspDequeuePass (Env : KERNEL_ENVIRONMENT) (t : Nat) (Saved : SIGNAL_SET)
    (P : KPROCESS) (hThread : t < P.ThreadListHead.length) (hT : P.HasTracer = false) :
    (PspRestoreSignalPending (PspDequeueScanQueues Env t P).2 t Saved).HasTracer = false ∧
    (PspRestoreSignalPending (PspDequeueScanQueues Env t P).2 t Saved).HandledSignals =
      P.HandledSignals ∧
    t < (PspRestoreSignalPending (PspDequeueScanQueues Env t P).2 t
      Saved).ThreadListHead.length ∧
    ((PspRestoreSignalPending (PspDequeueScanQueues Env t P).2 t Saved).Thread
      t).BlockedSignals = (P.Thread t).BlockedSignals ∧
    ∀ x, IS_SIGNAL_BLOCKED (P.Thread t) x.Parameters.SignalNumber = true →
      EntryDiscarded Env P x = false → EntryLinked P t x →
      EntryLinked (PspRestoreSignalPending (PspDequeueScanQueues Env t P).2 t Saved) t x := by
  obtain ⟨a1, a2, a3, a4, a5, a6, a7⟩ := PspDequeueScanQueues_frame Env t P
  refine ⟨by simp [a1, hT], by simp [a2], by simp [a4, hThread], by simp [a6], ?_⟩
  intro x hb hd hx
  exact EntryLinked_restore _ _ _ _ (PspDequeueScanQueues_retain Env t P x hThread hT hb hd hx)

theorem PspDequeueQueuedSignal_inv (Env : KERNEL_ENVIRONMENT) (t : Nat) (Saved : SIGNAL_SET) :
    ∀ (Fuel : Nat) (P : KPROCESS) (SP : SIGNAL_PARAMETERS),
      t < P.ThreadListHead.length → P.HasTracer = false →
      ((PspDequeueQueuedSignal Env t Saved Fuel P SP).Process.Thread t).BlockedSignals =
        (P.Thread t).BlockedSignals ∧
      IS_SIGNAL_SET (P.Thread t).BlockedSignals
        (PspDequeueQueuedSignal Env t Saved Fuel P SP).DequeuedSignal = false ∧
      ∀ x, IS_SIGNAL_BLOCKED (P.Thread t) x.Parameters.SignalNumber = true →
        EntryDiscarded Env P x = false → EntryLinked P t x →
        EntryLinked (PspDequeueQueuedSignal Env t Saved Fuel P SP).Process t x := by
  intro Fuel
  induction Fuel with
  | zero =>
    intro P SP _ _
    exact ⟨rfl, IS_SIGNAL_SET_ULONG_MINUS_ONE _, fun _ _ _ h => h⟩
  | succ f ih =>
    intro P SP hThread hT
    obtain ⟨q1, q2, q3, q4, q5⟩ := PspDequeuePass Env t Saved P hThread hT
    simp only [PspDequeueQueuedSignal]
    split
    · rename_i e he
      have hel := PspDequeueScanQueues_entry Env t P e he
      rw [PspTracerBreak_no_tracer _ _ _ q1]
      have hnb : IS_SIGNAL_SET (P.Thread t).BlockedSignals e.Parameters.SignalNumber = false := by
        simp only [EntryEligible, IS_SIGNAL_BLOCKED, Bool.and_eq_true, Bool.not_eq_true'] at hel
        exact hel.1.2
      split
      · refine ⟨?_, hnb, ?_⟩
        · split <;> simpa using q4
        · intro x hb hd hx
          split
          · exact EntryLinked_insert _ _ _ _ (q5 x hb hd hx)
          · exact EntryLinked_complete _ _ _ _ (q5 x hb hd hx)
      · obtain ⟨i1, i2, i3⟩ := ih
          ((PspRestoreSignalPending (PspDequeueScanQueues Env t P).2 t Saved).Complete e)
          e.Parameters (by simpa using q3) (by simpa using q1)
        simp only [Complete_Thread, q4] at i1 i2
        refine ⟨i1, i2, ?_⟩
        intro x hb hd hx
        refine i3 x ?_ ?_ (EntryLinked_complete _ _ _ _ (q5 x hb hd hx))
        · simpa [IS_SIGNAL_BLOCKED, q4] using hb
        · have hh : ((PspRestoreSignalPending (PspDequeueScanQueues Env t P).2 t
              Saved).Complete e).HandledSignals = P.HandledSignals := by
            rw [Complete_HandledSignals]; exact q2
          unfold EntryDiscarded at hd ⊢
          rw [hh]
          exact hd
    · exact ⟨q4, IS_SIGNAL_SET_ULONG_MINUS_ONE _, q5⟩

/-! ## Dequeue: the routine as a whole -/

theorem DequeueFrame_cleared (t : Nat) (P : KPROCESS) :
    DequeueFrame t P (DequeueClearedPending P t) :=
  DequeueFrame_thread t P _ rfl rfl

theorem DequeueFrame_loop (Env : KERNEL_ENVIRONMENT) (t : Nat) (P : KPROCESS) :
    DequeueFrame t P (DequeueStandardLoop Env P t).Process := by
  unfold DequeueStandardLoop
  split
  · exact DequeueFrame_trans _ _ _ _ (DequeueFrame_cleared t P)
      (PspDequeueStandardSignals_frame _ _ _ _ _ _ _ _ _)
  · exact DequeueFrame_cleared t P

theorem DequeueStandardLoop_mem (Env : KERNEL_ENVIRONMENT) (t : Nat) (P : KPROCESS)
    (S : SIGNAL_PARAMETERS) (hT : P.HasTracer = false)
    (h : (DequeueStandardLoop Env P t).Dequeued = some S) :
    IS_SIGNAL_SET (DequeueCombinedSignalMask P t) S.SignalNumber = true := by
  unfold DequeueStandardLoop at h
  split at h
  · exact PspDequeueStandardSignals_mem _ _ _ _ _ _ _ _ _ _
      ((DequeueFrame_cleared t P).1.trans hT) h
  · simp at h

theorem DequeueCombinedSignalMask_not_blocked (P : KPROCESS) (t n : Nat)
    (h : IS_SIGNAL_SET (DequeueCombinedSignalMask P t) n = true) :
    IS_SIGNAL_SET (P.Thread t).BlockedSignals n = false := by
  simp only [DequeueCombinedSignalMask, DequeueSavedSignalMask, IS_SIGNAL_SET_ULONG,
    IS_SIGNAL_SET_REMOVE_SIGNAL, IS_SIGNAL_SET_REMOVE_SIGNALS_FROM_SET, Bool.and_eq_true,
    Bool.not_eq_true', decide_eq_true_eq] at h
  exact h.2.1.2.1.2.1.2.2

theorem EntryLinked_frame (t : Nat) (P Q : KPROCESS) (x : SIGNAL_QUEUE_ENTRY)
    (hf : DequeueFrame t P Q) (h : EntryLinked P t x) : EntryLinked Q t x := by
  obtain ⟨_, _, _, _, a5, a6, a7, _⟩ := hf
  unfold EntryLinked at h ⊢
  rw [a5, a6, a7]
  exact h

theorem PspDequeuePendingSignal_returns (Env : KERNEL_ENVIRONMENT) (Process : KPROCESS)
    (t : Nat) (SignalParameters : SIGNAL_PARAMETERS)
    (hThread : t < Process.ThreadListHead.length)
    (hNonMaskable : NonMaskablePending Process t = false) :
    ∃ Result, PspDequeuePendingSignal Env Process t SignalParameters = some Result := by
  by_cases hp : (Process.Thread t).SignalPending = .ThreadNoSignalPending
  · exact ⟨⟨ULONG_MINUS_ONE, SignalParameters, Process⟩, by
      simp [PspDequeuePendingSignal, hp]⟩
  · rw [PspDequeuePendingSignal_eq Env Process t SignalParameters hThread hp hNonMaskable]
    split
    · exact ⟨_, rfl⟩
    · split <;> exact ⟨_, rfl⟩

/-- Witness of C3 on `ExampleProcess`: signal 2 is the lowest signal of the
effective set and is the one returned. -/
theorem C3_dequeue_lowest_standard_signal_witness :
    ∃ Result,
      PspDequeuePendingSignal ExampleEnvironment ExampleProcess 0 SIGNAL_PARAMETERS.Zero =
        some Result ∧
      IS_SIGNAL_SET (EffectiveSignals ExampleProcess 0) Result.DequeuedSignal = true := by
  obtain ⟨Result, hResult, _, _, h, _⟩ := C3_dequeue_lowest_standard_signal ExampleEnvironment
    ExampleProcess 0 SIGNAL_PARAMETERS.Zero (by decide) (by decide) (by decide) (by decide)
    ⟨2, by decide, by decide, by decide⟩
  exact ⟨Result, hResult, h⟩

/-! ## Dequeue: the first eligible entry -/

theorem PspDequeueScanQueues_process (Env : KERNEL_ENVIRONMENT) (t : Nat) (P : KPROCESS)
    (pre post : List SIGNAL_QUEUE_ENTRY) (e : SIGNAL_QUEUE_ENTRY)
    (hq : P.SignalListHead = pre ++ e :: post)
    (hpre : ∀ x ∈ pre, EntryEligible Env P (P.Thread t) x = false)
    (he : EntryEligible Env P (P.Thread t) e = true) :
    (PspDequeueScanQueues Env t P).1 = some e ∧
    (PspDequeueScanQueues Env t P).2.SignalListHead = post ∧
    (PspDequeueScanQueues Env t P).2.ThreadListHead = P.ThreadListHead := by
  obtain ⟨h1, h2⟩ := PspDequeueWalkQueue_take Env (P.Thread t) e post pre P hpre he
  rw [← hq] at h1 h2
  obtain ⟨bl, cs, h0⟩ := PspDequeueWalkQueue_shape Env (P.Thread t) P.SignalListHead P
  have hs : (PspDequeueScanProcessQueue Env t P).1 = some e := h1
  unfold PspDequeueScanQueues
  rw [hs]
  refine ⟨rfl, h2, ?_⟩
  simp only [PspDequeueScanProcessQueue, h0]

theorem PspDequeueScanThreadQueue_take (Env : KERNEL_ENVIRONMENT) (t : Nat) (P : KPROCESS)
    (pre post : List SIGNAL_QUEUE_ENTRY) (e : SIGNAL_QUEUE_ENTRY)
    (hThread : t < P.ThreadListHead.length)
    (ht : (P.Thread t).SignalListHead = pre ++ e :: post)
    (hpre : ∀ x ∈ pre, EntryEligible Env P (P.Thread t) x = false)
    (he : EntryEligible Env P (P.Thread t) e = true) :
    (PspDequeueScanThreadQueue Env t P).1 = some e ∧
    (PspDequeueScanThreadQueue Env t P).2.SignalListHead = P.SignalListHead ∧
    ((PspDequeueScanThreadQueue Env t P).2.Thread t).SignalListHead = post ∧
    ∀ u, u ≠ t → (PspDequeueScanThreadQueue Env t P).2.Thread u = P.Thread u := by
  obtain ⟨g1, g2⟩ := PspDequeueWalkQueue_take Env (P.Thread t) e post pre P hpre he
  rw [← ht] at g1 g2
  obtain ⟨f1, f2, f3, f4, f5, f6, f7, f8⟩ := PspDequeueScanThreadQueue_frame Env t P
  obtain ⟨bl, cs, hs⟩ := PspDequeueScanThreadQueue_shape Env t P
  refine ⟨g1, f4, ?_, f6⟩
  rw [hs, Thread_SetThread_same]
  · exact g2
  · exact hThread

theorem PspDequeueScanQueues_thread (Env : KERNEL_ENVIRONMENT) (t : Nat) (P : KPROCESS)
    (pre post : List SIGNAL_QUEUE_ENTRY) (e : SIGNAL_QUEUE_ENTRY)
    (hThread : t < P.ThreadListHead.length)
    (hq : ∀ x ∈ P.SignalListHead, EntryEligible Env P (P.Thread t) x = false)
    (ht : (P.Thread t).SignalListHead = pre ++ e :: post)
    (hpre : ∀ x ∈ pre, EntryEligible Env P (P.Thread t) x = false)
    (he : EntryEligible Env P (P.Thread t) e = true) :
    (PspDequeueScanQueues Env t P).1 = some e ∧
    (PspDequeueScanQueues Env t P).2.SignalListHead = [] ∧
    ((PspDequeueScanQueues Env t P).2.Thread t).SignalListHead = post ∧
    ∀ u, u ≠ t → (PspDequeueScanQueues Env t P).2.Thread u = P.Thread u := by
  obtain ⟨h1, h2⟩ := PspDequeueWalkQueue_none Env (P.Thread t) P.SignalListHead P hq
  obtain ⟨a1, a2, a3, a4⟩ := PspDequeueScanProcessQueue_frame Env t P
  have hth : ∀ u, (PspDequeueScanProcessQueue Env t P).2.Thread u = P.Thread u := by
    intro u; simp [KPROCESS.Thread, a4]
  have hs : (PspDequeueScanProcessQueue Env t P).1 = none := h1
  have hq0 : (PspDequeueScanProcessQueue Env t P).2.SignalListHead = [] := h2
  have hel : ∀ x, EntryEligible Env (PspDequeueScanProcessQueue Env t P).2
      ((PspDequeueScanProcessQueue Env t P).2.Thread t) x =
        EntryEligible Env P (P.Thread t) x := by
    intro x
    simp only [EntryEligible, hth, a2]
  obtain ⟨g1, g2, g3, g4⟩ := PspDequeueScanThreadQueue_take Env t
    (PspDequeueScanProcessQueue Env t P).2 pre post e (by rw [a4]; exact hThread)
    (by rw [hth]; exact ht) (fun x hx => by rw [hel]; exact hpre x hx) (by rw [hel]; exact he)
  unfold PspDequeueScanQueues
  rw [hs]
  exact ⟨g1, g2.trans hq0, g3, fun u hu => (g4 u hu).trans (hth u)⟩

theorem PspDequeueQueuedSignal_take (Env : KERNEL_ENVIRONMENT) (t : Nat) (Saved : SIGNAL_SET)
    (Fuel : Nat) (P : KPROCESS) (SP : SIGNAL_PARAMETERS) (e : SIGNAL_QUEUE_ENTRY)
    (hT : P.HasTracer = false) (he : (PspDequeueScanQueues Env t P).1 = some e)
    (hnum : e.Parameters.SignalNumber ≠ 0) :
    PspDequeueQueuedSignal Env t Saved (Fuel + 1) P SP =
      ⟨e.Parameters.SignalNumber, e.Parameters,
        if e.Parameters.SignalNumber = SIGNAL_CHILD_PROCESS_ACTIVITY then
          (PspRestoreSignalPending (PspDequeueScanQueues Env t P).2 t Saved).InsertBlocked
            { e with Delivered := true }
        else
          (PspRestoreSignalPending (PspDequeueScanQueues Env t P).2 t Saved).Complete
            { e with Delivered := true }⟩ := by
  have hT2 : (PspRestoreSignalPending (PspDequeueScanQueues Env t P).2 t Saved).HasTracer =
      false := by
    simp [(PspDequeueScanQueues_frame Env t P).1, hT]
  simp only [PspDequeueQueuedSignal, he, PspTracerBreak_no_tracer _ _ _ hT2, bne_iff_ne, ne_eq,
    hnum, not_false_eq_true, if_true, beq_iff_eq]

theorem DequeueCombinedSignalMask_empty (P : KPROCESS) (t : Nat)
    (h : IS_SIGNAL_SET_EMPTY (EffectiveSignals P t) = true) :
    DequeueCombinedSignalMask P t = 0 := by
  rw [IS_SIGNAL_SET_EMPTY_iff] at h
  apply Nat.eq_of_testBit_eq
  intro i
  unfold DequeueCombinedSignalMask DequeueSavedSignalMask
  rw [testBit_combined]
  have : (REMOVE_SIGNAL (REMOVE_SIGNAL (REMOVE_SIGNALS_FROM_SET (REMOVE_SIGNALS_FROM_SET
      (OR_SIGNAL_SETS (P.Thread t).PendingSignals P.PendingSignals)
      (P.Thread t).BlockedSignals) (P.Thread t).RunningSignals) SIGNAL_STOP) SIGNAL_KILL) = 0 := h
  rw [this]
  simp

theorem PspDequeuePendingSignal_queue (Env : KERNEL_ENVIRONMENT) (Process : KPROCESS) (t : Nat)
    (SignalParameters : SIGNAL_PARAMETERS) (hThread : t < Process.ThreadListHead.length)
    (hPending : (Process.Thread t).SignalPending ≠ .ThreadNoSignalPending)
    (hNonMaskable : NonMaskablePending Process t = false)
    (hEffective : IS_SIGNAL_SET_EMPTY (EffectiveSignals Process t) = true)
    (hQueue : Process.SignalListHead ≠ [] ∨ (Process.Thread t).SignalListHead ≠ []) :
    PspDequeuePendingSignal Env Process t SignalParameters =
      some (PspDequeueQueuedSignal Env t (DequeueSavedSignalMask Process t)
        (Process.SignalListHead.length + (Process.Thread t).SignalListHead.length + 1)
        (DequeueClearedPending Process t) SIGNAL_PARAMETERS.Zero) := by
  rw [PspDequeuePendingSignal_eq Env Process t SignalParameters hThread hPending hNonMaskable]
  have hfast : (IS_SIGNAL_SET_EMPTY
        (ULONG (OR_SIGNAL_SETS (Process.Thread t).PendingSignals Process.PendingSignals)) &&
      Process.SignalListHead.isEmpty && (Process.Thread t).SignalListHead.isEmpty) = false := by
    rcases hQueue with h | h
    · have : Process.SignalListHead.isEmpty = false := by
        cases hl : Process.SignalListHead with
        | nil => exact absurd hl h
        | cons a l => rfl
      simp [this]
    · have : (Process.Thread t).SignalListHead.isEmpty = false := by
        cases hl : (Process.Thread t).SignalListHead with
        | nil => exact absurd hl h
        | cons a l => rfl
      simp [this]
  have hloop : DequeueStandardLoop Env Process t =
      ⟨none, DequeueSavedSignalMask Process t, DequeueClearedPending Process t⟩ := by
    simp [DequeueStandardLoop, DequeueCombinedSignalMask_empty Process t hEffective,
      IS_SIGNAL_SET_EMPTY]
  rw [hfast, hloop]
  simp [DequeueClearedPending, Thread_SetThread_same, hThread]

theorem EntryEligible_cleared (Env : KERNEL_ENVIRONMENT) (P : KPROCESS) (t : Nat)
    (x : SIGNAL_QUEUE_ENTRY) :
    EntryEligible Env (DequeueClearedPending P t) ((DequeueClearedPending P t).Thread t) x =
      EntryEligible Env P (P.Thread t) x := by
  have h := (DequeueFrame_cleared t P).2.2.2.1
  have h2 := (DequeueFrame_cleared t P).2.1
  simp only [EntryEligible, IS_SIGNAL_BLOCKED, h, h2]

/-- C4: with no tracer attached and no deliverable bitmap signal (the set
`effective` is empty), neither KILL nor STOP pending and `signalPending` not
None, `PspDequeuePendingSignal` delivers the first eligible entry in the order
process queue, then thread queue, where an entry is eligible when it is not
unhandled-default-ignore, not blocked for the thread and not yet delivered: the
call returns the signal and the parameters of that entry and marks it
delivered, and the entries behind it stay on their queue in their order. When
the entry is on the process queue, the queue of the thread is not touched. -/
theorem C4_first_eligible_entry_delivered (Env : KERNEL_ENVIRONMENT) (Process : KPROCESS)
    (t : Nat) (SignalParameters : SIGNAL_PARAMETERS)
    (hThread : t < Process.ThreadListHead.length)
    (hTracer : Process.HasTracer = false)
    (hNonMaskable : NonMaskablePending Process t = false)
    (hPending : (Process.Thread t).SignalPending ≠ .ThreadNoSignalPending)
    (hEffective : IS_SIGNAL_SET_EMPTY (EffectiveSignals Process t) = true) :
    (∀ pre e post, Process.SignalListHead = pre ++ e :: post →
      (∀ x ∈ pre, EntryEligible Env Process (Process.Thread t) x = false) →
      EntryEligible Env Process (Process.Thread t) e = true →
      e.Parameters.SignalNumber ≠ 0 →
      ∃ Result, PspDequeuePendingSignal Env Process t SignalParameters = some Result ∧
        Result.DequeuedSignal = e.Parameters.SignalNumber ∧
        Result.SignalParameters = e.Parameters ∧
        EntryDelivered Result.Process e ∧
        Result.Process.SignalListHead = post ∧
        (Result.Process.Thread t).SignalListHead = (Process.Thread t).SignalListHead) ∧
    (∀ pre e post,
      (∀ x ∈ Process.SignalListHead, EntryEligible Env Process (Process.Thread t) x = false) →
      (Process.Thread t).SignalListHead = pre ++ e :: post →
      (∀ x ∈ pre, EntryEligible Env Process (Process.Thread t) x = false) →
      EntryEligible Env Process (Process.Thread t) e = true →
      e.Parameters.SignalNumber ≠ 0 →
      ∃ Result, PspDequeuePendingSignal Env Process t SignalParameters = some Result ∧
        Result.DequeuedSignal = e.Parameters.SignalNumber ∧
        Result.SignalParameters = e.Parameters ∧
        EntryDelivered Result.Process e ∧
        Result.Process.SignalListHead = [] ∧
        (Result.Process.Thread t).SignalListHead = post) := by
  have hT1 : (DequeueClearedPending Process t).HasTracer = false :=
    (DequeueFrame_cleared t Process).1.trans hTracer
  have hlen1 : t < (DequeueClearedPending Process t).ThreadListHead.length := by
    rw [(DequeueFrame_cleared t Process).2.2.1]; exact hThread
  have hdel : ∀ (Q : KPROCESS) (e : SIGNAL_QUEUE_ENTRY),
      EntryDelivered
        (if e.Parameters.SignalNumber = SIGNAL_CHILD_PROCESS_ACTIVITY then
          Q.InsertBlocked { e with Delivered := true }
        else Q.Complete { e with Delivered := true }) e := by
    intro Q e
    unfold EntryDelivered
    split
    · simp [KPROCESS.InsertBlocked]
    · intro hc
      simp [KPROCESS.Complete, hc]
  constructor
  · intro pre e post hq hpre he hnum
    obtain ⟨s1, s2, s3⟩ := PspDequeueScanQueues_process Env t (DequeueClearedPending Process t)
      pre post e hq (fun x hx => by rw [EntryEligible_cleared]; exact hpre x hx)
      (by rw [EntryEligible_cleared]; exact he)
    refine ⟨_, PspDequeuePendingSignal_queue Env Process t SignalParameters hThread hPending
      hNonMaskable hEffective (Or.inl (by rw [hq]; simp)), ?_⟩
    rw [PspDequeueQueuedSignal_take Env t _ _ _ _ e hT1 s1 hnum]
    refine ⟨rfl, rfl, hdel _ e, ?_, ?_⟩
    · split <;> simpa using s2
    · have hth : (PspDequeueScanQueues Env t (DequeueClearedPending Process t)).2.Thread t =
          (DequeueClearedPending Process t).Thread t := by
        simp only [KPROCESS.Thread, s3]
      have := (DequeueFrame_cleared t Process).2.2.2.2.2.2.1
      split <;> simp [hth, this]
  · intro pre e post hq ht hpre he hnum
    obtain ⟨s1, s2, s3, s4⟩ := PspDequeueScanQueues_thread Env t
      (DequeueClearedPending Process t) pre post e hlen1
      (fun x hx => by rw [EntryEligible_cleared]; exact hq x hx)
      (by rw [(DequeueFrame_cleared t Process).2.2.2.2.2.2.1]; exact ht)
      (fun x hx => by rw [EntryEligible_cleared]; exact hpre x hx)
      (by rw [EntryEligible_cleared]; exact he)
    refine ⟨_, PspDequeuePendingSignal_queue Env Process t SignalParameters hThread hPending
      hNonMaskable hEffective (Or.inr (by rw [ht]; simp)), ?_⟩
    rw [PspDequeueQueuedSignal_take Env t _ _ _ _ e hT1 s1 hnum]
    refine ⟨rfl, rfl, hdel _ e, ?_, ?_⟩
    · split <;> simpa using s2
    · split <;> simpa using s3


/-- Witness of C4 on `ExampleQueueProcess`: the first entry of the process
queue is ignored by default, so the entry of signal 40 behind it is the one
delivered, and the entry of signal 41 stays. -/
theorem C4_first_eligible_entry_delivered_witness :
    ∃ Result,
      PspDequeuePendingSignal ExampleEnvironment ExampleQueueProcess 0 SIGNAL_PARAMETERS.Zero =
        some Result ∧
      Result.DequeuedSignal = 40 ∧
      Result.SignalParameters = ExampleEntry.Parameters ∧
      EntryDelivered Result.Process ExampleEntry ∧
      Result.Process.SignalListHead = [ExampleLastEntry] ∧
      (Result.Process.Thread 0).SignalListHead = [] :=
  (C4_first_eligible_entry_delivered ExampleEnvironment ExampleQueueProcess 0
    SIGNAL_PARAMETERS.Zero (by decide) (by decide) (by decide) (by decide) (by decide)).1
    [ExampleIgnoredEntry] ExampleEntry [ExampleLastEntry] rfl (by decide) (by decide)
    (by decide)

/-! ## Enqueue: the wake policy -/

theorem Thread_map (P : KPROCESS) (g : KTHREAD → KTHREAD) (u : Nat) :
    ({ P with ThreadListHead := P.ThreadListHead.map g } : KPROCESS).Thread u =
      if u < P.ThreadListHead.length then g (P.Thread u) else KTHREAD.Zero := by
  simp only [KPROCESS.Thread, List.getD_eq_getElem?_getD, List.getElem?_map]
  by_cases h : u < P.ThreadListHead.length
  · simp [h, List.getElem?_eq_getElem h]
  · have h2 : P.ThreadListHead.length ≤ u := by omega
    simp [h, List.getElem?_eq_none h2]

@[simp] theorem PspQueueSignalWake_IgnoredSignals (P : KPROCESS) (Thread : Option Nat) (n : Nat)
    (b : Bool) (ty : THREAD_SIGNAL_PENDING_TYPE) (w : Bool) :
    (PspQueueSignalWake P Thread n b ty w).IgnoredSignals = P.IgnoredSignals := by
  unfold PspQueueSignalWake
  split
  · split <;> rfl
  · rfl

@[simp] theorem PspQueueSignalWake_HandledSignals (P : KPROCESS) (Thread : Option Nat) (n : Nat)
    (b : Bool) (ty : THREAD_SIGNAL_PENDING_TYPE) (w : Bool) :
    (PspQueueSignalWake P Thread n b ty w).HandledSignals = P.HandledSignals := by
  unfold PspQueueSignalWake
  split
  · split <;> rfl
  · rfl

@[simp] theorem PspQueueSignalWake_PendingSignals (P : KPROCESS) (Thread : Option Nat) (n : Nat)
    (b : Bool) (ty : THREAD_SIGNAL_PENDING_TYPE) (w : Bool) :
    (PspQueueSignalWake P Thread n b ty w).PendingSignals = P.PendingSignals := by
  unfold PspQueueSignalWake
  split
  · split <;> rfl
  · rfl

@[simp] theorem PspQueueSignalWake_SignalListHead (P : KPROCESS) (Thread : Option Nat) (n : Nat)
    (b : Bool) (ty : THREAD_SIGNAL_PENDING_TYPE) (w : Bool) :
    (PspQueueSignalWake P Thread n b ty w).SignalListHead = P.SignalListHead := by
  unfold PspQueueSignalWake
  split
  · split <;> rfl
  · rfl

@[simp] theorem PspQueueSignalWake_BlockedSignalListHead (P : KPROCESS) (Thread : Option Nat) (n : Nat)
    (b : Bool) (ty : THREAD_SIGNAL_PENDING_TYPE) (w : Bool) :
    (PspQueueSignalWake P Thread n b ty w).BlockedSignalListHead = P.BlockedSignalListHead := by
  unfold PspQueueSignalWake
  split
  · split <;> rfl
  · rfl

@[simp] theorem PspQueueSignalWake_ThreadCount (P : KPROCESS) (Thread : Option Nat) (n : Nat)
    (b : Bool) (ty : THREAD_SIGNAL_PENDING_TYPE) (w : Bool) :
    (PspQueueSignalWake P Thread n b ty w).ThreadCount = P.ThreadCount := by
  unfold PspQueueSignalWake
  split
  · split <;> rfl
  · rfl

@[simp] theorem PspQueueSignalWake_StopEvent (P : KPROCESS) (Thread : Option Nat) (n : Nat)
    (b : Bool) (ty : THREAD_SIGNAL_PENDING_TYPE) (w : Bool) :
    (PspQueueSignalWake P Thread n b ty w).StopEvent = P.StopEvent := by
  unfold PspQueueSignalWake
  split
  · split <;> rfl
  · rfl

@[simp] theorem PspQueueSignalWake_DebugData (P : KPROCESS) (Thread : Option Nat) (n : Nat)
    (b : Bool) (ty : THREAD_SIGNAL_PENDING_TYPE) (w : Bool) :
    (PspQueueSignalWake P Thread n b ty w).DebugData = P.DebugData := by
  unfold PspQueueSignalWake
  split
  · split <;> rfl
  · rfl

@[simp] theorem PspQueueSignalWake_Parent (P : KPROCESS) (Thread : Option Nat) (n : Nat)
    (b : Bool) (ty : THREAD_SIGNAL_PENDING_TYPE) (w : Bool) :
    (PspQueueSignalWake P Thread n b ty w).Parent = P.Parent := by
  unfold PspQueueSignalWake
  split
  · split <;> rfl
  · rfl

@[simp] theorem PspQueueSignalWake_ExitReason (P : KPROCESS) (Thread : Option Nat) (n : Nat)
    (b : Bool) (ty : THREAD_SIGNAL_PENDING_TYPE) (w : Bool) :
    (PspQueueSignalWake P Thread n b ty w).ExitReason = P.ExitReason := by
  unfold PspQueueSignalWake
  split
  · split <;> rfl
  · rfl

@[simp] theorem PspQueueSignalWake_ExitStatus (P : KPROCESS) (Thread : Option Nat) (n : Nat)
    (b : Bool) (ty : THREAD_SIGNAL_PENDING_TYPE) (w : Bool) :
    (PspQueueSignalWake P Thread n b ty w).ExitStatus = P.ExitStatus := by
  unfold PspQueueSignalWake
  split
  · split <;> rfl
  · rfl

@[simp] theorem PspQueueSignalWake_CompletedSignals (P : KPROCESS) (Thread : Option Nat) (n : Nat)
    (b : Bool) (ty : THREAD_SIGNAL_PENDING_TYPE) (w : Bool) :
    (PspQueueSignalWake P Thread n b ty w).CompletedSignals = P.CompletedSignals := by
  unfold PspQueueSignalWake
  split
  · split <;> rfl
  · rfl

@[simp] theorem PspQueueSignalWake_ChildSignalsToParent (P : KPROCESS) (Thread : Option Nat) (n : Nat)
    (b : Bool) (ty : THREAD_SIGNAL_PENDING_TYPE) (w : Bool) :
    (PspQueueSignalWake P Thread n b ty w).ChildSignalsToParent = P.ChildSignalsToParent := by
  unfold PspQueueSignalWake
  split
  · split <;> rfl
  · rfl

@[simp] theorem PspQueueSignalWake_HasTracer (P : KPROCESS) (Thread : Option Nat) (n : Nat)
    (b : Bool) (ty : THREAD_SIGNAL_PENDING_TYPE) (w : Bool) :
    (PspQueueSignalWake P Thread n b ty w).HasTracer = P.HasTracer := by
  unfold PspQueueSignalWake
  split
  · split <;> rfl
  · rfl

theorem PspQueueSignalWake_Thread_PendingSignals (P : KPROCESS) (Thread : Option Nat) (n : Nat)
    (b : Bool) (ty : THREAD_SIGNAL_PENDING_TYPE) (w : Bool) (u : Nat) :
    ((PspQueueSignalWake P Thread n b ty w).Thread u).PendingSignals = (P.Thread u).PendingSignals := by
  unfold PspQueueSignalWake
  split
  · split
    · exact SetThread_Thread_proj KTHREAD.PendingSignals _ _ _ _ rfl
    · rw [Thread_map]
      split
      · split_ifs <;> rfl
      · rename_i hu
        have h2 : P.ThreadListHead.length ≤ u := by omega
        simp [KPROCESS.Thread, List.getD_eq_getElem?_getD, List.getElem?_eq_none h2]
  · rfl

theorem PspQueueSignalWake_Thread_RunningSignals (P : KPROCESS) (Thread : Option Nat) (n : Nat)
    (b : Bool) (ty : THREAD_SIGNAL_PENDING_TYPE) (w : Bool) (u : Nat) :
    ((PspQueueSignalWake P Thread n b ty w).Thread u).RunningSignals = (P.Thread u).RunningSignals := by
  unfold PspQueueSignalWake
  split
  · split
    · exact SetThread_Thread_proj KTHREAD.RunningSignals _ _ _ _ rfl
    · rw [Thread_map]
      split
      · split_ifs <;> rfl
      · rename_i hu
        have h2 : P.ThreadListHead.length ≤ u := by omega
        simp [KPROCESS.Thread, List.getD_eq_getElem?_getD, List.getElem?_eq_none h2]
  · rfl

theorem PspQueueSignalWake_Thread_SignalListHead (P : KPROCESS) (Thread : Option Nat) (n : Nat)
    (b : Bool) (ty : THREAD_SIGNAL_PENDING_TYPE) (w : Bool) (u : Nat) :
    ((PspQueueSignalWake P Thread n b ty w).Thread u).SignalListHead = (P.Thread u).SignalListHead := by
  unfold PspQueueSignalWake
  split
  · split
    · exact SetThread_Thread_proj KTHREAD.SignalListHead _ _ _ _ rfl
    · rw [Thread_map]
      split
      · split_ifs <;> rfl
      · rename_i hu
        have h2 : P.ThreadListHead.length ≤ u := by omega
        simp [KPROCESS.Thread, List.getD_eq_getElem?_getD, List.getElem?_eq_none h2]
  · rfl

@[simp] theorem PspQueueSignalWake_length (P : KPROCESS) (Thread : Option Nat) (n : Nat)
    (b : Bool) (ty : THREAD_SIGNAL_PENDING_TYPE) (w : Bool) :
    (PspQueueSignalWake P Thread n b ty w).ThreadListHead.length = P.ThreadListHead.length := by
  unfold PspQueueSignalWake
  split
  · split <;> simp
  · rfl

theorem PspRaiseSignalPending_any (T : KTHREAD) (w : Bool) :
    (PspRaiseSignalPending T .ThreadSignalPending w).SignalPending = .ThreadSignalPending := by
  unfold PspRaiseSignalPending
  cases h : T.SignalPending <;> simp [THREAD_SIGNAL_PENDING_TYPE.toNat]

/-- The wake of a given thread: only that thread changes, in its pending state
and in the record of its wake calls. -/
theorem PspQueueSignalWake_some (P : KPROCESS) (t n : Nat) (b : Bool)
    (ty : THREAD_SIGNAL_PENDING_TYPE) (w : Bool) (hty : ty ≠ .ThreadNoSignalPending) :
    PspQueueSignalWake P (some t) n b ty w =
      P.SetThread t (PspRaiseSignalPending (P.Thread t) ty w) := by
  unfold PspQueueSignalWake
  simp [hty]

theorem PspQueueSignalWake_no_pending (P : KPROCESS) (Thread : Option Nat) (n : Nat) (b w : Bool) :
    PspQueueSignalWake P Thread n b .ThreadNoSignalPending w = P := by
  unfold PspQueueSignalWake
  simp

/-- The walk over the thread list of a process-wide signal that is not the
child signal: the threads that block the signal are skipped, the others are
raised and woken. -/
theorem PspQueueSignalWake_none_Thread (P : KPROCESS) (n : Nat) (b : Bool)
    (ty : THREAD_SIGNAL_PENDING_TYPE) (w : Bool) (u : Nat)
    (hty : ty ≠ .ThreadNoSignalPending) (hn : n ≠ SIGNAL_CHILD_PROCESS_ACTIVITY)
    (hu : u < P.ThreadListHead.length) :
    (PspQueueSignalWake P none n b ty w).Thread u =
      if IS_SIGNAL_BLOCKED (P.Thread u) n then P.Thread u
      else PspRaiseSignalPending (P.Thread u) ty w := by
  unfold PspQueueSignalWake
  simp only [bne_iff_ne, ne_eq, hty, not_false_eq_true, if_true]
  rw [Thread_map]
  have hn2 : (n == SIGNAL_CHILD_PROCESS_ACTIVITY) = false := by simpa using hn
  rw [if_pos hu, hn2]
  cases hb : IS_SIGNAL_BLOCKED (P.Thread u) n <;> simp

/-! ## Enqueue: the blocked sets -/

theorem PspQueueSignalWake_blocked (P : KPROCESS) (Thread : Option Nat) (n : Nat) (b : Bool)
    (ty : THREAD_SIGNAL_PENDING_TYPE) (w : Bool) (u : Nat) :
    ((PspQueueSignalWake P Thread n b ty w).Thread u).BlockedSignals =
      (P.Thread u).BlockedSignals := by
  unfold PspQueueSignalWake
  split
  · split
    · exact SetThread_Thread_proj KTHREAD.BlockedSignals _ _ _ _ rfl
    · rw [Thread_map]
      split
      · split_ifs <;> rfl
      · rename_i hu
        have h2 : P.ThreadListHead.length ≤ u := by omega
        simp [KPROCESS.Thread, List.getD_eq_getElem?_getD, List.getElem?_eq_none h2]
  · rfl

theorem PspQueueSignalPlacement_blocked (Env : KERNEL_ENVIRONMENT) (P : KPROCESS)
    (Thread : Option Nat) (n : Nat) (Entry : Option SIGNAL_QUEUE_ENTRY) (i b : Bool) (u : Nat) :
    (((PspQueueSignalPlacement Env P Thread n Entry i b).Process).Thread u).BlockedSignals =
      (P.Thread u).BlockedSignals := by
  unfold PspQueueSignalPlacement
  split
  · unfold PspQueueSignalEntry
    split_ifs
    all_goals first
      | (simp; done)
      | (split
         · exact SetThread_Thread_proj KTHREAD.BlockedSignals _ _ _ _ rfl
         · rfl)
  · unfold PspQueueSignalNumber
    split_ifs
    all_goals first
      | rfl
      | (simp only
         split
         · exact SetThread_Thread_proj KTHREAD.BlockedSignals _ _ _ _ rfl
         · rfl)

theorem PspQueueSignalPlace_blocked (Env : KERNEL_ENVIRONMENT) (P : KPROCESS)
    (Thread : Option Nat) (n : Nat) (Entry : Option SIGNAL_QUEUE_ENTRY) (i b : Bool) (u : Nat) :
    ((PspQueueSignalPlace Env P Thread n Entry i b).Thread u).BlockedSignals =
      (P.Thread u).BlockedSignals := by
  unfold PspQueueSignalPlace
  rw [PspQueueSignalWake_blocked, PspQueueSignalPlacement_blocked]

theorem PspQueueSignalUnforced_blocked (Env : KERNEL_ENVIRONMENT) (P : KPROCESS)
    (Thread : Option Nat) (n : Nat) (Entry : Option SIGNAL_QUEUE_ENTRY) (u : Nat) :
    ((PspQueueSignalUnforced Env P Thread n Entry).Thread u).BlockedSignals =
      (P.Thread u).BlockedSignals :=
  PspQueueSignalPlace_blocked Env P Thread n Entry _ _ u

theorem PspQueueSignalToProcess_blocked (Env : KERNEL_ENVIRONMENT) (P : KPROCESS) (n : Nat)
    (Entry : Option SIGNAL_QUEUE_ENTRY) (u : Nat) :
    (((PspQueueSignalToProcess Env P n Entry).2).Thread u).BlockedSignals =
      (P.Thread u).BlockedSignals := by
  unfold PspQueueSignalToProcess
  split
  · split
    · split_ifs <;> simp
    · rfl
  · simp only
    rw [PspQueueSignalUnforced_blocked]
    split_ifs <;> rfl

/-- A blocked set after `PspQueueSignal` is the set before, from which a forced
signal has been removed. -/
theorem PspQueueSignal_blocked (Env : KERNEL_ENVIRONMENT) (P : KPROCESS) (Thread : Option Nat)
    (n : Nat) (Entry : Option SIGNAL_QUEUE_ENTRY) (Force : Bool) (u : Nat) :
    ((PspQueueSignal Env P Thread n Entry Force).Thread u).BlockedSignals =
        (P.Thread u).BlockedSignals ∨
      ((PspQueueSignal Env P Thread n Entry Force).Thread u).BlockedSignals =
        REMOVE_SIGNAL (P.Thread u).BlockedSignals n := by
  unfold PspQueueSignal
  split
  · split
    · exact Or.inl rfl
    · rename_i Target
      have hset : ((P.SetThread Target { P.Thread Target with
          BlockedSignals := REMOVE_SIGNAL (P.Thread Target).BlockedSignals n }).Thread
            u).BlockedSignals = (P.Thread u).BlockedSignals ∨
          ((P.SetThread Target { P.Thread Target with
          BlockedSignals := REMOVE_SIGNAL (P.Thread Target).BlockedSignals n }).Thread
            u).BlockedSignals = REMOVE_SIGNAL (P.Thread u).BlockedSignals n := by
        rw [Thread_SetThread]
        split
        · rename_i hc
          rw [← hc.1]
          exact Or.inr rfl
        · exact Or.inl rfl
      simp only
      split
      · rw [PspQueueSignalToProcess_blocked, PspSetProcessExitStatusUnlocked_Thread]
        exact hset
      · rw [PspQueueSignalPlace_blocked]
        exact hset
  · exact Or.inl (PspQueueSignalUnforced_blocked Env P Thread n Entry u)

theorem NoStopKill_REMOVE_SIGNAL (s : SIGNAL_SET) (n : Nat) (h : NoStopKill s) :
    NoStopKill (REMOVE_SIGNAL s n) := by
  unfold NoStopKill at h ⊢
  simp [IS_SIGNAL_SET_REMOVE_SIGNAL, h.1, h.2]

theorem PspQueueSignal_NoStopKill (Env : KERNEL_ENVIRONMENT) (P : KPROCESS)
    (Thread : Option Nat) (n : Nat) (Entry : Option SIGNAL_QUEUE_ENTRY) (Force : Bool) (u : Nat)
    (h : NoStopKill (P.Thread u).BlockedSignals) :
    NoStopKill ((PspQueueSignal Env P Thread n Entry Force).Thread u).BlockedSignals := by
  rcases PspQueueSignal_blocked Env P Thread n Entry Force u with e | e
  · rw [e]; exact h
  · rw [e]; exact NoStopKill_REMOVE_SIGNAL _ _ h

theorem PspRequeueBlockedList_blocked (Env : KERNEL_ENVIRONMENT) (P : KPROCESS) (u : Nat) :
    ((PspRequeueBlockedList Env P).Thread u).BlockedSignals = (P.Thread u).BlockedSignals := by
  have hfold : ∀ (L : List SIGNAL_QUEUE_ENTRY) (Q : KPROCESS),
      ((L.foldl (fun Current SignalQueueEntry =>
          PspQueueSignal Env Current SignalQueueEntry.DestinationThread
            SignalQueueEntry.Parameters.SignalNumber (some SignalQueueEntry) false) Q).Thread
        u).BlockedSignals = (Q.Thread u).BlockedSignals := by
    intro L
    induction L with
    | nil => intro Q; rfl
    | cons e L ih =>
      intro Q
      rw [List.foldl_cons, ih]
      exact PspQueueSignalUnforced_blocked Env Q _ _ _ u
  unfold PspRequeueBlockedList
  split
  · rw [hfold]
    rfl
  · rfl

theorem PspRequeueBlockedSignals_blocked (Env : KERNEL_ENVIRONMENT) (P : KPROCESS)
    (t u : Nat) :
    ((PspRequeueBlockedSignals Env P t).Thread u).BlockedSignals =
      (P.Thread u).BlockedSignals := by
  unfold PspRequeueBlockedSignals
  refine (SetThread_Thread_proj KTHREAD.BlockedSignals _ t u _ ?_).trans
    (PspRequeueBlockedList_blocked Env P u)
  rfl

/-! ## The blocked set under the mask operations -/

theorem NoStopKill_zero : NoStopKill 0 := by
  unfold NoStopKill
  simp [IS_SIGNAL_SET]

theorem NoStopKill_strip_stop_kill (m : SIGNAL_SET) :
    NoStopKill (REMOVE_SIGNAL (REMOVE_SIGNAL m SIGNAL_STOP) SIGNAL_KILL) := by
  unfold NoStopKill
  simp [IS_SIGNAL_SET_REMOVE_SIGNAL]

theorem NoStopKill_apply (op : SIGNAL_MASK_OPERATION) (old new : SIGNAL_SET)
    (h1 : NoStopKill old) (h2 : NoStopKill new) :
    NoStopKill (ApplySignalMaskOperation op old new) := by
  unfold NoStopKill at h1 h2 ⊢
  cases op <;>
    simp [ApplySignalMaskOperation, IS_SIGNAL_SET_OR_SIGNAL_SETS,
      IS_SIGNAL_SET_REMOVE_SIGNALS_FROM_SET, h1.1, h1.2, h2.1, h2.2]

theorem NoStopKill_SetThread (P : KPROCESS) (t u : Nat) (v : KTHREAD)
    (h : NoStopKill (P.Thread u).BlockedSignals) (hv : t = u → NoStopKill v.BlockedSignals) :
    NoStopKill ((P.SetThread t v).Thread u).BlockedSignals := by
  rw [Thread_SetThread]
  split
  · rename_i hc
    exact hv hc.1
  · exact h

theorem PsSetSignalMask_NoStopKill (Env : KERNEL_ENVIRONMENT) (P : KPROCESS) (t u : Nat)
    (m : SIGNAL_SET) (h : NoStopKill (P.Thread u).BlockedSignals) :
    NoStopKill ((PsSetSignalMask Env P t m).2.Thread u).BlockedSignals := by
  unfold PsSetSignalMask
  simp only
  rw [PspRequeueBlockedSignals_blocked]
  exact NoStopKill_SetThread _ _ _ _ h
    (fun _ => NoStopKill_REMOVE_SIGNAL _ _ (NoStopKill_strip_stop_kill m))

theorem PsSysSetSignalBehavior_NoStopKill (Env : KERNEL_ENVIRONMENT) (P : KPROCESS)
    (t u : Nat) (Parameters : SYSTEM_CALL_SET_SIGNAL_BEHAVIOR)
    (h : NoStopKill (P.Thread u).BlockedSignals) :
    NoStopKill ((PsSysSetSignalBehavior Env P t Parameters).2.Thread u).BlockedSignals := by
  have hreq : ∀ (Q : KPROCESS), NoStopKill (Q.Thread u).BlockedSignals →
      NoStopKill ((if Parameters.Operation != .SignalMaskOperationNone then
        PspRequeueBlockedSignals Env Q t else Q).Thread u).BlockedSignals := by
    intro Q hQ
    split
    · rw [PspRequeueBlockedSignals_blocked]; exact hQ
    · exact hQ
  unfold PsSysSetSignalBehavior
  simp only
  split
  · refine hreq _ (NoStopKill_SetThread _ _ _ _ h ?_)
    intro htu
    subst htu
    exact NoStopKill_apply _ _ _ h
      (NoStopKill_REMOVE_SIGNAL _ _ (NoStopKill_strip_stop_kill _))
  · exact hreq _ h
  · exact hreq _ h
  · exact h
  · exact h

theorem PsSysSuspendExecutionModifyMask_NoStopKill (Env : KERNEL_ENVIRONMENT) (P : KPROCESS)
    (t u : Nat) (op : SIGNAL_MASK_OPERATION) (m : SIGNAL_SET)
    (h : NoStopKill (P.Thread u).BlockedSignals) :
    NoStopKill ((PsSysSuspendExecutionModifyMask Env P t op m).Process.Thread u).BlockedSignals ∧
    (t = u → NoStopKill (PsSysSuspendExecutionModifyMask Env P t op m).OriginalMask) := by
  have hstrip : NoStopKill (REMOVE_SIGNAL (REMOVE_SIGNAL (REMOVE_SIGNAL m SIGNAL_STOP)
      SIGNAL_CONTINUE) SIGNAL_KILL) := by
    unfold NoStopKill
    simp [IS_SIGNAL_SET_REMOVE_SIGNAL]
  have hset : NoStopKill ((P.SetThread t { P.Thread t with
      BlockedSignals := ApplySignalMaskOperation op (P.Thread t).BlockedSignals
        (REMOVE_SIGNAL (REMOVE_SIGNAL (REMOVE_SIGNAL m SIGNAL_STOP) SIGNAL_CONTINUE)
          SIGNAL_KILL) }).Thread u).BlockedSignals := by
    refine NoStopKill_SetThread _ _ _ _ h ?_
    intro htu
    subst htu
    exact NoStopKill_apply _ _ _ h hstrip
  unfold PsSysSuspendExecutionModifyMask
  simp only
  split
  · split
    · refine ⟨?_, fun htu => by subst htu; exact h⟩
      rw [PspRequeueBlockedSignals_blocked]
      exact hset
    · exact ⟨hset, fun htu => by subst htu; exact h⟩
  · exact ⟨h, fun _ => NoStopKill_zero⟩

theorem PsSysSuspendExecutionRestoreMask_NoStopKill (Env : KERNEL_ENVIRONMENT) (P : KPROCESS)
    (t u : Nat) (orig : SIGNAL_SET) (r : Bool) (h : NoStopKill (P.Thread u).BlockedSignals)
    (ho : t = u → NoStopKill orig) :
    NoStopKill ((PsSysSuspendExecutionRestoreMask Env P t orig r).Thread u).BlockedSignals := by
  unfold PsSysSuspendExecutionRestoreMask
  split
  · rw [PspRequeueBlockedSignals_blocked]
    exact NoStopKill_SetThread _ _ _ _ h ho
  · exact h

theorem StepMaskOperation_invariant (Env : KERNEL_ENVIRONMENT) (u : Nat) (Run : MASK_RUN)
    (Operation : MASK_OPERATION) (h : MaskRunInvariant u Run) :
    MaskRunInvariant u (StepMaskOperation Env Run Operation) := by
  obtain ⟨h1, h2⟩ := h
  cases Operation with
  | SetSignalMask t m => exact ⟨PsSetSignalMask_NoStopKill Env _ t u m h1, h2⟩
  | SetSignalBehavior t p => exact ⟨PsSysSetSignalBehavior_NoStopKill Env _ t u p h1, h2⟩
  | SuspendExecutionModifyMask t op m =>
    obtain ⟨a, b⟩ := PsSysSuspendExecutionModifyMask_NoStopKill Env Run.Process t u op m h1
    refine ⟨a, ?_⟩
    intro Saved hS hu
    rcases List.mem_cons.mp hS with rfl | hS
    · exact b hu
    · exact h2 Saved hS hu
  | SuspendExecutionRestoreMask t =>
    simp only [StepMaskOperation]
    split
    · rename_i Saved hfind
      have hmem := List.mem_of_find?_eq_some hfind
      have hkey : Saved.1 = t := by
        have := List.find?_some hfind
        simpa using this
      refine ⟨PsSysSuspendExecutionRestoreMask_NoStopKill Env _ t u _ _ h1
        (fun htu => h2 Saved hmem (hkey.trans htu)), ?_⟩
      intro Other hO hu
      exact h2 Other (List.mem_of_mem_filter hO) hu
    · exact ⟨h1, h2⟩
  | QueueSignal th n e f => exact ⟨PspQueueSignal_NoStopKill Env _ th n e f u h1, h2⟩

theorem RunMaskOperations_invariant (Env : KERNEL_ENVIRONMENT) (u : Nat) :
    ∀ (Operations : List MASK_OPERATION) (Run : MASK_RUN), MaskRunInvariant u Run →
      MaskRunInvariant u (RunMaskOperations Env Operations Run) := by
  intro Operations
  induction Operations with
  | nil => intro Run h; exact h
  | cons op rest ih =>
    intro Run h
    exact ih _ (StepMaskOperation_invariant Env u Run op h)

/-- C2: if STOP and KILL are absent from the blocked set of a thread, they are
absent from it after any sequence of `PsSetSignalMask`, `PsSysSetSignalBehavior`
(any mask type, operation and input set), the temporary mask change and the
restoration of `PsSysSuspendExecution`, and `PspQueueSignal` (forced or not),
called by or aimed at any thread of the process. -/
theorem C2_stop_kill_never_blocked (Env : KERNEL_ENVIRONMENT) (Process : KPROCESS)
    (Thread : Nat) (Operations : List MASK_OPERATION)
    (h : NoStopKill (Process.Thread Thread).BlockedSignals) :
    NoStopKill
      ((RunMaskOperations Env Operations ⟨Process, []⟩).Process.Thread Thread).BlockedSignals :=
  (RunMaskOperations_invariant Env Thread Operations ⟨Process, []⟩
    ⟨h, fun _ hS _ => absurd hS (List.not_mem_nil _)⟩).1

/-- Witness of C2 on `ExampleProcess`: after `ExampleMaskOperations` the blocked
set of the thread holds neither STOP nor KILL. -/
theorem C2_stop_kill_never_blocked_witness :
    NoStopKill (ExampleProcess.Thread 0).BlockedSignals ∧
      NoStopKill
        ((RunMaskOperations ExampleEnvironment ExampleMaskOperations
          ⟨ExampleProcess, []⟩).Process.Thread 0).BlockedSignals :=
  ⟨⟨by decide, by decide⟩,
    C2_stop_kill_never_blocked ExampleEnvironment ExampleProcess 0 ExampleMaskOperations
      ⟨by decide, by decide⟩⟩


/-! ## Enqueue: the branches of `PspQueueSignal` -/

theorem PspQueueSignal_unforced (Env : KERNEL_ENVIRONMENT) (P : KPROCESS) (Thread : Option Nat)
    (n : Nat) (Entry : Option SIGNAL_QUEUE_ENTRY) :
    PspQueueSignal Env P Thread n Entry false = PspQueueSignalUnforced Env P Thread n Entry := by
  simp [PspQueueSignal]

/-- The flags of an unforced call: `SignalIgnored` is read from the ignored set
of the process, `SignalBlocked` from the blocked set of the given thread. -/
theorem PspQueueSignalUnforced_eq (Env : KERNEL_ENVIRONMENT) (P : KPROCESS)
    (Thread : Option Nat) (n : Nat) (Entry : Option SIGNAL_QUEUE_ENTRY) (b : Bool)
    (hb : ∀ t, Thread = some t → IS_SIGNAL_BLOCKED (P.Thread t) n = b)
    (hn : Thread = none → b = false) :
    PspQueueSignalUnforced Env P Thread n Entry =
      PspQueueSignalPlace Env P Thread n Entry (IS_SIGNAL_SET P.IgnoredSignals n) b := by
  cases Thread with
  | none =>
    rw [hn rfl]
    rfl
  | some t =>
    rw [← hb t rfl]
    rfl

theorem PspQueueSignal_forced (Env : KERNEL_ENVIRONMENT) (P : KPROCESS) (t n : Nat)
    (Entry : Option SIGNAL_QUEUE_ENTRY)
    (hr : IS_SIGNAL_SET (P.Thread t).RunningSignals n = false) :
    PspQueueSignal Env P (some t) n Entry true =
      PspQueueSignalPlace Env (ForceUnblocked P t n) (some t) n Entry false false := by
  have h : ((P.SetThread t { P.Thread t with
      BlockedSignals := REMOVE_SIGNAL (P.Thread t).BlockedSignals n }).Thread t).RunningSignals =
      (P.Thread t).RunningSignals := SetThread_Thread_proj KTHREAD.RunningSignals _ _ _ _ rfl
  simp [PspQueueSignal, h, hr, ForceUnblocked]

theorem PspQueueSignal_forced_running (Env : KERNEL_ENVIRONMENT) (P : KPROCESS) (t n : Nat)
    (Entry : Option SIGNAL_QUEUE_ENTRY)
    (hr : IS_SIGNAL_SET (P.Thread t).RunningSignals n = true) :
    PspQueueSignal Env P (some t) n Entry true =
      (PspQueueSignalToProcess Env
        (PspSetProcessExitStatusUnlocked (ForceUnblocked P t n) .CHILD_SIGNAL_REASON_KILLED n)
        SIGNAL_KILL none).2 := by
  have h : ((P.SetThread t { P.Thread t with
      BlockedSignals := REMOVE_SIGNAL (P.Thread t).BlockedSignals n }).Thread t).RunningSignals =
      (P.Thread t).RunningSignals := SetThread_Thread_proj KTHREAD.RunningSignals _ _ _ _ rfl
  simp [PspQueueSignal, h, hr, ForceUnblocked]

@[simp] theorem ForceUnblocked_IgnoredSignals (P : KPROCESS) (t n : Nat) :
    (ForceUnblocked P t n).IgnoredSignals = P.IgnoredSignals := by
  simp [ForceUnblocked]

@[simp] theorem ForceUnblocked_HandledSignals (P : KPROCESS) (t n : Nat) :
    (ForceUnblocked P t n).HandledSignals = P.HandledSignals := by
  simp [ForceUnblocked]

@[simp] theorem ForceUnblocked_PendingSignals (P : KPROCESS) (t n : Nat) :
    (ForceUnblocked P t n).PendingSignals = P.PendingSignals := by
  simp [ForceUnblocked]

@[simp] theorem ForceUnblocked_SignalListHead (P : KPROCESS) (t n : Nat) :
    (ForceUnblocked P t n).SignalListHead = P.SignalListHead := by
  simp [ForceUnblocked]

@[simp] theorem ForceUnblocked_BlockedSignalListHead (P : KPROCESS) (t n : Nat) :
    (ForceUnblocked P t n).BlockedSignalListHead = P.BlockedSignalListHead := by
  simp [ForceUnblocked]

@[simp] theorem ForceUnblocked_ThreadCount (P : KPROCESS) (t n : Nat) :
    (ForceUnblocked P t n).ThreadCount = P.ThreadCount := by
  simp [ForceUnblocked]

@[simp] theorem ForceUnblocked_StopEvent (P : KPROCESS) (t n : Nat) :
    (ForceUnblocked P t n).StopEvent = P.StopEvent := by
  simp [ForceUnblocked]

@[simp] theorem ForceUnblocked_DebugData (P : KPROCESS) (t n : Nat) :
    (ForceUnblocked P t n).DebugData = P.DebugData := by
  simp [ForceUnblocked]

@[simp] theorem ForceUnblocked_Parent (P : KPROCESS) (t n : Nat) :
    (ForceUnblocked P t n).Parent = P.Parent := by
  simp [ForceUnblocked]

@[simp] theorem ForceUnblocked_ExitReason (P : KPROCESS) (t n : Nat) :
    (ForceUnblocked P t n).ExitReason = P.ExitReason := by
  simp [ForceUnblocked]

@[simp] theorem ForceUnblocked_ExitStatus (P : KPROCESS) (t n : Nat) :
    (ForceUnblocked P t n).ExitStatus = P.ExitStatus := by
  simp [ForceUnblocked]

@[simp] theorem ForceUnblocked_CompletedSignals (P : KPROCESS) (t n : Nat) :
    (ForceUnblocked P t n).CompletedSignals = P.CompletedSignals := by
  simp [ForceUnblocked]

@[simp] theorem ForceUnblocked_ChildSignalsToParent (P : KPROCESS) (t n : Nat) :
    (ForceUnblocked P t n).ChildSignalsToParent = P.ChildSignalsToParent := by
  simp [ForceUnblocked]

@[simp] theorem ForceUnblocked_HasTracer (P : KPROCESS) (t n : Nat) :
    (ForceUnblocked P t n).HasTracer = P.HasTracer := by
  simp [ForceUnblocked]

@[simp] theorem ForceUnblocked_length (P : KPROCESS) (t n : Nat) :
    (ForceUnblocked P t n).ThreadListHead.length = P.ThreadListHead.length := by
  simp [ForceUnblocked]

@[simp] theorem ForceUnblocked_Thread_PendingSignals (P : KPROCESS) (t n u : Nat) :
    ((ForceUnblocked P t n).Thread u).PendingSignals = (P.Thread u).PendingSignals :=
  SetThread_Thread_proj KTHREAD.PendingSignals _ _ _ _ rfl

@[simp] theorem ForceUnblocked_Thread_RunningSignals (P : KPROCESS) (t n u : Nat) :
    ((ForceUnblocked P t n).Thread u).RunningSignals = (P.Thread u).RunningSignals :=
  SetThread_Thread_proj KTHREAD.RunningSignals _ _ _ _ rfl

@[simp] theorem ForceUnblocked_Thread_SignalListHead (P : KPROCESS) (t n u : Nat) :
    ((ForceUnblocked P t n).Thread u).SignalListHead = (P.Thread u).SignalListHead :=
  SetThread_Thread_proj KTHREAD.SignalListHead _ _ _ _ rfl

@[simp] theorem ForceUnblocked_Thread_SignalPending (P : KPROCESS) (t n u : Nat) :
    ((ForceUnblocked P t n).Thread u).SignalPending = (P.Thread u).SignalPending :=
  SetThread_Thread_proj KTHREAD.SignalPending _ _ _ _ rfl

@[simp] theorem ForceUnblocked_Thread_WakeCalls (P : KPROCESS) (t n u : Nat) :
    ((ForceUnblocked P t n).Thread u).WakeCalls = (P.Thread u).WakeCalls :=
  SetThread_Thread_proj KTHREAD.WakeCalls _ _ _ _ rfl

theorem ForceUnblocked_Thread_ne (P : KPROCESS) (t n u : Nat) (h : u ≠ t) :
    (ForceUnblocked P t n).Thread u = P.Thread u :=
  Thread_SetThread_ne _ _ _ _ (Ne.symm h)

theorem ForceUnblocked_Thread_BlockedSignals (P : KPROCESS) (t n : Nat)
    (ht : t < P.ThreadListHead.length) :
    ((ForceUnblocked P t n).Thread t).BlockedSignals =
      REMOVE_SIGNAL (P.Thread t).BlockedSignals n := by
  unfold ForceUnblocked
  rw [Thread_SetThread_same _ _ _ ht]

/-! ## Enqueue: an entry that is queued -/

theorem PspQueueSignalPlacement_enqueue (Env : KERNEL_ENVIRONMENT) (P : KPROCESS)
    (Thread : Option Nat) (n : Nat) (Entry : SIGNAL_QUEUE_ENTRY) (i : Bool)
    (hd : Entry.Delivered = false)
    (hdisc : ((i || (IS_SIGNAL_SET P.HandledSignals n == false &&
      Env.IS_SIGNAL_DEFAULT_IGNORE n)) && !P.HasTracer) = false) :
    PspQueueSignalPlacement Env P Thread n (some Entry) i false =
      ⟨match Thread with
        | some Target =>
          P.SetThread Target
            { P.Thread Target with
              SignalListHead := (P.Thread Target).SignalListHead ++
                [{ Entry with DestinationThread := Thread }] }
        | none =>
          { P with SignalListHead := P.SignalListHead ++
              [{ Entry with DestinationThread := Thread }] },
        .ThreadSignalPending, false⟩ := by
  unfold PspQueueSignalPlacement PspQueueSignalEntry
  have h1 : ¬ ((((if ({ Entry with DestinationThread := Thread } : SIGNAL_QUEUE_ENTRY).Delivered
      != false then true else i) != false ||
        (IS_SIGNAL_SET P.HandledSignals n == false && Env.IS_SIGNAL_DEFAULT_IGNORE n)) &&
      P.HasTracer == false) = true) := by
    simp only [hd]
    revert hdisc
    cases i <;> cases IS_SIGNAL_SET P.HandledSignals n <;> cases Env.IS_SIGNAL_DEFAULT_IGNORE n <;>
      cases P.HasTracer <;> simp
  simp only
  rw [if_neg h1]
  simp only [bne_self_eq_false, Bool.false_eq_true, if_false]
  cases Thread <;> rfl

theorem PspQueueSignalPlace_enqueue (Env : KERNEL_ENVIRONMENT) (P : KPROCESS)
    (Thread : Option Nat) (n : Nat) (Entry : SIGNAL_QUEUE_ENTRY) (i : Bool)
    (hThread : ∀ t, Thread = some t → t < P.ThreadListHead.length)
    (hd : Entry.Delivered = false)
    (hdisc : ((i || (IS_SIGNAL_SET P.HandledSignals n == false &&
      Env.IS_SIGNAL_DEFAULT_IGNORE n)) && !P.HasTracer) = false) :
    (PspQueueSignalPlace Env P Thread n (some Entry) i false).BlockedSignalListHead =
        P.BlockedSignalListHead ∧
      (PspQueueSignalPlace Env P Thread n (some Entry) i false).CompletedSignals =
        P.CompletedSignals ∧
      (∀ t, Thread = some t →
        ((PspQueueSignalPlace Env P Thread n (some Entry) i false).Thread t).SignalListHead =
            (P.Thread t).SignalListHead ++ [{ Entry with DestinationThread := some t }] ∧
          (PspQueueSignalPlace Env P Thread n (some Entry) i false).SignalListHead =
            P.SignalListHead ∧
          (∀ u, u ≠ t →
            ((PspQueueSignalPlace Env P Thread n (some Entry) i false).Thread u).SignalListHead =
              (P.Thread u).SignalListHead) ∧
          ((PspQueueSignalPlace Env P Thread n (some Entry) i false).Thread t).SignalPending =
            .ThreadSignalPending) ∧
      (Thread = none →
        (PspQueueSignalPlace Env P Thread n (some Entry) i false).SignalListHead =
            P.SignalListHead ++ [{ Entry with DestinationThread := none }] ∧
          ∀ u,
            ((PspQueueSignalPlace Env P Thread n (some Entry) i false).Thread u).SignalListHead =
              (P.Thread u).SignalListHead) := by
  unfold PspQueueSignalPlace
  rw [PspQueueSignalPlacement_enqueue Env P Thread n Entry i hd hdisc]
  simp only [PspQueueSignalWake_BlockedSignalListHead, PspQueueSignalWake_CompletedSignals,
    PspQueueSignalWake_SignalListHead, PspQueueSignalWake_Thread_SignalListHead]
  cases Thread with
  | none =>
    refine ⟨rfl, rfl, ?_, fun _ => ⟨rfl, fun u => rfl⟩⟩
    intro t ht
    cases ht
  | some t =>
    have ht := hThread t rfl
    refine ⟨by simp, by simp, ?_, fun h => by cases h⟩
    intro t2 h2
    cases h2
    refine ⟨?_, by simp, ?_, ?_⟩
    · simp only
      rw [Thread_SetThread_same _ _ _ ht]
    · intro u hu
      simp only
      rw [Thread_SetThread_ne _ _ _ _ (Ne.symm hu)]
    · rw [PspQueueSignalWake_some _ _ _ _ _ _ (by decide), Thread_SetThread_same]
      · exact PspRaiseSignalPending_any _ _
      · simpa using ht

/-- C5: `PspQueueSignal` is called with a queue entry that has not been
delivered, is not discarded (not the case "ignored or unhandled default-ignore,
with no tracer"; a forced signal does not count as ignored) and, unless forced,
is not blocked on the given thread; a forced signal is not one that the thread
is running already. Then the entry, with `DestinationThread` set to the thread
argument, is appended at the tail of the queue of the given thread, or of the
queue of the process when no thread is given; every other queue, the
blocked-deferred list and the completed entries are unchanged; and the pending
state of the given thread is `ThreadSignalPending` afterwards. -/
theorem C5_entry_appended_at_tail (Env : KERNEL_ENVIRONMENT) (Process : KPROCESS)
    (Thread : Option Nat) (SignalNumber : Nat) (Entry : SIGNAL_QUEUE_ENTRY) (Force : Bool)
    (hThread : ∀ t, Thread = some t → t < Process.ThreadListHead.length)
    (hForce : Force = true →
      ∃ t, Thread = some t ∧ IS_SIGNAL_SET (Process.Thread t).RunningSignals SignalNumber = false)
    (hDelivered : Entry.Delivered = false)
    (hDiscard : (((!Force && IS_SIGNAL_SET Process.IgnoredSignals SignalNumber) ||
        (IS_SIGNAL_SET Process.HandledSignals SignalNumber == false &&
          Env.IS_SIGNAL_DEFAULT_IGNORE SignalNumber)) && !Process.HasTracer) = false)
    (hBlocked : Force = false →
      ∀ t, Thread = some t → IS_SIGNAL_BLOCKED (Process.Thread t) SignalNumber = false) :
    (PspQueueSignal Env Process Thread SignalNumber (some Entry) Force).BlockedSignalListHead = Process.BlockedSignalListHead ∧
      (PspQueueSignal Env Process Thread SignalNumber (some Entry) Force).CompletedSignals = Process.CompletedSignals ∧
      (∀ t, Thread = some t →
        ((PspQueueSignal Env Process Thread SignalNumber (some Entry) Force).Thread t).SignalListHead =
            (Process.Thread t).SignalListHead ++ [{ Entry with DestinationThread := some t }] ∧
          (PspQueueSignal Env Process Thread SignalNumber (some Entry) Force).SignalListHead = Process.SignalListHead ∧
          (∀ u, u ≠ t →
            ((PspQueueSignal Env Process Thread SignalNumber (some Entry) Force).Thread u).SignalListHead = (Process.Thread u).SignalListHead) ∧
          ((PspQueueSignal Env Process Thread SignalNumber (some Entry) Force).Thread t).SignalPending = .ThreadSignalPending) ∧
      (Thread = none →
        (PspQueueSignal Env Process Thread SignalNumber (some Entry) Force).SignalListHead =
            Process.SignalListHead ++ [{ Entry with DestinationThread := none }] ∧
          ∀ u, ((PspQueueSignal Env Process Thread SignalNumber (some Entry) Force).Thread u).SignalListHead = (Process.Thread u).SignalListHead) := by
  cases Force with
  | false =>
    rw [PspQueueSignal_unforced, PspQueueSignalUnforced_eq Env Process Thread SignalNumber _ false
      (fun t ht => hBlocked rfl t ht) (fun _ => rfl)]
    exact PspQueueSignalPlace_enqueue Env Process Thread SignalNumber Entry _ hThread hDelivered
      (by simpa using hDiscard)
  | true =>
    obtain ⟨t, rfl, hr⟩ := hForce rfl
    rw [PspQueueSignal_forced Env Process t SignalNumber _ hr]
    have h := PspQueueSignalPlace_enqueue Env (ForceUnblocked Process t SignalNumber) (some t)
      SignalNumber Entry false (fun t2 h2 => by simpa using hThread t2 h2) hDelivered
      (by simpa using hDiscard)
    simpa using h

/-- Witness of C5 on `ExampleProcess`: the entry of signal 40 is queued to the
thread. -/
theorem C5_entry_appended_at_tail_witness :
    ((PspQueueSignal ExampleEnvironment ExampleProcess (some 0) 40 (some ExampleEntry)
        false).Thread 0).SignalListHead =
      (ExampleProcess.Thread 0).SignalListHead ++
        [{ ExampleEntry with DestinationThread := some 0 }] :=
  ((C5_entry_appended_at_tail ExampleEnvironment ExampleProcess (some 0) 40 ExampleEntry false
    (by decide) (by decide) (by decide) (by decide) (by decide)).2.2.1 0 rfl).1

/-! ## Enqueue: a bare signal number -/

theorem PspQueueSignalPlace_number_ignored (Env : KERNEL_ENVIRONMENT) (P : KPROCESS)
    (Thread : Option Nat) (n : Nat) (b : Bool) :
    PspQueueSignalPlace Env P Thread n none true b = P := by
  unfold PspQueueSignalPlace PspQueueSignalPlacement PspQueueSignalNumber
  simp [PspQueueSignalWake_no_pending]

theorem PspQueueSignalPlace_number_thread (Env : KERNEL_ENVIRONMENT) (P : KPROCESS)
    (t n : Nat) (b : Bool) (ht : t < P.ThreadListHead.length) :
    PspQueueSignalPlace Env P (some t) n none false b =
      P.SetThread t
        { P.Thread t with
          PendingSignals := ADD_SIGNAL (P.Thread t).PendingSignals n
          SignalPending := if b then (P.Thread t).SignalPending else .ThreadSignalPending
          WakeCalls := if b then (P.Thread t).WakeCalls else (P.Thread t).WakeCalls ++ [false] } := by
  unfold PspQueueSignalPlace PspQueueSignalPlacement PspQueueSignalNumber
  cases b with
  | true =>
    simp [PspQueueSignalWake_no_pending]
  | false =>
    simp only [beq_self_eq_true, if_true, Bool.false_eq_true, if_false]
    rw [PspQueueSignalWake_some _ _ _ _ _ _ (by decide), Thread_SetThread_same _ _ _ ht]
    unfold PspRaiseSignalPending
    simp only [KPROCESS.SetThread, List.set_set]
    cases h : (P.Thread t).SignalPending <;> simp [THREAD_SIGNAL_PENDING_TYPE.toNat]

theorem PspQueueSignalPlace_number_process (Env : KERNEL_ENVIRONMENT) (P : KPROCESS) (n : Nat) :
    PspQueueSignalPlace Env P none n none false false =
      PspQueueSignalWake { P with PendingSignals := ADD_SIGNAL P.PendingSignals n } none n false
        .ThreadSignalPending false := by
  unfold PspQueueSignalPlace PspQueueSignalPlacement PspQueueSignalNumber
  rfl

/-- C6: `PspQueueSignal` is called without a queue entry and without force.
When the signal is not in the ignored set of the process, its bit is added to
the pending set of the given thread (the pending set of the process and every
other thread being unchanged), or to the pending set of the process when no
thread is given (the pending set of every thread being unchanged); the pending
state of the given thread becomes `ThreadSignalPending` when the signal is not
blocked on it and is unchanged when it is blocked. When the signal is in the
ignored set, the state of the process and of its threads is unchanged. -/
theorem C6_bare_signal_sets_pending_bit (Env : KERNEL_ENVIRONMENT) (Process : KPROCESS)
    (Thread : Option Nat) (SignalNumber : Nat)
    (hThread : ∀ t, Thread = some t → t < Process.ThreadListHead.length) :
    (IS_SIGNAL_SET Process.IgnoredSignals SignalNumber = false →
      (∀ t, Thread = some t →
        ((PspQueueSignal Env Process Thread SignalNumber none false).Thread t).PendingSignals =
            ADD_SIGNAL (Process.Thread t).PendingSignals SignalNumber ∧
          (PspQueueSignal Env Process Thread SignalNumber none false).PendingSignals = Process.PendingSignals ∧
          (∀ u, u ≠ t → (PspQueueSignal Env Process Thread SignalNumber none false).Thread u = Process.Thread u) ∧
          ((PspQueueSignal Env Process Thread SignalNumber none false).Thread t).SignalPending =
            (if IS_SIGNAL_BLOCKED (Process.Thread t) SignalNumber then
              (Process.Thread t).SignalPending
            else .ThreadSignalPending)) ∧
      (Thread = none →
        (PspQueueSignal Env Process Thread SignalNumber none false).PendingSignals = ADD_SIGNAL Process.PendingSignals SignalNumber ∧
          ∀ u, ((PspQueueSignal Env Process Thread SignalNumber none false).Thread u).PendingSignals = (Process.Thread u).PendingSignals) ∧
      (PspQueueSignal Env Process Thread SignalNumber none false).SignalListHead = Process.SignalListHead ∧
      (PspQueueSignal Env Process Thread SignalNumber none false).BlockedSignalListHead = Process.BlockedSignalListHead ∧
      ∀ u, ((PspQueueSignal Env Process Thread SignalNumber none false).Thread u).SignalListHead = (Process.Thread u).SignalListHead) ∧
    (IS_SIGNAL_SET Process.IgnoredSignals SignalNumber = true → (PspQueueSignal Env Process Thread SignalNumber none false) = Process) := by
  rw [PspQueueSignal_unforced]
  constructor
  · intro hi
    cases Thread with
    | none =>
      rw [PspQueueSignalUnforced_eq Env Process none SignalNumber none false
        (fun t ht => by cases ht) (fun _ => rfl), hi, PspQueueSignalPlace_number_process]
      refine ⟨(fun t ht => by cases ht), fun _ => ⟨by simp, fun u => ?_⟩, by simp, by simp,
        fun u => ?_⟩
      · rw [PspQueueSignalWake_Thread_PendingSignals]
        rfl
      · rw [PspQueueSignalWake_Thread_SignalListHead]
        rfl
    | some t =>
      have ht := hThread t rfl
      rw [PspQueueSignalUnforced_eq Env Process (some t) SignalNumber none
        (IS_SIGNAL_BLOCKED (Process.Thread t) SignalNumber)
        (fun t2 h2 => by cases h2; rfl) (fun h => by cases h), hi,
        PspQueueSignalPlace_number_thread _ _ _ _ _ ht]
      refine ⟨?_, (fun h => by cases h), by simp, by simp, fun u => ?_⟩
      · intro t2 h2
        cases h2
        refine ⟨?_, by simp, fun u hu => Thread_SetThread_ne _ _ _ _ (Ne.symm hu), ?_⟩
        · rw [Thread_SetThread_same _ _ _ ht]
        · rw [Thread_SetThread_same _ _ _ ht]
      · exact SetThread_Thread_proj KTHREAD.SignalListHead _ _ _ _ rfl
  · intro hi
    cases Thread with
    | none =>
      rw [PspQueueSignalUnforced_eq Env Process none SignalNumber none false
        (fun t ht => by cases ht) (fun _ => rfl), hi, PspQueueSignalPlace_number_ignored]
    | some t =>
      rw [PspQueueSignalUnforced_eq Env Process (some t) SignalNumber none
        (IS_SIGNAL_BLOCKED (Process.Thread t) SignalNumber)
        (fun t2 h2 => by cases h2; rfl) (fun h => by cases h), hi,
        PspQueueSignalPlace_number_ignored]

/-- Witness of C6 on `ExampleProcess`: signal 5 is added to the pending set of
the thread. -/
theorem C6_bare_signal_sets_pending_bit_witness :
    ((PspQueueSignal ExampleEnvironment ExampleProcess (some 0) 5 none false).Thread
        0).PendingSignals =
      ADD_SIGNAL (ExampleProcess.Thread 0).PendingSignals 5 :=
  (((C6_bare_signal_sets_pending_bit ExampleEnvironment ExampleProcess (some 0) 5
    (by decide)).1 (by decide)).1 0 rfl).1

/-! ## Enqueue: an entry that is discarded -/

theorem PspQueueSignalPlacement_discard (Env : KERNEL_ENVIRONMENT) (P : KPROCESS)
    (Thread : Option Nat) (n : Nat) (Entry : SIGNAL_QUEUE_ENTRY) (i b : Bool)
    (hT : P.HasTracer = false)
    (h : i = true ∨
      (IS_SIGNAL_SET P.HandledSignals n = false ∧ Env.IS_SIGNAL_DEFAULT_IGNORE n = true)) :
    PspQueueSignalPlacement Env P Thread n (some Entry) i b =
      if n = SIGNAL_CHILD_PROCESS_ACTIVITY then
        ⟨P.InsertBlocked { Entry with DestinationThread := Thread },
          .ThreadChildSignalPending, true⟩
      else ⟨P.Complete { Entry with DestinationThread := Thread },
        .ThreadNoSignalPending, false⟩ := by
  unfold PspQueueSignalPlacement PspQueueSignalEntry
  have h1 : ((((if ({ Entry with DestinationThread := Thread } : SIGNAL_QUEUE_ENTRY).Delivered
      != false then true else i) != false ||
        (IS_SIGNAL_SET P.HandledSignals n == false && Env.IS_SIGNAL_DEFAULT_IGNORE n)) &&
      P.HasTracer == false) = true) := by
    rw [hT]
    rcases h with h | ⟨h2, h3⟩
    · subst h
      cases Entry.Delivered <;> simp
    · rw [h2, h3]
      simp
  simp only
  rw [if_pos h1]
  simp only [beq_iff_eq]

theorem PspRaiseSignalPending_child (T : KTHREAD) (w : Bool) :
    (PspRaiseSignalPending T .ThreadChildSignalPending w).SignalPending =
      (if T.SignalPending = .ThreadNoSignalPending then .ThreadChildSignalPending
       else T.SignalPending) := by
  unfold PspRaiseSignalPending
  cases h : T.SignalPending <;> simp [THREAD_SIGNAL_PENDING_TYPE.toNat]

/-- The wake policy for a child signal at raise level `ThreadChildSignalPending`:
the given thread, or every thread of the process, is raised and woken only if
it is suspended. -/
theorem PspQueueSignalWake_child (P : KPROCESS) (Thread : Option Nat) (b : Bool) (u : Nat)
    (hu : u < P.ThreadListHead.length) (hT : Thread = some u ∨ Thread = none) :
    (PspQueueSignalWake P Thread SIGNAL_CHILD_PROCESS_ACTIVITY b .ThreadChildSignalPending
        true).Thread u =
      PspRaiseSignalPending (P.Thread u) .ThreadChildSignalPending true := by
  rcases hT with rfl | rfl
  · rw [PspQueueSignalWake_some _ _ _ _ _ _ (by decide), Thread_SetThread_same _ _ _ hu]
  · unfold PspQueueSignalWake
    simp only [bne_iff_ne, ne_eq, not_false_eq_true, if_true, reduceCtorEq]
    rw [Thread_map, if_pos hu]
    simp

theorem PspQueueSignalWake_some_ne (P : KPROCESS) (t n : Nat) (b : Bool)
    (ty : THREAD_SIGNAL_PENDING_TYPE) (w : Bool) (u : Nat) (hu : u ≠ t) :
    (PspQueueSignalWake P (some t) n b ty w).Thread u = P.Thread u := by
  unfold PspQueueSignalWake
  split
  · exact Thread_SetThread_ne _ _ _ _ (Ne.symm hu)
  · rfl

theorem PspQueueSignalPlace_discard (Env : KERNEL_ENVIRONMENT) (P : KPROCESS)
    (Thread : Option Nat) (n : Nat) (Entry : SIGNAL_QUEUE_ENTRY) (i b : Bool)
    (hT : P.HasTracer = false)
    (h : i = true ∨
      (IS_SIGNAL_SET P.HandledSignals n = false ∧ Env.IS_SIGNAL_DEFAULT_IGNORE n = true)) :
    PspQueueSignalPlace Env P Thread n (some Entry) i b =
      if n = SIGNAL_CHILD_PROCESS_ACTIVITY then
        PspQueueSignalWake (P.InsertBlocked { Entry with DestinationThread := Thread }) Thread
          SIGNAL_CHILD_PROCESS_ACTIVITY b .ThreadChildSignalPending true
      else P.Complete { Entry with DestinationThread := Thread } := by
  unfold PspQueueSignalPlace
  rw [PspQueueSignalPlacement_discard Env P Thread n Entry i b hT h]
  split
  · rename_i hn
    subst hn
    rfl
  · exact PspQueueSignalWake_no_pending _ _ _ _ _

theorem PspQueueSignalPlace_discarded (Env : KERNEL_ENVIRONMENT) (P : KPROCESS)
    (Thread : Option Nat) (n : Nat) (Entry : SIGNAL_QUEUE_ENTRY) (i b : Bool)
    (hT : P.HasTracer = false)
    (h : i = true ∨
      (IS_SIGNAL_SET P.HandledSignals n = false ∧ Env.IS_SIGNAL_DEFAULT_IGNORE n = true)) :
    ((n = SIGNAL_CHILD_PROCESS_ACTIVITY →
        (PspQueueSignalPlace Env P Thread n (some Entry) i b).BlockedSignalListHead =
            P.BlockedSignalListHead ++ [{ Entry with DestinationThread := Thread }] ∧
          (PspQueueSignalPlace Env P Thread n (some Entry) i b).CompletedSignals = P.CompletedSignals ∧
          (∀ u, u < P.ThreadListHead.length → (Thread = some u ∨ Thread = none) →
            ((PspQueueSignalPlace Env P Thread n (some Entry) i b).Thread u).SignalPending =
                (if (P.Thread u).SignalPending = .ThreadNoSignalPending then
                  .ThreadChildSignalPending
                else (P.Thread u).SignalPending) ∧
              ((PspQueueSignalPlace Env P Thread n (some Entry) i b).Thread u).WakeCalls = (P.Thread u).WakeCalls ++ [true]) ∧
          (∀ t u, Thread = some t → u ≠ t →
            ((PspQueueSignalPlace Env P Thread n (some Entry) i b).Thread u).SignalPending = (P.Thread u).SignalPending ∧
              ((PspQueueSignalPlace Env P Thread n (some Entry) i b).Thread u).WakeCalls = (P.Thread u).WakeCalls)) ∧
      (n ≠ SIGNAL_CHILD_PROCESS_ACTIVITY →
        (PspQueueSignalPlace Env P Thread n (some Entry) i b).CompletedSignals =
            P.CompletedSignals ++
              (if Entry.CompletionRoutine then
                [{ Entry with DestinationThread := Thread }] else []) ∧
          (PspQueueSignalPlace Env P Thread n (some Entry) i b).BlockedSignalListHead = P.BlockedSignalListHead ∧
          ∀ u, ((PspQueueSignalPlace Env P Thread n (some Entry) i b).Thread u).SignalPending = (P.Thread u).SignalPending ∧
            ((PspQueueSignalPlace Env P Thread n (some Entry) i b).Thread u).WakeCalls = (P.Thread u).WakeCalls) ∧
      (PspQueueSignalPlace Env P Thread n (some Entry) i b).SignalListHead = P.SignalListHead ∧
      (PspQueueSignalPlace Env P Thread n (some Entry) i b).PendingSignals = P.PendingSignals ∧
      ∀ u, ((PspQueueSignalPlace Env P Thread n (some Entry) i b).Thread u).SignalListHead = (P.Thread u).SignalListHead ∧
        ((PspQueueSignalPlace Env P Thread n (some Entry) i b).Thread u).PendingSignals = (P.Thread u).PendingSignals) := by
  rw [PspQueueSignalPlace_discard Env P Thread n Entry i b hT h]
  by_cases hn : n = SIGNAL_CHILD_PROCESS_ACTIVITY
  · simp only [hn, if_true]
    refine ⟨fun _ => ⟨by simp [KPROCESS.InsertBlocked], by simp, ?_, ?_⟩,
      (fun hc => absurd rfl hc), by simp, by simp, fun u => ?_⟩
    · intro u hu hTh
      rw [PspQueueSignalWake_child _ _ _ _ (by simpa using hu) hTh, InsertBlocked_Thread]
      exact ⟨PspRaiseSignalPending_child _ _, rfl⟩
    · intro t u hTh hu
      subst hTh
      rw [PspQueueSignalWake_some_ne _ _ _ _ _ _ _ hu, InsertBlocked_Thread]
      exact ⟨rfl, rfl⟩
    · rw [PspQueueSignalWake_Thread_SignalListHead, PspQueueSignalWake_Thread_PendingSignals,
        InsertBlocked_Thread]
      exact ⟨rfl, rfl⟩
  · simp only [hn, if_false]
    refine ⟨(fun hc => hc.elim), fun _ => ⟨?_, by simp, fun u => by simp⟩, by simp, by simp,
      fun u => by simp⟩
    rw [Complete_eq]

/-- C7: `PspQueueSignal` is called with a queue entry while no tracer is
attached, and the signal is in the ignored set of the process (and the call is
not forced) or is unhandled with default action ignore; a forced signal is not
one the thread is running already. An entry of the child signal is appended at
the tail of the blocked-deferred list, and the given thread (every thread, when
no thread is given) is raised from `ThreadNoSignalPending` to
`ThreadChildSignalPending` and woken only if suspended. Any other entry is
handed to its completion routine when it has one, is put on no list, and the
pending state and the wake record of every thread are unchanged. In both cases
the queues and the pending sets of the process and of its threads are
unchanged. -/
theorem C7_ignored_entry_discarded (Env : KERNEL_ENVIRONMENT) (Process : KPROCESS)
    (Thread : Option Nat) (SignalNumber : Nat) (Entry : SIGNAL_QUEUE_ENTRY) (Force : Bool)
    (hForce : Force = true →
      ∃ t, Thread = some t ∧ IS_SIGNAL_SET (Process.Thread t).RunningSignals SignalNumber = false)
    (hTracer : Process.HasTracer = false)
    (hDiscard : (Force = false ∧ IS_SIGNAL_SET Process.IgnoredSignals SignalNumber = true) ∨
      (IS_SIGNAL_SET Process.HandledSignals SignalNumber = false ∧
        Env.IS_SIGNAL_DEFAULT_IGNORE SignalNumber = true)) :
    ((SignalNumber = SIGNAL_CHILD_PROCESS_ACTIVITY →
        (PspQueueSignal Env Process Thread SignalNumber (some Entry) Force).BlockedSignalListHead =
            Process.BlockedSignalListHead ++ [{ Entry with DestinationThread := Thread }] ∧
          (PspQueueSignal Env Process Thread SignalNumber (some Entry) Force).CompletedSignals = Process.CompletedSignals ∧
          (∀ u, u < Process.ThreadListHead.length → (Thread = some u ∨ Thread = none) →
            ((PspQueueSignal Env Process Thread SignalNumber (some Entry) Force).Thread u).SignalPending =
                (if (Process.Thread u).SignalPending = .ThreadNoSignalPending then
                  .ThreadChildSignalPending
                else (Process.Thread u).SignalPending) ∧
              ((PspQueueSignal Env Process Thread SignalNumber (some Entry) Force).Thread u).WakeCalls = (Process.Thread u).WakeCalls ++ [true]) ∧
          (∀ t u, Thread = some t → u ≠ t →
            ((PspQueueSignal Env Process Thread SignalNumber (some Entry) Force).Thread u).SignalPending = (Process.Thread u).SignalPending ∧
              ((PspQueueSignal Env Process Thread SignalNumber (some Entry) Force).Thread u).WakeCalls = (Process.Thread u).WakeCalls)) ∧
      (SignalNumber ≠ SIGNAL_CHILD_PROCESS_ACTIVITY →
        (PspQueueSignal Env Process Thread SignalNumber (some Entry) Force).CompletedSignals =
            Process.CompletedSignals ++
              (if Entry.CompletionRoutine then
                [{ Entry with DestinationThread := Thread }] else []) ∧
          (PspQueueSignal Env Process Thread SignalNumber (some Entry) Force).BlockedSignalListHead = Process.BlockedSignalListHead ∧
          ∀ u, ((PspQueueSignal Env Process Thread SignalNumber (some Entry) Force).Thread u).SignalPending = (Process.Thread u).SignalPending ∧
            ((PspQueueSignal Env Process Thread SignalNumber (some Entry) Force).Thread u).WakeCalls = (Process.Thread u).WakeCalls) ∧
      (PspQueueSignal Env Process Thread SignalNumber (some Entry) Force).SignalListHead = Process.SignalListHead ∧
      (PspQueueSignal Env Process Thread SignalNumber (some Entry) Force).PendingSignals = Process.PendingSignals ∧
      ∀ u, ((PspQueueSignal Env Process Thread SignalNumber (some Entry) Force).Thread u).SignalListHead = (Process.Thread u).SignalListHead ∧
        ((PspQueueSignal Env Process Thread SignalNumber (some Entry) Force).Thread u).PendingSignals = (Process.Thread u).PendingSignals) := by
  cases Force with
  | false =>
    have hb : ∃ b, PspQueueSignalUnforced Env Process Thread SignalNumber (some Entry) =
        PspQueueSignalPlace Env Process Thread SignalNumber (some Entry)
          (IS_SIGNAL_SET Process.IgnoredSignals SignalNumber) b := by
      cases Thread with
      | none => exact ⟨false, rfl⟩
      | some t => exact ⟨_, rfl⟩
    obtain ⟨b, hb⟩ := hb
    rw [PspQueueSignal_unforced, hb]
    refine PspQueueSignalPlace_discarded Env Process Thread SignalNumber Entry _ b hTracer ?_
    rcases hDiscard with h | h
    · exact Or.inl h.2
    · exact Or.inr h
  | true =>
    obtain ⟨t, rfl, hr⟩ := hForce rfl
    rw [PspQueueSignal_forced Env Process t SignalNumber _ hr]
    have h := PspQueueSignalPlace_discarded Env (ForceUnblocked Process t SignalNumber) (some t)
      SignalNumber Entry false false (by simpa using hTracer)
      (by
        rcases hDiscard with h | h
        · exact absurd h.1 (by decide)
        · exact Or.inr (by simpa using h))
    simpa using h

/-- Witness of C7 on `ExampleProcess`: signal 22 is ignored by default and not
handled, so its entry goes to its completion routine. -/
theorem C7_ignored_entry_discarded_witness :
    (PspQueueSignal ExampleEnvironment ExampleProcess (some 0) 22 (some ExampleIgnoredEntry)
        false).CompletedSignals =
      ExampleProcess.CompletedSignals ++
        (if ExampleIgnoredEntry.CompletionRoutine then
          [{ ExampleIgnoredEntry with DestinationThread := some 0 }] else []) :=
  ((C7_ignored_entry_discarded ExampleEnvironment ExampleProcess (some 0) 22 ExampleIgnoredEntry
    false (fun h => Bool.noConfusion h) (by decide)
    (Or.inr ⟨by decide, by decide⟩)).2.1 (by decide)).1

/-! ## Enqueue: the stop, continue and kill signals of a process -/

/-- The state after the first part of `PspQueueSignalToProcess`, which treats
STOP, CONTINUE and KILL. -/
theorem PspQueueSignalToProcess_eq (Env : KERNEL_ENVIRONMENT) (P : KPROCESS) (n : Nat)
    (Entry : Option SIGNAL_QUEUE_ENTRY) (hTC : P.ThreadCount ≠ 0) :
    (PspQueueSignalToProcess Env P n Entry).2 =
      PspQueueSignalUnforced Env
        (if n = SIGNAL_STOP then
          if IS_SIGNAL_SET P.PendingSignals SIGNAL_KILL = false then
            { P with
              PendingSignals := REMOVE_SIGNAL P.PendingSignals SIGNAL_CONTINUE
              StopEvent := false }
          else P
        else if n = SIGNAL_CONTINUE then
          { P with
            PendingSignals := REMOVE_SIGNAL P.PendingSignals SIGNAL_STOP
            StopEvent := true }
        else if n = SIGNAL_KILL then
          { P with
            PendingSignals :=
              REMOVE_SIGNAL (REMOVE_SIGNAL P.PendingSignals SIGNAL_STOP) SIGNAL_CONTINUE
            StopEvent := true }
        else P)
        none n (Entry.map fun Entry => { Entry with Delivered := false }) := by
  unfold PspQueueSignalToProcess
  have h : (P.ThreadCount == 0) = false := by simpa using hTC
  simp only [h, Bool.false_eq_true, if_false, beq_iff_eq, beq_eq_false_iff_ne, ne_eq]

theorem PspQueueSignalToProcess_kill (Env : KERNEL_ENVIRONMENT) (P : KPROCESS)
    (hTC : P.ThreadCount ≠ 0) (hI : IS_SIGNAL_SET P.IgnoredSignals SIGNAL_KILL = false) :
    (PspQueueSignalToProcess Env P SIGNAL_KILL none).2 =
      PspQueueSignalWake
        { P with
          PendingSignals :=
            ADD_SIGNAL
              (REMOVE_SIGNAL (REMOVE_SIGNAL P.PendingSignals SIGNAL_STOP) SIGNAL_CONTINUE)
              SIGNAL_KILL
          StopEvent := true }
        none SIGNAL_KILL false .ThreadSignalPending false := by
  rw [PspQueueSignalToProcess_eq Env P SIGNAL_KILL none hTC]
  have h1 : ¬ (SIGNAL_KILL = SIGNAL_STOP) := by decide
  have h2 : ¬ (SIGNAL_KILL = SIGNAL_CONTINUE) := by decide
  rw [if_neg h1, if_neg h2, if_pos rfl,
    PspQueueSignalUnforced_eq Env _ none SIGNAL_KILL _ false (fun t ht => by cases ht)
      (fun _ => rfl)]
  simp only [Option.map_none']
  rw [hI, PspQueueSignalPlace_number_process]

/-! ## Enqueue: a forced signal -/

theorem PspQueueSignal_forced_blocked (Env : KERNEL_ENVIRONMENT) (P : KPROCESS) (t n : Nat)
    (Entry : Option SIGNAL_QUEUE_ENTRY) (ht : t < P.ThreadListHead.length) :
    ((PspQueueSignal Env P (some t) n Entry true).Thread t).BlockedSignals =
      REMOVE_SIGNAL (P.Thread t).BlockedSignals n := by
  cases hr : IS_SIGNAL_SET (P.Thread t).RunningSignals n with
  | false =>
    rw [PspQueueSignal_forced Env P t n Entry hr, PspQueueSignalPlace_blocked,
      ForceUnblocked_Thread_BlockedSignals _ _ _ ht]
  | true =>
    rw [PspQueueSignal_forced_running Env P t n Entry hr, PspQueueSignalToProcess_blocked,
      PspSetProcessExitStatusUnlocked_Thread, ForceUnblocked_Thread_BlockedSignals _ _ _ ht]

theorem PspQueueSignalPlacement_forced (Env : KERNEL_ENVIRONMENT) (P : KPROCESS) (t n : Nat)
    (e : SIGNAL_QUEUE_ENTRY) :
    PspQueueSignalPlacement Env P (some t) n (some e) false false =
      if ForcedEntryDiscarded Env P n e = true then
        if n = SIGNAL_CHILD_PROCESS_ACTIVITY then
          ⟨P.InsertBlocked { e with DestinationThread := some t },
            .ThreadChildSignalPending, true⟩
        else ⟨P.Complete { e with DestinationThread := some t }, .ThreadNoSignalPending, false⟩
      else
        ⟨P.SetThread t
          { P.Thread t with
            SignalListHead := (P.Thread t).SignalListHead ++
              [{ e with DestinationThread := some t }] },
          .ThreadSignalPending, false⟩ := by
  unfold PspQueueSignalPlacement PspQueueSignalEntry ForcedEntryDiscarded
  obtain ⟨a, p, d, dl, c⟩ := e
  cases dl <;> cases IS_SIGNAL_SET P.HandledSignals n <;>
    cases Env.IS_SIGNAL_DEFAULT_IGNORE n <;> cases P.HasTracer <;> simp

theorem ForcedEntryDiscarded_ForceUnblocked (Env : KERNEL_ENVIRONMENT) (P : KPROCESS)
    (t n : Nat) (e : SIGNAL_QUEUE_ENTRY) :
    ForcedEntryDiscarded Env (ForceUnblocked P t n) n e = ForcedEntryDiscarded Env P n e := by
  simp [ForcedEntryDiscarded]

theorem PspQueueSignalPlace_forced_queued (Env : KERNEL_ENVIRONMENT) (P : KPROCESS) (t n : Nat)
    (e : SIGNAL_QUEUE_ENTRY) (ht : t < P.ThreadListHead.length)
    (hd : ForcedEntryDiscarded Env P n e = false) :
    ((PspQueueSignalPlace Env P (some t) n (some e) false false).Thread t).SignalListHead =
        (P.Thread t).SignalListHead ++ [{ e with DestinationThread := some t }] ∧
      ((PspQueueSignalPlace Env P (some t) n (some e) false false).Thread t).SignalPending =
        .ThreadSignalPending := by
  unfold PspQueueSignalPlace
  rw [PspQueueSignalPlacement_forced, if_neg (by rw [hd]; decide)]
  simp only
  rw [PspQueueSignalWake_some _ _ _ _ _ _ (by decide), Thread_SetThread_same _ _ _ (by simpa using ht),
    Thread_SetThread_same _ _ _ ht]
  exact ⟨rfl, PspRaiseSignalPending_any _ _⟩

theorem PspQueueSignalPlace_forced_discarded (Env : KERNEL_ENVIRONMENT) (P : KPROCESS)
    (t n : Nat) (e : SIGNAL_QUEUE_ENTRY) (ht : t < P.ThreadListHead.length)
    (hd : ForcedEntryDiscarded Env P n e = true) :
    ((PspQueueSignalPlace Env P (some t) n (some e) false false).Thread t).SignalListHead =
        (P.Thread t).SignalListHead ∧
      (PspQueueSignalPlace Env P (some t) n (some e) false false).SignalListHead =
        P.SignalListHead ∧
      (n ≠ SIGNAL_CHILD_PROCESS_ACTIVITY →
        (PspQueueSignalPlace Env P (some t) n (some e) false false).CompletedSignals =
            P.CompletedSignals ++
              (if e.CompletionRoutine then [{ e with DestinationThread := some t }] else []) ∧
          (PspQueueSignalPlace Env P (some t) n (some e) false false).BlockedSignalListHead =
            P.BlockedSignalListHead ∧
          ((PspQueueSignalPlace Env P (some t) n (some e) false false).Thread t).SignalPending =
            (P.Thread t).SignalPending) ∧
      (n = SIGNAL_CHILD_PROCESS_ACTIVITY →
        (PspQueueSignalPlace Env P (some t) n (some e) false false).BlockedSignalListHead =
            P.BlockedSignalListHead ++ [{ e with DestinationThread := some t }] ∧
          (PspQueueSignalPlace Env P (some t) n (some e) false false).CompletedSignals =
            P.CompletedSignals ∧
          ((PspQueueSignalPlace Env P (some t) n (some e) false false).Thread t).SignalPending =
            (if (P.Thread t).SignalPending = .ThreadNoSignalPending then
              .ThreadChildSignalPending
            else (P.Thread t).SignalPending)) := by
  unfold PspQueueSignalPlace
  rw [PspQueueSignalPlacement_forced, if_pos hd]
  by_cases hn : n = SIGNAL_CHILD_PROCESS_ACTIVITY
  · rw [if_pos hn]
    simp only
    rw [PspQueueSignalWake_some _ _ _ _ _ _ (by decide)]
    refine ⟨?_, by simp [KPROCESS.InsertBlocked], fun h => absurd hn h, fun _ => ?_⟩
    · rw [Thread_SetThread_same _ _ _ (by simpa [KPROCESS.InsertBlocked] using ht)]
      simp [PspRaiseSignalPending, KPROCESS.InsertBlocked, KPROCESS.Thread]
    · refine ⟨by simp [KPROCESS.InsertBlocked], by simp [KPROCESS.InsertBlocked], ?_⟩
      rw [Thread_SetThread_same _ _ _ (by simpa [KPROCESS.InsertBlocked] using ht),
        PspRaiseSignalPending_child]
      simp [KPROCESS.InsertBlocked, KPROCESS.Thread]
  · rw [if_neg hn]
    simp only
    rw [PspQueueSignalWake_no_pending]
    refine ⟨by simp, by simp, fun _ => ?_, fun h => absurd h hn⟩
    refine ⟨?_, by simp, by simp⟩
    unfold KPROCESS.Complete
    split <;> simp_all

/-- C8: `PspQueueSignal` is called with force on a thread of the process. The
signal is removed from the blocked set of the thread. If the signal is in the
running set of the thread (the process having a thread left and KILL not being
ignored), the exit status of the process is recorded as killed by that signal,
STOP and CONTINUE leave the pending set of the process and KILL enters it, the
stop event is signalled, and the original signal is put on no queue and in no
pending set of a thread. Otherwise a bare signal is added to the pending set of
the thread, and an entry is appended to the queue of the thread, in both cases
whatever the ignored set of the process is and with the pending state of the
thread `ThreadSignalPending` afterwards; unless the entry meets the discard
test of a forced signal (delivered before, or signal not handled and ignored by
default, with no tracer attached): then it is not queued, a child signal entry
goes to the tail of the blocked-deferred list and any other entry is handed to
its completion routine, the pending state of the thread staying as it was. -/
theorem C8_forced_signal (Env : KERNEL_ENVIRONMENT) (Process : KPROCESS) (t : Nat)
    (SignalNumber : Nat) (Entry : Option SIGNAL_QUEUE_ENTRY)
    (hThread : t < Process.ThreadListHead.length) :
    ((PspQueueSignal Env Process (some t) SignalNumber Entry true).Thread t).BlockedSignals =
        REMOVE_SIGNAL (Process.Thread t).BlockedSignals SignalNumber ∧
      (IS_SIGNAL_SET (Process.Thread t).RunningSignals SignalNumber = true →
        Process.ThreadCount ≠ 0 →
        IS_SIGNAL_SET Process.IgnoredSignals SIGNAL_KILL = false →
        (PspQueueSignal Env Process (some t) SignalNumber Entry true).PendingSignals =
            ADD_SIGNAL
              (REMOVE_SIGNAL (REMOVE_SIGNAL Process.PendingSignals SIGNAL_STOP) SIGNAL_CONTINUE)
              SIGNAL_KILL ∧
          IS_SIGNAL_SET (PspQueueSignal Env Process (some t) SignalNumber Entry true).PendingSignals SIGNAL_KILL = true ∧
          (PspQueueSignal Env Process (some t) SignalNumber Entry true).ExitReason = some .CHILD_SIGNAL_REASON_KILLED ∧
          (PspQueueSignal Env Process (some t) SignalNumber Entry true).ExitStatus = SignalNumber ∧
          (PspQueueSignal Env Process (some t) SignalNumber Entry true).StopEvent = true ∧
          (PspQueueSignal Env Process (some t) SignalNumber Entry true).SignalListHead = Process.SignalListHead ∧
          (PspQueueSignal Env Process (some t) SignalNumber Entry true).BlockedSignalListHead = Process.BlockedSignalListHead ∧
          (PspQueueSignal Env Process (some t) SignalNumber Entry true).CompletedSignals = Process.CompletedSignals ∧
          ∀ u, ((PspQueueSignal Env Process (some t) SignalNumber Entry true).Thread u).SignalListHead = (Process.Thread u).SignalListHead ∧
            ((PspQueueSignal Env Process (some t) SignalNumber Entry true).Thread u).PendingSignals = (Process.Thread u).PendingSignals) ∧
      (IS_SIGNAL_SET (Process.Thread t).RunningSignals SignalNumber = false →
        (Entry = none →
          ((PspQueueSignal Env Process (some t) SignalNumber Entry true).Thread t).PendingSignals =
              ADD_SIGNAL (Process.Thread t).PendingSignals SignalNumber ∧
            ((PspQueueSignal Env Process (some t) SignalNumber Entry true).Thread t).SignalPending = .ThreadSignalPending) ∧
        (∀ e, Entry = some e → ForcedEntryDiscarded Env Process SignalNumber e = false →
          ((PspQueueSignal Env Process (some t) SignalNumber Entry true).Thread t).SignalListHead =
              (Process.Thread t).SignalListHead ++ [{ e with DestinationThread := some t }] ∧
            ((PspQueueSignal Env Process (some t) SignalNumber Entry true).Thread t).SignalPending = .ThreadSignalPending) ∧
        (∀ e, Entry = some e → ForcedEntryDiscarded Env Process SignalNumber e = true →
          ((PspQueueSignal Env Process (some t) SignalNumber Entry true).Thread t).SignalListHead =
              (Process.Thread t).SignalListHead ∧
            (PspQueueSignal Env Process (some t) SignalNumber Entry true).SignalListHead =
              Process.SignalListHead ∧
            (SignalNumber ≠ SIGNAL_CHILD_PROCESS_ACTIVITY →
              (PspQueueSignal Env Process (some t) SignalNumber Entry true).CompletedSignals =
                  Process.CompletedSignals ++
                    (if e.CompletionRoutine then [{ e with DestinationThread := some t }]
                     else []) ∧
                (PspQueueSignal Env Process (some t) SignalNumber Entry true).BlockedSignalListHead =
                  Process.BlockedSignalListHead ∧
                ((PspQueueSignal Env Process (some t) SignalNumber Entry true).Thread t).SignalPending =
                  (Process.Thread t).SignalPending) ∧
            (SignalNumber = SIGNAL_CHILD_PROCESS_ACTIVITY →
              (PspQueueSignal Env Process (some t) SignalNumber Entry true).BlockedSignalListHead =
                  Process.BlockedSignalListHead ++ [{ e with DestinationThread := some t }] ∧
                (PspQueueSignal Env Process (some t) SignalNumber Entry true).CompletedSignals =
                  Process.CompletedSignals ∧
                ((PspQueueSignal Env Process (some t) SignalNumber Entry true).Thread t).SignalPending =
                  (if (Process.Thread t).SignalPending = .ThreadNoSignalPending then
                    .ThreadChildSignalPending
                  else (Process.Thread t).SignalPending)))) := by
  refine ⟨PspQueueSignal_forced_blocked Env Process t SignalNumber Entry hThread, ?_, ?_⟩
  · intro hr hTC hI
    rw [PspQueueSignal_forced_running Env Process t SignalNumber Entry hr,
      PspQueueSignalToProcess_kill Env _ (by simpa using hTC) (by simpa using hI)]
    refine ⟨by simp, ?_, by simp [PspSetProcessExitStatusUnlocked],
      by simp [PspSetProcessExitStatusUnlocked], by simp, by simp, by simp, by simp, fun u => ?_⟩
    · simp only [PspQueueSignalWake_PendingSignals]
      rw [IS_SIGNAL_SET_ADD_SIGNAL]
      simp [SIGNAL_KILL]
    · rw [PspQueueSignalWake_Thread_SignalListHead, PspQueueSignalWake_Thread_PendingSignals]
      exact ⟨ForceUnblocked_Thread_SignalListHead _ _ _ _,
        ForceUnblocked_Thread_PendingSignals _ _ _ _⟩
  · intro hr
    rw [PspQueueSignal_forced Env Process t SignalNumber Entry hr]
    refine ⟨?_, ?_, ?_⟩
    · intro hE
      subst hE
      rw [PspQueueSignalPlace_number_thread _ _ _ _ _ (by simpa using hThread),
        Thread_SetThread_same _ _ _ (by simpa using hThread)]
      exact ⟨by simp, rfl⟩
    · intro e hE hd
      subst hE
      have h := PspQueueSignalPlace_forced_queued Env (ForceUnblocked Process t SignalNumber) t
        SignalNumber e (by simpa using hThread)
        (by rw [ForcedEntryDiscarded_ForceUnblocked]; exact hd)
      simpa using h
    · intro e hE hd
      subst hE
      have h := PspQueueSignalPlace_forced_discarded Env (ForceUnblocked Process t SignalNumber)
        t SignalNumber e (by simpa using hThread)
        (by rw [ForcedEntryDiscarded_ForceUnblocked]; exact hd)
      simpa using h

/-- Witness of C8 on `ExampleRunningProcess`: the thread is running the handler
of signal 11 when signal 11 is forced on it, and KILL becomes pending for the
process. -/
theorem C8_forced_signal_witness :
    IS_SIGNAL_SET
        (PspQueueSignal ExampleEnvironment ExampleRunningProcess (some 0)
          SIGNAL_ACCESS_VIOLATION none true).PendingSignals
        SIGNAL_KILL = true ∧
      (PspQueueSignal ExampleEnvironment ExampleRunningProcess (some 0)
          SIGNAL_ACCESS_VIOLATION none true).ExitStatus = SIGNAL_ACCESS_VIOLATION :=
  ⟨((C8_forced_signal ExampleEnvironment ExampleRunningProcess 0 SIGNAL_ACCESS_VIOLATION none
      (by decide)).2.1 (by decide) (by decide) (by decide)).2.1,
    ((C8_forced_signal ExampleEnvironment ExampleRunningProcess 0 SIGNAL_ACCESS_VIOLATION none
      (by decide)).2.1 (by decide) (by decide) (by decide)).2.2.2.1⟩

/-- C8, a forced entry whose signal is ignored by default: signal 22 is not in
the running set of the second thread of `ExampleTwoThreadProcess`, is not
handled, and `ExampleEnvironment` ignores it by default. The entry
`ExampleIgnoredEntry` forced on that thread is queued nowhere: it is handed to
its completion routine, the queue and the pending set of the thread stay empty
and the thread stays in "no signal pending". -/
theorem C8_forced_default_ignore_entry_counterexample :
    IS_SIGNAL_SET (ExampleTwoThreadProcess.Thread 1).RunningSignals 22 = false ∧
      ((PspQueueSignal ExampleEnvironment ExampleTwoThreadProcess (some 1) 22
        (some ExampleIgnoredEntry) true).Thread 1).SignalListHead = [] ∧
      IS_SIGNAL_SET ((PspQueueSignal ExampleEnvironment ExampleTwoThreadProcess (some 1) 22
        (some ExampleIgnoredEntry) true).Thread 1).PendingSignals 22 = false ∧
      (PspQueueSignal ExampleEnvironment ExampleTwoThreadProcess (some 1) 22
        (some ExampleIgnoredEntry) true).SignalListHead = [] ∧
      (PspQueueSignal ExampleEnvironment ExampleTwoThreadProcess (some 1) 22
        (some ExampleIgnoredEntry) true).BlockedSignalListHead = [] ∧
      (PspQueueSignal ExampleEnvironment ExampleTwoThreadProcess (some 1) 22
        (some ExampleIgnoredEntry) true).CompletedSignals =
          [{ ExampleIgnoredEntry with DestinationThread := some 1 }] ∧
      ((PspQueueSignal ExampleEnvironment ExampleTwoThreadProcess (some 1) 22
        (some ExampleIgnoredEntry) true).Thread 1).SignalPending = .ThreadNoSignalPending := by
  decide

/-! ## Enqueue: the stop event and the pending set of the process -/

theorem PspQueueSignalUnforced_process (Env : KERNEL_ENVIRONMENT) (P : KPROCESS) (n : Nat)
    (Entry : Option SIGNAL_QUEUE_ENTRY) :
    (PspQueueSignalUnforced Env P none n Entry).StopEvent = P.StopEvent ∧
      (PspQueueSignalUnforced Env P none n Entry).PendingSignals =
        (if Entry = none ∧ IS_SIGNAL_SET P.IgnoredSignals n = false then
          ADD_SIGNAL P.PendingSignals n
        else P.PendingSignals) := by
  rw [PspQueueSignalUnforced_eq Env P none n Entry false (fun t ht => by cases ht) (fun _ => rfl)]
  unfold PspQueueSignalPlace
  simp only [PspQueueSignalWake_StopEvent, PspQueueSignalWake_PendingSignals]
  unfold PspQueueSignalPlacement
  cases Entry with
  | none =>
    unfold PspQueueSignalNumber
    cases IS_SIGNAL_SET P.IgnoredSignals n <;> simp
  | some e =>
    unfold PspQueueSignalEntry
    simp only [reduceCtorEq, false_and, if_false]
    split_ifs <;> simp

/-- C9: `PspQueueSignalToProcess` on a process with at least one thread, with or
without a queue entry. Sending STOP unsignals the stop event when KILL is not
pending for the process (CONTINUE then leaves the pending set) and leaves the
event as it is when KILL is pending. Sending CONTINUE removes STOP from the
pending set of the process and signals the stop event, whatever the ignored set
is. Sending KILL removes STOP and CONTINUE from the pending set, signals the
stop event, keeps KILL in the pending set when it is there, and puts it there
when the signal comes without an entry and is not ignored. -/
theorem C9_stop_continue_kill_to_process (Env : KERNEL_ENVIRONMENT) (Process : KPROCESS)
    (Entry : Option SIGNAL_QUEUE_ENTRY) (hThreadCount : Process.ThreadCount ≠ 0) :
    ((PspQueueSignalToProcess Env Process SIGNAL_STOP Entry).2.StopEvent =
        (if IS_SIGNAL_SET Process.PendingSignals SIGNAL_KILL then Process.StopEvent else false) ∧
      (IS_SIGNAL_SET Process.PendingSignals SIGNAL_KILL = false →
        IS_SIGNAL_SET (PspQueueSignalToProcess Env Process SIGNAL_STOP Entry).2.PendingSignals SIGNAL_CONTINUE = false)) ∧
    (IS_SIGNAL_SET (PspQueueSignalToProcess Env Process SIGNAL_CONTINUE Entry).2.PendingSignals SIGNAL_STOP = false ∧
      (PspQueueSignalToProcess Env Process SIGNAL_CONTINUE Entry).2.StopEvent = true) ∧
    (IS_SIGNAL_SET (PspQueueSignalToProcess Env Process SIGNAL_KILL Entry).2.PendingSignals SIGNAL_STOP = false ∧
      IS_SIGNAL_SET (PspQueueSignalToProcess Env Process SIGNAL_KILL Entry).2.PendingSignals SIGNAL_CONTINUE = false ∧
      (PspQueueSignalToProcess Env Process SIGNAL_KILL Entry).2.StopEvent = true ∧
      (IS_SIGNAL_SET Process.PendingSignals SIGNAL_KILL = true →
        IS_SIGNAL_SET (PspQueueSignalToProcess Env Process SIGNAL_KILL Entry).2.PendingSignals SIGNAL_KILL = true) ∧
      (Entry = none → IS_SIGNAL_SET Process.IgnoredSignals SIGNAL_KILL = false →
        IS_SIGNAL_SET (PspQueueSignalToProcess Env Process SIGNAL_KILL Entry).2.PendingSignals SIGNAL_KILL = true)) := by
  have h1 : ¬ (SIGNAL_KILL = SIGNAL_STOP) := by decide
  have h2 : ¬ (SIGNAL_KILL = SIGNAL_CONTINUE) := by decide
  have h3 : ¬ (SIGNAL_CONTINUE = SIGNAL_STOP) := by decide
  refine ⟨?_, ?_, ?_⟩
  · rw [PspQueueSignalToProcess_eq Env Process SIGNAL_STOP Entry hThreadCount, if_pos rfl]
    cases hk : IS_SIGNAL_SET Process.PendingSignals SIGNAL_KILL with
    | false =>
      simp only [if_true]
      refine ⟨by rw [(PspQueueSignalUnforced_process Env _ _ _).1]; simp, fun _ => ?_⟩
      rw [(PspQueueSignalUnforced_process Env _ _ _).2]
      split
      · rw [IS_SIGNAL_SET_ADD_SIGNAL, IS_SIGNAL_SET_REMOVE_SIGNAL]
        simp [SIGNAL_STOP, SIGNAL_CONTINUE]
      · rw [IS_SIGNAL_SET_REMOVE_SIGNAL]
        simp
    | true =>
      simp only [Bool.true_eq_false, if_false, if_true]
      exact ⟨(PspQueueSignalUnforced_process Env _ _ _).1, fun h => by cases h⟩
  · rw [PspQueueSignalToProcess_eq Env Process SIGNAL_CONTINUE Entry hThreadCount, if_neg h3,
      if_pos rfl]
    refine ⟨?_, by rw [(PspQueueSignalUnforced_process Env _ _ _).1]⟩
    rw [(PspQueueSignalUnforced_process Env _ _ _).2]
    split
    · rw [IS_SIGNAL_SET_ADD_SIGNAL, IS_SIGNAL_SET_REMOVE_SIGNAL]
      simp [SIGNAL_STOP, SIGNAL_CONTINUE]
    · rw [IS_SIGNAL_SET_REMOVE_SIGNAL]
      simp
  · rw [PspQueueSignalToProcess_eq Env Process SIGNAL_KILL Entry hThreadCount, if_neg h1,
      if_neg h2, if_pos rfl, (PspQueueSignalUnforced_process Env _ _ _).1,
      (PspQueueSignalUnforced_process Env _ _ _).2]
    refine ⟨?_, ?_, rfl, ?_, ?_⟩
    · split
      · simp [IS_SIGNAL_SET_ADD_SIGNAL, IS_SIGNAL_SET_REMOVE_SIGNAL, SIGNAL_STOP, SIGNAL_CONTINUE,
          SIGNAL_KILL]
      · simp [IS_SIGNAL_SET_REMOVE_SIGNAL, SIGNAL_STOP, SIGNAL_CONTINUE]
    · split
      · simp [IS_SIGNAL_SET_ADD_SIGNAL, IS_SIGNAL_SET_REMOVE_SIGNAL, SIGNAL_STOP, SIGNAL_CONTINUE,
          SIGNAL_KILL]
      · simp [IS_SIGNAL_SET_REMOVE_SIGNAL, SIGNAL_STOP, SIGNAL_CONTINUE]
    · intro hk
      split
      · simp [IS_SIGNAL_SET_ADD_SIGNAL, SIGNAL_KILL]
      · rw [IS_SIGNAL_SET_REMOVE_SIGNAL, IS_SIGNAL_SET_REMOVE_SIGNAL, hk]
        decide
    · intro hE hI
      rw [if_pos ⟨by simpa using hE, by simpa using hI⟩]
      simp [IS_SIGNAL_SET_ADD_SIGNAL, SIGNAL_KILL]

/-- Witness of C9 on `ExampleProcess`, which has one thread and no KILL pending:
STOP unsignals the stop event. -/
theorem C9_stop_continue_kill_to_process_witness :
    (PspQueueSignalToProcess ExampleEnvironment ExampleProcess SIGNAL_STOP none).2.StopEvent =
      (if IS_SIGNAL_SET ExampleProcess.PendingSignals SIGNAL_KILL then ExampleProcess.StopEvent
       else false) :=
  (C9_stop_continue_kill_to_process ExampleEnvironment ExampleProcess none (by decide)).1.1

/-! ## Enqueue: the walk over the threads of the process -/

theorem PspQueueSignalPlace_process_walk (Env : KERNEL_ENVIRONMENT) (P : KPROCESS) (n : Nat)
    (Entry : Option SIGNAL_QUEUE_ENTRY) (i : Bool)
    (hBare : Entry = none → i = false)
    (hEntry : ∀ e, Entry = some e → e.Delivered = false ∧
      ((i || (IS_SIGNAL_SET P.HandledSignals n == false && Env.IS_SIGNAL_DEFAULT_IGNORE n)) &&
        !P.HasTracer) = false) :
    ∃ P1, P1.ThreadListHead = P.ThreadListHead ∧
      PspQueueSignalPlace Env P none n Entry i false =
        PspQueueSignalWake P1 none n false .ThreadSignalPending false := by
  cases Entry with
  | none =>
    rw [hBare rfl, PspQueueSignalPlace_number_process]
    exact ⟨{ P with PendingSignals := ADD_SIGNAL P.PendingSignals n }, rfl, rfl⟩
  | some e =>
    unfold PspQueueSignalPlace
    rw [PspQueueSignalPlacement_enqueue Env P none n e i (hEntry e rfl).1 (hEntry e rfl).2]
    exact ⟨{ P with
      SignalListHead := P.SignalListHead ++ [{ e with DestinationThread := none }] }, rfl, rfl⟩

/-- C10: `PspQueueSignal` is called without a thread and without force for a
signal other than the child signal that is not ignored and, when it comes as a
queue entry while no tracer is attached, is handled or not ignored by default:
a bare signal that is not in the ignored set of the process, or an entry that
is not delivered yet (the `ASSERT` of the routine for a signal other than the
child signal) and does not meet the discard test "ignored or unhandled
default-ignore, with no tracer". Then every thread of the process that blocks
the signal is left as it is, with its pending state, its pending set and no
wake call, and every thread that does not block it has the pending state
`ThreadSignalPending` afterwards and is woken. -/
theorem C10_process_wide_skips_blocking_threads (Env : KERNEL_ENVIRONMENT)
    (Process : KPROCESS) (SignalNumber : Nat) (Entry : Option SIGNAL_QUEUE_ENTRY)
    (hChild : SignalNumber ≠ SIGNAL_CHILD_PROCESS_ACTIVITY)
    (hBare : Entry = none → IS_SIGNAL_SET Process.IgnoredSignals SignalNumber = false)
    (hEntry : ∀ e, Entry = some e → e.Delivered = false ∧
      ((IS_SIGNAL_SET Process.IgnoredSignals SignalNumber ||
          (IS_SIGNAL_SET Process.HandledSignals SignalNumber == false &&
            Env.IS_SIGNAL_DEFAULT_IGNORE SignalNumber)) && !Process.HasTracer) = false) :
    ∀ u, u < Process.ThreadListHead.length →
      (IS_SIGNAL_BLOCKED (Process.Thread u) SignalNumber = true →
        (PspQueueSignal Env Process none SignalNumber Entry false).Thread u = Process.Thread u) ∧
      (IS_SIGNAL_BLOCKED (Process.Thread u) SignalNumber = false →
        ((PspQueueSignal Env Process none SignalNumber Entry false).Thread u).SignalPending = .ThreadSignalPending ∧
          ((PspQueueSignal Env Process none SignalNumber Entry false).Thread u).WakeCalls = (Process.Thread u).WakeCalls ++ [false] ∧
          ((PspQueueSignal Env Process none SignalNumber Entry false).Thread u).PendingSignals = (Process.Thread u).PendingSignals) := by
  intro u hu
  obtain ⟨P1, hP1, hQ⟩ := PspQueueSignalPlace_process_walk Env Process SignalNumber Entry
    (IS_SIGNAL_SET Process.IgnoredSignals SignalNumber) hBare hEntry
  have hT : P1.Thread u = Process.Thread u := by
    simp only [KPROCESS.Thread, hP1]
  rw [PspQueueSignal_unforced,
    PspQueueSignalUnforced_eq Env Process none SignalNumber Entry false
      (fun t ht => by cases ht) (fun _ => rfl), hQ,
    PspQueueSignalWake_none_Thread P1 SignalNumber false _ false u (by decide) hChild
      (by rw [hP1]; exact hu), hT]
  constructor
  · intro hb
    rw [if_pos hb]
  · intro hb
    rw [if_neg (by rw [hb]; decide)]
    exact ⟨PspRaiseSignalPending_any _ _, rfl, rfl⟩

/-- Witness of C10 on `ExampleTwoThreadProcess`: signal 3 is sent to the
process; the first thread blocks it and is left alone, the second does not and
gets the pending state `ThreadSignalPending`. -/
theorem C10_process_wide_skips_blocking_threads_witness :
    (PspQueueSignal ExampleEnvironment ExampleTwoThreadProcess none 3 none false).Thread 0 =
        ExampleTwoThreadProcess.Thread 0 ∧
      ((PspQueueSignal ExampleEnvironment ExampleTwoThreadProcess none 3 none false).Thread
        1).SignalPending = .ThreadSignalPending :=
  ⟨(C10_process_wide_skips_blocking_threads ExampleEnvironment ExampleTwoThreadProcess 3 none
      (by decide) (fun _ => by decide) (fun e h => Option.noConfusion h) 0 (by decide)).1
      (by decide),
    ((C10_process_wide_skips_blocking_threads ExampleEnvironment ExampleTwoThreadProcess 3 none
      (by decide) (fun _ => by decide) (fun e h => Option.noConfusion h) 1 (by decide)).2
      (by decide)).1⟩

/-- C10, an entry whose signal is ignored by default: signal 22 is not the
child signal and is not in the ignored set of `ExampleTwoThreadProcess`, which
does not handle it and has no tracer; `ExampleEnvironment` ignores it by
default. The second thread does not block it. The process-wide enqueue of
`ExampleIgnoredEntry` hands the entry to its completion routine, and the second
thread is left in "no signal pending" and is not woken. -/
theorem C10_default_ignore_entry_counterexample :
    IS_SIGNAL_SET ExampleTwoThreadProcess.IgnoredSignals 22 = false ∧
      IS_SIGNAL_BLOCKED (ExampleTwoThreadProcess.Thread 1) 22 = false ∧
      ((PspQueueSignal ExampleEnvironment ExampleTwoThreadProcess none 22
        (some ExampleIgnoredEntry) false).Thread 1).SignalPending = .ThreadNoSignalPending ∧
      ((PspQueueSignal ExampleEnvironment ExampleTwoThreadProcess none 22
        (some ExampleIgnoredEntry) false).Thread 1).WakeCalls = [] ∧
      (PspQueueSignal ExampleEnvironment ExampleTwoThreadProcess none 22
        (some ExampleIgnoredEntry) false).SignalListHead = [] ∧
      (PspQueueSignal ExampleEnvironment ExampleTwoThreadProcess none 22
        (some ExampleIgnoredEntry) false).CompletedSignals =
          [{ ExampleIgnoredEntry with DestinationThread := none }] := by
  decide

/-! ## Enqueue: a child signal sent to a process whose threads block it -/

/-- C11: the code at an input where the claim fails. The process handles the
child signal, does not ignore it and has no tracer; its thread blocks the child
signal and has no signal pending. After the process-wide `PspQueueSignal` of a
child entry the entry is on the process queue and the thread that blocks the
signal has the pending state `ThreadSignalPending`, above
`ThreadChildSignalPending`, and was woken with `OnlyWakeSuspendedThreads`
`FALSE`: the test `SignalBlocked != FALSE` in the walk reads the flag of the
given thread, which is `FALSE` when no thread is given. -/
theorem C11_child_signal_blocking_thread_raised_fully :
    IS_SIGNAL_BLOCKED (ExampleChildHandlerProcess.Thread 0) SIGNAL_CHILD_PROCESS_ACTIVITY = true ∧
      (ExampleChildHandlerProcess.Thread 0).SignalPending = .ThreadNoSignalPending ∧
      ((PspQueueSignal ExampleEnvironment ExampleChildHandlerProcess none
          SIGNAL_CHILD_PROCESS_ACTIVITY (some ExampleChildEntry) false).Thread 0).SignalPending =
        .ThreadSignalPending ∧
      ((PspQueueSignal ExampleEnvironment ExampleChildHandlerProcess none
          SIGNAL_CHILD_PROCESS_ACTIVITY (some ExampleChildEntry) false).Thread 0).WakeCalls =
        [false] ∧
      (PspQueueSignal ExampleEnvironment ExampleChildHandlerProcess none
          SIGNAL_CHILD_PROCESS_ACTIVITY (some ExampleChildEntry) false).SignalListHead =
        [ExampleChildEntry] := by
  decide

/-! ## Enqueue: the ignored and handled sets -/

theorem PspQueueSignalPlacement_IgnoredSignals (Env : KERNEL_ENVIRONMENT) (P : KPROCESS)
    (Thread : Option Nat) (n : Nat) (Entry : Option SIGNAL_QUEUE_ENTRY) (i b : Bool) :
    (PspQueueSignalPlacement Env P Thread n Entry i b).Process.IgnoredSignals = P.IgnoredSignals := by
  unfold PspQueueSignalPlacement
  split
  · unfold PspQueueSignalEntry
    split_ifs
    all_goals first
      | (simp; done)
      | (split <;> simp)
  · unfold PspQueueSignalNumber
    split_ifs
    all_goals first
      | rfl
      | (simp only
         split <;> simp)

@[simp] theorem PspQueueSignalPlace_IgnoredSignals (Env : KERNEL_ENVIRONMENT) (P : KPROCESS)
    (Thread : Option Nat) (n : Nat) (Entry : Option SIGNAL_QUEUE_ENTRY) (i b : Bool) :
    (PspQueueSignalPlace Env P Thread n Entry i b).IgnoredSignals = P.IgnoredSignals := by
  unfold PspQueueSignalPlace
  rw [PspQueueSignalWake_IgnoredSignals, PspQueueSignalPlacement_IgnoredSignals]

@[simp] theorem PspQueueSignalUnforced_IgnoredSignals (Env : KERNEL_ENVIRONMENT) (P : KPROCESS)
    (Thread : Option Nat) (n : Nat) (Entry : Option SIGNAL_QUEUE_ENTRY) :
    (PspQueueSignalUnforced Env P Thread n Entry).IgnoredSignals = P.IgnoredSignals :=
  PspQueueSignalPlace_IgnoredSignals Env P Thread n Entry _ _

@[simp] theorem PspQueueSignalToProcess_IgnoredSignals (Env : KERNEL_ENVIRONMENT) (P : KPROCESS)
    (n : Nat) (Entry : Option SIGNAL_QUEUE_ENTRY) :
    (PspQueueSignalToProcess Env P n Entry).2.IgnoredSignals = P.IgnoredSignals := by
  unfold PspQueueSignalToProcess
  split
  · split
    · split_ifs <;> simp
    · rfl
  · simp only
    rw [PspQueueSignalUnforced_IgnoredSignals]
    split_ifs <;> rfl

@[simp] theorem PspQueueSignal_IgnoredSignals (Env : KERNEL_ENVIRONMENT) (P : KPROCESS)
    (Thread : Option Nat) (n : Nat) (Entry : Option SIGNAL_QUEUE_ENTRY) (Force : Bool) :
    (PspQueueSignal Env P Thread n Entry Force).IgnoredSignals = P.IgnoredSignals := by
  cases Force with
  | false => rw [PspQueueSignal_unforced, PspQueueSignalUnforced_IgnoredSignals]
  | true =>
    cases Thread with
    | none => rfl
    | some t =>
      cases hr : IS_SIGNAL_SET (P.Thread t).RunningSignals n with
      | false => rw [PspQueueSignal_forced Env P t n Entry hr]; simp
      | true => rw [PspQueueSignal_forced_running Env P t n Entry hr]; simp

@[simp] theorem PspRequeueBlockedList_IgnoredSignals (Env : KERNEL_ENVIRONMENT) (P : KPROCESS) :
    (PspRequeueBlockedList Env P).IgnoredSignals = P.IgnoredSignals := by
  have hfold : ∀ (L : List SIGNAL_QUEUE_ENTRY) (Q : KPROCESS),
      (L.foldl (fun Current SignalQueueEntry =>
          PspQueueSignal Env Current SignalQueueEntry.DestinationThread
            SignalQueueEntry.Parameters.SignalNumber (some SignalQueueEntry) false) Q).IgnoredSignals =
        Q.IgnoredSignals := by
    intro L
    induction L with
    | nil => intro Q; rfl
    | cons e L ih =>
      intro Q
      rw [List.foldl_cons, ih, PspQueueSignal_IgnoredSignals]
  unfold PspRequeueBlockedList
  split
  · rw [hfold]
  · rfl

@[simp] theorem PspRequeueBlockedSignals_IgnoredSignals (Env : KERNEL_ENVIRONMENT) (P : KPROCESS)
    (t : Nat) : (PspRequeueBlockedSignals Env P t).IgnoredSignals = P.IgnoredSignals := by
  unfold PspRequeueBlockedSignals
  simp

theorem PspQueueSignalPlacement_HandledSignals (Env : KERNEL_ENVIRONMENT) (P : KPROCESS)
    (Thread : Option Nat) (n : Nat) (Entry : Option SIGNAL_QUEUE_ENTRY) (i b : Bool) :
    (PspQueueSignalPlacement Env P Thread n Entry i b).Process.HandledSignals = P.HandledSignals := by
  unfold PspQueueSignalPlacement
  split
  · unfold PspQueueSignalEntry
    split_ifs
    all_goals first
      | (simp; done)
      | (split <;> simp)
  · unfold PspQueueSignalNumber
    split_ifs
    all_goals first
      | rfl
      | (simp only
         split <;> simp)

@[simp] theorem PspQueueSignalPlace_HandledSignals (Env : KERNEL_ENVIRONMENT) (P : KPROCESS)
    (Thread : Option Nat) (n : Nat) (Entry : Option SIGNAL_QUEUE_ENTRY) (i b : Bool) :
    (PspQueueSignalPlace Env P Thread n Entry i b).HandledSignals = P.HandledSignals := by
  unfold PspQueueSignalPlace
  rw [PspQueueSignalWake_HandledSignals, PspQueueSignalPlacement_HandledSignals]

@[simp] theorem PspQueueSignalUnforced_HandledSignals (Env : KERNEL_ENVIRONMENT) (P : KPROCESS)
    (Thread : Option Nat) (n : Nat) (Entry : Option SIGNAL_QUEUE_ENTRY) :
    (PspQueueSignalUnforced Env P Thread n Entry).HandledSignals = P.HandledSignals :=
  PspQueueSignalPlace_HandledSignals Env P Thread n Entry _ _

@[simp] theorem PspQueueSignalToProcess_HandledSignals (Env : KERNEL_ENVIRONMENT) (P : KPROCESS)
    (n : Nat) (Entry : Option SIGNAL_QUEUE_ENTRY) :
    (PspQueueSignalToProcess Env P n Entry).2.HandledSignals = P.HandledSignals := by
  unfold PspQueueSignalToProcess
  split
  · split
    · split_ifs <;> simp
    · rfl
  · simp only
    rw [PspQueueSignalUnforced_HandledSignals]
    split_ifs <;> rfl

@[simp] theorem PspQueueSignal_HandledSignals (Env : KERNEL_ENVIRONMENT) (P : KPROCESS)
    (Thread : Option Nat) (n : Nat) (Entry : Option SIGNAL_QUEUE_ENTRY) (Force : Bool) :
    (PspQueueSignal Env P Thread n Entry Force).HandledSignals = P.HandledSignals := by
  cases Force with
  | false => rw [PspQueueSignal_unforced, PspQueueSignalUnforced_HandledSignals]
  | true =>
    cases Thread with
    | none => rfl
    | some t =>
      cases hr : IS_SIGNAL_SET (P.Thread t).RunningSignals n with
      | false => rw [PspQueueSignal_forced Env P t n Entry hr]; simp
      | true => rw [PspQueueSignal_forced_running Env P t n Entry hr]; simp

@[simp] theorem PspRequeueBlockedList_HandledSignals (Env : KERNEL_ENVIRONMENT) (P : KPROCESS) :
    (PspRequeueBlockedList Env P).HandledSignals = P.HandledSignals := by
  have hfold : ∀ (L : List SIGNAL_QUEUE_ENTRY) (Q : KPROCESS),
      (L.foldl (fun Current SignalQueueEntry =>
          PspQueueSignal Env Current SignalQueueEntry.DestinationThread
            SignalQueueEntry.Parameters.SignalNumber (some SignalQueueEntry) false) Q).HandledSignals =
        Q.HandledSignals := by
    intro L
    induction L with
    | nil => intro Q; rfl
    | cons e L ih =>
      intro Q
      rw [List.foldl_cons, ih, PspQueueSignal_HandledSignals]
  unfold PspRequeueBlockedList
  split
  · rw [hfold]
  · rfl

@[simp] theorem PspRequeueBlockedSignals_HandledSignals (Env : KERNEL_ENVIRONMENT) (P : KPROCESS)
    (t : Nat) : (PspRequeueBlockedSignals Env P t).HandledSignals = P.HandledSignals := by
  unfold PspRequeueBlockedSignals
  simp

/-! ## Set behavior: the ignored and handled sets -/

theorem IS_SIGNAL_SET_apply (op : SIGNAL_MASK_OPERATION) (d m : SIGNAL_SET) (n : Nat) :
    IS_SIGNAL_SET (ApplySignalMaskOperation op d m) n =
      (if op = .SignalMaskOperationOverwrite then IS_SIGNAL_SET m n
       else if op = .SignalMaskOperationSet then IS_SIGNAL_SET d n || IS_SIGNAL_SET m n
       else if op = .SignalMaskOperationClear then IS_SIGNAL_SET d n && !IS_SIGNAL_SET m n
       else IS_SIGNAL_SET d n) := by
  cases op <;>
    simp [ApplySignalMaskOperation, IS_SIGNAL_SET_OR_SIGNAL_SETS,
      IS_SIGNAL_SET_REMOVE_SIGNALS_FROM_SET]

theorem PsSysSetSignalBehavior_IgnoredSignals (Env : KERNEL_ENVIRONMENT) (Process : KPROCESS)
    (t : Nat) (Parameters : SYSTEM_CALL_SET_SIGNAL_BEHAVIOR) :
    (PsSysSetSignalBehavior Env Process t Parameters).2.IgnoredSignals =
      (if Parameters.MaskType = .SignalMaskIgnored then
        ApplySignalMaskOperation Parameters.Operation Process.IgnoredSignals
          (BehaviorNewMask Parameters.SignalSet)
      else if Parameters.MaskType = .SignalMaskHandled then
        REMOVE_SIGNALS_FROM_SET Process.IgnoredSignals (BehaviorNewMask Parameters.SignalSet)
      else Process.IgnoredSignals) := by
  obtain ⟨ty, op, M⟩ := Parameters
  cases ty <;> simp only [PsSysSetSignalBehavior, BehaviorNewMask, reduceCtorEq, if_false,
    if_true] <;> (try split_ifs) <;> simp

theorem PsSysSetSignalBehavior_HandledSignals (Env : KERNEL_ENVIRONMENT) (Process : KPROCESS)
    (t : Nat) (Parameters : SYSTEM_CALL_SET_SIGNAL_BEHAVIOR) :
    (PsSysSetSignalBehavior Env Process t Parameters).2.HandledSignals =
      (if Parameters.MaskType = .SignalMaskHandled then
        ApplySignalMaskOperation Parameters.Operation Process.HandledSignals
          (BehaviorNewMask Parameters.SignalSet)
      else Process.HandledSignals) := by
  obtain ⟨ty, op, M⟩ := Parameters
  cases ty <;> simp only [PsSysSetSignalBehavior, BehaviorNewMask, reduceCtorEq, if_false,
    if_true] <;> (try split_ifs) <;> simp

/-- C16, as amended: if no signal is both ignored and handled before a
`PsSysSetSignalBehavior` call, none is after it, for every mask type, operation
and input set, provided that a call which sets or overwrites the ignored set
does so with signals (STOP and KILL apart, which the call strips) that are not
in the handled set. -/
theorem C16_ignored_handled_stay_disjoint (Env : KERNEL_ENVIRONMENT) (Process : KPROCESS)
    (t : Nat) (Parameters : SYSTEM_CALL_SET_SIGNAL_BEHAVIOR)
    (hDisjoint : SignalSetsDisjoint Process.IgnoredSignals Process.HandledSignals)
    (hIgnored : Parameters.MaskType = .SignalMaskIgnored →
      Parameters.Operation = .SignalMaskOperationSet ∨
        Parameters.Operation = .SignalMaskOperationOverwrite →
      SignalSetsDisjoint (BehaviorNewMask Parameters.SignalSet) Process.HandledSignals) :
    SignalSetsDisjoint (PsSysSetSignalBehavior Env Process t Parameters).2.IgnoredSignals (PsSysSetSignalBehavior Env Process t Parameters).2.HandledSignals := by
  intro n
  rw [PsSysSetSignalBehavior_IgnoredSignals, PsSysSetSignalBehavior_HandledSignals]
  have hd := hDisjoint n
  obtain ⟨ty, op, M⟩ := Parameters
  cases ty
  case SignalMaskIgnored =>
    simp only [reduceCtorEq, if_true, if_false, IS_SIGNAL_SET_apply]
    cases op
    case SignalMaskOperationSet =>
      have hi := hIgnored rfl (Or.inl rfl) n
      simp only [reduceCtorEq, if_true, if_false, Bool.or_eq_true]
      rintro (h | h)
      · exact hd h
      · exact hi h
    case SignalMaskOperationOverwrite =>
      have hi := hIgnored rfl (Or.inr rfl) n
      simpa using hi
    all_goals
      simp only [reduceCtorEq, if_true, if_false, Bool.and_eq_true]
      first
        | exact hd
        | exact fun h => hd h.1
  case SignalMaskHandled =>
    simp only [reduceCtorEq, if_true, if_false, IS_SIGNAL_SET_apply,
      IS_SIGNAL_SET_REMOVE_SIGNALS_FROM_SET]
    cases op <;> simp only [reduceCtorEq, if_true, if_false] <;>
      cases hi : IS_SIGNAL_SET Process.IgnoredSignals n <;>
      cases hm : IS_SIGNAL_SET (BehaviorNewMask M) n <;> simp_all
  all_goals
    simp only [reduceCtorEq, if_true, if_false]
    exact hd

/-- Witness of C16 on `ExampleChildHandlerProcess`: the call adds signal 5,
which has no handler, to the ignored set. -/
theorem C16_ignored_handled_stay_disjoint_witness :
    SignalSetsDisjoint
      (PsSysSetSignalBehavior ExampleEnvironment ExampleChildHandlerProcess 0
        ⟨.SignalMaskIgnored, .SignalMaskOperationSet, SIGNAL_BIT 5⟩).2.IgnoredSignals
      (PsSysSetSignalBehavior ExampleEnvironment ExampleChildHandlerProcess 0
        ⟨.SignalMaskIgnored, .SignalMaskOperationSet, SIGNAL_BIT 5⟩).2.HandledSignals :=
  C16_ignored_handled_stay_disjoint ExampleEnvironment ExampleChildHandlerProcess 0
    ⟨.SignalMaskIgnored, .SignalMaskOperationSet, SIGNAL_BIT 5⟩
    (fun n h => by simp [ExampleChildHandlerProcess, ExampleProcess, IS_SIGNAL_SET] at h)
    (fun _ _ n h => by
      have h5 : BehaviorNewMask (SIGNAL_BIT 5) = 16 := by decide
      simp only [h5, IS_SIGNAL_SET_eq] at h
      simp only [ExampleChildHandlerProcess, IS_SIGNAL_SET_eq]
      have h16 : SIGNAL_BIT SIGNAL_CHILD_PROCESS_ACTIVITY = 32768 := by decide
      rw [h16]
      have e1 : (16 : Nat) = 2 ^ 4 := by norm_num
      have e2 : (32768 : Nat) = 2 ^ 15 := by norm_num
      rw [e1, Nat.testBit_two_pow] at h
      rw [e2, Nat.testBit_two_pow]
      simp only [Bool.and_eq_true, decide_eq_true_eq] at h
      simp only [Bool.and_eq_false_imp, decide_eq_true_eq, decide_eq_false_iff_not]
      omega)

/-- Counterexample to C16 as stated: `ExampleChildHandlerProcess` handles the
child signal and ignores nothing; after the call that sets the child signal in
the ignored set the signal is both ignored and handled. -/
theorem C16_ignored_handled_stay_disjoint_counterexample :
    SignalSetsDisjoint ExampleChildHandlerProcess.IgnoredSignals
        ExampleChildHandlerProcess.HandledSignals ∧
      ¬ SignalSetsDisjoint
        (PsSysSetSignalBehavior ExampleEnvironment ExampleChildHandlerProcess 0
          ⟨.SignalMaskIgnored, .SignalMaskOperationSet,
            SIGNAL_BIT SIGNAL_CHILD_PROCESS_ACTIVITY⟩).2.IgnoredSignals
        (PsSysSetSignalBehavior ExampleEnvironment ExampleChildHandlerProcess 0
          ⟨.SignalMaskIgnored, .SignalMaskOperationSet,
            SIGNAL_BIT SIGNAL_CHILD_PROCESS_ACTIVITY⟩).2.HandledSignals :=
  ⟨fun n h => by simp [ExampleChildHandlerProcess, ExampleProcess, IS_SIGNAL_SET] at h,
    fun h => absurd (h SIGNAL_CHILD_PROCESS_ACTIVITY (by decide)) (by decide)⟩

/-- C17: after `PsSysSetSignalBehavior` with mask type Handled and operation Set
or Overwrite, every signal of the input set other than STOP and KILL is in the
handled set and is not in the ignored set. -/
theorem C17_handled_signals_leave_ignored (Env : KERNEL_ENVIRONMENT) (Process : KPROCESS)
    (t : Nat) (Operation : SIGNAL_MASK_OPERATION) (SignalSet : SIGNAL_SET) (SignalNumber : Nat)
    (hOperation : Operation = .SignalMaskOperationSet ∨
      Operation = .SignalMaskOperationOverwrite)
    (hMember : IS_SIGNAL_SET SignalSet SignalNumber = true)
    (hStop : SignalNumber ≠ SIGNAL_STOP) (hKill : SignalNumber ≠ SIGNAL_KILL) :
    IS_SIGNAL_SET (PsSysSetSignalBehavior Env Process t
          ⟨.SignalMaskHandled, Operation, SignalSet⟩).2.HandledSignals SignalNumber = true ∧
      IS_SIGNAL_SET (PsSysSetSignalBehavior Env Process t
          ⟨.SignalMaskHandled, Operation, SignalSet⟩).2.IgnoredSignals SignalNumber = false := by
  have hNew : IS_SIGNAL_SET (BehaviorNewMask SignalSet) SignalNumber = true := by
    unfold BehaviorNewMask
    rw [IS_SIGNAL_SET_REMOVE_SIGNAL, IS_SIGNAL_SET_REMOVE_SIGNAL, hMember]
    have h1 : ¬ (SIGNAL_STOP - 1 = SignalNumber - 1) := by
      unfold SIGNAL_STOP at hStop ⊢
      omega
    have h2 : ¬ (SIGNAL_KILL - 1 = SignalNumber - 1) := by
      unfold SIGNAL_KILL at hKill ⊢
      omega
    simp [h1, h2]
  rw [PsSysSetSignalBehavior_IgnoredSignals, PsSysSetSignalBehavior_HandledSignals]
  simp only [reduceCtorEq, if_true, if_false, IS_SIGNAL_SET_apply,
    IS_SIGNAL_SET_REMOVE_SIGNALS_FROM_SET, hNew]
  rcases hOperation with h | h <;> subst h <;> simp

/-- Witness of C17 on `ExampleProcess`: signal 5 is given a handler. -/
theorem C17_handled_signals_leave_ignored_witness :
    IS_SIGNAL_SET
        (PsSysSetSignalBehavior ExampleEnvironment ExampleProcess 0
          ⟨.SignalMaskHandled, .SignalMaskOperationSet, SIGNAL_BIT 5⟩).2.HandledSignals 5 = true ∧
      IS_SIGNAL_SET
        (PsSysSetSignalBehavior ExampleEnvironment ExampleProcess 0
          ⟨.SignalMaskHandled, .SignalMaskOperationSet, SIGNAL_BIT 5⟩).2.IgnoredSignals 5 = false :=
  C17_handled_signals_leave_ignored ExampleEnvironment ExampleProcess 0 .SignalMaskOperationSet
    (SIGNAL_BIT 5) 5 (Or.inl rfl) (by decide) (by decide) (by decide)

/-! ## Set behavior: reading the pending signals -/

theorem PendingFold_mem (t : Nat) (n : Nat) (hn : 0 < n) :
    ∀ (L : List SIGNAL_QUEUE_ENTRY) (acc : SIGNAL_SET),
      (∀ e ∈ L, 0 < e.Parameters.SignalNumber ∧ e.Parameters.SignalNumber < SIGNAL_COUNT) →
      (IS_SIGNAL_SET
          (L.foldl
            (fun SignalSet SignalQueueEntry =>
              if SignalQueueEntry.DestinationThread == none ||
                  SignalQueueEntry.DestinationThread == some t then
                ADD_SIGNAL SignalSet SignalQueueEntry.Parameters.SignalNumber
              else SignalSet) acc) n = true ↔
        IS_SIGNAL_SET acc n = true ∨
          ∃ e ∈ L, (e.DestinationThread = none ∨ e.DestinationThread = some t) ∧
            e.Parameters.SignalNumber = n) := by
  intro L
  induction L with
  | nil => intro acc _; simp
  | cons x L ih =>
    intro acc hL
    have hx := hL x (List.mem_cons_self _ _)
    rw [List.foldl_cons, ih _ (fun e he => hL e (List.mem_cons_of_mem _ he))]
    by_cases hc : x.DestinationThread = none ∨ x.DestinationThread = some t
    · have hc2 : (x.DestinationThread == none || x.DestinationThread == some t) = true := by
        simpa using hc
      rw [if_pos hc2, IS_SIGNAL_SET_ADD_SIGNAL]
      have hlt : x.Parameters.SignalNumber - 1 < 64 := by
        have := hx.2
        unfold SIGNAL_COUNT at this
        omega
      constructor
      · rintro (h | ⟨e, he, h1, h2⟩)
        · simp only [Bool.or_eq_true, Bool.and_eq_true, decide_eq_true_eq] at h
          rcases h with h | ⟨_, h⟩
          · exact Or.inl h
          · exact Or.inr ⟨x, List.mem_cons_self _ _, hc, by omega⟩
        · exact Or.inr ⟨e, List.mem_cons_of_mem _ he, h1, h2⟩
      · rintro (h | ⟨e, he, h1, h2⟩)
        · left
          simp [h]
        · rcases List.mem_cons.mp he with rfl | he
          · left
            have : n - 1 < 64 := by omega
            simp [this, h2]
          · exact Or.inr ⟨e, he, h1, h2⟩
    · have hc2 : ¬ ((x.DestinationThread == none || x.DestinationThread == some t) = true) := by
        simpa using hc
      rw [if_neg hc2]
      constructor
      · rintro (h | ⟨e, he, h1, h2⟩)
        · exact Or.inl h
        · exact Or.inr ⟨e, List.mem_cons_of_mem _ he, h1, h2⟩
      · rintro (h | ⟨e, he, h1, h2⟩)
        · exact Or.inl h
        · rcases List.mem_cons.mp he with rfl | he
          · exact absurd h1 hc
          · exact Or.inr ⟨e, he, h1, h2⟩

/-- C19: `PsSysSetSignalBehavior` with mask type Pending, for any operation and
input set, leaves the state of the process and of its threads as it is, and the
set it returns holds a signal exactly when the signal is pending for the
calling thread, pending for the process, or is the signal of an entry on the
blocked-deferred list whose destination thread is null or the calling thread.
The entries on the list carry valid signal numbers. -/
theorem C19_pending_mask_is_read_only (Env : KERNEL_ENVIRONMENT) (Process : KPROCESS)
    (t : Nat) (Operation : SIGNAL_MASK_OPERATION) (SignalSet : SIGNAL_SET)
    (hEntries : ∀ e ∈ Process.BlockedSignalListHead,
      0 < e.Parameters.SignalNumber ∧ e.Parameters.SignalNumber < SIGNAL_COUNT) :
    (PsSysSetSignalBehavior Env Process t ⟨.SignalMaskPending, Operation, SignalSet⟩).2 = Process ∧
      ∀ SignalNumber, 0 < SignalNumber →
        (IS_SIGNAL_SET (PsSysSetSignalBehavior Env Process t ⟨.SignalMaskPending, Operation, SignalSet⟩).1.SignalSet SignalNumber = true ↔
          IS_SIGNAL_SET (Process.Thread t).PendingSignals SignalNumber = true ∨
            IS_SIGNAL_SET Process.PendingSignals SignalNumber = true ∨
            ∃ e ∈ Process.BlockedSignalListHead,
              (e.DestinationThread = none ∨ e.DestinationThread = some t) ∧
                e.Parameters.SignalNumber = SignalNumber) := by
  refine ⟨rfl, fun n hn => ?_⟩
  simp only [PsSysSetSignalBehavior]
  rw [PendingFold_mem t n hn _ _ hEntries, IS_SIGNAL_SET_OR_SIGNAL_SETS, Bool.or_eq_true,
    or_assoc]

/-- Witness of C19 on `ExampleDeferredProcess`: signal 40 has an entry for the
whole process on the blocked-deferred list and is reported to thread 0. -/
theorem C19_pending_mask_is_read_only_witness :
    IS_SIGNAL_SET
      (PsSysSetSignalBehavior ExampleEnvironment ExampleDeferredProcess 0
        ⟨.SignalMaskPending, .SignalMaskOperationOverwrite, 0⟩).1.SignalSet 40 = true :=
  ((C19_pending_mask_is_read_only ExampleEnvironment ExampleDeferredProcess 0
    .SignalMaskOperationOverwrite 0 (by decide)).2 40 (by decide)).mpr
    (Or.inr (Or.inr ⟨ExampleEntry, by decide, Or.inl rfl, rfl⟩))

/-! ## Set behavior: two overwrites in a row -/

theorem SetThread_SetThread (P : KPROCESS) (t : Nat) (a b : KTHREAD) :
    (P.SetThread t a).SetThread t b = P.SetThread t b := by
  simp [KPROCESS.SetThread, List.set_set]

theorem PspRequeueBlockedSignals_empty (Env : KERNEL_ENVIRONMENT) (P : KPROCESS) (t : Nat)
    (h : P.BlockedSignalListHead = []) :
    PspRequeueBlockedSignals Env P t =
      P.SetThread t { P.Thread t with SignalPending := Env.ThreadSignalPendingStateUnknown } := by
  have hl : PspRequeueBlockedList Env P = P := by
    unfold PspRequeueBlockedList
    simp [h]
  unfold PspRequeueBlockedSignals
  rw [hl]

theorem SetBehaviorOverwrite_blocked (Env : KERNEL_ENVIRONMENT) (P : KPROCESS) (t : Nat)
    (M : SIGNAL_SET) (hThread : t < P.ThreadListHead.length)
    (hList : P.BlockedSignalListHead = []) :
    SetBehaviorOverwrite Env P t .SignalMaskBlocked M =
      P.SetThread t
        { P.Thread t with
          BlockedSignals := REMOVE_SIGNAL (BehaviorNewMask M) SIGNAL_CONTINUE
          SignalPending := Env.ThreadSignalPendingStateUnknown } := by
  simp only [SetBehaviorOverwrite, PsSysSetSignalBehavior, BehaviorNewMask,
    ApplySignalMaskOperation, bne_iff_ne, ne_eq, reduceCtorEq, not_false_eq_true, if_true]
  rw [PspRequeueBlockedSignals_empty _ _ _ (by simpa using hList),
    Thread_SetThread_same _ _ _ hThread, SetThread_SetThread]

theorem SetBehaviorOverwrite_ignored (Env : KERNEL_ENVIRONMENT) (P : KPROCESS) (t : Nat)
    (M : SIGNAL_SET) (hList : P.BlockedSignalListHead = []) :
    SetBehaviorOverwrite Env P t .SignalMaskIgnored M =
      ({ P with IgnoredSignals := BehaviorNewMask M } : KPROCESS).SetThread t
        { P.Thread t with SignalPending := Env.ThreadSignalPendingStateUnknown } := by
  simp only [SetBehaviorOverwrite, PsSysSetSignalBehavior, BehaviorNewMask,
    ApplySignalMaskOperation, bne_iff_ne, ne_eq, reduceCtorEq, not_false_eq_true, if_true]
  exact PspRequeueBlockedSignals_empty Env _ t hList

theorem SetBehaviorOverwrite_handled (Env : KERNEL_ENVIRONMENT) (P : KPROCESS) (t : Nat)
    (M : SIGNAL_SET) (hList : P.BlockedSignalListHead = []) :
    SetBehaviorOverwrite Env P t .SignalMaskHandled M =
      ({ P with
        IgnoredSignals := REMOVE_SIGNALS_FROM_SET P.IgnoredSignals (BehaviorNewMask M)
        HandledSignals := BehaviorNewMask M } : KPROCESS).SetThread t
        { P.Thread t with SignalPending := Env.ThreadSignalPendingStateUnknown } := by
  simp only [SetBehaviorOverwrite, PsSysSetSignalBehavior, BehaviorNewMask,
    ApplySignalMaskOperation, bne_iff_ne, ne_eq, reduceCtorEq, not_false_eq_true, if_true]
  exact PspRequeueBlockedSignals_empty Env _ t hList

/-- C18, as amended: with an empty blocked-deferred list, so that the requeue
of each call has nothing to move, the state after `PsSysSetSignalBehavior`
(overwrite, M) followed by (overwrite, M2) equals the state after the single
call (overwrite, M2) for the mask types blocked and ignored; for the mask type
handled the two states are equal except that the ignored set has also lost the
signals of M (STOP and KILL apart). -/
theorem C18_overwrite_twice (Env : KERNEL_ENVIRONMENT) (Process : KPROCESS) (t : Nat)
    (SignalSet1 SignalSet2 : SIGNAL_SET)
    (hThread : t < Process.ThreadListHead.length)
    (hList : Process.BlockedSignalListHead = []) :
    SetBehaviorOverwriteTwice Env Process t .SignalMaskBlocked SignalSet1 SignalSet2 =
        SetBehaviorOverwrite Env Process t .SignalMaskBlocked SignalSet2 ∧
      SetBehaviorOverwriteTwice Env Process t .SignalMaskIgnored SignalSet1 SignalSet2 =
        SetBehaviorOverwrite Env Process t .SignalMaskIgnored SignalSet2 ∧
      SetBehaviorOverwriteTwice Env Process t .SignalMaskHandled SignalSet1 SignalSet2 =
        { SetBehaviorOverwrite Env Process t .SignalMaskHandled SignalSet2 with
          IgnoredSignals :=
            REMOVE_SIGNALS_FROM_SET
              (SetBehaviorOverwrite Env Process t .SignalMaskHandled SignalSet2).IgnoredSignals
              (BehaviorNewMask SignalSet1) } := by
  unfold SetBehaviorOverwriteTwice
  refine ⟨?_, ?_, ?_⟩
  · rw [SetBehaviorOverwrite_blocked Env Process t SignalSet1 hThread hList,
      SetBehaviorOverwrite_blocked Env _ t SignalSet2 (by simpa using hThread)
        (by simpa using hList),
      SetBehaviorOverwrite_blocked Env Process t SignalSet2 hThread hList,
      Thread_SetThread_same _ _ _ hThread, SetThread_SetThread]
  · rw [SetBehaviorOverwrite_ignored Env Process t SignalSet1 hList,
      SetBehaviorOverwrite_ignored Env _ t SignalSet2 (by simpa using hList),
      SetBehaviorOverwrite_ignored Env Process t SignalSet2 hList]
    simp [KPROCESS.SetThread, KPROCESS.Thread, hThread]
  · rw [SetBehaviorOverwrite_handled Env Process t SignalSet1 hList,
      SetBehaviorOverwrite_handled Env _ t SignalSet2 (by simpa using hList),
      SetBehaviorOverwrite_handled Env Process t SignalSet2 hList]
    simp only [KPROCESS.SetThread, KPROCESS.Thread, REMOVE_SIGNALS_FROM_SET, List.set_set,
      KPROCESS.mk.injEq, true_and, and_true]
    refine ⟨?_, ?_⟩
    · rw [Nat.land_assoc, Nat.land_assoc,
        Nat.land_comm (SIGNAL_SET_NOT (BehaviorNewMask SignalSet1))]
    · simp [hThread]

/-- Witness of C18 on `ExampleProcess`, whose blocked-deferred list is empty:
blocking signal 5 and then signal 7 gives the state of blocking signal 7. -/
theorem C18_overwrite_twice_witness :
    SetBehaviorOverwriteTwice ExampleEnvironment ExampleProcess 0 .SignalMaskBlocked
        (SIGNAL_BIT 5) (SIGNAL_BIT 7) =
      SetBehaviorOverwrite ExampleEnvironment ExampleProcess 0 .SignalMaskBlocked
        (SIGNAL_BIT 7) :=
  (C18_overwrite_twice ExampleEnvironment ExampleProcess 0 (SIGNAL_BIT 5) (SIGNAL_BIT 7)
    (by decide) rfl).1

/-- Counterexample to C18 as stated. Mask type handled: `ExampleIgnoringProcess`
ignores signal 5; overwriting the handled set with signal 5 and then with the
empty set leaves nothing ignored, while the single overwrite with the empty set
leaves signal 5 ignored. Mask type blocked: `ExampleBlockedEntryProcess` has an
entry of the blocked signal 40 on the blocked-deferred list; overwriting the
blocked set with the empty set and then with signal 40 leaves the entry on the
queue of the thread, while the single overwrite with signal 40 leaves it on the
blocked-deferred list. -/
theorem C18_overwrite_twice_counterexample :
    (SetBehaviorOverwriteTwice ExampleEnvironment ExampleIgnoringProcess 0 .SignalMaskHandled
          (SIGNAL_BIT 5) 0).IgnoredSignals ≠
        (SetBehaviorOverwrite ExampleEnvironment ExampleIgnoringProcess 0 .SignalMaskHandled
          0).IgnoredSignals ∧
      ((SetBehaviorOverwriteTwice ExampleEnvironment ExampleBlockedEntryProcess 0
          .SignalMaskBlocked 0 (SIGNAL_BIT 40)).Thread 0).SignalListHead ≠
        ((SetBehaviorOverwrite ExampleEnvironment ExampleBlockedEntryProcess 0
          .SignalMaskBlocked (SIGNAL_BIT 40)).Thread 0).SignalListHead ∧
      (SetBehaviorOverwriteTwice ExampleEnvironment ExampleBlockedEntryProcess 0
          .SignalMaskBlocked 0 (SIGNAL_BIT 40)).BlockedSignalListHead ≠
        (SetBehaviorOverwrite ExampleEnvironment ExampleBlockedEntryProcess 0
          .SignalMaskBlocked (SIGNAL_BIT 40)).BlockedSignalListHead := by
  decide

/-! ## Cancellation of a queued signal -/

theorem Linked_iff (P : KPROCESS) (a : Nat) :
    P.Linked a ↔ ∃ e ∈ P.LinkedEntries, e.Address = a := by
  unfold KPROCESS.Linked KPROCESS.LinkedEntries
  constructor
  · rintro ⟨e, he, h⟩
    refine ⟨e, ?_, he⟩
    simp only [List.mem_append, List.mem_flatMap]
    rcases h with h | h | h
    · exact Or.inl (Or.inl h)
    · exact Or.inl (Or.inr h)
    · exact Or.inr h
  · rintro ⟨e, h, he⟩
    refine ⟨e, he, ?_⟩
    simp only [List.mem_append, List.mem_flatMap] at h
    rcases h with (h | h) | h
    · exact Or.inl h
    · exact Or.inr (Or.inl h)
    · exact Or.inr (Or.inr h)

theorem EntryAt_isSome (P : KPROCESS) (a : Nat) : (P.EntryAt a).isSome = true ↔ P.Linked a := by
  rw [Linked_iff]
  unfold KPROCESS.EntryAt
  rw [List.find?_isSome]
  simp

theorem Linked_Unlink (P : KPROCESS) (a : Nat) : ¬ (P.Unlink a).Linked a := by
  rintro ⟨e, he, h⟩
  simp only [KPROCESS.Unlink, List.mem_filter, List.mem_map] at h
  rcases h with h | h | ⟨T, ⟨T0, _, rfl⟩, h⟩
  · simp [he] at h
  · simp [he] at h
  · simp only [List.mem_filter] at h
    simp [he] at h

theorem Unlink_Thread (P : KPROCESS) (a u : Nat) :
    ((P.Unlink a).Thread u).SignalListHead =
      (P.Thread u).SignalListHead.filter (fun e => e.Address != a) := by
  simp only [KPROCESS.Thread, KPROCESS.Unlink, List.getD_eq_getElem?_getD, List.getElem?_map]
  cases P.ThreadListHead[u]? <;> simp [KTHREAD.Zero]

theorem Linked_Complete (P : KPROCESS) (e : SIGNAL_QUEUE_ENTRY) (a : Nat) :
    (P.Complete e).Linked a ↔ P.Linked a := by
  unfold KPROCESS.Linked
  simp

/-- C20: `PspCancelQueuedSignal` returns `STATUS_SUCCESS` exactly when the entry
is linked on a list of the process at the call. On success the entry is taken
off its list and is linked nowhere afterwards, every other entry stays where it
is, and the entry is handed to its completion routine once. Otherwise the
routine returns `STATUS_TOO_LATE` and the state is unchanged. A second
cancellation of the same entry right after the first returns
`STATUS_TOO_LATE`. -/
theorem C20_cancel_queued_signal (Process : KPROCESS) (SignalQueueEntry : Nat) :
    ((PspCancelQueuedSignal Process SignalQueueEntry).1 = .STATUS_SUCCESS ↔ Process.Linked SignalQueueEntry) ∧
      (∀ SignalEntry, Process.EntryAt SignalQueueEntry = some SignalEntry →
        (PspCancelQueuedSignal Process SignalQueueEntry).1 = .STATUS_SUCCESS ∧
          ¬ (PspCancelQueuedSignal Process SignalQueueEntry).2.Linked SignalQueueEntry ∧
          (PspCancelQueuedSignal Process SignalQueueEntry).2.SignalListHead =
            Process.SignalListHead.filter (fun e => e.Address != SignalQueueEntry) ∧
          (PspCancelQueuedSignal Process SignalQueueEntry).2.BlockedSignalListHead =
            Process.BlockedSignalListHead.filter (fun e => e.Address != SignalQueueEntry) ∧
          (∀ u, ((PspCancelQueuedSignal Process SignalQueueEntry).2.Thread u).SignalListHead =
            (Process.Thread u).SignalListHead.filter (fun e => e.Address != SignalQueueEntry)) ∧
          (PspCancelQueuedSignal Process SignalQueueEntry).2.CompletedSignals =
            Process.CompletedSignals ++
              (if SignalEntry.CompletionRoutine then [SignalEntry] else [])) ∧
      (¬ Process.Linked SignalQueueEntry →
        (PspCancelQueuedSignal Process SignalQueueEntry).1 = .STATUS_TOO_LATE ∧ (PspCancelQueuedSignal Process SignalQueueEntry).2 = Process) ∧
      (PspCancelQueuedSignal (PspCancelQueuedSignal Process SignalQueueEntry).2 SignalQueueEntry).1 = .STATUS_TOO_LATE := by
  have hnone : ∀ (P : KPROCESS), ¬ P.Linked SignalQueueEntry →
      PspCancelQueuedSignal P SignalQueueEntry = (.STATUS_TOO_LATE, P) := by
    intro P hP
    have h : P.EntryAt SignalQueueEntry = none := by
      cases hE : P.EntryAt SignalQueueEntry with
      | none => rfl
      | some e => exact absurd ((EntryAt_isSome P _).mp (by simp [hE])) hP
    simp [PspCancelQueuedSignal, h]
  have hsome : ∀ e, Process.EntryAt SignalQueueEntry = some e →
      PspCancelQueuedSignal Process SignalQueueEntry =
        (.STATUS_SUCCESS, (Process.Unlink SignalQueueEntry).Complete e) := by
    intro e he
    simp [PspCancelQueuedSignal, he]
  have hafter : ¬ (PspCancelQueuedSignal Process SignalQueueEntry).2.Linked SignalQueueEntry := by
    cases hE : Process.EntryAt SignalQueueEntry with
    | none =>
      have hP : ¬ Process.Linked SignalQueueEntry := fun h => by
        have := (EntryAt_isSome Process _).mpr h
        simp [hE] at this
      rw [hnone Process hP]
      exact hP
    | some e =>
      rw [hsome e hE, Linked_Complete]
      exact Linked_Unlink _ _
  refine ⟨?_, ?_, ?_, ?_⟩
  · cases hE : Process.EntryAt SignalQueueEntry with
    | none =>
      have hP : ¬ Process.Linked SignalQueueEntry := fun h => by
        have := (EntryAt_isSome Process _).mpr h
        simp [hE] at this
      rw [hnone Process hP]
      simp [hP]
    | some e =>
      rw [hsome e hE]
      simp only [true_iff]
      exact (EntryAt_isSome Process _).mp (by simp [hE])
  · intro e hE
    have hQ := hsome e hE
    refine ⟨by rw [hQ], hafter, by rw [hQ]; simp [KPROCESS.Unlink],
      by rw [hQ]; simp [KPROCESS.Unlink], fun u => ?_, by rw [hQ, Complete_eq]; rfl⟩
    rw [hQ, Complete_Thread, Unlink_Thread]
  · intro hP
    rw [hnone Process hP]
    exact ⟨rfl, rfl⟩
  · rw [hnone _ hafter]

/-- Witness of C20 on `ExampleDeferredProcess`: the entry at address 1 is on
the blocked-deferred list and its cancellation succeeds. -/
theorem C20_cancel_queued_signal_witness :
    (PspCancelQueuedSignal ExampleDeferredProcess 1).1 = .STATUS_SUCCESS :=
  ((C20_cancel_queued_signal ExampleDeferredProcess 1).2.1 ExampleEntry (by decide)).1

/-! ## Permission to send a signal -/

/-- C12: `PspCheckSendSignalPermission` returns `STATUS_SUCCESS` exactly when the
identity of the recipient can be read and the effective or real user id of the
sender equals the real or saved user id of the recipient, or the signal is
CONTINUE and both are in the same session, or the sender holds the kill
permission. In particular a sender with real user id 1000 may send to a
recipient with real 2000, effective 2000 and saved 1000. -/
theorem C12_send_signal_permission (System : KSYSTEM) (Process : Nat) (Signal : Nat) :
    (PspCheckSendSignalPermission System Process Signal = .STATUS_SUCCESS ↔
      KSUCCESS (System.Process Process).IdentityStatus = true ∧
        (System.CurrentIdentity.EffectiveUserId = (System.Process Process).Identity.RealUserId ∨
          System.CurrentIdentity.RealUserId = (System.Process Process).Identity.RealUserId ∨
          System.CurrentIdentity.EffectiveUserId =
            (System.Process Process).Identity.SavedUserId ∨
          System.CurrentIdentity.RealUserId = (System.Process Process).Identity.SavedUserId ∨
          (Signal = SIGNAL_CONTINUE ∧
            (System.Process System.CurrentProcess).Identifiers.SessionId =
              (System.Process Process).Identifiers.SessionId) ∨
          System.KillPermission = .STATUS_SUCCESS)) ∧
      (KSUCCESS (System.Process Process).IdentityStatus = true →
        System.CurrentIdentity.RealUserId = 1000 →
        (System.Process Process).Identity = ⟨2000, 2000, 1000⟩ →
        PspCheckSendSignalPermission System Process Signal = .STATUS_SUCCESS) := by
  constructor
  · unfold PspCheckSendSignalPermission
    cases hs : KSUCCESS (System.Process Process).IdentityStatus
    · simp only [Bool.not_false, if_true, Bool.false_eq_true, false_and, iff_false]
      intro h
      rw [h] at hs
      exact absurd hs (by decide)
    · simp only [Bool.not_true, Bool.false_eq_true, if_false, true_and, Bool.or_eq_true,
        beq_iff_eq, Bool.and_eq_true]
      split_ifs with h1 h2
      · simp only [true_iff]
        rcases h1 with ((h | h) | h) | h
        · exact Or.inl h
        · exact Or.inr (Or.inl h)
        · exact Or.inr (Or.inr (Or.inl h))
        · exact Or.inr (Or.inr (Or.inr (Or.inl h)))
      · simp only [true_iff]
        exact Or.inr (Or.inr (Or.inr (Or.inr (Or.inl h2))))
      · constructor
        · intro h
          exact Or.inr (Or.inr (Or.inr (Or.inr (Or.inr h))))
        · rintro (h | h | h | h | h | h)
          · exact absurd (Or.inl (Or.inl (Or.inl h))) h1
          · exact absurd (Or.inl (Or.inl (Or.inr h))) h1
          · exact absurd (Or.inl (Or.inr h)) h1
          · exact absurd (Or.inr h) h1
          · exact absurd h h2
          · exact h
  · intro hs hr hi
    unfold PspCheckSendSignalPermission
    simp [hs, hr, hi]

/-! ## Send: the targets that name more than one process -/

/-- C13: the code at an input where the claim fails. The current process sends
signal 0 to all processes of `ExampleSystem`. The target process is one the
sender may signal; its thread blocks nothing and has no signal pending. The
call returns `STATUS_SUCCESS`, and afterwards that thread has the pending state
`ThreadSignalPending` and was woken: `PspSendSignalIterator` passes the signal
number to `PsSignalProcess` without the test for 0 that `PspSignalProcess` and
the thread case make. The same happens for a send to the process group of the
sender. -/
theorem C13_signal_zero_reaches_iterated_targets :
    (PsSysSendSignal ExampleEnvironment ExampleSystem
        ⟨.SignalTargetAllProcesses, 0, 0, 0, 0, .STATUS_SUCCESS⟩).1.Status = .STATUS_SUCCESS ∧
      ((ExampleSystem.Process 2).Process.Thread 0).SignalPending = .ThreadNoSignalPending ∧
      (((PsSysSendSignal ExampleEnvironment ExampleSystem
        ⟨.SignalTargetAllProcesses, 0, 0, 0, 0, .STATUS_SUCCESS⟩).2.Process 2).Process.Thread
          0).SignalPending = .ThreadSignalPending ∧
      (((PsSysSendSignal ExampleEnvironment ExampleSystem
        ⟨.SignalTargetAllProcesses, 0, 0, 0, 0, .STATUS_SUCCESS⟩).2.Process 2).Process.Thread
          0).WakeCalls = [false] ∧
      (((PsSysSendSignal ExampleEnvironment ExampleSystem
        ⟨.SignalTargetCurrentProcessGroup, 0, 0, 0, 0, .STATUS_SUCCESS⟩).2.Process
          2).Process.Thread 0).SignalPending = .ThreadSignalPending := by
  decide

/-- C15: the code at an input where the claim fails. The current process sends
the queued signal 40 to the process group 3 of `ExampleSystem`. The call returns
`STATUS_SUCCESS`; the target process of the group has signal 40 in its pending
set afterwards, no entry on its queue, and no entry was allocated:
`PsSysSendSignal` leaves `Iterator.QueueEntry` null, so that
`PspSendSignalIterator` sends the bare number, where `PspSignalProcess` and the
thread case build a queue entry. -/
theorem C15_queued_signal_to_group_sets_pending_bit :
    (PsSysSendSignal ExampleEnvironment ExampleSystem
        ⟨.SignalTargetProcessGroup, 3, 40, 0, 5, .STATUS_SUCCESS⟩).1.Status = .STATUS_SUCCESS ∧
      IS_SIGNAL_SET (ExampleSystem.Process 2).Process.PendingSignals 40 = false ∧
      IS_SIGNAL_SET
        ((PsSysSendSignal ExampleEnvironment ExampleSystem
          ⟨.SignalTargetProcessGroup, 3, 40, 0, 5, .STATUS_SUCCESS⟩).2.Process
            2).Process.PendingSignals 40 = true ∧
      ((PsSysSendSignal ExampleEnvironment ExampleSystem
        ⟨.SignalTargetProcessGroup, 3, 40, 0, 5, .STATUS_SUCCESS⟩).2.Process
          2).Process.SignalListHead = [] ∧
      (PsSysSendSignal ExampleEnvironment ExampleSystem
        ⟨.SignalTargetProcessGroup, 3, 40, 0, 5, .STATUS_SUCCESS⟩).2.FreePool =
        ExampleSystem.FreePool ∧
      ((PsSysSendSignal ExampleEnvironment ExampleSystem
        ⟨.SignalTargetProcess, 8, 40, 0, 5, .STATUS_SUCCESS⟩).2.Process
          2).Process.SignalListHead =
        [NewSignalQueueEntry 100 40 0 7 0 5] := by
  decide

/-! ## Send: the iterator over a sequence of processes -/

theorem SetProcess_Process (S : KSYSTEM) (p q : Nat) (V : KPROCESS) :
    (S.SetProcess p V).Process q =
      if p = q ∧ p < S.Processes.length then { S.Process p with Process := V }
      else S.Process q := by
  simp only [KSYSTEM.SetProcess, KSYSTEM.Process, List.getD_eq_getElem?_getD, List.getElem?_set]
  by_cases h : p = q
  · subst h
    by_cases hl : p < S.Processes.length
    · simp [hl]
    · have hl2 : S.Processes.length ≤ p := by omega
      simp [hl, List.getElem?_eq_none hl2]
  · simp [h]

theorem PspCheckSendSignalPermission_congr (S1 S2 : KSYSTEM)
    (h1 : S2.CurrentIdentity = S1.CurrentIdentity) (h2 : S2.KillPermission = S1.KillPermission)
    (h3 : S2.CurrentProcess = S1.CurrentProcess)
    (h4 : ∀ q, (S2.Process q).IdentityStatus = (S1.Process q).IdentityStatus ∧
      (S2.Process q).Identity = (S1.Process q).Identity ∧
      (S2.Process q).Identifiers = (S1.Process q).Identifiers) (p n : Nat) :
    PspCheckSendSignalPermission S2 p n = PspCheckSendSignalPermission S1 p n := by
  unfold PspCheckSendSignalPermission
  rw [h1, h2, h3, (h4 p).1, (h4 p).2.1, (h4 p).2.2, (h4 S1.CurrentProcess).2.2]

theorem SamePermissions_refl (S : KSYSTEM) : SamePermissions S S :=
  ⟨rfl, fun _ _ => rfl⟩

theorem SamePermissions_trans (S1 S2 S3 : KSYSTEM) (h12 : SamePermissions S1 S2)
    (h23 : SamePermissions S2 S3) : SamePermissions S1 S3 :=
  ⟨h23.1.trans h12.1, fun p n => (h23.2 p n).trans (h12.2 p n)⟩

theorem SetProcess_identity (S : KSYSTEM) (p q : Nat) (V : KPROCESS) :
    ((S.SetProcess p V).Process q).IdentityStatus = (S.Process q).IdentityStatus ∧
      ((S.SetProcess p V).Process q).Identity = (S.Process q).Identity ∧
      ((S.SetProcess p V).Process q).Identifiers = (S.Process q).Identifiers := by
  rw [SetProcess_Process]
  split
  · rename_i hc
    rw [← hc.1]
    exact ⟨rfl, rfl, rfl⟩
  · exact ⟨rfl, rfl, rfl⟩

theorem SamePermissions_Send (Env : KERNEL_ENVIRONMENT) (S : KSYSTEM)
    (It : SEND_SIGNAL_ITERATOR_CONTEXT) (p : Nat) :
    SamePermissions S (PspSendSignalIteratorSend Env S It p) := by
  refine ⟨rfl, PspCheckSendSignalPermission_congr _ _ rfl rfl rfl ?_⟩
  intro q
  exact SetProcess_identity _ p q _

theorem SendEligible_congr (S0 S : KSYSTEM) (It : SEND_SIGNAL_ITERATOR_CONTEXT)
    (h : SamePermissions S0 S) (p : Nat) :
    SendEligible S It p = SendEligible S0 It p ∧ SendRefused S It p = SendRefused S0 It p := by
  unfold SendEligible SendRefused SendExamined
  rw [h.1, h.2]
  exact ⟨rfl, rfl⟩

theorem SendEligible_cases (S : KSYSTEM) (It : SEND_SIGNAL_ITERATOR_CONTEXT) (p : Nat) :
    (SendExamined S It p = false ∧ SendRefused S It p = false ∧ SendEligible S It p = false) ∨
      (SendExamined S It p = true ∧ SendRefused S It p = true ∧ SendEligible S It p = false) ∨
      (SendExamined S It p = true ∧ SendRefused S It p = false ∧ SendEligible S It p = true) := by
  unfold SendRefused SendEligible
  cases SendExamined S It p <;> cases It.CheckPermissions <;>
    cases KSUCCESS (PspCheckSendSignalPermission S p It.Signal) <;> simp

theorem PspSendSignalIterator_skip (Env : KERNEL_ENVIRONMENT) (S : KSYSTEM)
    (It : SEND_SIGNAL_ITERATOR_CONTEXT) (p : Nat) (h : SendExamined S It p = false) :
    PspSendSignalIterator Env S It p = (S, It) := by
  unfold SendExamined at h
  unfold PspSendSignalIterator
  have h2 : (some p == It.SkipProcess || p == S.KernelProcess) = true := by
    cases hb : (some p == It.SkipProcess || p == S.KernelProcess)
    · rw [hb] at h
      exact absurd h (by decide)
    · rfl
  rw [if_pos h2]

theorem PspSendSignalIterator_refused (Env : KERNEL_ENVIRONMENT) (S : KSYSTEM)
    (It : SEND_SIGNAL_ITERATOR_CONTEXT) (p : Nat) (h : SendRefused S It p = true) :
    PspSendSignalIterator Env S It p =
      (S, { It with Status := PspCheckSendSignalPermission S p It.Signal }) := by
  unfold SendRefused SendExamined at h
  simp only [Bool.and_eq_true, Bool.not_eq_true'] at h
  unfold PspSendSignalIterator
  rw [if_neg (by rw [h.1.1]; decide), if_pos (by simp [h.1.2, h.2])]

theorem PspSendSignalIterator_eligible (Env : KERNEL_ENVIRONMENT) (S : KSYSTEM)
    (It : SEND_SIGNAL_ITERATOR_CONTEXT) (p : Nat) (h : SendEligible S It p = true) :
    PspSendSignalIterator Env S It p =
      (PspSendSignalIteratorSend Env S It p,
        { It with
          Status :=
            if It.QueueEntry.isSome && S.FreePool.isEmpty then .STATUS_INSUFFICIENT_RESOURCES
            else It.Status
          SentSignals := ULONG (It.SentSignals + 1) }) := by
  unfold SendEligible SendExamined at h
  simp only [Bool.and_eq_true, Bool.not_eq_true', Bool.or_eq_true] at h
  unfold PspSendSignalIterator
  rw [if_neg (by rw [h.1]; decide), if_neg]
  rcases h.2 with h2 | h2
  · simp [h2]
  · simp [h2]

theorem LastRefusalStatus_refused (S : KSYSTEM) (It : SEND_SIGNAL_ITERATOR_CONTEXT) (p : Nat)
    (rest : List Nat) (st : KSTATUS) (h : SendRefused S It p = true) :
    LastRefusalStatus S It (p :: rest) st =
      LastRefusalStatus S It rest (PspCheckSendSignalPermission S p It.Signal) := by
  unfold LastRefusalStatus
  rw [List.filter_cons, if_pos h, List.getLast?_cons]
  cases (List.filter (SendRefused S It) rest).getLast? <;> rfl

theorem LastRefusalStatus_other (S : KSYSTEM) (It : SEND_SIGNAL_ITERATOR_CONTEXT) (p : Nat)
    (rest : List Nat) (st : KSTATUS) (h : SendRefused S It p = false) :
    LastRefusalStatus S It (p :: rest) st = LastRefusalStatus S It rest st := by
  unfold LastRefusalStatus
  rw [List.filter_cons, if_neg (by rw [h]; decide)]

theorem PspSendSignalIterate_eq (Env : KERNEL_ENVIRONMENT) (S0 : KSYSTEM)
    (It : SEND_SIGNAL_ITERATOR_CONTEXT) :
    ∀ (Sequence : List Nat) (S : KSYSTEM) (st : KSTATUS) (cnt : Nat),
      SamePermissions S0 S → cnt + Sequence.length < 2 ^ 32 →
      (It.QueueEntry.isSome = true → Sequence.length ≤ S.FreePool.length) →
      PspSendSignalIterate Env Sequence S { It with Status := st, SentSignals := cnt } =
        (SendToEach Env It (Sequence.filter (SendEligible S0 It)) S,
          { It with
            Status := LastRefusalStatus S0 It Sequence st
            SentSignals := cnt + (Sequence.filter (SendEligible S0 It)).length }) := by
  intro Sequence
  induction Sequence with
  | nil =>
    intro S st cnt _ _ _
    rfl
  | cons p rest ih =>
    intro S st cnt hS hlen hpool
    obtain ⟨e1, e2⟩ := SendEligible_congr S0 S It hS p
    simp only [List.length_cons] at hlen hpool
    unfold PspSendSignalIterate
    rcases SendEligible_cases S It p with ⟨h1, h2, h3⟩ | ⟨h1, h2, h3⟩ | ⟨h1, h2, h3⟩
    · rw [PspSendSignalIterator_skip Env S { It with Status := st, SentSignals := cnt } p h1]
      rw [e1] at h3
      rw [e2] at h2
      rw [ih S st cnt hS (by omega) (fun h => by have := hpool h; omega),
        LastRefusalStatus_other S0 It p rest st h2, List.filter_cons,
        if_neg (by rw [h3]; decide)]
    · rw [PspSendSignalIterator_refused Env S { It with Status := st, SentSignals := cnt } p h2]
      rw [e1] at h3
      rw [e2] at h2
      have hc := hS.2 p It.Signal
      refine (ih S (PspCheckSendSignalPermission S p It.Signal) cnt hS (by omega)
        (fun h => by have := hpool h; omega)).trans ?_
      rw [LastRefusalStatus_refused S0 It p rest st h2, List.filter_cons,
        if_neg (by rw [h3]; decide), hc]
    · rw [PspSendSignalIterator_eligible Env S { It with Status := st, SentSignals := cnt } p h3]
      rw [e1] at h3
      rw [e2] at h2
      have hfree : (It.QueueEntry.isSome && S.FreePool.isEmpty) = false := by
        cases hq : It.QueueEntry.isSome
        · rfl
        · have := hpool hq
          cases hf : S.FreePool with
          | nil => rw [hf] at this; simp at this
          | cons a l => rfl
      have hu : ULONG (cnt + 1) = cnt + 1 := by
        unfold ULONG
        exact Nat.mod_eq_of_lt (by omega)
      have hstep := ih (PspSendSignalIteratorSend Env S It p) st (cnt + 1)
        (SamePermissions_trans _ _ _ hS (SamePermissions_Send Env S It p)) (by omega)
        (fun h => by
          have := hpool h
          simp only [PspSendSignalIteratorSend, KSYSTEM.SetProcess, h, if_true,
            List.length_tail]
          omega)
      refine Eq.trans ?_ (hstep.trans ?_)
      · simp only [hfree, Bool.false_eq_true, if_false, hu]
        rfl
      · rw [LastRefusalStatus_other S0 It p rest st h2, List.filter_cons, if_pos h3]
        simp only [SendToEach, List.length_cons]
        have : cnt + 1 + (List.filter (SendEligible S0 It) rest).length =
            cnt + ((List.filter (SendEligible S0 It) rest).length + 1) := by omega
        rw [this]

theorem PspSendSignalIteratorSend_Process (Env : KERNEL_ENVIRONMENT) (S : KSYSTEM)
    (It : SEND_SIGNAL_ITERATOR_CONTEXT) (p q : Nat) :
    (PspSendSignalIteratorSend Env S It p).Process q =
      if p = q ∧ p < S.Processes.length then
        { S.Process p with
          Process := PsSignalProcess Env (S.Process p).Process It.Signal
            (PspSendSignalIteratorEntry S It) }
      else S.Process q := by
  unfold PspSendSignalIteratorSend
  rw [SetProcess_Process]
  rfl

theorem PspSendSignalIteratorSend_length (Env : KERNEL_ENVIRONMENT) (S : KSYSTEM)
    (It : SEND_SIGNAL_ITERATOR_CONTEXT) (p : Nat) :
    (PspSendSignalIteratorSend Env S It p).Processes.length = S.Processes.length := by
  simp [PspSendSignalIteratorSend, KSYSTEM.SetProcess]

theorem SendToEach_Process_not_mem (Env : KERNEL_ENVIRONMENT) (It : SEND_SIGNAL_ITERATOR_CONTEXT)
    (q : Nat) :
    ∀ (L : List Nat) (S : KSYSTEM), q ∉ L → (SendToEach Env It L S).Process q = S.Process q := by
  intro L
  induction L with
  | nil => intro S _; rfl
  | cons p rest ih =>
    intro S hq
    have hp : p ≠ q := fun h => hq (by simp [h])
    have hr : q ∉ rest := fun h => hq (List.mem_cons_of_mem _ h)
    unfold SendToEach
    rw [ih _ hr, PspSendSignalIteratorSend_Process, if_neg (fun h => hp h.1)]

theorem SendToEach_Process_mem (Env : KERNEL_ENVIRONMENT) (It : SEND_SIGNAL_ITERATOR_CONTEXT)
    (q : Nat) (hEntry : It.QueueEntry = none) :
    ∀ (L : List Nat) (S : KSYSTEM), L.Nodup → q ∈ L → q < S.Processes.length →
      ((SendToEach Env It L S).Process q).Process =
        PsSignalProcess Env (S.Process q).Process It.Signal none := by
  have hE : ∀ S, PspSendSignalIteratorEntry S It = none := by
    intro S
    unfold PspSendSignalIteratorEntry
    rw [hEntry]
  intro L
  induction L with
  | nil => intro S _ h; simp at h
  | cons p rest ih =>
    intro S hnd hq hlt
    have hnd2 := List.nodup_cons.mp hnd
    unfold SendToEach
    rcases List.mem_cons.mp hq with rfl | hq2
    · rw [SendToEach_Process_not_mem Env It q rest _ hnd2.1, PspSendSignalIteratorSend_Process,
        if_pos ⟨rfl, hlt⟩, hE]
    · have hp : p ≠ q := fun h => hnd2.1 (h ▸ hq2)
      rw [ih _ hnd2.2 hq2 (by rw [PspSendSignalIteratorSend_length]; exact hlt),
        PspSendSignalIteratorSend_Process, if_neg (fun h => hp h.1)]

/-- C14: `PspSendSignalIterator` applied with an iterator context to any sequence
of processes, the count of sent signals starting at 0 and no allocation of an
entry copy failing (there is no entry to copy in a send system call). The final
status is the status of the permission check of the last process of the
sequence whose check failed, and the status at the start (`STATUS_SUCCESS`) if
none failed. The final system is the one in which the signal was sent, in
order, to exactly the processes that are not skipped, are not the kernel
process and pass the check; in a sequence without repetition each of them has
the state that `PsSignalProcess` gives its own state, whatever failed before or
after it, and every other process is unchanged. `SentSignals` is the number of
those processes. -/
theorem C14_sticky_permission_failure (Env : KERNEL_ENVIRONMENT) (System : KSYSTEM)
    (Iterator : SEND_SIGNAL_ITERATOR_CONTEXT) (Sequence : List Nat)
    (hSent : Iterator.SentSignals = 0)
    (hLength : Sequence.length < 2 ^ 32)
    (hPool : Iterator.QueueEntry.isSome = true → Sequence.length ≤ System.FreePool.length) :
    (PspSendSignalIterate Env Sequence System Iterator).2.Status = LastRefusalStatus System Iterator Sequence Iterator.Status ∧
      (Iterator.Status = .STATUS_SUCCESS →
        (∀ p ∈ Sequence, SendRefused System Iterator p = false) →
        (PspSendSignalIterate Env Sequence System Iterator).2.Status = .STATUS_SUCCESS) ∧
      (PspSendSignalIterate Env Sequence System Iterator).1 =
        SendToEach Env Iterator (Sequence.filter (SendEligible System Iterator)) System ∧
      (Sequence.Nodup → Iterator.QueueEntry = none →
        ∀ p, p < System.Processes.length →
          ((PspSendSignalIterate Env Sequence System Iterator).1.Process p).Process =
            if p ∈ Sequence ∧ SendEligible System Iterator p = true then
              PsSignalProcess Env (System.Process p).Process Iterator.Signal none
            else (System.Process p).Process) ∧
      (PspSendSignalIterate Env Sequence System Iterator).2.SentSignals = (Sequence.filter (SendEligible System Iterator)).length := by
  have h := PspSendSignalIterate_eq Env System Iterator Sequence System Iterator.Status
    Iterator.SentSignals (SamePermissions_refl System) (by omega) hPool
  have hR : (PspSendSignalIterate Env Sequence System Iterator) =
      (SendToEach Env Iterator (Sequence.filter (SendEligible System Iterator)) System,
        { Iterator with
          Status := LastRefusalStatus System Iterator Sequence Iterator.Status
          SentSignals := Iterator.SentSignals +
            (Sequence.filter (SendEligible System Iterator)).length }) := h
  rw [hR]
  refine ⟨rfl, ?_, rfl, ?_, by simp [hSent]⟩
  · intro hst hnone
    simp only
    unfold LastRefusalStatus
    have hf : Sequence.filter (SendRefused System Iterator) = [] := by
      rw [List.filter_eq_nil_iff]
      intro p hp
      rw [hnone p hp]
      decide
    rw [hf]
    exact hst
  · intro hnd hEntry p hp
    simp only
    by_cases hm : p ∈ Sequence ∧ SendEligible System Iterator p = true
    · rw [if_pos hm]
      exact SendToEach_Process_mem Env Iterator p hEntry _ System (hnd.filter _)
        (List.mem_filter.mpr hm) hp
    · rw [if_neg hm, SendToEach_Process_not_mem Env Iterator p _ System
        (fun h => hm (List.mem_filter.mp h))]

/-- Witness of C14 on `ExampleMixedSystem`: signal 10 is sent to all processes;
the process of another user refuses it, the target behind it receives it, one
signal is counted and the status is `STATUS_PERMISSION_DENIED`. -/
theorem C14_sticky_permission_failure_witness :
    (PspSendSignalIterate ExampleEnvironment [0, 1, 2, 3] ExampleMixedSystem
        (PsSysSendSignalIterator ExampleMixedSystem
          ⟨.SignalTargetAllProcesses, 0, 10, 0, 0, .STATUS_SUCCESS⟩)).2.Status =
        .STATUS_PERMISSION_DENIED ∧
      (PspSendSignalIterate ExampleEnvironment [0, 1, 2, 3] ExampleMixedSystem
        (PsSysSendSignalIterator ExampleMixedSystem
          ⟨.SignalTargetAllProcesses, 0, 10, 0, 0, .STATUS_SUCCESS⟩)).2.SentSignals = 1 :=
  ⟨(C14_sticky_permission_failure ExampleEnvironment ExampleMixedSystem
      (PsSysSendSignalIterator ExampleMixedSystem
        ⟨.SignalTargetAllProcesses, 0, 10, 0, 0, .STATUS_SUCCESS⟩) [0, 1, 2, 3] rfl (by decide)
      (fun h => absurd h (by decide))).1.trans (by decide),
    (C14_sticky_permission_failure ExampleEnvironment ExampleMixedSystem
      (PsSysSendSignalIterator ExampleMixedSystem
        ⟨.SignalTargetAllProcesses, 0, 10, 0, 0, .STATUS_SUCCESS⟩) [0, 1, 2, 3] rfl (by decide)
      (fun h => absurd h (by decide))).2.2.2.2.trans (by decide)⟩


/-! ## Default processing of a signal -/

theorem PspSignalDefaultAction_abort (P : KPROCESS) (R : Bool) (n : Nat)
    (h : DefaultAbortClass n) :
    PspSignalDefaultAction P R n =
      ⟨true, SIGNAL_KILL,
        { P with ExitReason := some .CHILD_SIGNAL_REASON_DUMPED, ExitStatus := n }⟩ := by
  unfold DefaultAbortClass at h
  unfold PspSignalDefaultAction
  rw [if_pos]
  simpa [or_assoc] using h

theorem PspSignalDefaultAction_terminate (P : KPROCESS) (R : Bool) (n : Nat)
    (h : DefaultTerminateClass n) :
    PspSignalDefaultAction P R n =
      ⟨true, SIGNAL_KILL,
        { P with ExitReason := some .CHILD_SIGNAL_REASON_KILLED, ExitStatus := n }⟩ := by
  have hn : ¬ DefaultAbortClass n := by
    unfold DefaultAbortClass
    unfold DefaultTerminateClass at h
    simp only [SIGNAL_ABORT, SIGNAL_BUS_ERROR, SIGNAL_MATH_ERROR, SIGNAL_ILLEGAL_INSTRUCTION,
      SIGNAL_REQUEST_CORE_DUMP, SIGNAL_ACCESS_VIOLATION, SIGNAL_BAD_SYSTEM_CALL, SIGNAL_TRAP,
      SIGNAL_CPU_QUOTA_REACHED, SIGNAL_FILE_SIZE_TOO_LARGE, SIGNAL_TIMER,
      SIGNAL_CONTROLLING_TERMINAL_CLOSED, SIGNAL_KEYBOARD_INTERRUPT, SIGNAL_BROKEN_PIPE,
      SIGNAL_REQUEST_TERMINATION, SIGNAL_APPLICATION1, SIGNAL_APPLICATION2,
      SIGNAL_ASYNCHRONOUS_IO_COMPLETE, SIGNAL_PROFILE_TIMER, SIGNAL_EXECUTION_TIMER_EXPIRED,
      STANDARD_SIGNAL_COUNT] at h ⊢
    omega
  unfold DefaultAbortClass at hn
  unfold DefaultTerminateClass at h
  unfold PspSignalDefaultAction
  rw [if_neg (by simpa [or_assoc, and_assoc] using hn), if_pos (by simpa [or_assoc, and_assoc] using h)]

theorem PspSignalDefaultAction_stop (P : KPROCESS) (R : Bool) (n : Nat)
    (h : DefaultStopClass n) :
    PspSignalDefaultAction P R n =
      ⟨true, SIGNAL_STOP,
        { P with ExitReason := some .CHILD_SIGNAL_REASON_STOPPED, ExitStatus := n }⟩ := by
  have hn : ¬ DefaultAbortClass n ∧ ¬ DefaultTerminateClass n := by
    unfold DefaultAbortClass DefaultTerminateClass
    unfold DefaultStopClass at h
    simp only [SIGNAL_ABORT, SIGNAL_BUS_ERROR, SIGNAL_MATH_ERROR, SIGNAL_ILLEGAL_INSTRUCTION,
      SIGNAL_REQUEST_CORE_DUMP, SIGNAL_ACCESS_VIOLATION, SIGNAL_BAD_SYSTEM_CALL, SIGNAL_TRAP,
      SIGNAL_CPU_QUOTA_REACHED, SIGNAL_FILE_SIZE_TOO_LARGE, SIGNAL_TIMER,
      SIGNAL_CONTROLLING_TERMINAL_CLOSED, SIGNAL_KEYBOARD_INTERRUPT, SIGNAL_BROKEN_PIPE,
      SIGNAL_REQUEST_TERMINATION, SIGNAL_APPLICATION1, SIGNAL_APPLICATION2,
      SIGNAL_ASYNCHRONOUS_IO_COMPLETE, SIGNAL_PROFILE_TIMER, SIGNAL_EXECUTION_TIMER_EXPIRED,
      SIGNAL_REQUEST_STOP, SIGNAL_BACKGROUND_TERMINAL_INPUT, SIGNAL_BACKGROUND_TERMINAL_OUTPUT,
      STANDARD_SIGNAL_COUNT] at h ⊢
    omega
  obtain ⟨hn1, hn2⟩ := hn
  unfold DefaultAbortClass at hn1
  unfold DefaultTerminateClass at hn2
  unfold DefaultStopClass at h
  unfold PspSignalDefaultAction
  rw [if_neg (by simpa [or_assoc, and_assoc] using hn1), if_neg (by simpa [or_assoc, and_assoc] using hn2), if_pos (by simpa [or_assoc, and_assoc] using h)]

theorem PspSignalDefaultAction_other (P : KPROCESS) (R : Bool) (n : Nat)
    (h1 : ¬ DefaultAbortClass n) (h2 : ¬ DefaultTerminateClass n) (h3 : ¬ DefaultStopClass n) :
    PspSignalDefaultAction P R n =
      if R == false then
        ⟨true, SIGNAL_KILL,
          { P with ExitReason := some .CHILD_SIGNAL_REASON_DUMPED, ExitStatus := n }⟩
      else ⟨false, 0, P⟩ := by
  unfold DefaultAbortClass at h1
  unfold DefaultTerminateClass at h2
  unfold DefaultStopClass at h3
  unfold PspSignalDefaultAction
  rw [if_neg (by simpa [or_assoc, and_assoc] using h1), if_neg (by simpa [or_assoc, and_assoc] using h2), if_neg (by simpa [or_assoc, and_assoc] using h3)]

theorem PspSignalAttemptDefaultProcessing_eq (Env : KERNEL_ENVIRONMENT) (P : KPROCESS)
    (R : Bool) (n : Nat)
    (hHandler : (IS_SIGNAL_SET P.HandledSignals n && R) = false)
    (hKill : n ≠ SIGNAL_KILL) (hStop : n ≠ SIGNAL_STOP) (hContinue : n ≠ SIGNAL_CONTINUE)
    (hIgnore : Env.IS_SIGNAL_DEFAULT_IGNORE n = false) :
    PspSignalAttemptDefaultProcessing Env P R n =
      ((PspSignalDefaultAction P R n).Result,
        if (PspSignalDefaultAction P R n).SendSignal != 0 then
          PsSignalProcess Env (PspSignalDefaultAction P R n).Process
            (PspSignalDefaultAction P R n).SendSignal none
        else (PspSignalDefaultAction P R n).Process) := by
  unfold PspSignalAttemptDefaultProcessing
  rw [if_neg (by simp [hKill, hStop]), if_neg (by simpa using hHandler),
    if_neg (by simp [hContinue]), if_neg (by simp [hIgnore])]


/-- C21: for a signal that has no installed handler (it is not both in the
handled set and covered by a handler routine), is not KILL, STOP or CONTINUE and
is not ignored by default, `PspSignalAttemptDefaultProcessing` applies the
default action table. In the abort class it returns TRUE, sets the exit reason
Dumped and the exit status to the signal and sends KILL to the whole process; in
the terminate class and for every signal number from `STANDARD_SIGNAL_COUNT` on
it does the same with the exit reason Killed; in the stop class it sets the exit
reason Stopped and sends STOP. A signal of none of the classes is treated as an
abort when the process has no handler routine at all, and otherwise the routine
returns FALSE and leaves the state as it was. -/
theorem C21_default_action_table (Env : KERNEL_ENVIRONMENT) (Process : KPROCESS)
    (SignalHandlerRoutine : Bool) (Signal : Nat)
    (hHandler : (IS_SIGNAL_SET Process.HandledSignals Signal && SignalHandlerRoutine) = false)
    (hKill : Signal ≠ SIGNAL_KILL) (hStop : Signal ≠ SIGNAL_STOP)
    (hContinue : Signal ≠ SIGNAL_CONTINUE)
    (hIgnore : Env.IS_SIGNAL_DEFAULT_IGNORE Signal = false) :
    (DefaultAbortClass Signal →
      PspSignalAttemptDefaultProcessing Env Process SignalHandlerRoutine Signal =
        (true, DefaultActionTaken Env Process .CHILD_SIGNAL_REASON_DUMPED Signal SIGNAL_KILL)) ∧
    (DefaultTerminateClass Signal →
      PspSignalAttemptDefaultProcessing Env Process SignalHandlerRoutine Signal =
        (true, DefaultActionTaken Env Process .CHILD_SIGNAL_REASON_KILLED Signal SIGNAL_KILL)) ∧
    (DefaultStopClass Signal →
      PspSignalAttemptDefaultProcessing Env Process SignalHandlerRoutine Signal =
        (true, DefaultActionTaken Env Process .CHILD_SIGNAL_REASON_STOPPED Signal SIGNAL_STOP)) ∧
    (¬ DefaultAbortClass Signal → ¬ DefaultTerminateClass Signal → ¬ DefaultStopClass Signal →
      SignalHandlerRoutine = false →
      PspSignalAttemptDefaultProcessing Env Process SignalHandlerRoutine Signal =
        (true, DefaultActionTaken Env Process .CHILD_SIGNAL_REASON_DUMPED Signal SIGNAL_KILL)) ∧
    (¬ DefaultAbortClass Signal → ¬ DefaultTerminateClass Signal → ¬ DefaultStopClass Signal →
      SignalHandlerRoutine = true →
      PspSignalAttemptDefaultProcessing Env Process SignalHandlerRoutine Signal =
        (false, Process)) := by
  have heq := PspSignalAttemptDefaultProcessing_eq Env Process SignalHandlerRoutine Signal
    hHandler hKill hStop hContinue hIgnore
  refine ⟨?_, ?_, ?_, ?_, ?_⟩
  · intro h
    rw [heq, PspSignalDefaultAction_abort Process SignalHandlerRoutine Signal h]
    rfl
  · intro h
    rw [heq, PspSignalDefaultAction_terminate Process SignalHandlerRoutine Signal h]
    rfl
  · intro h
    rw [heq, PspSignalDefaultAction_stop Process SignalHandlerRoutine Signal h]
    rfl
  · intro h1 h2 h3 hR
    rw [heq, PspSignalDefaultAction_other Process SignalHandlerRoutine Signal h1 h2 h3, hR]
    rfl
  · intro h1 h2 h3 hR
    rw [heq, PspSignalDefaultAction_other Process SignalHandlerRoutine Signal h1 h2 h3, hR]
    rfl

/-- Witness of C21 on `ExampleProcess` without a handler routine: the abort
signal gives TRUE, the exit reason Dumped with the exit status 6, and a KILL
sent to the process. -/
theorem C21_default_action_table_witness :
    DefaultAbortClass SIGNAL_ABORT ∧
    PspSignalAttemptDefaultProcessing ExampleEnvironment ExampleProcess false SIGNAL_ABORT =
      (true, DefaultActionTaken ExampleEnvironment ExampleProcess .CHILD_SIGNAL_REASON_DUMPED
        SIGNAL_ABORT SIGNAL_KILL) :=
  ⟨by decide,
    (C21_default_action_table ExampleEnvironment ExampleProcess false SIGNAL_ABORT (by decide)
      (by decide) (by decide) (by decide) (by decide)).1 (by decide)⟩

/-- Signal 30 is in none of the classes. On `ExampleProcess`, which has a
handler routine but does not have signal 30 in its handled set, the signal has
no installed handler, is not KILL, STOP or CONTINUE and is not ignored by
default, and yet the routine returns FALSE and sets neither the exit reason nor
the exit status. -/
theorem C21_unclassified_signal_counterexample :
    (IS_SIGNAL_SET ExampleProcess.HandledSignals 30 && true) = false ∧
    30 ≠ SIGNAL_KILL ∧ 30 ≠ SIGNAL_STOP ∧ 30 ≠ SIGNAL_CONTINUE ∧
    ExampleEnvironment.IS_SIGNAL_DEFAULT_IGNORE 30 = false ∧
    (PspSignalAttemptDefaultProcessing ExampleEnvironment ExampleProcess true 30).1 = false ∧
    (PspSignalAttemptDefaultProcessing ExampleEnvironment ExampleProcess true 30).2.ExitStatus ≠
      30 ∧
    (PspSignalAttemptDefaultProcessing ExampleEnvironment ExampleProcess true 30).2 =
      ExampleProcess := by
  decide


/-! ## Suspend execution: what the wait loop keeps -/

theorem PspQueueSignalPlacement_length (Env : KERNEL_ENVIRONMENT) (P : KPROCESS)
    (Thread : Option Nat) (n : Nat) (Entry : Option SIGNAL_QUEUE_ENTRY) (i b : Bool) :
    (PspQueueSignalPlacement Env P Thread n Entry i b).Process.ThreadListHead.length =
      P.ThreadListHead.length := by
  unfold PspQueueSignalPlacement
  split
  · unfold PspQueueSignalEntry
    split_ifs
    all_goals first
      | (simp; done)
      | (split
         · exact length_SetThread _ _ _
         · rfl)
  · unfold PspQueueSignalNumber
    split_ifs
    all_goals first
      | rfl
      | (simp only
         split
         · exact length_SetThread _ _ _
         · rfl)

theorem PspQueueSignalPlace_length (Env : KERNEL_ENVIRONMENT) (P : KPROCESS)
    (Thread : Option Nat) (n : Nat) (Entry : Option SIGNAL_QUEUE_ENTRY) (i b : Bool) :
    (PspQueueSignalPlace Env P Thread n Entry i b).ThreadListHead.length =
      P.ThreadListHead.length := by
  unfold PspQueueSignalPlace
  rw [PspQueueSignalWake_length, PspQueueSignalPlacement_length]

theorem PspQueueSignalUnforced_length (Env : KERNEL_ENVIRONMENT) (P : KPROCESS)
    (Thread : Option Nat) (n : Nat) (Entry : Option SIGNAL_QUEUE_ENTRY) :
    (PspQueueSignalUnforced Env P Thread n Entry).ThreadListHead.length =
      P.ThreadListHead.length :=
  PspQueueSignalPlace_length Env P Thread n Entry _ _

theorem PspQueueSignalToProcess_length (Env : KERNEL_ENVIRONMENT) (P : KPROCESS) (n : Nat)
    (Entry : Option SIGNAL_QUEUE_ENTRY) :
    (PspQueueSignalToProcess Env P n Entry).2.ThreadListHead.length =
      P.ThreadListHead.length := by
  unfold PspQueueSignalToProcess
  split
  · split
    · split_ifs <;> simp
    · rfl
  · simp only
    rw [PspQueueSignalUnforced_length]
    split_ifs <;> rfl

theorem PsSignalProcess_length (Env : KERNEL_ENVIRONMENT) (P : KPROCESS) (n : Nat)
    (Entry : Option SIGNAL_QUEUE_ENTRY) :
    (PsSignalProcess Env P n Entry).ThreadListHead.length = P.ThreadListHead.length := by
  have h : (PsSignalProcessQueue Env P n Entry).2.ThreadListHead.length =
      P.ThreadListHead.length := by
    unfold PsSignalProcessQueue
    rw [PspQueueSignalToProcess_length]
    split <;> rfl
  unfold PsSignalProcess
  split
  · split
    · simpa using h
    · exact h
  · exact h

theorem PsSignalProcess_blocked (Env : KERNEL_ENVIRONMENT) (P : KPROCESS) (n : Nat)
    (Entry : Option SIGNAL_QUEUE_ENTRY) (u : Nat) :
    ((PsSignalProcess Env P n Entry).Thread u).BlockedSignals = (P.Thread u).BlockedSignals := by
  have h : ((PsSignalProcessQueue Env P n Entry).2.Thread u).BlockedSignals =
      (P.Thread u).BlockedSignals := by
    unfold PsSignalProcessQueue
    rw [PspQueueSignalToProcess_blocked]
    split <;> rfl
  unfold PsSignalProcess
  split
  · split
    · simpa using h
    · exact h
  · exact h

theorem PsSignalThread_length (Env : KERNEL_ENVIRONMENT) (P : KPROCESS) (t n : Nat)
    (Entry : Option SIGNAL_QUEUE_ENTRY) :
    (PsSignalThread Env P t n Entry false).ThreadListHead.length = P.ThreadListHead.length := by
  unfold PsSignalThread
  split
  · rw [PsSignalProcess_length]
    split <;> rfl
  · rw [PspQueueSignal_unforced]
    exact PspQueueSignalUnforced_length Env P _ _ _

theorem PsSignalThread_blocked (Env : KERNEL_ENVIRONMENT) (P : KPROCESS) (t n : Nat)
    (Entry : Option SIGNAL_QUEUE_ENTRY) (u : Nat) :
    ((PsSignalThread Env P t n Entry false).Thread u).BlockedSignals =
      (P.Thread u).BlockedSignals := by
  unfold PsSignalThread
  split
  · rw [PsSignalProcess_blocked]
    split <;> rfl
  · rw [PspQueueSignal_unforced]
    exact PspQueueSignalUnforced_blocked Env P _ _ _ u

theorem PsSignalArrival_kept (Env : KERNEL_ENVIRONMENT) (P : KPROCESS) (A : SIGNAL_ARRIVAL)
    (u : Nat) :
    (PsSignalArrival Env P A).ThreadListHead.length = P.ThreadListHead.length ∧
    ((PsSignalArrival Env P A).Thread u).BlockedSignals = (P.Thread u).BlockedSignals := by
  unfold PsSignalArrival
  split
  · exact ⟨PsSignalThread_length Env P _ _ _, PsSignalThread_blocked Env P _ _ _ u⟩
  · exact ⟨PsSignalProcess_length Env P _ _, PsSignalProcess_blocked Env P _ _ u⟩

theorem PsSignalArrivals_kept (Env : KERNEL_ENVIRONMENT) (u : Nat) :
    ∀ (L : List SIGNAL_ARRIVAL) (P : KPROCESS),
      (L.foldl (PsSignalArrival Env) P).ThreadListHead.length = P.ThreadListHead.length ∧
      ((L.foldl (PsSignalArrival Env) P).Thread u).BlockedSignals =
        (P.Thread u).BlockedSignals := by
  intro L
  induction L with
  | nil => intro P; exact ⟨rfl, rfl⟩
  | cons A L ih =>
    intro P
    rw [List.foldl_cons]
    obtain ⟨h1, h2⟩ := ih (PsSignalArrival Env P A)
    obtain ⟨k1, k2⟩ := PsSignalArrival_kept Env P A u
    exact ⟨h1.trans k1, h2.trans k2⟩

theorem PspDequeueQueuedSignal_kept (Env : KERNEL_ENVIRONMENT) (t : Nat) (Saved : SIGNAL_SET) :
    ∀ (Fuel : Nat) (P : KPROCESS) (SP : SIGNAL_PARAMETERS),
      (PspDequeueQueuedSignal Env t Saved Fuel P SP).Process.ThreadListHead.length =
        P.ThreadListHead.length ∧
      ((PspDequeueQueuedSignal Env t Saved Fuel P SP).Process.Thread t).BlockedSignals =
        (P.Thread t).BlockedSignals := by
  intro Fuel
  induction Fuel with
  | zero => intro P SP; exact ⟨rfl, rfl⟩
  | succ f ih =>
    intro P SP
    obtain ⟨_, _, _, a4, _, a6, _⟩ := PspDequeueScanQueues_frame Env t P
    have q3 : (PspRestoreSignalPending (PspDequeueScanQueues Env t P).2 t
        Saved).ThreadListHead.length = P.ThreadListHead.length := by simp [a4]
    have q4 : ((PspRestoreSignalPending (PspDequeueScanQueues Env t P).2 t Saved).Thread
        t).BlockedSignals = (P.Thread t).BlockedSignals := by simp [a6]
    simp only [PspDequeueQueuedSignal]
    split
    · split
      · refine ⟨?_, ?_⟩
        · split <;> simpa using q3
        · split <;> simpa using q4
      · obtain ⟨i1, i2⟩ := ih
          ((PspRestoreSignalPending (PspDequeueScanQueues Env t P).2 t Saved).Complete ‹_›)
          (PspTracerBreak Env (PspRestoreSignalPending (PspDequeueScanQueues Env t P).2 t Saved)
            (‹SIGNAL_QUEUE_ENTRY›).Parameters)
        simp only [Complete_Thread, Complete_ThreadListHead] at i1 i2
        exact ⟨i1.trans q3, i2.trans q4⟩
    · exact ⟨q3, q4⟩

/-- The dequeue keeps the number of threads of the process and the blocked set
of the calling thread. -/
theorem PspDequeuePendingSignal_kept (Env : KERNEL_ENVIRONMENT) (P : KPROCESS) (t : Nat)
    (SP : SIGNAL_PARAMETERS) (R : DEQUEUE_RESULT)
    (h : PspDequeuePendingSignal Env P t SP = some R) :
    R.Process.ThreadListHead.length = P.ThreadListHead.length ∧
    (R.Process.Thread t).BlockedSignals = (P.Thread t).BlockedSignals := by
  by_cases hp : (P.Thread t).SignalPending = .ThreadNoSignalPending
  · simp only [PspDequeuePendingSignal, hp, beq_self_eq_true, if_true, Option.some.injEq] at h
    subst h
    exact ⟨rfl, rfl⟩
  · have hThread : t < P.ThreadListHead.length := by
      by_contra hc
      apply hp
      have h2 : P.ThreadListHead.length ≤ t := by omega
      simp [KPROCESS.Thread, List.getD_eq_getElem?_getD, List.getElem?_eq_none h2,
        KTHREAD.Zero]
    cases hnm : NonMaskablePending P t
    · rw [PspDequeuePendingSignal_eq Env P t SP hThread hp hnm] at h
      have hfl := DequeueFrame_loop Env t P
      split at h
      · simp only [Option.some.injEq] at h
        subst h
        exact ⟨(DequeueFrame_cleared t P).2.2.1, (DequeueFrame_cleared t P).2.2.2.1⟩
      · split at h
        · simp only [Option.some.injEq] at h
          subst h
          exact ⟨hfl.2.2.1, hfl.2.2.2.1⟩
        · simp only [Option.some.injEq] at h
          subst h
          obtain ⟨i1, i2⟩ := PspDequeueQueuedSignal_kept Env t
            (DequeueStandardLoop Env P t).SavedSignalMask
            ((DequeueStandardLoop Env P t).Process.SignalListHead.length +
              ((DequeueStandardLoop Env P t).Process.Thread t).SignalListHead.length + 1)
            (DequeueStandardLoop Env P t).Process SIGNAL_PARAMETERS.Zero
          exact ⟨i1.trans hfl.2.2.1, i2.trans hfl.2.2.2.1⟩
    · simp [PspDequeuePendingSignal, hp, PspCheckForNonMaskableSignals_none _ _ hnm] at h

theorem PsSysSuspendExecutionWait_kept (Env : KERNEL_ENVIRONMENT) (t F : Nat) :
    ∀ (Rounds : List SUSPEND_ROUND) (T Prev : Nat) (St : KSTATUS) (Log : List Nat)
      (SP : SIGNAL_PARAMETERS) (P : KPROCESS) (W : SUSPEND_WAIT),
      PsSysSuspendExecutionWait Env t F Rounds T Prev St Log SP P = some W →
      W.Process.ThreadListHead.length = P.ThreadListHead.length ∧
      (W.Process.Thread t).BlockedSignals = (P.Thread t).BlockedSignals := by
  intro Rounds
  induction Rounds with
  | nil => intro T Prev St Log SP P W h; simp [PsSysSuspendExecutionWait] at h
  | cons Round Rounds ih =>
    intro T Prev St Log SP P W h
    obtain ⟨a1, a2⟩ := PsSignalArrivals_kept Env t Round.Arrivals P
    simp only [PsSysSuspendExecutionWait] at h
    split at h
    · simp at h
    · rename_i D hD
      obtain ⟨d1, d2⟩ := PspDequeuePendingSignal_kept Env _ t SP D hD
      split_ifs at h
      · simp only [Option.some.injEq] at h
        subst h
        exact ⟨d1.trans a1, d2.trans a2⟩
      · simp only [Option.some.injEq] at h
        subst h
        exact ⟨d1.trans a1, d2.trans a2⟩
      · simp only [Option.some.injEq] at h
        subst h
        exact ⟨d1.trans a1, d2.trans a2⟩
      · obtain ⟨i1, i2⟩ := ih _ _ _ _ _ _ W h
        exact ⟨i1.trans (d1.trans a1), i2.trans (d2.trans a2)⟩
      · obtain ⟨i1, i2⟩ := ih _ _ _ _ _ _ W h
        exact ⟨i1.trans (d1.trans a1), i2.trans (d2.trans a2)⟩


/-! ## Suspend execution: the blocked set of the caller -/

theorem PspRequeueBlockedSignals_length (Env : KERNEL_ENVIRONMENT) (P : KPROCESS) (t : Nat) :
    (PspRequeueBlockedSignals Env P t).ThreadListHead.length = P.ThreadListHead.length := by
  have hfold : ∀ (L : List SIGNAL_QUEUE_ENTRY) (Q : KPROCESS),
      (L.foldl (fun Current SignalQueueEntry =>
          PspQueueSignal Env Current SignalQueueEntry.DestinationThread
            SignalQueueEntry.Parameters.SignalNumber (some SignalQueueEntry) false)
        Q).ThreadListHead.length = Q.ThreadListHead.length := by
    intro L
    induction L with
    | nil => intro Q; rfl
    | cons e L ih =>
      intro Q
      rw [List.foldl_cons, ih, PspQueueSignal_unforced]
      exact PspQueueSignalUnforced_length Env Q _ _ _
  unfold PspRequeueBlockedSignals
  rw [length_SetThread]
  unfold PspRequeueBlockedList
  split
  · rw [hfold]
  · rfl

theorem PsSysSuspendExecutionModifyMask_kept (Env : KERNEL_ENVIRONMENT) (P : KPROCESS)
    (t : Nat) (op : SIGNAL_MASK_OPERATION) (m : SIGNAL_SET) :
    (PsSysSuspendExecutionModifyMask Env P t op m).Process.ThreadListHead.length =
      P.ThreadListHead.length ∧
    ((PsSysSuspendExecutionModifyMask Env P t op m).RestoreOriginalMask = true →
      (PsSysSuspendExecutionModifyMask Env P t op m).OriginalMask =
        (P.Thread t).BlockedSignals) ∧
    ((PsSysSuspendExecutionModifyMask Env P t op m).RestoreOriginalMask = false →
      ((PsSysSuspendExecutionModifyMask Env P t op m).Process.Thread t).BlockedSignals =
        (P.Thread t).BlockedSignals) := by
  unfold PsSysSuspendExecutionModifyMask
  simp only
  split
  · split
    · refine ⟨?_, fun _ => rfl, (fun hc => by cases hc)⟩
      rw [PspRequeueBlockedSignals_length, length_SetThread]
    · rename_i hc
      refine ⟨length_SetThread _ _ _, (fun hc2 => by cases hc2), fun _ => ?_⟩
      have hc3 := hc
      simp only [bne_iff_ne, ne_eq, Decidable.not_not] at hc3
      exact hc3.symm
  · exact ⟨rfl, (fun hc => by cases hc), fun _ => rfl⟩

theorem PsSysSuspendExecutionRestoreMask_blocked (Env : KERNEL_ENVIRONMENT) (Q : KPROCESS)
    (t : Nat) (m : SIGNAL_SET) (b : Bool) (hThread : t < Q.ThreadListHead.length) :
    ((PsSysSuspendExecutionRestoreMask Env Q t m b).Thread t).BlockedSignals =
      if b then m else (Q.Thread t).BlockedSignals := by
  unfold PsSysSuspendExecutionRestoreMask
  cases b
  · rfl
  · simp only [bne_self_eq_false, Bool.true_bne, Bool.not_false, if_true]
    rw [PspRequeueBlockedSignals_blocked, Thread_SetThread_same _ _ _ hThread]

theorem PsSysSuspendExecutionEnd_Process (Env : KERNEL_ENVIRONMENT) (t : Nat)
    (CopyStatus : KSTATUS) (Parameters : SYSTEM_CALL_SUSPEND_EXECUTION) (m : SIGNAL_SET)
    (b : Bool) (W : SUSPEND_WAIT) :
    (PsSysSuspendExecutionEnd Env t CopyStatus Parameters m b W).Process =
      PsSysSuspendExecutionRestoreMask Env W.Process t m b := by
  unfold PsSysSuspendExecutionEnd
  split <;> rfl

/-- After the mask has been changed for the call and the state `Q` has come
out of the wait with the blocked set of the caller as the change left it, the
restoration gives the caller the blocked set it had at entry. -/
theorem PsSysSuspendExecutionRestoreMask_entry (Env : KERNEL_ENVIRONMENT) (P Q : KPROCESS)
    (t : Nat) (op : SIGNAL_MASK_OPERATION) (m : SIGNAL_SET)
    (hThread : t < P.ThreadListHead.length)
    (hLength : Q.ThreadListHead.length =
      (PsSysSuspendExecutionModifyMask Env P t op m).Process.ThreadListHead.length)
    (hBlocked : (Q.Thread t).BlockedSignals =
      ((PsSysSuspendExecutionModifyMask Env P t op m).Process.Thread t).BlockedSignals) :
    ((PsSysSuspendExecutionRestoreMask Env Q t
      (PsSysSuspendExecutionModifyMask Env P t op m).OriginalMask
      (PsSysSuspendExecutionModifyMask Env P t op m).RestoreOriginalMask).Thread
        t).BlockedSignals = (P.Thread t).BlockedSignals := by
  obtain ⟨m1, m2, m3⟩ := PsSysSuspendExecutionModifyMask_kept Env P t op m
  rw [PsSysSuspendExecutionRestoreMask_blocked Env Q t _ _ (by rw [hLength, m1]; exact hThread)]
  cases hb : (PsSysSuspendExecutionModifyMask Env P t op m).RestoreOriginalMask
  · simp only [Bool.false_eq_true, if_false]
    rw [hBlocked]
    exact m3 hb
  · simp only [if_true]
    exact m2 hb

/-- C24: whatever the operation (None, Overwrite, Set, Clear or a value outside
the enumeration), the signal set, the timeout, what arrives during the wait and
the way the call ends (a signal is dequeued, the wait times out or fails, the
copy to user mode fails, the operation is not implemented), the blocked set of
the calling thread when `PsSysSuspendExecution` returns is its blocked set when
the call was entered. A call with an operation outside the enumeration always
returns, with the status "not implemented". -/
theorem C24_suspend_execution_restores_blocked_set (Env : KERNEL_ENVIRONMENT)
    (Process : KPROCESS) (CurrentThread Frequency : Nat) (CopyStatus : KSTATUS)
    (Parameters : SYSTEM_CALL_SUSPEND_EXECUTION) (Rounds : List SUSPEND_ROUND)
    (hThread : CurrentThread < Process.ThreadListHead.length) :
    (Parameters.SignalOperation = .SignalMaskOperationInvalid →
      ∃ Result,
        PsSysSuspendExecution Env Process CurrentThread Frequency CopyStatus Parameters
          Rounds = some Result ∧
        Result.Parameters.Status = .STATUS_NOT_IMPLEMENTED) ∧
    ∀ Result,
      PsSysSuspendExecution Env Process CurrentThread Frequency CopyStatus Parameters Rounds =
        some Result →
      (Result.Process.Thread CurrentThread).BlockedSignals =
        (Process.Thread CurrentThread).BlockedSignals := by
  refine ⟨?_, ?_⟩
  · intro hop
    have hni : (PsSysSuspendExecutionModifyMask Env Process CurrentThread
        Parameters.SignalOperation Parameters.SignalSet).NotImplemented = true := by
      simp only [PsSysSuspendExecutionModifyMask, hop]
      rw [if_pos (by decide)]
      split <;> rfl
    unfold PsSysSuspendExecution
    rw [if_pos hni]
    exact ⟨_, rfl, rfl⟩
  · intro Result h
    unfold PsSysSuspendExecution at h
    split at h
    · simp only [Option.some.injEq] at h
      subst h
      exact PsSysSuspendExecutionRestoreMask_entry Env Process _ CurrentThread _ _ hThread
        rfl rfl
    · simp only [Option.map_eq_some'] at h
      obtain ⟨W, hW, hR⟩ := h
      subst hR
      obtain ⟨w1, w2⟩ := PsSysSuspendExecutionWait_kept Env CurrentThread Frequency Rounds _ _
        _ _ _ _ W hW
      rw [PsSysSuspendExecutionEnd_Process]
      exact PsSysSuspendExecutionRestoreMask_entry Env Process _ CurrentThread _ _ hThread
        w1 w2

/-- Witness of C24 on `ExampleQueueProcess`, whose thread blocks signal 3 and
has it pending: the call that unblocks signal 3 returns, and the thread blocks
signal 3 again afterwards. -/
theorem C24_suspend_execution_restores_blocked_set_witness :
    ∃ Result,
      PsSysSuspendExecution ExampleEnvironment ExampleQueueProcess 0 1000 .STATUS_SUCCESS
        ExampleSuspendClear [ExampleQuietRound] = some Result ∧
      Result.SignalNumber = 3 ∧
      (Result.Process.Thread 0).BlockedSignals = (ExampleQueueProcess.Thread 0).BlockedSignals :=
  ⟨_, rfl, by decide,
    (C24_suspend_execution_restores_blocked_set ExampleEnvironment ExampleQueueProcess 0 1000
      .STATUS_SUCCESS ExampleSuspendClear [ExampleQuietRound] (by decide)).2 _ rfl⟩


/-! ## Suspend execution: a signal dequeued in clear mode -/

theorem PsSysSuspendExecution_clear (Env : KERNEL_ENVIRONMENT) (Process : KPROCESS)
    (t F : Nat) (CopyStatus : KSTATUS) (Parameters : SYSTEM_CALL_SUSPEND_EXECUTION)
    (Rounds : List SUSPEND_ROUND) (Result : SUSPEND_EXECUTION)
    (hClear : Parameters.SignalOperation = .SignalMaskOperationClear)
    (hResult : PsSysSuspendExecution Env Process t F CopyStatus Parameters Rounds =
      some Result)
    (hSignal : Result.SignalNumber ≠ ULONG_MINUS_ONE) :
    ∃ Signal : SIGNAL_PARAMETERS,
      Result.AppliedSignals =
        (if PsSysSuspendExecutionApplySignal .SignalMaskOperationClear
            (PsSysSuspendExecutionSignalSet Parameters) Result.SignalNumber != false then
          [Signal]
        else []) ∧
      Result.Parameters.Status =
        PsSysSuspendExecutionSignalStatus .SignalMaskOperationClear
          (PsSysSuspendExecutionSignalSet Parameters) Parameters.SignalParameters CopyStatus
          Result.SignalNumber := by
  have hni : (PsSysSuspendExecutionModifyMask Env Process t Parameters.SignalOperation
      Parameters.SignalSet).NotImplemented = false := by
    simp only [PsSysSuspendExecutionModifyMask, hClear]
    rw [if_pos (by decide)]
    split <;> rfl
  unfold PsSysSuspendExecution at hResult
  rw [if_neg (by simp [hni])] at hResult
  simp only [Option.map_eq_some'] at hResult
  obtain ⟨W, _, hR⟩ := hResult
  subst hR
  unfold PsSysSuspendExecutionEnd at hSignal ⊢
  by_cases hW : (W.SignalNumber != ULONG_MINUS_ONE) = true
  · rw [if_pos hW]
    refine ⟨W.SignalParameters, ?_, ?_⟩ <;> simp only [hClear]
  · rw [if_neg hW] at hSignal
    simp only [bne_iff_ne, ne_eq, Decidable.not_not] at hW
    exact absurd hW hSignal

/-- C22: in a `PsSysSuspendExecution` call with the operation Clear that
returns with a dequeued signal, a signal that is in the supplied set (from which
the call has removed STOP, CONTINUE and KILL) is not applied, and the status is
success, or what the copy to user mode returns when the caller asked for the
signal parameters; a signal that is not in that set is applied, and the status
is "interrupted", or again what the copy returns. -/
theorem C22_clear_mode_signal_of_the_set (Env : KERNEL_ENVIRONMENT) (Process : KPROCESS)
    (CurrentThread Frequency : Nat) (CopyStatus : KSTATUS)
    (Parameters : SYSTEM_CALL_SUSPEND_EXECUTION) (Rounds : List SUSPEND_ROUND)
    (Result : SUSPEND_EXECUTION)
    (hClear : Parameters.SignalOperation = .SignalMaskOperationClear)
    (hResult : PsSysSuspendExecution Env Process CurrentThread Frequency CopyStatus Parameters
      Rounds = some Result)
    (hSignal : Result.SignalNumber ≠ ULONG_MINUS_ONE) :
    (IS_SIGNAL_SET (PsSysSuspendExecutionSignalSet Parameters) Result.SignalNumber = true →
      Result.AppliedSignals = [] ∧
      Result.Parameters.Status =
        if Parameters.SignalParameters then CopyStatus else .STATUS_SUCCESS) ∧
    (IS_SIGNAL_SET (PsSysSuspendExecutionSignalSet Parameters) Result.SignalNumber = false →
      (∃ Signal, Result.AppliedSignals = [Signal]) ∧
      Result.Parameters.Status =
        if Parameters.SignalParameters then CopyStatus else .STATUS_INTERRUPTED) := by
  obtain ⟨Signal, hA, hS⟩ := PsSysSuspendExecution_clear Env Process CurrentThread Frequency
    CopyStatus Parameters Rounds Result hClear hResult hSignal
  refine ⟨?_, ?_⟩
  · intro hIn
    rw [hA, hS]
    simp [PsSysSuspendExecutionApplySignal, PsSysSuspendExecutionSignalStatus, hIn]
  · intro hOut
    rw [hA, hS]
    refine ⟨⟨Signal, ?_⟩, ?_⟩
    · simp [PsSysSuspendExecutionApplySignal, hOut]
    · simp [PsSysSuspendExecutionSignalStatus, hOut]

/-- Witness of C22 on `ExampleProcess`, whose thread has the signals 2 and 3
pending: with signal 3 unblocked for the call, signal 2 is dequeued; it is not
in the set, so it is applied and the status is "interrupted". -/
theorem C22_clear_mode_signal_of_the_set_witness :
    ∃ Result,
      PsSysSuspendExecution ExampleEnvironment ExampleProcess 0 1000 .STATUS_SUCCESS
        ExampleSuspendClear [ExampleQuietRound] = some Result ∧
      Result.SignalNumber = 2 ∧
      (∃ Signal, Result.AppliedSignals = [Signal]) ∧
      Result.Parameters.Status = .STATUS_INTERRUPTED :=
  ⟨_, rfl, by decide,
    (C22_clear_mode_signal_of_the_set ExampleEnvironment ExampleProcess 0 1000 .STATUS_SUCCESS
      ExampleSuspendClear [ExampleQuietRound] _ rfl rfl (by decide)).2 (by decide)⟩

/-- On `ExampleQueueProcess`, whose thread blocks signal 3 and has it pending,
the call that unblocks signal 3 dequeues signal 3, which is in the supplied set:
the signal is not applied, and the status is success, not "interrupted". -/
theorem C22_signal_of_the_set_is_success_counterexample :
    ∃ Result,
      PsSysSuspendExecution ExampleEnvironment ExampleQueueProcess 0 1000 .STATUS_SUCCESS
        ExampleSuspendClear [ExampleQuietRound] = some Result ∧
      ExampleSuspendClear.SignalOperation = .SignalMaskOperationClear ∧
      Result.SignalNumber = 3 ∧
      IS_SIGNAL_SET ExampleSuspendClear.SignalSet Result.SignalNumber = true ∧
      Result.AppliedSignals = [] ∧
      Result.Parameters.Status = .STATUS_SUCCESS ∧
      Result.Parameters.Status ≠ .STATUS_INTERRUPTED :=
  ⟨_, rfl, by decide, by decide, by decide, by decide, by decide, by decide⟩

/-! ## Suspend execution: the timeout of the later waits -/

/-- C23: a call with a timeout of 100 milliseconds whose first two waits are
interrupted after 90 milliseconds each, with no signal to deliver. The timeouts
handed to `KeDelayExecution` are 100, 90 and 90 milliseconds: the second and the
third wait are given the time that went by since the wait before them began,
not the 10 and 0 milliseconds that are left of the 100, and the call ends in a
timeout after 270 milliseconds of waiting. -/
theorem C23_timeout_is_time_elapsed_not_time_left :
    (PsSysSuspendExecution ExampleEnvironment ExampleIdleProcess 0 1000 .STATUS_SUCCESS
      ExampleSuspendTimeout ExampleInterruptedRounds).map
        (fun Result => (Result.Parameters.Status, Result.Timeouts)) =
      some (.STATUS_TIMEOUT, [100000, 90000, 90000]) ∧
    PsSysSuspendExecutionTimeout 1000 100 5000 5090 = 90 ∧
    PsSysSuspendExecutionTimeout 1000 90 5090 5180 = 90 := by
  decide


/-! ## Wait: the validation of the selector -/

theorem PspValidateWaitParameters_status (System : KSYSTEM) (Process : Nat) (ProcessId : Int) :
    PspValidateWaitParameters System Process ProcessId = .STATUS_SUCCESS ∨
    PspValidateWaitParameters System Process ProcessId = .STATUS_NO_ELIGIBLE_CHILDREN := by
  unfold PspValidateWaitParameters
  split_ifs <;> simp

/-- The children of the caller in `ExampleGroupZeroSystem` are outside
`ChildIdentifiersNonZero`: the only child has the process identifier 8 and the
process group identifier 0, the value that the local `MatchingProcessGroup`
keeps for a positive selector. There the selector 5 is accepted although no
child has that process identifier; `PspValidateWaitParameters_iff` gives what
is accepted in general. -/
theorem PspValidateWaitParameters_group_zero_child :
    ¬ ChildIdentifiersNonZero ExampleGroupZeroSystem 1 ∧
    ¬ WaitSelectorValid ExampleGroupZeroSystem 1 5 ∧
    PspValidateWaitParameters ExampleGroupZeroSystem 1 5 = .STATUS_SUCCESS := by
  decide

theorem PspMatchChildWaitReason_iff (WaitFlags Reason : Nat) :
    PspMatchChildWaitReason WaitFlags Reason = true ↔
      ∃ r : CHILD_SIGNAL_REASON, r.Code = Reason ∧ WaitFlags &&& ReasonClassFlag r ≠ 0 := by
  unfold PspMatchChildWaitReason
  simp only [CHILD_SIGNAL_REASON.Code, Bool.or_eq_true, beq_iff_eq]
  split_ifs with h1 h2 h3
  · rcases h1 with (h | h) | h
    · subst h
      constructor
      · intro hf
        exact ⟨.CHILD_SIGNAL_REASON_EXITED, rfl, by simpa [ReasonClassFlag] using hf⟩
      · rintro ⟨r, hr, hf⟩
        cases r <;> simp_all [CHILD_SIGNAL_REASON.Code, ReasonClassFlag]
    · subst h
      constructor
      · intro hf
        exact ⟨.CHILD_SIGNAL_REASON_KILLED, rfl, by simpa [ReasonClassFlag] using hf⟩
      · rintro ⟨r, hr, hf⟩
        cases r <;> simp_all [CHILD_SIGNAL_REASON.Code, ReasonClassFlag]
    · subst h
      constructor
      · intro hf
        exact ⟨.CHILD_SIGNAL_REASON_DUMPED, rfl, by simpa [ReasonClassFlag] using hf⟩
      · rintro ⟨r, hr, hf⟩
        cases r <;> simp_all [CHILD_SIGNAL_REASON.Code, ReasonClassFlag]
  · rcases h2 with h | h
    · subst h
      constructor
      · intro hf
        exact ⟨.CHILD_SIGNAL_REASON_STOPPED, rfl, by simpa [ReasonClassFlag] using hf⟩
      · rintro ⟨r, hr, hf⟩
        cases r <;> simp_all [CHILD_SIGNAL_REASON.Code, ReasonClassFlag]
    · subst h
      constructor
      · intro hf
        exact ⟨.CHILD_SIGNAL_REASON_TRAPPED, rfl, by simpa [ReasonClassFlag] using hf⟩
      · rintro ⟨r, hr, hf⟩
        cases r <;> simp_all [CHILD_SIGNAL_REASON.Code, ReasonClassFlag]
  · subst h3
    constructor
    · intro hf
      exact ⟨.CHILD_SIGNAL_REASON_CONTINUED, rfl, by simpa [ReasonClassFlag] using hf⟩
    · rintro ⟨r, hr, hf⟩
      cases r <;> simp_all [CHILD_SIGNAL_REASON.Code, ReasonClassFlag]
  · simp only [Bool.false_eq_true, false_iff]
    rintro ⟨r, hr, _⟩
    cases r <;> simp_all [CHILD_SIGNAL_REASON.Code]

/-- C27: `PspMatchChildWaitRequestWithProcessId` returns FALSE for every entry
whose signal is not the child signal. For an entry of the child signal and the
selector `-1` it returns TRUE exactly when the wait flags contain the class of
the reason of the entry (exited, killed and dumped are "exited children",
stopped and trapped are "stopped children", continued is "continued children");
for a positive selector it returns TRUE exactly when, in addition, the sender of
the entry is the selector. -/
theorem C27_match_child_wait_request (System : KSYSTEM) (WaitPidRequest : Int)
    (WaitFlags : Nat) (SignalQueueEntry : SIGNAL_QUEUE_ENTRY) :
    (SignalQueueEntry.Parameters.SignalNumber ≠ SIGNAL_CHILD_PROCESS_ACTIVITY →
      PspMatchChildWaitRequestWithProcessId System WaitPidRequest WaitFlags SignalQueueEntry =
        false) ∧
    (SignalQueueEntry.Parameters.SignalNumber = SIGNAL_CHILD_PROCESS_ACTIVITY →
      (PspMatchChildWaitRequestWithProcessId System (-1) WaitFlags SignalQueueEntry = true ↔
        WaitFlagsAcceptReason WaitFlags SignalQueueEntry)) ∧
    (SignalQueueEntry.Parameters.SignalNumber = SIGNAL_CHILD_PROCESS_ACTIVITY →
      0 < WaitPidRequest →
      (PspMatchChildWaitRequestWithProcessId System WaitPidRequest WaitFlags SignalQueueEntry =
          true ↔
        (SignalQueueEntry.Parameters.SendingProcess : Int) = WaitPidRequest ∧
          WaitFlagsAcceptReason WaitFlags SignalQueueEntry)) := by
  refine ⟨?_, ?_, ?_⟩
  · intro h
    unfold PspMatchChildWaitRequestWithProcessId
    rw [if_pos (by simpa using h)]
  · intro h
    unfold PspMatchChildWaitRequestWithProcessId WaitFlagsAcceptReason
    rw [if_neg (by simp [h]), if_pos (by simp [PspMatchChildWaitProcess]),
      PspMatchChildWaitReason_iff]
  · intro h hp
    unfold PspMatchChildWaitRequestWithProcessId WaitFlagsAcceptReason
    rw [if_neg (by simp [h])]
    by_cases hs : (SignalQueueEntry.Parameters.SendingProcess : Int) = WaitPidRequest
    · rw [if_pos (by simp [PspMatchChildWaitProcess, hp, hs]), PspMatchChildWaitReason_iff]
      simp [hs]
    · rw [if_neg (by simp [PspMatchChildWaitProcess, hp, hs])]
      simp [hs]

/-- Witness of C27 on the entry of the exited child 8: it matches the selector
8 under the flag "exited children" and does not match under the flag "stopped
children". -/
theorem C27_match_child_wait_request_witness :
    PspMatchChildWaitRequestWithProcessId ExampleWaitSystem 8
      SYSTEM_CALL_WAIT_FLAG_EXITED_CHILDREN ExampleExitedEntry = true ∧
    ¬ WaitFlagsAcceptReason SYSTEM_CALL_WAIT_FLAG_STOPPED_CHILDREN ExampleExitedEntry :=
  ⟨by decide,
    fun h =>
      absurd
        (((C27_match_child_wait_request ExampleWaitSystem (-1)
          SYSTEM_CALL_WAIT_FLAG_STOPPED_CHILDREN ExampleExitedEntry).2.1 (by decide)).2 h)
        (by decide)⟩

/-! ## Wait: the entry of a child that is waited for -/

theorem SetChildResourceUsage_Process (S : KSYSTEM) (p q : Nat) (V : RESOURCE_USAGE) :
    (S.SetChildResourceUsage p V).Process q =
      if p = q ∧ p < S.Processes.length then { S.Process p with ChildResourceUsage := V }
      else S.Process q := by
  simp only [KSYSTEM.SetChildResourceUsage, KSYSTEM.Process, List.getD_eq_getElem?_getD,
    List.getElem?_set]
  by_cases h : p = q
  · subst h
    by_cases hl : p < S.Processes.length
    · simp [hl]
    · have hl2 : S.Processes.length ≤ p := by omega
      simp [hl, List.getElem?_eq_none hl2]
  · simp [h]

theorem PspAccumulateChildResourceUsage_Process (S : KSYSTEM) (f : Nat)
    (E : SIGNAL_QUEUE_ENTRY) (q : Nat) :
    ((PspAccumulateChildResourceUsage S f E).Process q).Process = (S.Process q).Process := by
  unfold PspAccumulateChildResourceUsage
  split
  · rw [SetChildResourceUsage_Process]
    split
    · rename_i hc
      rw [hc.1]
    · rfl
  · rfl

theorem find?_eraseP_decompose {α : Type} (p : α → Bool) :
    ∀ (l : List α) (a : α), l.find? p = some a →
      ∃ l₁ l₂, (∀ b ∈ l₁, p b = false) ∧ p a = true ∧ l = l₁ ++ a :: l₂ ∧
        l.eraseP p = l₁ ++ l₂ := by
  intro l
  induction l with
  | nil => intro a h; simp at h
  | cons x l ih =>
    intro a h
    by_cases hx : p x = true
    · simp only [List.find?_cons, hx, Option.some.injEq] at h
      subst h
      exact ⟨[], l, by simp, hx, rfl, by simp [List.eraseP_cons, hx]⟩
    · simp only [Bool.not_eq_true] at hx
      simp only [List.find?_cons, hx] at h
      obtain ⟨l₁, l₂, h1, h2, h3, h4⟩ := ih a h
      refine ⟨x :: l₁, l₂, ?_, h2, by simp [h3], by simp [List.eraseP_cons, hx, h4]⟩
      intro b hb
      rcases List.mem_cons.mp hb with hb | hb
      · rw [hb]; exact hx
      · exact h1 b hb

theorem eraseP_find?_none {α : Type} (p : α → Bool) (l : List α) (h : l.find? p = none) :
    l.eraseP p = l := by
  apply List.eraseP_of_forall_not
  intro a ha
  have := List.find?_eq_none.mp h a ha
  simpa using this

theorem EntryAt_eq_none (P : KPROCESS) (A : Nat)
    (h : ∀ x ∈ P.LinkedEntries, x.Address ≠ A) : P.EntryAt A = none := by
  unfold KPROCESS.EntryAt
  rw [List.find?_eq_none]
  intro x hx
  simpa using h x hx

theorem Nodup_erase_middle (l₁ l₂ R : List SIGNAL_QUEUE_ENTRY) (E : SIGNAL_QUEUE_ENTRY)
    (h : ((l₁ ++ E :: l₂ ++ R).map SIGNAL_QUEUE_ENTRY.Address).Nodup) :
    ∀ x ∈ l₁ ++ l₂ ++ R, x.Address ≠ E.Address := by
  have h2 : (l₁ ++ E :: l₂ ++ R) = l₁ ++ E :: (l₂ ++ R) := by simp
  rw [h2, List.map_append, List.map_cons, List.nodup_middle, List.nodup_cons] at h
  intro x hx hc
  apply h.1
  rw [← hc, ← List.map_append]
  apply List.mem_map_of_mem
  simpa [List.append_assoc] using hx

theorem Nodup_erase_second (B l₁ l₂ R : List SIGNAL_QUEUE_ENTRY) (E : SIGNAL_QUEUE_ENTRY)
    (h : ((B ++ (l₁ ++ E :: l₂) ++ R).map SIGNAL_QUEUE_ENTRY.Address).Nodup) :
    ∀ x ∈ B ++ (l₁ ++ l₂) ++ R, x.Address ≠ E.Address := by
  have h2 : (B ++ (l₁ ++ E :: l₂) ++ R) = (B ++ l₁) ++ E :: l₂ ++ R := by simp
  rw [h2] at h
  have := Nodup_erase_middle (B ++ l₁) l₂ R E h
  intro x hx
  apply this
  simpa [List.append_assoc] using hx

/-- The value of `PspGetChildSignalEntry`, and the state it leaves when the
entry is not to be discarded. -/
theorem PspGetChildSignalEntry_value (System : KSYSTEM) (ProcessId : Int) (WaitFlags : Nat) :
    (PspGetChildSignalEntry System ProcessId WaitFlags).1 =
      FirstChildSignalEntry System ProcessId WaitFlags ∧
    (WaitFlags &&& SYSTEM_CALL_WAIT_FLAG_DONT_DISCARD_CHILD ≠ 0 →
      (PspGetChildSignalEntry System ProcessId WaitFlags).2 = System) ∧
    (FirstChildSignalEntry System ProcessId WaitFlags = none →
      (PspGetChildSignalEntry System ProcessId WaitFlags).2 = System) := by
  unfold PspGetChildSignalEntry FirstChildSignalEntry KSYSTEM.CurrentSignals
  cases hB : (System.Process System.CurrentProcess).Process.BlockedSignalListHead.find?
      (PspMatchChildWaitRequestWithProcessId System ProcessId WaitFlags) with
  | some F =>
    simp only
    by_cases hd : WaitFlags &&& SYSTEM_CALL_WAIT_FLAG_DONT_DISCARD_CHILD = 0
    · rw [if_neg (by simp [hd])]
      exact ⟨rfl, fun hc => absurd hd hc, (fun hc => by cases hc)⟩
    · rw [if_pos (by simp [hd])]
      exact ⟨rfl, fun _ => rfl, (fun hc => by cases hc)⟩
  | none =>
    simp only
    cases hQ : (System.Process System.CurrentProcess).Process.SignalListHead.find?
        (PspMatchChildWaitRequestWithProcessId System ProcessId WaitFlags) with
    | some F =>
      simp only
      by_cases hd : WaitFlags &&& SYSTEM_CALL_WAIT_FLAG_DONT_DISCARD_CHILD = 0
      · rw [if_neg (by simp [hd])]
        exact ⟨rfl, fun hc => absurd hd hc, (fun hc => by cases hc)⟩
      · rw [if_pos (by simp [hd])]
        exact ⟨rfl, fun _ => rfl, (fun hc => by cases hc)⟩
    | none => exact ⟨rfl, fun _ => rfl, fun _ => rfl⟩

/-- The state that `PspGetChildSignalEntry` leaves when it discards the entry
it returns. -/
theorem PspGetChildSignalEntry_discard (System : KSYSTEM) (ProcessId : Int) (WaitFlags : Nat)
    (E : SIGNAL_QUEUE_ENTRY)
    (hDiscard : WaitFlags &&& SYSTEM_CALL_WAIT_FLAG_DONT_DISCARD_CHILD = 0)
    (hE : FirstChildSignalEntry System ProcessId WaitFlags = some E) :
    ∃ Lists : KPROCESS,
      (PspGetChildSignalEntry System ProcessId WaitFlags).2 =
        PspAccumulateChildResourceUsage (System.SetProcess System.CurrentProcess Lists)
          WaitFlags E ∧
      Lists.BlockedSignalListHead =
        System.CurrentSignals.BlockedSignalListHead.eraseP
          (PspMatchChildWaitRequestWithProcessId System ProcessId WaitFlags) ∧
      Lists.SignalListHead =
        (if System.CurrentSignals.BlockedSignalListHead.any
            (PspMatchChildWaitRequestWithProcessId System ProcessId WaitFlags) then
          System.CurrentSignals.SignalListHead
        else
          System.CurrentSignals.SignalListHead.eraseP
            (PspMatchChildWaitRequestWithProcessId System ProcessId WaitFlags)) ∧
      Lists.ThreadListHead = System.CurrentSignals.ThreadListHead ∧
      (System.CurrentSignals.EntriesDistinct → Lists.EntryAt E.Address = none) := by
  unfold PspGetChildSignalEntry
  unfold FirstChildSignalEntry at hE
  unfold KSYSTEM.CurrentSignals at hE ⊢
  cases hF : (System.Process System.CurrentProcess).Process.BlockedSignalListHead.find?
      (PspMatchChildWaitRequestWithProcessId System ProcessId WaitFlags) with
  | some F =>
    rw [hF] at hE
    simp only [Option.some.injEq] at hE
    subst hE
    simp only
    rw [if_neg (by simp [hDiscard])]
    obtain ⟨l₁, l₂, h1, h2, h3, h4⟩ := find?_eraseP_decompose _ _ _ hF
    have hany : (System.Process System.CurrentProcess).Process.BlockedSignalListHead.any
        (PspMatchChildWaitRequestWithProcessId System ProcessId WaitFlags) = true := by
      rw [List.any_eq_true]
      exact ⟨F, by rw [h3]; simp, h2⟩
    refine ⟨_, rfl, rfl, by simp [hany], rfl, ?_⟩
    intro hn
    apply EntryAt_eq_none
    unfold KPROCESS.EntriesDistinct KPROCESS.LinkedEntries at hn
    unfold KPROCESS.LinkedEntries
    simp only
    rw [h4]
    rw [h3] at hn
    have := Nodup_erase_middle l₁ l₂
      ((System.Process System.CurrentProcess).Process.SignalListHead ++
        (System.Process System.CurrentProcess).Process.ThreadListHead.flatMap
          KTHREAD.SignalListHead) F (by simpa [List.append_assoc] using hn)
    intro x hx
    apply this
    simpa [List.append_assoc] using hx
  | none =>
    rw [hF] at hE
    simp only at hE ⊢
    rw [hE]
    simp only
    rw [if_neg (by simp [hDiscard])]
    obtain ⟨l₁, l₂, h1, h2, h3, h4⟩ := find?_eraseP_decompose _ _ _ hE
    have hany : (System.Process System.CurrentProcess).Process.BlockedSignalListHead.any
        (PspMatchChildWaitRequestWithProcessId System ProcessId WaitFlags) = false := by
      rw [List.any_eq_false]
      intro x hx
      simpa using List.find?_eq_none.mp hF x hx
    refine ⟨_, rfl, (eraseP_find?_none _ _ hF).symm, by simp [hany], rfl, ?_⟩
    intro hn
    apply EntryAt_eq_none
    unfold KPROCESS.EntriesDistinct KPROCESS.LinkedEntries at hn
    unfold KPROCESS.LinkedEntries
    simp only
    rw [h4]
    rw [h3] at hn
    exact Nodup_erase_second _ l₁ l₂ _ E hn

theorem FirstChildSignalEntry_matches (System : KSYSTEM) (ProcessId : Int) (WaitFlags : Nat)
    (E : SIGNAL_QUEUE_ENTRY) (h : FirstChildSignalEntry System ProcessId WaitFlags = some E) :
    PspMatchChildWaitRequestWithProcessId System ProcessId WaitFlags E = true := by
  unfold FirstChildSignalEntry at h
  split at h
  · rename_i F hF
    simp only [Option.some.injEq] at h
    subst h
    exact List.find?_some hF
  · exact List.find?_some h

theorem PspMatchChildWaitRequestWithProcessId_exit (System : KSYSTEM) (ProcessId : Int)
    (WaitFlags : Nat) (E : SIGNAL_QUEUE_ENTRY)
    (h : PspMatchChildWaitRequestWithProcessId System ProcessId WaitFlags E = true)
    (hx : EntryReportsExit E) :
    WaitFlags &&& SYSTEM_CALL_WAIT_FLAG_EXITED_CHILDREN ≠ 0 := by
  unfold PspMatchChildWaitRequestWithProcessId at h
  split at h
  · cases h
  · split at h
    · unfold PspMatchChildWaitReason at h
      unfold EntryReportsExit at hx
      rw [if_pos (by simpa [or_assoc] using hx)] at h
      simpa using h
    · cases h

theorem find?_set_usage (q : SYSTEM_PROCESS → Bool)
    (hq : ∀ (x : SYSTEM_PROCESS) (V : KPROCESS), q { x with Process := V } = q x) :
    ∀ (L : List SYSTEM_PROCESS) (p : Nat) (V : KPROCESS),
      ((L.set p { L.getD p SYSTEM_PROCESS.Zero with Process := V }).find? q).map
          (fun x => (x.ResourceUsage, x.ChildResourceUsage)) =
        (L.find? q).map (fun x => (x.ResourceUsage, x.ChildResourceUsage)) := by
  intro L
  induction L with
  | nil => intro p V; rfl
  | cons a L ih =>
    intro p V
    cases p with
    | zero =>
      simp only [List.set_cons_zero, List.getD_cons_zero, List.find?_cons, hq]
      cases q a <;> rfl
    | succ p =>
      simp only [List.set_cons_succ, List.getD_cons_succ, List.find?_cons]
      cases q a
      · exact ih p V
      · rfl

theorem ChildSignalOwner_SetProcess (S : KSYSTEM) (p : Nat) (V : KPROCESS)
    (E : SIGNAL_QUEUE_ENTRY) :
    ((S.SetProcess p V).ChildSignalOwner E).ResourceUsage =
        (S.ChildSignalOwner E).ResourceUsage ∧
    ((S.SetProcess p V).ChildSignalOwner E).ChildResourceUsage =
        (S.ChildSignalOwner E).ChildResourceUsage := by
  have h := find?_set_usage (fun Process => Process.ChildSignal.Address == E.Address)
    (fun _ _ => rfl) S.Processes p V
  unfold KSYSTEM.ChildSignalOwner KSYSTEM.SetProcess KSYSTEM.Process
  simp only
  cases h1 : (S.Processes.set p { S.Processes.getD p SYSTEM_PROCESS.Zero with
      Process := V }).find? (fun Process => Process.ChildSignal.Address == E.Address) <;>
    cases h2 : S.Processes.find? (fun Process => Process.ChildSignal.Address == E.Address) <;>
    rw [h1, h2] at h <;> simp at h ⊢
  exact h

/-- The resource usage counters after `PspGetChildSignalEntry` has discarded
the entry `E`. -/
theorem PspAccumulateChildResourceUsage_usage (S : KSYSTEM) (p : Nat) (V : KPROCESS)
    (f : Nat) (E : SIGNAL_QUEUE_ENTRY) (hp : p = S.CurrentProcess)
    (hCurrent : S.CurrentProcess < S.Processes.length) :
    (f &&& SYSTEM_CALL_WAIT_FLAG_EXITED_CHILDREN ≠ 0 →
      ((PspAccumulateChildResourceUsage (S.SetProcess p V) f E).Process
          S.CurrentProcess).ChildResourceUsage =
        PspAddResourceUsages
          (PspAddResourceUsages (S.Process S.CurrentProcess).ChildResourceUsage
            (S.ChildSignalOwner E).ResourceUsage)
          (S.ChildSignalOwner E).ChildResourceUsage) ∧
    (f &&& SYSTEM_CALL_WAIT_FLAG_EXITED_CHILDREN = 0 →
      ∀ q, ((PspAccumulateChildResourceUsage (S.SetProcess p V) f E).Process
          q).ChildResourceUsage = (S.Process q).ChildResourceUsage) ∧
    (∀ q, ((PspAccumulateChildResourceUsage (S.SetProcess p V) f E).Process q).ResourceUsage =
      (S.Process q).ResourceUsage) ∧
    (∀ q, q ≠ S.CurrentProcess →
      ((PspAccumulateChildResourceUsage (S.SetProcess p V) f E).Process q).ChildResourceUsage =
        (S.Process q).ChildResourceUsage) := by
  subst hp
  have hcur : (S.SetProcess S.CurrentProcess V).CurrentProcess = S.CurrentProcess := rfl
  have hlen : (S.SetProcess S.CurrentProcess V).Processes.length = S.Processes.length := by
    simp [KSYSTEM.SetProcess]
  have hset : ∀ q, ((S.SetProcess S.CurrentProcess V).Process q).ResourceUsage =
        (S.Process q).ResourceUsage ∧
      ((S.SetProcess S.CurrentProcess V).Process q).ChildResourceUsage =
        (S.Process q).ChildResourceUsage := by
    intro q
    rw [SetProcess_Process]
    split
    · rename_i hc
      rw [← hc.1]
      exact ⟨rfl, rfl⟩
    · exact ⟨rfl, rfl⟩
  obtain ⟨o1, o2⟩ := ChildSignalOwner_SetProcess S S.CurrentProcess V E
  unfold PspAccumulateChildResourceUsage
  refine ⟨?_, ?_, ?_, ?_⟩
  · intro hf
    rw [if_pos (by simpa using hf), SetChildResourceUsage_Process, hcur,
      if_pos ⟨rfl, by rw [hlen]; exact hCurrent⟩, o1, o2, (hset S.CurrentProcess).2]
  · intro hf q
    rw [if_neg (by simp [hf])]
    exact (hset q).2
  · intro q
    split
    · rw [SetChildResourceUsage_Process]
      split
      · rename_i hc
        rw [← hc.1]
        exact (hset _).1
      · exact (hset q).1
    · exact (hset q).1
  · intro q hq
    split
    · rw [SetChildResourceUsage_Process, hcur, if_neg (fun hc => hq hc.1.symm)]
      exact (hset q).2
    · exact (hset q).2

/-- C28: `PspGetChildSignalEntry` returns the first entry of the
blocked-deferred list that matches the request, otherwise the first entry of
the queue of the process that matches, otherwise none. With the "do not discard"
flag, and when no entry matches, the state is left as it was: no list and no
resource usage counter changes. Without the flag the returned entry is taken
off the list it was found on and every other entry keeps its place (so the
entry is detached, the linked entries being distinct); the thread list of the
process and the signal state of every other process stay as they were. -/
theorem C28_get_child_signal_entry (System : KSYSTEM) (ProcessId : Int) (WaitFlags : Nat)
    (hCurrent : System.CurrentProcess < System.Processes.length) :
    (PspGetChildSignalEntry System ProcessId WaitFlags).1 =
      FirstChildSignalEntry System ProcessId WaitFlags ∧
    (WaitFlags &&& SYSTEM_CALL_WAIT_FLAG_DONT_DISCARD_CHILD ≠ 0 →
      (PspGetChildSignalEntry System ProcessId WaitFlags).2 = System) ∧
    ((PspGetChildSignalEntry System ProcessId WaitFlags).1 = none →
      (PspGetChildSignalEntry System ProcessId WaitFlags).2 = System) ∧
    (WaitFlags &&& SYSTEM_CALL_WAIT_FLAG_DONT_DISCARD_CHILD = 0 →
      ∀ SignalEntry, (PspGetChildSignalEntry System ProcessId WaitFlags).1 = some SignalEntry →
        ((PspGetChildSignalEntry System ProcessId WaitFlags).2.Process
            System.CurrentProcess).Process.BlockedSignalListHead =
          System.CurrentSignals.BlockedSignalListHead.eraseP
            (PspMatchChildWaitRequestWithProcessId System ProcessId WaitFlags) ∧
        ((PspGetChildSignalEntry System ProcessId WaitFlags).2.Process
            System.CurrentProcess).Process.SignalListHead =
          (if System.CurrentSignals.BlockedSignalListHead.any
              (PspMatchChildWaitRequestWithProcessId System ProcessId WaitFlags) then
            System.CurrentSignals.SignalListHead
          else
            System.CurrentSignals.SignalListHead.eraseP
              (PspMatchChildWaitRequestWithProcessId System ProcessId WaitFlags)) ∧
        ((PspGetChildSignalEntry System ProcessId WaitFlags).2.Process
            System.CurrentProcess).Process.ThreadListHead =
          System.CurrentSignals.ThreadListHead ∧
        (System.CurrentSignals.EntriesDistinct →
          ((PspGetChildSignalEntry System ProcessId WaitFlags).2.Process
            System.CurrentProcess).Process.EntryAt SignalEntry.Address = none) ∧
        ∀ Other, Other ≠ System.CurrentProcess →
          ((PspGetChildSignalEntry System ProcessId WaitFlags).2.Process Other).Process =
            (System.Process Other).Process) := by
  obtain ⟨v1, v2, v3⟩ := PspGetChildSignalEntry_value System ProcessId WaitFlags
  refine ⟨v1, v2, fun h => v3 (v1 ▸ h), ?_⟩
  intro hDiscard E hE
  rw [v1] at hE
  obtain ⟨Lists, d1, d2, d3, d4, d5⟩ :=
    PspGetChildSignalEntry_discard System ProcessId WaitFlags E hDiscard hE
  have hcur : ((PspGetChildSignalEntry System ProcessId WaitFlags).2.Process
      System.CurrentProcess).Process = Lists := by
    rw [d1, PspAccumulateChildResourceUsage_Process, SetProcess_Process,
      if_pos ⟨rfl, hCurrent⟩]
  rw [hcur]
  refine ⟨d2, d3, d4, d5, ?_⟩
  intro q hq
  rw [d1, PspAccumulateChildResourceUsage_Process, SetProcess_Process,
    if_neg (fun hc => hq hc.1.symm)]

/-- Witness of C28 on `ExampleWaitSystem`: a wait for any exited child returns
the entry of the child 8, the second entry of the blocked-deferred list, and
leaves the entry of the stopped child alone on that list. -/
theorem C28_get_child_signal_entry_witness :
    (PspGetChildSignalEntry ExampleWaitSystem (-1) SYSTEM_CALL_WAIT_FLAG_EXITED_CHILDREN).1 =
      some ExampleExitedEntry ∧
    ((PspGetChildSignalEntry ExampleWaitSystem (-1)
      SYSTEM_CALL_WAIT_FLAG_EXITED_CHILDREN).2.Process 1).Process.BlockedSignalListHead =
        [ExampleStoppedEntry] ∧
    ((PspGetChildSignalEntry ExampleWaitSystem (-1)
      SYSTEM_CALL_WAIT_FLAG_EXITED_CHILDREN).2.Process 1).Process.EntryAt
        ExampleExitedEntry.Address = none :=
  ⟨by decide, by decide,
    ((C28_get_child_signal_entry ExampleWaitSystem (-1) SYSTEM_CALL_WAIT_FLAG_EXITED_CHILDREN
      (by decide)).2.2.2 (by decide) ExampleExitedEntry (by decide)).2.2.2.1
        (by unfold KPROCESS.EntriesDistinct; decide)⟩

/-- C29: when a `PspGetChildSignalEntry` call without the "do not discard" flag
returns an entry, the entry is taken off its list, the other entries keeping
their place. When the entry reports a child that exited, was killed or dumped,
the resource usage of the child and the resource usage that the child has
accumulated for its own children are both added to the child resource usage of
the caller; when the wait flags do not contain "exited children", no resource
usage counter of any process changes. No other counter changes in either
case. -/
theorem C29_child_resource_usage (System : KSYSTEM) (ProcessId : Int) (WaitFlags : Nat)
    (SignalEntry : SIGNAL_QUEUE_ENTRY)
    (hCurrent : System.CurrentProcess < System.Processes.length)
    (hDiscard : WaitFlags &&& SYSTEM_CALL_WAIT_FLAG_DONT_DISCARD_CHILD = 0)
    (hEntry : (PspGetChildSignalEntry System ProcessId WaitFlags).1 = some SignalEntry) :
    ((PspGetChildSignalEntry System ProcessId WaitFlags).2.Process
          System.CurrentProcess).Process.BlockedSignalListHead ++
        ((PspGetChildSignalEntry System ProcessId WaitFlags).2.Process
          System.CurrentProcess).Process.SignalListHead =
      (System.CurrentSignals.BlockedSignalListHead ++
        System.CurrentSignals.SignalListHead).eraseP
          (PspMatchChildWaitRequestWithProcessId System ProcessId WaitFlags) ∧
    (EntryReportsExit SignalEntry →
      ((PspGetChildSignalEntry System ProcessId WaitFlags).2.Process
          System.CurrentProcess).ChildResourceUsage =
        PspAddResourceUsages
          (PspAddResourceUsages (System.Process System.CurrentProcess).ChildResourceUsage
            (System.ChildSignalOwner SignalEntry).ResourceUsage)
          (System.ChildSignalOwner SignalEntry).ChildResourceUsage) ∧
    (WaitFlags &&& SYSTEM_CALL_WAIT_FLAG_EXITED_CHILDREN = 0 →
      ∀ Other, ((PspGetChildSignalEntry System ProcessId WaitFlags).2.Process
          Other).ChildResourceUsage = (System.Process Other).ChildResourceUsage) ∧
    (∀ Other, ((PspGetChildSignalEntry System ProcessId WaitFlags).2.Process
        Other).ResourceUsage = (System.Process Other).ResourceUsage) ∧
    (∀ Other, Other ≠ System.CurrentProcess →
      ((PspGetChildSignalEntry System ProcessId WaitFlags).2.Process
        Other).ChildResourceUsage = (System.Process Other).ChildResourceUsage) := by
  obtain ⟨v1, _, _⟩ := PspGetChildSignalEntry_value System ProcessId WaitFlags
  rw [v1] at hEntry
  obtain ⟨Lists, d1, d2, d3, _, _⟩ :=
    PspGetChildSignalEntry_discard System ProcessId WaitFlags SignalEntry hDiscard hEntry
  obtain ⟨u1, u2, u3, u4⟩ := PspAccumulateChildResourceUsage_usage System System.CurrentProcess
    Lists WaitFlags SignalEntry rfl hCurrent
  have hcur : ((PspGetChildSignalEntry System ProcessId WaitFlags).2.Process
      System.CurrentProcess).Process = Lists := by
    rw [d1, PspAccumulateChildResourceUsage_Process, SetProcess_Process,
      if_pos ⟨rfl, hCurrent⟩]
  have hm := FirstChildSignalEntry_matches System ProcessId WaitFlags SignalEntry hEntry
  rw [d1]
  refine ⟨?_, fun hx => u1 (PspMatchChildWaitRequestWithProcessId_exit System ProcessId
    WaitFlags SignalEntry hm hx), u2, u3, u4⟩
  rw [← d1, hcur, d2, d3]
  cases hany : System.CurrentSignals.BlockedSignalListHead.any
      (PspMatchChildWaitRequestWithProcessId System ProcessId WaitFlags)
  · rw [List.any_eq_false] at hany
    simp only [Bool.false_eq_true, if_false]
    rw [List.eraseP_append_right _ (fun b hb => by simpa using hany b hb),
      List.eraseP_of_forall_not (fun b hb => by simpa using hany b hb)]
  · rw [List.any_eq_true] at hany
    obtain ⟨a, ha1, ha2⟩ := hany
    simp only [if_true]
    rw [List.eraseP_append_left ha2 _ ha1]

/-- Witness of C29 on `ExampleWaitSystem`: a wait for the exited child 8 adds
the 10 and 20 cycles of the child and the 1 and 2 cycles of its children to the
100 and 200 cycles of the caller. -/
theorem C29_child_resource_usage_witness :
    EntryReportsExit ExampleExitedEntry ∧
    ((PspGetChildSignalEntry ExampleWaitSystem 8 SYSTEM_CALL_WAIT_FLAG_EXITED_CHILDREN).2.Process
      1).ChildResourceUsage = { UserCycles := 111, KernelCycles := 222 } :=
  ⟨by unfold EntryReportsExit; decide,
    ((C29_child_resource_usage ExampleWaitSystem 8 SYSTEM_CALL_WAIT_FLAG_EXITED_CHILDREN
      ExampleExitedEntry (by decide) (by decide) (by decide)).2.1
        (by unfold EntryReportsExit; decide)).trans (by decide)⟩

/-- On `ExampleWaitSystem` a wait for any stopped child, without the "do not
discard" flag, returns the entry of the stopped child 9 and adds nothing to the
child resource usage of the caller; and a wait for the exited child 8 adds more
than the resource usage of the child, 111 and 222 cycles instead of 110 and
220. -/
theorem C29_usage_added_counterexample :
    SYSTEM_CALL_WAIT_FLAG_STOPPED_CHILDREN &&& SYSTEM_CALL_WAIT_FLAG_DONT_DISCARD_CHILD = 0 ∧
    (PspGetChildSignalEntry ExampleWaitSystem (-1) SYSTEM_CALL_WAIT_FLAG_STOPPED_CHILDREN).1 =
      some ExampleStoppedEntry ∧
    (ExampleWaitSystem.ChildSignalOwner ExampleStoppedEntry).ResourceUsage =
      { UserCycles := 30, KernelCycles := 40 } ∧
    ((PspGetChildSignalEntry ExampleWaitSystem (-1)
      SYSTEM_CALL_WAIT_FLAG_STOPPED_CHILDREN).2.Process 1).ChildResourceUsage =
        (ExampleWaitSystem.Process 1).ChildResourceUsage ∧
    (PspGetChildSignalEntry ExampleWaitSystem 8 SYSTEM_CALL_WAIT_FLAG_EXITED_CHILDREN).1 =
      some ExampleExitedEntry ∧
    ((PspGetChildSignalEntry ExampleWaitSystem 8
      SYSTEM_CALL_WAIT_FLAG_EXITED_CHILDREN).2.Process 1).ChildResourceUsage ≠
        PspAddResourceUsages (ExampleWaitSystem.Process 1).ChildResourceUsage
          (ExampleWaitSystem.ChildSignalOwner ExampleExitedEntry).ResourceUsage := by
  decide

/-! ## Wait: a call that returns immediately -/

theorem PsSysWaitForChildProcessEnd_Status (P : SYSTEM_CALL_WAIT_FOR_CHILD) (st : KSTATUS) :
    (PsSysWaitForChildProcessEnd P st).Status = st ∧
    (st ≠ .STATUS_SUCCESS → (PsSysWaitForChildProcessEnd P st).ChildPid = -1) := by
  unfold PsSysWaitForChildProcessEnd
  cases st <;> simp [KSUCCESS]

/-- A pass of the wait loop under the "return immediately" flag always ends the
call. -/
theorem PsSysWaitForChildProcessPass_immediately (CopyStatus : KSTATUS)
    (P : SYSTEM_CALL_WAIT_FOR_CHILD) (n : Nat) (A : List SIGNAL_PARAMETERS) (S : KSYSTEM)
    (hFlag : P.Flags &&& SYSTEM_CALL_WAIT_FLAG_RETURN_IMMEDIATELY ≠ 0) :
    ∃ R, PsSysWaitForChildProcessPass CopyStatus P n A S = some R ∧
      R.AppliedSignals = A ∧
      (FirstChildSignalEntry S P.ChildPid P.Flags = none →
        R.Parameters.Status = .STATUS_NO_DATA_AVAILABLE ∧ R.Parameters.ChildPid = -1) ∧
      (FirstChildSignalEntry S P.ChildPid P.Flags ≠ none →
        R.Parameters.Status = if P.ResourceUsage then CopyStatus else .STATUS_SUCCESS) := by
  obtain ⟨v1, _, _⟩ := PspGetChildSignalEntry_value S P.ChildPid P.Flags
  unfold PsSysWaitForChildProcessPass
  rw [v1]
  cases hF : FirstChildSignalEntry S P.ChildPid P.Flags with
  | some E =>
    simp only
    refine ⟨_, rfl, rfl, (fun hc => by cases hc), fun _ => ?_⟩
    exact (PsSysWaitForChildProcessEnd_Status _ _).1
  | none =>
    simp only
    rw [if_pos (by simpa using hFlag)]
    refine ⟨_, rfl, rfl, fun _ => ?_, fun hc => absurd rfl hc⟩
    exact ⟨(PsSysWaitForChildProcessEnd_Status _ _).1,
      (PsSysWaitForChildProcessEnd_Status _ _).2 (by decide)⟩

/-- C25: a `PsSysWaitForChildProcess` call whose flags contain "return
immediately" never returns the status "interrupted", also when the signal
dispatch inside the call has dequeued and applied a signal (the copy to user
mode is taken not to return that status). When the flags name a class of
children and the selector passes the validation, the call returns as soon as
the dispatch comes back, and when no child entry matches the request then, the
status is "no data available" and the returned child is `-1`. When the selector
does not pass the validation the status is "no eligible children", and when the
flags name no class of children it is "invalid parameter"; the returned child
is `-1` in both cases. -/
theorem C25_wait_returns_immediately (Env : KERNEL_ENVIRONMENT) (System : KSYSTEM)
    (CopyStatus : KSTATUS) (Parameters : SYSTEM_CALL_WAIT_FOR_CHILD)
    (Arrivals : List SIGNAL_ARRIVAL) (Rounds : List (List SIGNAL_ARRIVAL))
    (hFlag : Parameters.Flags &&& SYSTEM_CALL_WAIT_FLAG_RETURN_IMMEDIATELY ≠ 0)
    (hCopy : CopyStatus ≠ .STATUS_INTERRUPTED) :
    (∀ Result,
      PsSysWaitForChildProcess Env System CopyStatus Parameters (Arrivals :: Rounds) =
        some Result →
      Result.Parameters.Status ≠ .STATUS_INTERRUPTED) ∧
    (Parameters.Flags &&& SYSTEM_CALL_WAIT_FLAG_CHILD_MASK ≠ 0 →
      PspValidateWaitParameters System System.CurrentProcess Parameters.ChildPid =
        .STATUS_SUCCESS →
      ∀ Dispatch,
        PsDispatchPendingSignalsOnCurrentThread Env
          (Arrivals.foldl (PsSignalArrival Env) System.CurrentSignals) System.CurrentThread =
            some Dispatch →
        FirstChildSignalEntry (System.SetProcess System.CurrentProcess Dispatch.Process)
          Parameters.ChildPid Parameters.Flags = none →
        ∃ Result,
          PsSysWaitForChildProcess Env System CopyStatus Parameters (Arrivals :: Rounds) =
            some Result ∧
          Result.AppliedSignals = Dispatch.AppliedSignals ∧
          Result.Parameters.Status = .STATUS_NO_DATA_AVAILABLE ∧
          Result.Parameters.ChildPid = -1) ∧
    (Parameters.Flags &&& SYSTEM_CALL_WAIT_FLAG_CHILD_MASK ≠ 0 →
      PspValidateWaitParameters System System.CurrentProcess Parameters.ChildPid ≠
        .STATUS_SUCCESS →
      ∃ Result,
        PsSysWaitForChildProcess Env System CopyStatus Parameters (Arrivals :: Rounds) =
          some Result ∧
        Result.Parameters.Status = .STATUS_NO_ELIGIBLE_CHILDREN ∧
        Result.Parameters.ChildPid = -1) ∧
    (Parameters.Flags &&& SYSTEM_CALL_WAIT_FLAG_CHILD_MASK = 0 →
      ∃ Result,
        PsSysWaitForChildProcess Env System CopyStatus Parameters (Arrivals :: Rounds) =
          some Result ∧
        Result.Parameters.Status = .STATUS_INVALID_PARAMETER ∧
        Result.Parameters.ChildPid = -1) := by
  refine ⟨?_, ?_, ?_, ?_⟩
  · intro Result h
    unfold PsSysWaitForChildProcess at h
    split at h
    · simp only [Option.some.injEq] at h
      subst h
      rw [(PsSysWaitForChildProcessEnd_Status _ _).1]
      decide
    · simp only [PsSysWaitForChildProcessLoop] at h
      split at h
      · simp only [Option.some.injEq] at h
        subst h
        rw [(PsSysWaitForChildProcessEnd_Status _ _).1]
        rcases PspValidateWaitParameters_status System System.CurrentProcess
          Parameters.ChildPid with hv | hv <;> rw [hv] <;> decide
      · split at h
        · cases h
        · rename_i D hD
          obtain ⟨R, hR, _, r2, r3⟩ := PsSysWaitForChildProcessPass_immediately CopyStatus
            Parameters D.SignalNumber ([] ++ D.AppliedSignals)
            (System.SetProcess System.CurrentProcess D.Process) hFlag
          rw [hR] at h
          simp only [Option.some.injEq] at h
          subst h
          cases hF : FirstChildSignalEntry (System.SetProcess System.CurrentProcess D.Process)
              Parameters.ChildPid Parameters.Flags with
          | none =>
            rw [(r2 hF).1]
            decide
          | some E =>
            rw [r3 (by rw [hF]; exact fun hc => by cases hc)]
            split
            · exact hCopy
            · decide
  · intro hMask hValid D hD hNone
    obtain ⟨R, hR, r1, r2, _⟩ := PsSysWaitForChildProcessPass_immediately CopyStatus
      Parameters D.SignalNumber ([] ++ D.AppliedSignals)
      (System.SetProcess System.CurrentProcess D.Process) hFlag
    refine ⟨R, ?_, by simpa using r1, (r2 hNone).1, (r2 hNone).2⟩
    unfold PsSysWaitForChildProcess
    rw [if_neg (by simpa using hMask)]
    simp only [PsSysWaitForChildProcessLoop]
    rw [if_neg (by simp [hValid, KSUCCESS]), hD]
    simp only
    rw [hR]
  · intro hMask hValid
    have hv := (PspValidateWaitParameters_status System System.CurrentProcess
      Parameters.ChildPid).resolve_left hValid
    refine ⟨⟨PsSysWaitForChildProcessEnd Parameters .STATUS_NO_ELIGIBLE_CHILDREN, [], [],
      System⟩, ?_, (PsSysWaitForChildProcessEnd_Status Parameters
      .STATUS_NO_ELIGIBLE_CHILDREN).1,
      (PsSysWaitForChildProcessEnd_Status Parameters .STATUS_NO_ELIGIBLE_CHILDREN).2
        (by decide)⟩
    unfold PsSysWaitForChildProcess
    rw [if_neg (by simpa using hMask)]
    simp only [PsSysWaitForChildProcessLoop]
    rw [if_pos (by simp [hv, KSUCCESS]), hv]
  · intro hMask
    refine ⟨⟨PsSysWaitForChildProcessEnd Parameters .STATUS_INVALID_PARAMETER, [], [],
      System⟩, ?_, (PsSysWaitForChildProcessEnd_Status Parameters
      .STATUS_INVALID_PARAMETER).1,
      (PsSysWaitForChildProcessEnd_Status Parameters .STATUS_INVALID_PARAMETER).2
        (by decide)⟩
    unfold PsSysWaitForChildProcess
    rw [if_pos (by simpa using hMask)]

/-- Witness of C25 on `ExampleWaitSystem`: signal 2 reaches the calling thread
before the dispatch, which dequeues and applies it; the wait for a continued
child finds no entry and returns "no data available", not "interrupted". -/
theorem C25_wait_returns_immediately_witness :
    ∃ Result,
      PsSysWaitForChildProcess ExampleEnvironment ExampleWaitSystem .STATUS_SUCCESS
        ExampleWaitContinued [[ExampleArrival]] = some Result ∧
      Result.AppliedSignals.length = 1 ∧
      Result.Parameters.Status = .STATUS_NO_DATA_AVAILABLE ∧
      Result.Parameters.ChildPid = -1 ∧
      Result.Parameters.Status ≠ .STATUS_INTERRUPTED :=
  ⟨_, rfl, by decide, by decide, by decide,
    (C25_wait_returns_immediately ExampleEnvironment ExampleWaitSystem .STATUS_SUCCESS
      ExampleWaitContinued [ExampleArrival] [] (by decide) (by decide)).1 _ rfl⟩

/-- In `ExampleChildlessSystem` the current process has no children and no
child entry on its lists. The wait for any exited child that returns at once
finds no matching entry, and its status is "no eligible children", not "no data
available". -/
theorem C25_no_children_counterexample :
    ExampleWaitExited.Flags &&& SYSTEM_CALL_WAIT_FLAG_RETURN_IMMEDIATELY ≠ 0 ∧
    FirstChildSignalEntry ExampleChildlessSystem ExampleWaitExited.ChildPid
      ExampleWaitExited.Flags = none ∧
    (PsSysWaitForChildProcess ExampleEnvironment ExampleChildlessSystem .STATUS_SUCCESS
      ExampleWaitExited [[]]).map (fun Result => Result.Parameters.Status) =
        some .STATUS_NO_ELIGIBLE_CHILDREN := by
  decide

/-! ## Child signals: the entry of a child at its destination -/

theorem PspQueueSignalWake_none_flatMap (P : KPROCESS) (n : Nat) (b : Bool)
    (ty : THREAD_SIGNAL_PENDING_TYPE) (w : Bool) :
    (PspQueueSignalWake P none n b ty w).ThreadListHead.flatMap KTHREAD.SignalListHead =
      P.ThreadListHead.flatMap KTHREAD.SignalListHead := by
  unfold PspQueueSignalWake
  split
  · simp only [List.flatMap_map]
    congr 1
    funext T
    simp only [PspRaiseSignalPending]
    split_ifs <;> rfl
  · rfl

/-- A child signal entry sent to a process that has threads is appended to the
blocked-deferred list or to the queue of the process; the other list and the
queues of the threads stay as they were. -/
theorem PsSignalProcess_child (Env : KERNEL_ENVIRONMENT) (P : KPROCESS)
    (E : SIGNAL_QUEUE_ENTRY) (hTC : P.ThreadCount ≠ 0) :
    (((PsSignalProcess Env P SIGNAL_CHILD_PROCESS_ACTIVITY (some E)).BlockedSignalListHead =
          P.BlockedSignalListHead ++ [{ E with Delivered := false, DestinationThread := none }] ∧
        (PsSignalProcess Env P SIGNAL_CHILD_PROCESS_ACTIVITY (some E)).SignalListHead =
          P.SignalListHead) ∨
      ((PsSignalProcess Env P SIGNAL_CHILD_PROCESS_ACTIVITY (some E)).BlockedSignalListHead =
          P.BlockedSignalListHead ∧
        (PsSignalProcess Env P SIGNAL_CHILD_PROCESS_ACTIVITY (some E)).SignalListHead =
          P.SignalListHead ++ [{ E with Delivered := false, DestinationThread := none }])) ∧
    (PsSignalProcess Env P SIGNAL_CHILD_PROCESS_ACTIVITY (some E)).ThreadListHead.flatMap
        KTHREAD.SignalListHead =
      P.ThreadListHead.flatMap KTHREAD.SignalListHead := by
  have h1 : (PspQueueSignalToProcess Env P SIGNAL_CHILD_PROCESS_ACTIVITY (some E)).1 = false := by
    unfold PspQueueSignalToProcess
    rw [if_neg (by simpa using hTC)]
  have h2 := PspQueueSignalToProcess_eq Env P SIGNAL_CHILD_PROCESS_ACTIVITY (some E) hTC
  rw [if_neg (by decide), if_neg (by decide), if_neg (by decide)] at h2
  have h3 : PsSignalProcess Env P SIGNAL_CHILD_PROCESS_ACTIVITY (some E) =
      PspQueueSignalUnforced Env P none SIGNAL_CHILD_PROCESS_ACTIVITY
        (some { E with Delivered := false }) := by
    have h4 : PsSignalProcessQueue Env P SIGNAL_CHILD_PROCESS_ACTIVITY (some E) =
        PspQueueSignalToProcess Env P SIGNAL_CHILD_PROCESS_ACTIVITY (some E) := by
      unfold PsSignalProcessQueue
      rw [if_neg (by decide)]
    unfold PsSignalProcess
    rw [h4, if_neg (by simp [h1]), h2]
    rfl
  rw [h3]
  unfold PspQueueSignalUnforced PspQueueSignalPlace
  simp only [PspQueueSignalWake_BlockedSignalListHead, PspQueueSignalWake_SignalListHead,
    PspQueueSignalWake_none_flatMap]
  unfold PspQueueSignalPlacement PspQueueSignalEntry
  simp only
  split_ifs <;> simp [KPROCESS.InsertBlocked] at *

theorem ListRemove_Process (S : KSYSTEM) (A p : Nat) :
    (S.ListRemove A).Process p =
      { S.Process p with Process := (S.Process p).Process.Unlink A } := by
  simp only [KSYSTEM.ListRemove, KSYSTEM.Process, List.getD_eq_getElem?_getD,
    List.getElem?_map]
  cases S.Processes[p]? <;> rfl

theorem SetChildSignal_Process (S : KSYSTEM) (p q : Nat) (E : SIGNAL_QUEUE_ENTRY)
    (D : Option Nat) :
    (S.SetChildSignal p E D).Process q =
      if p = q ∧ p < S.Processes.length then
        { S.Process p with ChildSignal := E, ChildSignalDestination := D }
      else S.Process q := by
  simp only [KSYSTEM.SetChildSignal, KSYSTEM.Process, List.getD_eq_getElem?_getD,
    List.getElem?_set]
  by_cases h : p = q
  · subst h
    by_cases hl : p < S.Processes.length
    · simp [hl]
    · have hl2 : S.Processes.length ≤ p := by omega
      simp [hl, List.getElem?_eq_none hl2]
  · simp [h]

theorem not_Linked_of_not_system_Linked (S : KSYSTEM) (A p : Nat) (h : S.Linked A = false) :
    ¬ (S.Process p).Process.Linked A := by
  unfold KSYSTEM.Linked at h
  rw [List.any_eq_false] at h
  intro hl
  rw [← EntryAt_isSome] at hl
  unfold KSYSTEM.Process at hl
  rw [List.getD_eq_getElem?_getD] at hl
  cases hp : S.Processes[p]? with
  | none =>
    rw [hp] at hl
    simp [SYSTEM_PROCESS.Zero, KPROCESS.EntryAt, KPROCESS.LinkedEntries] at hl
  | some sp =>
    rw [hp] at hl
    obtain ⟨hlt, hget⟩ := List.getElem?_eq_some.mp hp
    have hmem : sp ∈ S.Processes := by
      rw [← hget]
      exact List.getElem_mem _
    exact h sp hmem hl

/-- The state in which `PspQueueChildSignal` sends the entry: no process has an
entry at the address of the child signal on a list. -/
theorem PspQueueChildSignal_detached (S : KSYSTEM) (A p : Nat) :
    ¬ ((if S.Linked A then S.ListRemove A else S).Process p).Process.Linked A := by
  cases h : S.Linked A
  · simp only [Bool.false_eq_true, if_false]
    exact not_Linked_of_not_system_Linked S A p h
  · simp only [if_true]
    rw [ListRemove_Process]
    exact Linked_Unlink _ A

theorem PspQueueChildSignal_detached_length (S : KSYSTEM) (A : Nat) :
    (if S.Linked A then S.ListRemove A else S).Processes.length = S.Processes.length := by
  split
  · simp [KSYSTEM.ListRemove]
  · rfl

theorem PspQueueChildSignal_detached_fields (S : KSYSTEM) (A p : Nat) :
    ((if S.Linked A then S.ListRemove A else S).Process p).Process.ThreadCount =
      (S.Process p).Process.ThreadCount := by
  split
  · rw [ListRemove_Process]
    rfl
  · rfl

theorem filter_address_eq_nil (L : List SIGNAL_QUEUE_ENTRY) (A : Nat)
    (h : ∀ x ∈ L, x.Address ≠ A) : L.filter (fun x => x.Address == A) = [] := by
  rw [List.filter_eq_nil_iff]
  intro x hx
  simpa using h x hx

/-- C30: after `PspQueueChildSignal` for a child with a destination that is a
process other than the kernel process and has at least one thread, the child
signal entry of the child carries the child signal number, the reason as code,
the process identifier of the child as sender and the status as parameter, the
`ChildSignalDestination` of the child is the destination, and the entry is
linked exactly once in the destination, on its blocked-deferred list or on its
queue, and in no other process; this holds whatever lists the entry was on
before the call, so also when it was still queued at an earlier destination. -/
theorem C30_child_signal_linked_once (Env : KERNEL_ENVIRONMENT) (System : KSYSTEM)
    (Process Destination ExitStatus : Nat) (Reason : CHILD_SIGNAL_REASON)
    (hKernel : Destination ≠ System.KernelProcess)
    (hDestination : Destination < System.Processes.length)
    (hProcess : Process < System.Processes.length)
    (hThreads : (System.Process Destination).Process.ThreadCount ≠ 0) :
    ((PspQueueChildSignal Env System Process (some Destination) ExitStatus Reason).Process
        Process).ChildSignal.Address = (System.Process Process).ChildSignal.Address ∧
    ((PspQueueChildSignal Env System Process (some Destination) ExitStatus Reason).Process
        Process).ChildSignal.Parameters =
      ChildSignalParameters System Process ExitStatus Reason ∧
    ((PspQueueChildSignal Env System Process (some Destination) ExitStatus Reason).Process
        Process).ChildSignalDestination = some Destination ∧
    (∃ SignalEntry : SIGNAL_QUEUE_ENTRY,
      SignalEntry.Address = (System.Process Process).ChildSignal.Address ∧
      SignalEntry.Parameters = ChildSignalParameters System Process ExitStatus Reason ∧
      LinkedOnce
        ((PspQueueChildSignal Env System Process (some Destination) ExitStatus Reason).Process
          Destination).Process SignalEntry) ∧
    ∀ Other, Other ≠ Destination →
      ¬ ((PspQueueChildSignal Env System Process (some Destination) ExitStatus Reason).Process
          Other).Process.Linked (System.Process Process).ChildSignal.Address := by
  have hS1 := PspQueueChildSignal_detached System (System.Process Process).ChildSignal.Address
  have hlen := PspQueueChildSignal_detached_length System
    (System.Process Process).ChildSignal.Address
  have hTC := PspQueueChildSignal_detached_fields System
    (System.Process Process).ChildSignal.Address Destination
  have hdef : PspQueueChildSignal Env System Process (some Destination) ExitStatus Reason =
      ((if System.Linked (System.Process Process).ChildSignal.Address then
          System.ListRemove (System.Process Process).ChildSignal.Address
        else System).SetChildSignal Process
          (PspChildSignalEntry System Process ExitStatus Reason) (some Destination)).SetProcess
        Destination
        (PsSignalProcess Env
          ((if System.Linked (System.Process Process).ChildSignal.Address then
              System.ListRemove (System.Process Process).ChildSignal.Address
            else System).Process Destination).Process
          SIGNAL_CHILD_PROCESS_ACTIVITY
          (some (PspChildSignalEntry System Process ExitStatus Reason))) := by
    unfold PspQueueChildSignal
    simp only
    rw [if_neg (by simpa using hKernel)]
  rw [hdef]
  generalize hg : (if System.Linked (System.Process Process).ChildSignal.Address then
      System.ListRemove (System.Process Process).ChildSignal.Address else System) = S1
    at hS1 hlen hTC ⊢
  have hlen2 : (S1.SetChildSignal Process (PspChildSignalEntry System Process ExitStatus Reason)
      (some Destination)).Processes.length = System.Processes.length := by
    simp [KSYSTEM.SetChildSignal, hlen]
  have hchild : ∀ q, ((S1.SetChildSignal Process
      (PspChildSignalEntry System Process ExitStatus Reason) (some Destination)).Process
        q).Process = (S1.Process q).Process := by
    intro q
    rw [SetChildSignal_Process]
    split
    · rename_i hc
      rw [← hc.1]
    · rfl
  have hfinal : ∀ q, (((S1.SetChildSignal Process
      (PspChildSignalEntry System Process ExitStatus Reason) (some Destination)).SetProcess
        Destination
        (PsSignalProcess Env (S1.Process Destination).Process SIGNAL_CHILD_PROCESS_ACTIVITY
          (some (PspChildSignalEntry System Process ExitStatus Reason)))).Process q).Process =
      if q = Destination then
        PsSignalProcess Env (S1.Process Destination).Process SIGNAL_CHILD_PROCESS_ACTIVITY
          (some (PspChildSignalEntry System Process ExitStatus Reason))
      else (S1.Process q).Process := by
    intro q
    rw [SetProcess_Process]
    by_cases hq : q = Destination
    · subst hq
      rw [if_pos ⟨rfl, by rw [hlen2]; exact hDestination⟩, if_pos rfl]
    · rw [if_neg (fun hc => hq hc.1.symm), if_neg hq]
      exact hchild q
  have hsignal : (((S1.SetChildSignal Process
      (PspChildSignalEntry System Process ExitStatus Reason) (some Destination)).SetProcess
        Destination
        (PsSignalProcess Env (S1.Process Destination).Process SIGNAL_CHILD_PROCESS_ACTIVITY
          (some (PspChildSignalEntry System Process ExitStatus Reason)))).Process
            Process).ChildSignal = PspChildSignalEntry System Process ExitStatus Reason ∧
      (((S1.SetChildSignal Process
      (PspChildSignalEntry System Process ExitStatus Reason) (some Destination)).SetProcess
        Destination
        (PsSignalProcess Env (S1.Process Destination).Process SIGNAL_CHILD_PROCESS_ACTIVITY
          (some (PspChildSignalEntry System Process ExitStatus Reason)))).Process
            Process).ChildSignalDestination = some Destination := by
    have hset : (S1.SetChildSignal Process
        (PspChildSignalEntry System Process ExitStatus Reason) (some Destination)).Process
          Process =
        { S1.Process Process with
          ChildSignal := PspChildSignalEntry System Process ExitStatus Reason
          ChildSignalDestination := some Destination } := by
      rw [SetChildSignal_Process, if_pos ⟨rfl, by rw [hlen]; exact hProcess⟩]
    rw [SetProcess_Process]
    by_cases hDP : Destination = Process
    · subst hDP
      rw [if_pos ⟨rfl, by rw [hlen2]; exact hDestination⟩]
      simp [hset]
    · rw [if_neg (fun hc => hDP hc.1), hset]
      exact ⟨rfl, rfl⟩
  refine ⟨?_, ?_, ?_, ?_, ?_⟩
  · rw [hsignal.1]
    rfl
  · rw [hsignal.1]
    rfl
  · exact hsignal.2
  · obtain ⟨hlists, hthreads⟩ := PsSignalProcess_child Env (S1.Process Destination).Process
      (PspChildSignalEntry System Process ExitStatus Reason) (by rw [hTC]; exact hThreads)
    have hno := hS1 Destination
    rw [Linked_iff] at hno
    have hno2 : ∀ x ∈ (S1.Process Destination).Process.LinkedEntries,
        x.Address ≠ (System.Process Process).ChildSignal.Address :=
      fun x hx hc => hno ⟨x, hx, hc⟩
    unfold KPROCESS.LinkedEntries at hno2
    refine ⟨{ PspChildSignalEntry System Process ExitStatus Reason with
      Delivered := false, DestinationThread := none }, rfl, rfl, ?_⟩
    unfold LinkedOnce
    rw [hfinal Destination, if_pos rfl]
    have hB := filter_address_eq_nil (S1.Process Destination).Process.BlockedSignalListHead
      (System.Process Process).ChildSignal.Address
      (fun x hx => hno2 x (by simp [hx]))
    have hQ := filter_address_eq_nil (S1.Process Destination).Process.SignalListHead
      (System.Process Process).ChildSignal.Address
      (fun x hx => hno2 x (by simp [hx]))
    refine ⟨?_, ?_⟩
    · rcases hlists with ⟨l1, l2⟩ | ⟨l1, l2⟩
      · left
        rw [l1, l2, List.filter_append]
        dsimp only [PspChildSignalEntry] at hB hQ ⊢
        rw [hB]
        exact ⟨by simp, hQ⟩
      · right
        rw [l1, l2, List.filter_append]
        dsimp only [PspChildSignalEntry] at hB hQ ⊢
        rw [hQ]
        exact ⟨hB, by simp⟩
    · intro T hT x hx
      have hmem : x ∈ (PsSignalProcess Env (S1.Process Destination).Process
          SIGNAL_CHILD_PROCESS_ACTIVITY
          (some (PspChildSignalEntry System Process ExitStatus Reason))).ThreadListHead.flatMap
            KTHREAD.SignalListHead := List.mem_flatMap.mpr ⟨T, hT, hx⟩
      rw [hthreads] at hmem
      exact hno2 x (by simp [hmem])
  · intro Other hOther
    rw [hfinal Other, if_neg hOther]
    exact hS1 Other

/-- Witness of C30 on `ExampleTwoParentSystem`: the child at index 2, whose
entry is queued at the first parent (index 1), sends a child signal to the
second parent (index 4); afterwards the first parent does not hold the entry
any more. -/
theorem C30_child_signal_linked_once_witness :
    (ExampleTwoParentSystem.Process 1).Process.Linked
      (ExampleTwoParentSystem.Process 2).ChildSignal.Address ∧
    ¬ ((PspQueueChildSignal ExampleEnvironment ExampleTwoParentSystem 2 (some 4) 9
        .CHILD_SIGNAL_REASON_KILLED).Process 1).Process.Linked
      (ExampleTwoParentSystem.Process 2).ChildSignal.Address :=
  ⟨(EntryAt_isSome _ _).mp (by decide),
    (C30_child_signal_linked_once ExampleEnvironment ExampleTwoParentSystem 2 4 9
      .CHILD_SIGNAL_REASON_KILLED (by decide) (by decide) (by decide) (by decide)).2.2.2.2 1
        (by decide)⟩

/-! ## Dequeue: a thread with no signal pending -/

/-- C32: when the pending state of the calling thread is "no signal pending",
`PspDequeuePendingSignal` returns -1 and hands back the state and the
parameter block of the caller as they were: no pending set, queue,
blocked-deferred list or pending state changes, whatever the pending sets and
the queues hold. -/
theorem C32_no_signal_pending_returns_at_once (Env : KERNEL_ENVIRONMENT) (Process : KPROCESS)
    (CurrentThread : Nat) (SignalParameters : SIGNAL_PARAMETERS)
    (hPending : (Process.Thread CurrentThread).SignalPending = .ThreadNoSignalPending) :
    PspDequeuePendingSignal Env Process CurrentThread SignalParameters =
      some ⟨ULONG_MINUS_ONE, SignalParameters, Process⟩ := by
  unfold PspDequeuePendingSignal
  rw [if_pos (by rw [hPending]; rfl)]

theorem C32_no_signal_pending_returns_at_once_witness :
    (ExampleDormantProcess.Thread 0).SignalPending = .ThreadNoSignalPending ∧
      IS_SIGNAL_SET_EMPTY (ExampleDormantProcess.Thread 0).PendingSignals = false ∧
      IS_SIGNAL_SET_EMPTY ExampleDormantProcess.PendingSignals = false ∧
      ExampleDormantProcess.SignalListHead ≠ [] ∧
      (ExampleDormantProcess.Thread 0).SignalListHead ≠ [] ∧
      PspDequeuePendingSignal ExampleEnvironment ExampleDormantProcess 0
          SIGNAL_PARAMETERS.Zero =
        some ⟨ULONG_MINUS_ONE, SIGNAL_PARAMETERS.Zero, ExampleDormantProcess⟩ :=
  ⟨by decide, by decide, by decide, by decide, by decide,
    C32_no_signal_pending_returns_at_once ExampleEnvironment ExampleDormantProcess 0
      SIGNAL_PARAMETERS.Zero (by decide)⟩

/-! ## Dequeue: the pending state of the thread on return -/

theorem PspRestoreSignalPending_SignalPending (Q : KPROCESS) (t : Nat) (S : SIGNAL_SET)
    (ht : t < Q.ThreadListHead.length) :
    ((PspRestoreSignalPending Q t S).Thread t).SignalPending =
      if (Q.Thread t).SignalPending = .ThreadNoSignalPending ∧
          (IS_SIGNAL_SET_EMPTY S = false ∨ Q.SignalListHead ≠ [] ∨
            (Q.Thread t).SignalListHead ≠ []) then
        .ThreadSignalPending
      else (Q.Thread t).SignalPending := by
  by_cases h1 : (Q.Thread t).SignalPending = .ThreadNoSignalPending
  · by_cases h2 : IS_SIGNAL_SET_EMPTY S = false ∨ Q.SignalListHead ≠ [] ∨
        (Q.Thread t).SignalListHead ≠ []
    · rw [if_pos ⟨h1, h2⟩]
      unfold PspRestoreSignalPending
      rw [if_pos (by rw [h1]; rfl), if_pos, Thread_SetThread_same _ _ _ ht]
      rcases h2 with h | h | h
      · simp [h]
      · simp [List.isEmpty_iff, h]
      · simp [List.isEmpty_iff, h]
    · rw [if_neg (fun hc => h2 hc.2)]
      unfold PspRestoreSignalPending
      simp only [not_or, Bool.not_eq_false, ne_eq, Decidable.not_not] at h2
      rw [if_pos (by rw [h1]; rfl), if_neg]
      simp [h2.1, h2.2.1, h2.2.2]
  · rw [if_neg (fun hc => h1 hc.1)]
    unfold PspRestoreSignalPending
    rw [if_neg (by simpa using h1)]

theorem PspClearPendingSignal_SignalPending (Q : KPROCESS) (t Tm Pm k : Nat) :
    ((PspClearPendingSignal Q t Tm Pm k).Thread t).SignalPending =
      (Q.Thread t).SignalPending := by
  unfold PspClearPendingSignal
  split_ifs
  · exact SetThread_Thread_proj KTHREAD.SignalPending _ _ _ _ rfl
  · rfl
  · rfl

theorem PspClearPendingSignal_pending (Q : KPROCESS) (t Tm Pm k : Nat)
    (ht : t < Q.ThreadListHead.length) :
    ((PspClearPendingSignal Q t Tm Pm k).Thread t).PendingSignals =
        (if IS_SIGNAL_SET Tm k then REMOVE_SIGNAL (Q.Thread t).PendingSignals k
         else (Q.Thread t).PendingSignals) ∧
      (PspClearPendingSignal Q t Tm Pm k).PendingSignals =
        (if IS_SIGNAL_SET Tm k then Q.PendingSignals
         else if IS_SIGNAL_SET Pm k then REMOVE_SIGNAL Q.PendingSignals k
         else Q.PendingSignals) := by
  unfold PspClearPendingSignal
  split_ifs
  · exact ⟨by rw [Thread_SetThread_same _ _ _ ht], rfl⟩
  · exact ⟨rfl, rfl⟩
  · exact ⟨rfl, rfl⟩

theorem SignalCleared_congr (P Q : KPROCESS) (t Tm n : Nat)
    (h1 : (Q.Thread t).PendingSignals = (P.Thread t).PendingSignals)
    (h2 : Q.PendingSignals = P.PendingSignals) (h : SignalCleared P t Tm n) :
    SignalCleared Q t Tm n := by
  unfold SignalCleared at h ⊢
  rw [h1, h2]
  exact h

theorem SignalCleared_clear (Q : KPROCESS) (t Tm Pm k n : Nat)
    (ht : t < Q.ThreadListHead.length) (h : SignalCleared Q t Tm n) :
    SignalCleared (PspClearPendingSignal Q t Tm Pm k) t Tm n := by
  obtain ⟨p1, p2⟩ := PspClearPendingSignal_pending Q t Tm Pm k ht
  unfold SignalCleared at h ⊢
  rw [p1, p2]
  refine ⟨?_, ?_⟩
  · split
    · rw [IS_SIGNAL_SET_REMOVE_SIGNAL, h.1]; rfl
    · exact h.1
  · intro hp
    apply h.2
    split_ifs at hp
    · exact hp
    · rw [IS_SIGNAL_SET_REMOVE_SIGNAL] at hp
      simp only [Bool.and_eq_true] at hp
      exact hp.1
    · exact hp

theorem SignalCleared_taken (Q : KPROCESS) (t Tm Pm k : Nat)
    (ht : t < Q.ThreadListHead.length) (hW : PendingWithin t Tm Pm Q)
    (hk : IS_SIGNAL_SET Tm k = true ∨ IS_SIGNAL_SET Pm k = true) :
    SignalCleared (PspClearPendingSignal Q t Tm Pm k) t Tm k := by
  obtain ⟨p1, p2⟩ := PspClearPendingSignal_pending Q t Tm Pm k ht
  unfold SignalCleared
  rw [p1, p2]
  by_cases hT : IS_SIGNAL_SET Tm k = true
  · rw [if_pos hT, if_pos hT]
    exact ⟨by rw [IS_SIGNAL_SET_REMOVE_SIGNAL]; simp, fun _ => hT⟩
  · have hP : IS_SIGNAL_SET Pm k = true := hk.resolve_left hT
    rw [if_neg hT, if_neg hT, if_pos hP]
    refine ⟨?_, ?_⟩
    · cases hc : IS_SIGNAL_SET (Q.Thread t).PendingSignals k
      · rfl
      · exact absurd (hW.1 k hc) hT
    · intro hp
      rw [IS_SIGNAL_SET_REMOVE_SIGNAL] at hp
      simp at hp

theorem PendingWithin_clear (Q : KPROCESS) (t Tm Pm k : Nat)
    (ht : t < Q.ThreadListHead.length) (hW : PendingWithin t Tm Pm Q) :
    PendingWithin t Tm Pm (PspClearPendingSignal Q t Tm Pm k) := by
  obtain ⟨p1, p2⟩ := PspClearPendingSignal_pending Q t Tm Pm k ht
  unfold PendingWithin
  rw [p1, p2]
  refine ⟨?_, ?_⟩
  · intro n hn
    apply hW.1
    split_ifs at hn
    · rw [IS_SIGNAL_SET_REMOVE_SIGNAL] at hn
      simp only [Bool.and_eq_true] at hn
      exact hn.1
    · exact hn
  · intro n hn
    apply hW.2
    split_ifs at hn
    · exact hn
    · rw [IS_SIGNAL_SET_REMOVE_SIGNAL] at hn
      simp only [Bool.and_eq_true] at hn
      exact hn.1
    · exact hn

theorem PendingWithin_congr (P Q : KPROCESS) (t Tm Pm : Nat)
    (h1 : (Q.Thread t).PendingSignals = (P.Thread t).PendingSignals)
    (h2 : Q.PendingSignals = P.PendingSignals) (h : PendingWithin t Tm Pm P) :
    PendingWithin t Tm Pm Q := by
  unfold PendingWithin at h ⊢
  rw [h1, h2]
  exact h

/-- One dequeued standard signal: the state after the bit has been cleared and
the pending state of the thread has been repaired. -/
theorem PspDequeueStandardSignals_step (t Tm Pm Snapped : Nat)
    (hSnapped : ∀ n, IS_SIGNAL_SET Snapped n = true →
      n - 1 < 32 ∧ (IS_SIGNAL_SET Tm n = true ∨ IS_SIGNAL_SET Pm n = true))
    (k Saved : Nat) (Q : KPROCESS) (hk : 1 ≤ k) (ht : t < Q.ThreadListHead.length)
    (hI : DequeueSavedInvariant t Tm Snapped Saved Q) (hW : PendingWithin t Tm Pm Q) :
    DequeueSavedInvariant t Tm Snapped
        (if ((PspClearPendingSignal Q t Tm Pm k).Thread t).SignalPending ==
            .ThreadNoSignalPending then ULONG (REMOVE_SIGNAL Saved k) else Saved)
        (PspRestoreSignalPending (PspClearPendingSignal Q t Tm Pm k) t
          (if ((PspClearPendingSignal Q t Tm Pm k).Thread t).SignalPending ==
            .ThreadNoSignalPending then ULONG (REMOVE_SIGNAL Saved k) else Saved)) ∧
      PendingWithin t Tm Pm
        (PspRestoreSignalPending (PspClearPendingSignal Q t Tm Pm k) t
          (if ((PspClearPendingSignal Q t Tm Pm k).Thread t).SignalPending ==
            .ThreadNoSignalPending then ULONG (REMOVE_SIGNAL Saved k) else Saved)) ∧
      DequeueSettled t Tm Snapped
        (PspRestoreSignalPending (PspClearPendingSignal Q t Tm Pm k) t
          (if ((PspClearPendingSignal Q t Tm Pm k).Thread t).SignalPending ==
            .ThreadNoSignalPending then ULONG (REMOVE_SIGNAL Saved k) else Saved)) := by
  have hlen1 : t < (PspClearPendingSignal Q t Tm Pm k).ThreadListHead.length := by
    rw [(DequeueFrame_clear t Q Tm Pm k).2.2.1]; exact ht
  have hsp1 := PspClearPendingSignal_SignalPending Q t Tm Pm k
  have hW1 := PendingWithin_clear Q t Tm Pm k ht hW
  have hW2 : ∀ S, PendingWithin t Tm Pm
      (PspRestoreSignalPending (PspClearPendingSignal Q t Tm Pm k) t S) :=
    fun S => PendingWithin_congr _ _ _ _ _ (by simp) (by simp) hW1
  refine ⟨?_, hW2 _, ?_⟩
  all_goals
    rcases hI with hA | ⟨hN, hH⟩
    · left
      rw [PspRestoreSignalPending_SignalPending _ _ _ hlen1, hsp1, hA]
      simp
    · have hS1 : (if ((PspClearPendingSignal Q t Tm Pm k).Thread t).SignalPending ==
            .ThreadNoSignalPending then ULONG (REMOVE_SIGNAL Saved k) else Saved) =
          ULONG (REMOVE_SIGNAL Saved k) := by
        rw [hsp1, hN]; rfl
      rw [hS1]
      have key : ∀ n, 1 ≤ n → IS_SIGNAL_SET Snapped n = true →
          IS_SIGNAL_SET (ULONG (REMOVE_SIGNAL Saved k)) n = true ∨
            SignalCleared (PspClearPendingSignal Q t Tm Pm k) t Tm n := by
        intro n hn hs
        obtain ⟨h32, hTP⟩ := hSnapped n hs
        by_cases hnk : n = k
        · subst hnk
          exact Or.inr (SignalCleared_taken Q t Tm Pm n ht hW hTP)
        · rcases hH n hn hs with h | h
          · left
            rw [IS_SIGNAL_SET_ULONG, IS_SIGNAL_SET_REMOVE_SIGNAL, h]
            have : ¬ (k - 1 = n - 1) := by omega
            simp [h32, this]
          · exact Or.inr (SignalCleared_clear Q t Tm Pm k n ht h)
      by_cases hc : IS_SIGNAL_SET_EMPTY (ULONG (REMOVE_SIGNAL Saved k)) = false ∨
          (PspClearPendingSignal Q t Tm Pm k).SignalListHead ≠ [] ∨
          ((PspClearPendingSignal Q t Tm Pm k).Thread t).SignalListHead ≠ []
      · left
        rw [PspRestoreSignalPending_SignalPending _ _ _ hlen1, hsp1, if_pos ⟨hN, hc⟩]
      · right
        simp only [not_or, Bool.not_eq_false, ne_eq, Decidable.not_not] at hc
        obtain ⟨c1, c2, c3⟩ := hc
        have hnone : ((PspRestoreSignalPending (PspClearPendingSignal Q t Tm Pm k) t
            (ULONG (REMOVE_SIGNAL Saved k))).Thread t).SignalPending =
              .ThreadNoSignalPending := by
          rw [PspRestoreSignalPending_SignalPending _ _ _ hlen1, hsp1, if_neg, hN]
          intro hx
          rcases hx.2 with h | h | h
          · rw [c1] at h; cases h
          · exact h c2
          · exact h c3
        have hclear : ∀ n, SignalCleared (PspClearPendingSignal Q t Tm Pm k) t Tm n →
            SignalCleared (PspRestoreSignalPending (PspClearPendingSignal Q t Tm Pm k) t
              (ULONG (REMOVE_SIGNAL Saved k))) t Tm n :=
          fun n h => SignalCleared_congr _ _ _ _ _ (by simp) (by simp) h
        first
          | exact ⟨hnone, fun n hn hs => (key n hn hs).imp id (hclear n)⟩
          | (refine ⟨hnone, by simpa using c2, by simpa using c3, ?_⟩
             intro n hn hs
             rcases key n hn hs with h | h
             · rw [IS_SIGNAL_SET_EMPTY_iff] at c1
               rw [c1] at h
               simp [IS_SIGNAL_SET] at h
             · exact hclear n h)

theorem DequeueSettled_congr (P Q : KPROCESS) (t Tm Snapped : Nat)
    (h1 : Q.Thread t = P.Thread t) (h2 : Q.PendingSignals = P.PendingSignals)
    (h3 : Q.SignalListHead = P.SignalListHead) (h : DequeueSettled t Tm Snapped P) :
    DequeueSettled t Tm Snapped Q := by
  unfold DequeueSettled SignalCleared at h ⊢
  rw [h1, h2, h3]
  exact h

theorem DequeueSavedInvariant_congr (P Q : KPROCESS) (t Tm Snapped Saved : Nat)
    (h1 : Q.Thread t = P.Thread t) (h2 : Q.PendingSignals = P.PendingSignals)
    (h : DequeueSavedInvariant t Tm Snapped Saved P) :
    DequeueSavedInvariant t Tm Snapped Saved Q := by
  unfold DequeueSavedInvariant SignalCleared at h ⊢
  rw [h1, h2]
  exact h

theorem PspDequeueStandardSignals_settled (Env : KERNEL_ENVIRONMENT)
    (t Tm Pm C Snapped : Nat)
    (hSnapped : ∀ n, IS_SIGNAL_SET Snapped n = true →
      n - 1 < 32 ∧ (IS_SIGNAL_SET Tm n = true ∨ IS_SIGNAL_SET Pm n = true)) :
    ∀ (Fuel k Saved : Nat) (Q : KPROCESS), 1 ≤ k → t < Q.ThreadListHead.length →
      DequeueSavedInvariant t Tm Snapped Saved Q → PendingWithin t Tm Pm Q →
      DequeueSavedInvariant t Tm Snapped
          (PspDequeueStandardSignals Env t Tm Pm C Fuel k Saved Q).SavedSignalMask
          (PspDequeueStandardSignals Env t Tm Pm C Fuel k Saved Q).Process ∧
        PendingWithin t Tm Pm (PspDequeueStandardSignals Env t Tm Pm C Fuel k Saved Q).Process ∧
        (∀ S, (PspDequeueStandardSignals Env t Tm Pm C Fuel k Saved Q).Dequeued = some S →
          DequeueSettled t Tm Snapped
            (PspDequeueStandardSignals Env t Tm Pm C Fuel k Saved Q).Process) := by
  intro Fuel
  induction Fuel with
  | zero =>
    intro k Saved Q _ _ hI hW
    exact ⟨hI, hW, fun S h => by simp [PspDequeueStandardSignals] at h⟩
  | succ f ih =>
    intro k Saved Q hk ht hI hW
    simp only [PspDequeueStandardSignals]
    by_cases hset : IS_SIGNAL_SET C k = true
    · rw [if_pos hset]
      obtain ⟨s1, s2, s3⟩ := PspDequeueStandardSignals_step t Tm Pm Snapped hSnapped k Saved Q
        hk ht hI hW
      have hlen2 : t < (PspRestoreSignalPending (PspClearPendingSignal Q t Tm Pm k) t
          (if ((PspClearPendingSignal Q t Tm Pm k).Thread t).SignalPending ==
            .ThreadNoSignalPending then ULONG (REMOVE_SIGNAL Saved k)
            else Saved)).ThreadListHead.length := by
        rw [PspRestoreSignalPending_length, (DequeueFrame_clear t Q Tm Pm k).2.2.1]
        exact ht
      generalize (if ((PspClearPendingSignal Q t Tm Pm k).Thread t).SignalPending ==
          .ThreadNoSignalPending then ULONG (REMOVE_SIGNAL Saved k) else Saved) = S1
        at s1 s2 s3 hlen2 ⊢
      generalize PspRestoreSignalPending (PspClearPendingSignal Q t Tm Pm k) t S1 = P2
        at s1 s2 s3 hlen2 ⊢
      by_cases hz : ((PspTracerBreak Env P2
          { SIGNAL_PARAMETERS.Zero with SignalNumber := k }).SignalNumber != 0) = true
      · rw [if_pos hz]
        dsimp only
        refine ⟨?_, ?_, fun _ _ => ?_⟩
        · split
          · exact DequeueSavedInvariant_congr _ _ _ _ _ _ (by simp) (by simp) s1
          · exact s1
        · split
          · exact PendingWithin_congr _ _ _ _ _ (by simp) (by simp) s2
          · exact s2
        · split
          · exact DequeueSettled_congr _ _ _ _ _ (by simp) (by simp) (by simp) s3
          · exact s3
      · rw [if_neg hz]
        exact ih (k + 1) _ _ (by omega) hlen2 s1 s2
    · rw [if_neg hset]
      exact ih (k + 1) Saved Q (by omega) ht hI hW

theorem PspDequeueScanQueues_SignalPending (Env : KERNEL_ENVIRONMENT) (t : Nat)
    (P : KPROCESS) :
    ((PspDequeueScanQueues Env t P).2.Thread t).SignalPending = (P.Thread t).SignalPending := by
  have h1 : ∀ Q : KPROCESS,
      ((PspDequeueScanProcessQueue Env t Q).2.Thread t) = Q.Thread t := by
    intro Q
    obtain ⟨bl, cs, h⟩ := PspDequeueScanProcessQueue_shape Env t Q
    rw [h]
    rfl
  have h2 : ∀ Q : KPROCESS,
      ((PspDequeueScanThreadQueue Env t Q).2.Thread t).SignalPending =
        (Q.Thread t).SignalPending := by
    intro Q
    obtain ⟨bl, cs, h⟩ := PspDequeueScanThreadQueue_shape Env t Q
    rw [h]
    exact SetThread_Thread_proj KTHREAD.SignalPending _ t t _ rfl
  unfold PspDequeueScanQueues
  split
  · rw [h1]
  · rw [h2, h1]

theorem PspDequeueQueuedSignal_settled (Env : KERNEL_ENVIRONMENT) (t : Nat)
    (Saved : SIGNAL_SET) :
    ∀ (Fuel : Nat) (Q : KPROCESS) (SP : SIGNAL_PARAMETERS), t < Q.ThreadListHead.length →
      ((Q.Thread t).SignalPending = .ThreadSignalPending ∨
        (Q.Thread t).SignalPending = .ThreadNoSignalPending) →
      (Fuel = 0 → (Q.Thread t).SignalPending = .ThreadNoSignalPending →
        IS_SIGNAL_SET_EMPTY Saved = true ∧ Q.SignalListHead = [] ∧
          (Q.Thread t).SignalListHead = []) →
      ((PspDequeueQueuedSignal Env t Saved Fuel Q SP).Process.Thread t).PendingSignals =
          (Q.Thread t).PendingSignals ∧
        (PspDequeueQueuedSignal Env t Saved Fuel Q SP).Process.PendingSignals =
          Q.PendingSignals ∧
        (((PspDequeueQueuedSignal Env t Saved Fuel Q SP).Process.Thread t).SignalPending =
            .ThreadSignalPending ∨
          (((PspDequeueQueuedSignal Env t Saved Fuel Q SP).Process.Thread t).SignalPending =
              .ThreadNoSignalPending ∧
            (Q.Thread t).SignalPending = .ThreadNoSignalPending ∧
            IS_SIGNAL_SET_EMPTY Saved = true ∧
            (PspDequeueQueuedSignal Env t Saved Fuel Q SP).Process.SignalListHead = [] ∧
            ((PspDequeueQueuedSignal Env t Saved Fuel Q SP).Process.Thread t).SignalListHead =
              [])) := by
  intro Fuel
  induction Fuel with
  | zero =>
    intro Q SP _ hsp h0
    refine ⟨rfl, rfl, ?_⟩
    rcases hsp with h | h
    · exact Or.inl h
    · obtain ⟨a, b, c⟩ := h0 rfl h
      exact Or.inr ⟨h, h, a, b, c⟩
  | succ f ih =>
    intro Q SP ht hsp _
    obtain ⟨a1, a2, a3, a4, a5, a6, a7⟩ := PspDequeueScanQueues_frame Env t Q
    have a8 := PspDequeueScanQueues_SignalPending Env t Q
    have hlenS : t < (PspDequeueScanQueues Env t Q).2.ThreadListHead.length := by
      rw [a4]; exact ht
    have hr := PspRestoreSignalPending_SignalPending (PspDequeueScanQueues Env t Q).2 t Saved
      hlenS
    rw [a8] at hr
    -- the state after the repair of the pending state
    have hP2 : ((PspRestoreSignalPending (PspDequeueScanQueues Env t Q).2 t Saved).Thread
          t).SignalPending = .ThreadSignalPending ∨
        (((PspRestoreSignalPending (PspDequeueScanQueues Env t Q).2 t Saved).Thread
          t).SignalPending = .ThreadNoSignalPending ∧
          (Q.Thread t).SignalPending = .ThreadNoSignalPending ∧
          IS_SIGNAL_SET_EMPTY Saved = true ∧
          (PspDequeueScanQueues Env t Q).2.SignalListHead = [] ∧
          ((PspDequeueScanQueues Env t Q).2.Thread t).SignalListHead = []) := by
      rcases hsp with h | h
      · left
        rw [hr, h]
        simp
      · by_cases hc : IS_SIGNAL_SET_EMPTY Saved = false ∨
            (PspDequeueScanQueues Env t Q).2.SignalListHead ≠ [] ∨
            ((PspDequeueScanQueues Env t Q).2.Thread t).SignalListHead ≠ []
        · left
          rw [hr, if_pos ⟨h, hc⟩]
        · right
          rw [hr, if_neg (fun hx => hc hx.2)]
          simp only [not_or, Bool.not_eq_false, ne_eq, Decidable.not_not] at hc
          exact ⟨h, h, hc.1, hc.2.1, hc.2.2⟩
    have hT2 : ((PspRestoreSignalPending (PspDequeueScanQueues Env t Q).2 t Saved).Thread
        t).PendingSignals = (Q.Thread t).PendingSignals := by
      rw [PspRestoreSignalPending_Thread_PendingSignals, a7]
    have hQ2 : (PspRestoreSignalPending (PspDequeueScanQueues Env t Q).2 t Saved).PendingSignals =
        Q.PendingSignals := by
      rw [PspRestoreSignalPending_PendingSignals, a3]
    have hfin : ∀ R : KPROCESS,
        R.Thread t = (PspRestoreSignalPending (PspDequeueScanQueues Env t Q).2 t Saved).Thread
          t →
        R.PendingSignals =
          (PspRestoreSignalPending (PspDequeueScanQueues Env t Q).2 t Saved).PendingSignals →
        R.SignalListHead =
          (PspRestoreSignalPending (PspDequeueScanQueues Env t Q).2 t Saved).SignalListHead →
        (R.Thread t).PendingSignals = (Q.Thread t).PendingSignals ∧
          R.PendingSignals = Q.PendingSignals ∧
          ((R.Thread t).SignalPending = .ThreadSignalPending ∨
            ((R.Thread t).SignalPending = .ThreadNoSignalPending ∧
              (Q.Thread t).SignalPending = .ThreadNoSignalPending ∧
              IS_SIGNAL_SET_EMPTY Saved = true ∧ R.SignalListHead = [] ∧
              (R.Thread t).SignalListHead = [])) := by
      intro R r1 r2 r3
      rw [r1, r2, r3]
      refine ⟨hT2, hQ2, ?_⟩
      rcases hP2 with h | ⟨h1, h2, h3, h4, h5⟩
      · exact Or.inl h
      · exact Or.inr ⟨h1, h2, h3, by simpa using h4, by simpa using h5⟩
    simp only [PspDequeueQueuedSignal]
    split
    · rename_i e he
      split
      · split
        · exact hfin _ (by simp) (by simp) (by simp)
        · exact hfin _ (by simp) (by simp) (by simp)
      · obtain ⟨i1, i2, i3⟩ := ih
          ((PspRestoreSignalPending (PspDequeueScanQueues Env t Q).2 t Saved).Complete e)
          (PspTracerBreak Env (PspRestoreSignalPending (PspDequeueScanQueues Env t Q).2 t Saved)
            e.Parameters)
          (by simpa using hlenS)
          (by
            rw [Complete_Thread]
            rcases hP2 with h | h
            · exact Or.inl h
            · exact Or.inr h.1)
          (by
            intro _ hn
            rw [Complete_Thread] at hn ⊢
            rw [Complete_SignalListHead]
            rcases hP2 with h | ⟨h1, h2, h3, h4, h5⟩
            · rw [h] at hn; cases hn
            · exact ⟨h3, by simpa using h4, by simpa using h5⟩)
        rw [Complete_Thread] at i1 i3
        rw [Complete_PendingSignals] at i2
        refine ⟨i1.trans hT2, i2.trans hQ2, ?_⟩
        rcases i3 with h | ⟨h1, h2, h3, h4, h5⟩
        · exact Or.inl h
        · refine Or.inr ⟨h1, ?_, h3, h4, h5⟩
          rcases hP2 with h | h
          · rw [h] at h2; cases h2
          · exact h.2.1
    · exact hfin _ rfl rfl rfl

theorem DequeueSavedSignalMask_snapped (P : KPROCESS) (t n : Nat)
    (h : IS_SIGNAL_SET (DequeueSavedSignalMask P t) n = true) :
    n - 1 < 32 ∧ (IS_SIGNAL_SET (P.Thread t).PendingSignals n = true ∨
      IS_SIGNAL_SET P.PendingSignals n = true) := by
  simp only [DequeueSavedSignalMask, IS_SIGNAL_SET_ULONG, IS_SIGNAL_SET_REMOVE_SIGNALS_FROM_SET,
    IS_SIGNAL_SET_OR_SIGNAL_SETS, Bool.and_eq_true, Bool.or_eq_true, decide_eq_true_eq] at h
  exact ⟨h.1, h.2.1.2.1.2⟩

theorem DequeueStandardLoop_settled (Env : KERNEL_ENVIRONMENT) (P : KPROCESS) (t : Nat)
    (ht : t < P.ThreadListHead.length) :
    DequeueSavedInvariant t (P.Thread t).PendingSignals (DequeueSavedSignalMask P t)
        (DequeueStandardLoop Env P t).SavedSignalMask (DequeueStandardLoop Env P t).Process ∧
      PendingWithin t (P.Thread t).PendingSignals P.PendingSignals
        (DequeueStandardLoop Env P t).Process ∧
      (∀ S, (DequeueStandardLoop Env P t).Dequeued = some S →
        DequeueSettled t (P.Thread t).PendingSignals (DequeueSavedSignalMask P t)
          (DequeueStandardLoop Env P t).Process) := by
  have hlen : t < (DequeueClearedPending P t).ThreadListHead.length := by
    simp [DequeueClearedPending, ht]
  have hth : (DequeueClearedPending P t).Thread t =
      { P.Thread t with SignalPending := .ThreadNoSignalPending } := by
    unfold DequeueClearedPending
    rw [Thread_SetThread_same _ _ _ ht]
  have hI : DequeueSavedInvariant t (P.Thread t).PendingSignals (DequeueSavedSignalMask P t)
      (DequeueSavedSignalMask P t) (DequeueClearedPending P t) := by
    right
    rw [hth]
    exact ⟨rfl, fun n _ hn => Or.inl hn⟩
  have hW : PendingWithin t (P.Thread t).PendingSignals P.PendingSignals
      (DequeueClearedPending P t) := by
    unfold PendingWithin
    rw [hth]
    exact ⟨fun n hn => hn, fun n hn => by simpa [DequeueClearedPending] using hn⟩
  unfold DequeueStandardLoop
  split
  · exact PspDequeueStandardSignals_settled Env t _ _ _ _
      (DequeueSavedSignalMask_snapped P t) _ _ _ _ (by omega) hlen hI hW
  · exact ⟨hI, hW, fun S h => by simp at h⟩

theorem PspDequeuePendingSignal_settled (Env : KERNEL_ENVIRONMENT) (P : KPROCESS) (t : Nat)
    (SP : SIGNAL_PARAMETERS) (ht : t < P.ThreadListHead.length)
    (hLock : DequeueTakesLock P t) :
    ∃ Result, PspDequeuePendingSignal Env P t SP = some Result ∧
      DequeueSettled t (P.Thread t).PendingSignals (DequeueSavedSignalMask P t)
        Result.Process ∧
      PendingWithin t (P.Thread t).PendingSignals P.PendingSignals Result.Process := by
  obtain ⟨h1, h2, h3⟩ := hLock
  obtain ⟨l1, l2, l3⟩ := DequeueStandardLoop_settled Env P t ht
  rw [PspDequeuePendingSignal_eq Env P t SP ht h1 h2, if_neg (by rw [h3]; decide)]
  cases hD : (DequeueStandardLoop Env P t).Dequeued with
  | some S => exact ⟨_, rfl, l3 S hD, l2⟩
  | none =>
    have hlenL : t < (DequeueStandardLoop Env P t).Process.ThreadListHead.length := by
      rw [(DequeueFrame_loop Env t P).2.2.1]; exact ht
    have hspL : ((DequeueStandardLoop Env P t).Process.Thread t).SignalPending =
          .ThreadSignalPending ∨
        ((DequeueStandardLoop Env P t).Process.Thread t).SignalPending =
          .ThreadNoSignalPending := by
      rcases l1 with h | h
      · exact Or.inl h
      · exact Or.inr h.1
    obtain ⟨q1, q2, q3⟩ := PspDequeueQueuedSignal_settled Env t
      (DequeueStandardLoop Env P t).SavedSignalMask
      ((DequeueStandardLoop Env P t).Process.SignalListHead.length +
        ((DequeueStandardLoop Env P t).Process.Thread t).SignalListHead.length + 1)
      (DequeueStandardLoop Env P t).Process SIGNAL_PARAMETERS.Zero hlenL hspL
      (fun h0 => by omega)
    refine ⟨_, rfl, ?_, PendingWithin_congr _ _ _ _ _ q1 q2 l2⟩
    rcases q3 with h | ⟨g1, g2, g3, g4, g5⟩
    · exact Or.inl h
    · right
      refine ⟨g1, g4, g5, ?_⟩
      intro n hn hs
      rcases l1 with h | ⟨_, hH⟩
      · rw [h] at g2; cases g2
      · rcases hH n hn hs with h | h
        · rw [IS_SIGNAL_SET_EMPTY_iff] at g3
          rw [g3] at h
          simp [IS_SIGNAL_SET] at h
        · exact SignalCleared_congr _ _ _ _ _ q1 q2 h

/-- C33: whenever `PspDequeuePendingSignal` comes to the point where it takes
the lock of the process (the thread is not in "no signal pending", neither KILL
nor STOP is pending and a pending set or a queue is not empty), it returns,
and if pending state that the thread can take remains at that point, the
thread is in "signal pending" on return. Such state is: an entry on the queue
of the process or of the thread, or a signal from 1 to 32 that the thread
neither blocked nor ran when the call began and that is still in the pending
set of the thread, or in the pending set of the process without having been
pending for the thread as well. -/
theorem C33_pending_state_restored (Env : KERNEL_ENVIRONMENT) (Process : KPROCESS)
    (CurrentThread : Nat) (SignalParameters : SIGNAL_PARAMETERS)
    (hThread : CurrentThread < Process.ThreadListHead.length)
    (hLock : DequeueTakesLock Process CurrentThread) :
    ∃ Result,
      PspDequeuePendingSignal Env Process CurrentThread SignalParameters = some Result ∧
        (DeliverableStateRemains Process Result.Process CurrentThread →
          (Result.Process.Thread CurrentThread).SignalPending = .ThreadSignalPending) := by
  obtain ⟨Result, hR, hS, hW⟩ :=
    PspDequeuePendingSignal_settled Env Process CurrentThread SignalParameters hThread hLock
  refine ⟨Result, hR, ?_⟩
  intro hRemains
  rcases hS with h | ⟨_, s2, s3, s4⟩
  · exact h
  · exfalso
    rcases hRemains with h | h | ⟨n, n1, n2, n3, n4, n5⟩
    · exact h s2
    · exact h s3
    · simp only [STANDARD_SIGNAL_COUNT] at n2
      have hTP : IS_SIGNAL_SET (Process.Thread CurrentThread).PendingSignals n = true ∨
          IS_SIGNAL_SET Process.PendingSignals n = true := by
        rcases n5 with h | h
        · exact Or.inl (hW.1 n h)
        · exact Or.inr (hW.2 n h.1)
      have hs : IS_SIGNAL_SET (DequeueSavedSignalMask Process CurrentThread) n = true := by
        have e : n - 1 < 32 := by omega
        simp only [DequeueSavedSignalMask, IS_SIGNAL_SET_ULONG,
          IS_SIGNAL_SET_REMOVE_SIGNALS_FROM_SET, IS_SIGNAL_SET_OR_SIGNAL_SETS, n3, n4]
        rcases hTP with h | h <;> simp [h, e]
      obtain ⟨c1, c2⟩ := s4 n n1 hs
      rcases n5 with h | h
      · rw [c1] at h; cases h
      · rw [c2 h.1] at h; cases h.2

theorem C33_pending_state_restored_witness :
    DequeueTakesLock ExampleQueueProcess 0 ∧
      (PspDequeuePendingSignal ExampleEnvironment ExampleQueueProcess 0
          SIGNAL_PARAMETERS.Zero).map
        (fun Result => (Result.DequeuedSignal, Result.Process.SignalListHead)) =
        some (40, [ExampleLastEntry]) ∧
      ∃ Result,
        PspDequeuePendingSignal ExampleEnvironment ExampleQueueProcess 0
            SIGNAL_PARAMETERS.Zero = some Result ∧
          (DeliverableStateRemains ExampleQueueProcess Result.Process 0 →
            (Result.Process.Thread 0).SignalPending = .ThreadSignalPending) :=
  ⟨by decide, by decide,
    C33_pending_state_restored ExampleEnvironment ExampleQueueProcess 0 SIGNAL_PARAMETERS.Zero
      (by decide) (by decide)⟩

/-- C33, a pending signal that the thread blocks: the thread of
`ExampleBlockedPendingProcess` is in "signal pending", blocks signal 3 and has
signal 3 pending, and nothing else is pending or queued. The call takes the
lock of the process and returns -1; on return the pending set of the thread
is not empty and the thread is in "no signal pending". -/
theorem C33_blocked_signal_counterexample :
    DequeueTakesLock ExampleBlockedPendingProcess 0 ∧
      (PspDequeuePendingSignal ExampleEnvironment ExampleBlockedPendingProcess 0
          SIGNAL_PARAMETERS.Zero).map
        (fun Result =>
          (Result.DequeuedSignal, decide (PendingStateRemains Result.Process 0),
            (Result.Process.Thread 0).PendingSignals,
            (Result.Process.Thread 0).SignalPending)) =
        some (ULONG_MINUS_ONE, true, SIGNAL_BIT 3,
          THREAD_SIGNAL_PENDING_TYPE.ThreadNoSignalPending) := by
  decide

/-- A signal that is pending for the thread and for the process: the call
takes the copy of the thread and returns the signal; the copy of the process
stays pending, is neither blocked nor running, and the thread is left in "no
signal pending". -/
theorem PspDequeuePendingSignal_pending_for_both :
    DequeueTakesLock ExampleBothPendingProcess 0 ∧
      (PspDequeuePendingSignal ExampleEnvironment ExampleBothPendingProcess 0
          SIGNAL_PARAMETERS.Zero).map
        (fun Result =>
          (Result.DequeuedSignal, Result.Process.PendingSignals,
            (Result.Process.Thread 0).PendingSignals,
            (Result.Process.Thread 0).SignalPending)) =
        some (2, SIGNAL_BIT 2, 0, THREAD_SIGNAL_PENDING_TYPE.ThreadNoSignalPending) := by
  decide

/-! ## Dequeue: a delivered entry on a queue -/

/-- C34, at the state `ExampleRequeuedChildProcess`: a traced process that
handles the child signal has received the entry of a child, its thread has
dequeued it (the entry is marked delivered and waits on the blocked-deferred
list for a wait call) and has then set its signal mask, which puts the entry
back on the queue of the process. The signal is not ignored and not blocked.
The next `PspDequeuePendingSignal` returns -1 and does not run the completion
routine, and afterwards the entry is on no list of the process. -/
theorem C34_delivered_entry_left_on_no_list :
    ExampleRequeuedChildProcess.SignalListHead =
        [{ ExampleChildEntry with Delivered := true }] ∧
      ExampleRequeuedChildProcess.LinkCount ExampleChildEntry.Address = 1 ∧
      IS_SIGNAL_SET ExampleRequeuedChildProcess.IgnoredSignals
        SIGNAL_CHILD_PROCESS_ACTIVITY = false ∧
      IS_SIGNAL_BLOCKED (ExampleRequeuedChildProcess.Thread 0)
        SIGNAL_CHILD_PROCESS_ACTIVITY = false ∧
      (PspDequeuePendingSignal ExampleEnvironment ExampleRequeuedChildProcess 0
          SIGNAL_PARAMETERS.Zero).map
        (fun Result =>
          (Result.DequeuedSignal, Result.Process.LinkCount ExampleChildEntry.Address,
            Result.Process.CompletionCount ExampleChildEntry.Address)) =
        some (ULONG_MINUS_ONE, 0, 0) := by
  decide

/-! ## Dequeue: an entry whose signal is ignored by default -/

theorem PspTracerBreak_congr (Env : KERNEL_ENVIRONMENT) (P Q : KPROCESS)
    (s : SIGNAL_PARAMETERS) (h1 : Q.HasTracer = P.HasTracer)
    (h2 : Q.HandledSignals = P.HandledSignals) :
    PspTracerBreak Env Q s = PspTracerBreak Env P s := by
  unfold PspTracerBreak
  rw [h1, h2]

theorem PspDequeueWalkQueue_completed_mono (Env : KERNEL_ENVIRONMENT) (T : KTHREAD)
    (L : List SIGNAL_QUEUE_ENTRY) (P : KPROCESS) (x : SIGNAL_QUEUE_ENTRY)
    (h : x ∈ P.CompletedSignals) :
    x ∈ (PspDequeueWalkQueue Env T L P).Process.CompletedSignals := by
  obtain ⟨bl, cs, hs⟩ := PspDequeueWalkQueue_shape Env T L P
  rw [hs]
  exact List.mem_append_left _ h

theorem PspDequeueWalkQueue_step (Env : KERNEL_ENVIRONMENT) (T : KTHREAD)
    (y : SIGNAL_QUEUE_ENTRY) (L : List SIGNAL_QUEUE_ENTRY) (Q : KPROCESS)
    (hy : EntryEligible Env Q T y = false) :
    ∃ R : KPROCESS, R.HasTracer = Q.HasTracer ∧ R.HandledSignals = Q.HandledSignals ∧
      PspDequeueWalkQueue Env T (y :: L) Q = PspDequeueWalkQueue Env T L R := by
  simp only [PspDequeueWalkQueue]
  by_cases c1 : (IS_SIGNAL_SET Q.HandledSignals y.Parameters.SignalNumber == false &&
      Env.IS_SIGNAL_DEFAULT_IGNORE y.Parameters.SignalNumber) = true
  · rw [if_pos c1]
    split_ifs
    all_goals exact ⟨_, by simp, by simp, rfl⟩
  · rw [if_neg c1]
    by_cases c2 : IS_SIGNAL_BLOCKED T y.Parameters.SignalNumber = true
    · rw [if_pos c2]
      exact ⟨_, by simp, by simp, rfl⟩
    · rw [if_neg c2]
      by_cases c3 : (y.Delivered == false) = true
      · exfalso
        simp only [Bool.not_eq_true] at c1 c2
        rw [EntryEligible, c1, c2, c3] at hy
        simp at hy
      · rw [if_neg c3]
        exact ⟨Q, rfl, rfl, rfl⟩

theorem PspDequeueWalkQueue_ignored (Env : KERNEL_ENVIRONMENT) (T : KTHREAD)
    (x : SIGNAL_QUEUE_ENTRY) (post : List SIGNAL_QUEUE_ENTRY) (P : KPROCESS)
    (hUnhandled : IS_SIGNAL_SET P.HandledSignals x.Parameters.SignalNumber = false)
    (hIgnore : Env.IS_SIGNAL_DEFAULT_IGNORE x.Parameters.SignalNumber = true) :
    ∀ (pre : List SIGNAL_QUEUE_ENTRY) (Q : KPROCESS),
      Q.HasTracer = P.HasTracer → Q.HandledSignals = P.HandledSignals →
      (∀ y ∈ pre, EntryEligible Env P T y = false) →
      (∀ e, (PspDequeueWalkQueue Env T (pre ++ x :: post) Q).SignalEntry = some e →
        e ∈ post ∧ EntryEligible Env P T e = true) ∧
      (if x.Parameters.SignalNumber = SIGNAL_CHILD_PROCESS_ACTIVITY then
        EntryShownToTracer Env P x ∈
          (PspDequeueWalkQueue Env T (pre ++ x :: post) Q).Process.BlockedSignalListHead
      else
        (x.CompletionRoutine = true →
          EntryShownToTracer Env P x ∈
            (PspDequeueWalkQueue Env T (pre ++ x :: post) Q).Process.CompletedSignals)) := by
  intro pre
  induction pre with
  | nil =>
    intro Q hT hH _
    have c1 : (IS_SIGNAL_SET Q.HandledSignals x.Parameters.SignalNumber == false &&
        Env.IS_SIGNAL_DEFAULT_IGNORE x.Parameters.SignalNumber) = true := by
      rw [hH, hUnhandled, hIgnore]; rfl
    have hShown : (if Q.HasTracer then
          { x with Parameters := PspTracerBreak Env Q x.Parameters }
        else x) = EntryShownToTracer Env P x := by
      unfold EntryShownToTracer
      rw [hT, PspTracerBreak_congr Env P Q _ hT hH]
    have hEntry : ∀ (R : KPROCESS), R.HandledSignals = P.HandledSignals → ∀ e,
        (PspDequeueWalkQueue Env T post R).SignalEntry = some e →
          e ∈ post ∧ EntryEligible Env P T e = true := by
      intro R hR e he
      have := PspDequeueWalkQueue_entry Env T post R e he
      refine ⟨this.2, ?_⟩
      simpa [EntryEligible, hR] using this.1
    simp only [List.nil_append, PspDequeueWalkQueue]
    rw [if_pos c1, hShown]
    by_cases hc : x.Parameters.SignalNumber = SIGNAL_CHILD_PROCESS_ACTIVITY
    · rw [if_pos (by rw [hc]; rfl), if_pos hc]
      refine ⟨hEntry _ (by simp [hH]), ?_⟩
      exact PspDequeueWalkQueue_blocked_mono Env T post _ _ (by simp [KPROCESS.InsertBlocked])
    · rw [if_neg (by simpa using hc), if_neg hc]
      refine ⟨hEntry _ (by simp [hH]), ?_⟩
      intro hr
      refine PspDequeueWalkQueue_completed_mono Env T post _ _ ?_
      unfold KPROCESS.Complete
      have hr2 : (EntryShownToTracer Env P x).CompletionRoutine = true := by
        unfold EntryShownToTracer
        split <;> exact hr
      rw [if_pos hr2]
      simp
  | cons y pre ih =>
    intro Q hT hH hpre
    have hy : EntryEligible Env Q T y = false := by
      have := hpre y (List.mem_cons_self _ _)
      simpa [EntryEligible, hH] using this
    obtain ⟨R, hR1, hR2, hR⟩ := PspDequeueWalkQueue_step Env T y (pre ++ x :: post) Q hy
    rw [List.cons_append, hR]
    exact ih R (hR1.trans hT) (hR2.trans hH) (fun z hz => hpre z (List.mem_cons_of_mem _ hz))

/-- C35: the queue walk of `PspDequeuePendingSignal` never hands out an entry
whose signal is not handled and ignored by default, with a tracer attached
or without one. When the walk comes to such an entry (nothing in front of it
is taken), the entry leaves the queue: with a tracer attached its parameters
are first handed to `PspTracerBreak`, and whatever comes back the entry is put
on the blocked-deferred list when its signal is the child signal and is handed
to its completion routine otherwise. The entry that the walk gives back, if
any, is one from behind it that is handled or not ignored by default, not
blocked and not delivered. -/
theorem C35_default_ignore_entry_not_delivered (Env : KERNEL_ENVIRONMENT) (Thread : KTHREAD)
    (Process : KPROCESS) (Front Behind : List SIGNAL_QUEUE_ENTRY)
    (SignalEntry : SIGNAL_QUEUE_ENTRY)
    (hFront : ∀ Other ∈ Front, EntryEligible Env Process Thread Other = false)
    (hUnhandled :
      IS_SIGNAL_SET Process.HandledSignals SignalEntry.Parameters.SignalNumber = false)
    (hIgnore : Env.IS_SIGNAL_DEFAULT_IGNORE SignalEntry.Parameters.SignalNumber = true) :
    (PspDequeueWalkQueue Env Thread (Front ++ SignalEntry :: Behind) Process).SignalEntry ≠
        some SignalEntry ∧
      (∀ Taken,
        (PspDequeueWalkQueue Env Thread (Front ++ SignalEntry :: Behind) Process).SignalEntry =
            some Taken →
          Taken ∈ Behind ∧ EntryEligible Env Process Thread Taken = true) ∧
      (if SignalEntry.Parameters.SignalNumber = SIGNAL_CHILD_PROCESS_ACTIVITY then
        EntryShownToTracer Env Process SignalEntry ∈
          (PspDequeueWalkQueue Env Thread (Front ++ SignalEntry :: Behind)
            Process).Process.BlockedSignalListHead
      else
        (SignalEntry.CompletionRoutine = true →
          EntryShownToTracer Env Process SignalEntry ∈
            (PspDequeueWalkQueue Env Thread (Front ++ SignalEntry :: Behind)
              Process).Process.CompletedSignals)) := by
  have h := PspDequeueWalkQueue_ignored Env Thread SignalEntry Behind Process hUnhandled hIgnore
    Front Process rfl rfl hFront
  refine ⟨?_, h.1, h.2⟩
  intro hTaken
  have hE := (h.1 SignalEntry hTaken).2
  rw [EntryEligible, hUnhandled, hIgnore] at hE
  simp at hE

theorem C35_default_ignore_entry_not_delivered_witness :
    (PspDequeueWalkQueue ExampleEnvironment ExampleIdleThread
        ([{ ExampleLastEntry with Delivered := true }] ++ ExampleIgnoredEntry :: [ExampleEntry])
        ExampleTracedIgnoreProcess).SignalEntry ≠ some ExampleIgnoredEntry ∧
      (PspDequeueWalkQueue ExampleEnvironment ExampleIdleThread
        ([{ ExampleLastEntry with Delivered := true }] ++ ExampleIgnoredEntry :: [ExampleEntry])
        ExampleTracedIgnoreProcess).SignalEntry = some ExampleEntry :=
  ⟨(C35_default_ignore_entry_not_delivered ExampleEnvironment ExampleIdleThread
      ExampleTracedIgnoreProcess [{ ExampleLastEntry with Delivered := true }] [ExampleEntry]
      ExampleIgnoredEntry (by decide) (by decide) (by decide)).1, by decide⟩

/-- C35, with a tracer attached: the entry `ExampleIgnoredEntry` is alone on
the queue of a traced process, its signal is not handled and ignored by
default, not blocked for the thread, the entry is not delivered and the tracer
hands the signal back unchanged. `PspDequeuePendingSignal` returns -1: the
entry is not handed out, it has been given to its completion routine and is
on no queue. -/
theorem C35_traced_default_ignore_entry_counterexample :
    ExampleTracedIgnoreProcess.HasTracer = true ∧
      ExampleTracedIgnoreProcess.SignalListHead = [ExampleIgnoredEntry] ∧
      IS_SIGNAL_SET ExampleTracedIgnoreProcess.HandledSignals
        ExampleIgnoredEntry.Parameters.SignalNumber = false ∧
      ExampleEnvironment.IS_SIGNAL_DEFAULT_IGNORE
        ExampleIgnoredEntry.Parameters.SignalNumber = true ∧
      IS_SIGNAL_BLOCKED (ExampleTracedIgnoreProcess.Thread 0)
        ExampleIgnoredEntry.Parameters.SignalNumber = false ∧
      ExampleIgnoredEntry.Delivered = false ∧
      PspTracerBreak ExampleEnvironment ExampleTracedIgnoreProcess
        ExampleIgnoredEntry.Parameters = ExampleIgnoredEntry.Parameters ∧
      (PspDequeuePendingSignal ExampleEnvironment ExampleTracedIgnoreProcess 0
          SIGNAL_PARAMETERS.Zero).map
        (fun Result =>
          (Result.DequeuedSignal, Result.Process.SignalListHead,
            Result.Process.BlockedSignalListHead, Result.Process.CompletedSignals)) =
        some (ULONG_MINUS_ONE, [], [], [ExampleIgnoredEntry]) := by
  decide

/-! ## Enqueue: the pending state of the threads -/

theorem PspRaiseSignalPending_raised (T : KTHREAD) (ty : THREAD_SIGNAL_PENDING_TYPE) (w : Bool) :
    T.SignalPending.toNat ≤ (PspRaiseSignalPending T ty w).SignalPending.toNat := by
  unfold PspRaiseSignalPending
  simp only
  split
  · omega
  · exact Nat.le_refl _

theorem PspQueueSignalWake_raised (P : KPROCESS) (Thread : Option Nat) (n : Nat) (b : Bool)
    (ty : THREAD_SIGNAL_PENDING_TYPE) (w : Bool) (u : Nat) :
    (P.Thread u).SignalPending.toNat ≤
      ((PspQueueSignalWake P Thread n b ty w).Thread u).SignalPending.toNat := by
  unfold PspQueueSignalWake
  split
  · split
    · rw [Thread_SetThread]
      split
      · rename_i hc
        rw [← hc.1]
        exact PspRaiseSignalPending_raised _ _ _
      · exact Nat.le_refl _
    · rw [Thread_map]
      split
      · split_ifs
        · exact PspRaiseSignalPending_raised _ _ _
        · exact PspRaiseSignalPending_raised _ _ _
        · exact Nat.le_refl _
      · rename_i hu
        have h2 : P.ThreadListHead.length ≤ u := by omega
        simp [KPROCESS.Thread, List.getD_eq_getElem?_getD, List.getElem?_eq_none h2]
  · exact Nat.le_refl _

theorem PspQueueSignalPlacement_SignalPending (Env : KERNEL_ENVIRONMENT) (P : KPROCESS)
    (Thread : Option Nat) (n : Nat) (Entry : Option SIGNAL_QUEUE_ENTRY) (i b : Bool) (u : Nat) :
    (((PspQueueSignalPlacement Env P Thread n Entry i b).Process).Thread u).SignalPending =
      (P.Thread u).SignalPending := by
  unfold PspQueueSignalPlacement
  split
  · unfold PspQueueSignalEntry
    split_ifs
    all_goals first
      | (simp; done)
      | (split
         · exact SetThread_Thread_proj KTHREAD.SignalPending _ _ _ _ rfl
         · rfl)
  · unfold PspQueueSignalNumber
    split_ifs
    all_goals first
      | rfl
      | (simp only
         split
         · exact SetThread_Thread_proj KTHREAD.SignalPending _ _ _ _ rfl
         · rfl)

theorem PspQueueSignalPlace_raised (Env : KERNEL_ENVIRONMENT) (P : KPROCESS)
    (Thread : Option Nat) (n : Nat) (Entry : Option SIGNAL_QUEUE_ENTRY) (i b : Bool) (u : Nat) :
    (P.Thread u).SignalPending.toNat ≤
      ((PspQueueSignalPlace Env P Thread n Entry i b).Thread u).SignalPending.toNat := by
  unfold PspQueueSignalPlace
  refine Nat.le_trans ?_ (PspQueueSignalWake_raised _ _ _ _ _ _ _)
  rw [PspQueueSignalPlacement_SignalPending]

theorem PspQueueSignalUnforced_raised (Env : KERNEL_ENVIRONMENT) (P : KPROCESS)
    (Thread : Option Nat) (n : Nat) (Entry : Option SIGNAL_QUEUE_ENTRY) (u : Nat) :
    (P.Thread u).SignalPending.toNat ≤
      ((PspQueueSignalUnforced Env P Thread n Entry).Thread u).SignalPending.toNat :=
  PspQueueSignalPlace_raised Env P Thread n Entry _ _ u

theorem PspQueueSignalToProcess_raised (Env : KERNEL_ENVIRONMENT) (P : KPROCESS) (n : Nat)
    (Entry : Option SIGNAL_QUEUE_ENTRY) (u : Nat) :
    (P.Thread u).SignalPending.toNat ≤
      (((PspQueueSignalToProcess Env P n Entry).2).Thread u).SignalPending.toNat := by
  unfold PspQueueSignalToProcess
  split
  · split
    · split_ifs <;> simp
    · exact Nat.le_refl _
  · simp only
    refine Nat.le_trans ?_ (PspQueueSignalUnforced_raised _ _ _ _ _ _)
    split_ifs <;> exact Nat.le_refl _

theorem PspQueueSignal_length (Env : KERNEL_ENVIRONMENT) (P : KPROCESS) (Thread : Option Nat)
    (n : Nat) (Entry : Option SIGNAL_QUEUE_ENTRY) (Force : Bool) :
    (PspQueueSignal Env P Thread n Entry Force).ThreadListHead.length =
      P.ThreadListHead.length := by
  unfold PspQueueSignal
  split
  · split
    · rfl
    · simp only
      split
      · rw [PspQueueSignalToProcess_length]
        simp [length_SetThread]
      · rw [PspQueueSignalPlace_length]
        exact length_SetThread _ _ _
  · exact PspQueueSignalUnforced_length Env P Thread n Entry

theorem PspQueueSignal_raised (Env : KERNEL_ENVIRONMENT) (P : KPROCESS) (Thread : Option Nat)
    (n : Nat) (Entry : Option SIGNAL_QUEUE_ENTRY) (Force : Bool) (u : Nat) :
    (P.Thread u).SignalPending.toNat ≤
      ((PspQueueSignal Env P Thread n Entry Force).Thread u).SignalPending.toNat := by
  unfold PspQueueSignal
  split
  · split
    · exact Nat.le_refl _
    · rename_i Target
      have hset : ((P.SetThread Target { P.Thread Target with
          BlockedSignals := REMOVE_SIGNAL (P.Thread Target).BlockedSignals n }).Thread
            u).SignalPending = (P.Thread u).SignalPending :=
        SetThread_Thread_proj KTHREAD.SignalPending _ _ _ _ rfl
      simp only
      split
      · refine Nat.le_trans ?_ (PspQueueSignalToProcess_raised _ _ _ _ _)
        rw [PspSetProcessExitStatusUnlocked_Thread, hset]
      · refine Nat.le_trans ?_ (PspQueueSignalPlace_raised _ _ _ _ _ _ _ _)
        rw [hset]
  · exact PspQueueSignalUnforced_raised Env P Thread n Entry u

/-- C37: the producers only raise the pending state. For every call of
`PspQueueSignal` (any thread or none, any signal number, entry or bare number,
forced or not) and every call of `PspQueueSignalToProcess`, and for every
thread of the process, the pending state of the thread after the call is at
least its pending state before the call in the order
None < ChildOnly < Any; and the calls leave the number of threads as it
was. -/
theorem C37_producers_only_raise_signal_pending (Env : KERNEL_ENVIRONMENT) (Process : KPROCESS)
    (Thread : Option Nat) (SignalNumber : Nat) (SignalQueueEntry : Option SIGNAL_QUEUE_ENTRY)
    (Force : Bool) (Other : Nat) :
    (Process.Thread Other).SignalPending.toNat ≤
        ((PspQueueSignal Env Process Thread SignalNumber SignalQueueEntry Force).Thread
          Other).SignalPending.toNat ∧
      (Process.Thread Other).SignalPending.toNat ≤
        (((PspQueueSignalToProcess Env Process SignalNumber SignalQueueEntry).2).Thread
          Other).SignalPending.toNat ∧
      (PspQueueSignal Env Process Thread SignalNumber SignalQueueEntry
          Force).ThreadListHead.length = Process.ThreadListHead.length ∧
      ((PspQueueSignalToProcess Env Process SignalNumber
          SignalQueueEntry).2).ThreadListHead.length = Process.ThreadListHead.length :=
  ⟨PspQueueSignal_raised Env Process Thread SignalNumber SignalQueueEntry Force Other,
    PspQueueSignalToProcess_raised Env Process SignalNumber SignalQueueEntry Other,
    PspQueueSignal_length Env Process Thread SignalNumber SignalQueueEntry Force,
    PspQueueSignalToProcess_length Env Process SignalNumber SignalQueueEntry⟩

/-! ## Enqueue: an entry is linked once or completed once -/

theorem flatMap_set_queue (l : List KTHREAD) (t : Nat) (v : KTHREAD)
    (h : v.SignalListHead = (l.getD t KTHREAD.Zero).SignalListHead) :
    (l.set t v).flatMap KTHREAD.SignalListHead = l.flatMap KTHREAD.SignalListHead := by
  induction l generalizing t with
  | nil => rfl
  | cons a l ih =>
    cases t with
    | zero =>
      simp only [List.set_cons_zero, List.flatMap_cons]
      rw [h]
      rfl
    | succ t =>
      simp only [List.set_cons_succ, List.flatMap_cons]
      rw [ih t (by simpa using h)]

theorem countP_flatMap_set_append (l : List KTHREAD) (t : Nat) (E : SIGNAL_QUEUE_ENTRY)
    (p : SIGNAL_QUEUE_ENTRY → Bool) (ht : t < l.length) :
    ((l.set t { l.getD t KTHREAD.Zero with
        SignalListHead := (l.getD t KTHREAD.Zero).SignalListHead ++ [E] }).flatMap
          KTHREAD.SignalListHead).countP p =
      (l.flatMap KTHREAD.SignalListHead).countP p + [E].countP p := by
  induction l generalizing t with
  | nil => simp at ht
  | cons a l ih =>
    cases t with
    | zero =>
      simp only [List.set_cons_zero, List.flatMap_cons, List.countP_append, List.getD_cons_zero]
      omega
    | succ t =>
      simp only [List.set_cons_succ, List.flatMap_cons, List.countP_append, List.getD_cons_succ]
      rw [ih t (by simpa using ht)]
      omega

theorem LinkedEntries_SetThread_queue (P : KPROCESS) (t : Nat) (v : KTHREAD)
    (h : v.SignalListHead = (P.Thread t).SignalListHead) :
    (P.SetThread t v).LinkedEntries = P.LinkedEntries := by
  unfold KPROCESS.LinkedEntries KPROCESS.SetThread
  simp only
  rw [flatMap_set_queue _ _ _ h]

theorem PspQueueSignalWake_LinkedEntries (P : KPROCESS) (Thread : Option Nat) (n : Nat)
    (b : Bool) (ty : THREAD_SIGNAL_PENDING_TYPE) (w : Bool) :
    (PspQueueSignalWake P Thread n b ty w).LinkedEntries = P.LinkedEntries := by
  cases Thread with
  | none =>
    unfold KPROCESS.LinkedEntries
    rw [PspQueueSignalWake_none_flatMap, PspQueueSignalWake_SignalListHead,
      PspQueueSignalWake_BlockedSignalListHead]
  | some t =>
    unfold PspQueueSignalWake
    split
    · exact LinkedEntries_SetThread_queue _ _ _ rfl
    · rfl

theorem countP_address_singleton (Entry : SIGNAL_QUEUE_ENTRY) :
    [Entry].countP (fun SignalEntry => SignalEntry.Address == Entry.Address) = 1 := by
  simp

theorem LinkCount_eq (P : KPROCESS) (a : Nat) :
    P.LinkCount a =
      P.BlockedSignalListHead.countP (fun SignalEntry => SignalEntry.Address == a) +
        P.SignalListHead.countP (fun SignalEntry => SignalEntry.Address == a) +
        (P.ThreadListHead.flatMap KTHREAD.SignalListHead).countP
          (fun SignalEntry => SignalEntry.Address == a) := by
  unfold KPROCESS.LinkCount KPROCESS.LinkedEntries
  rw [List.countP_append, List.countP_append]

theorem PspQueueSignalEntry_LinkedOrCompleted (Env : KERNEL_ENVIRONMENT) (P : KPROCESS)
    (Thread : Option Nat) (n : Nat) (Entry : SIGNAL_QUEUE_ENTRY) (i b : Bool)
    (hDetached : P.LinkCount Entry.Address = 0) (hRoutine : Entry.CompletionRoutine = true)
    (hThread : ∀ Target, Thread = some Target → Target < P.ThreadListHead.length) :
    LinkedOrCompleted P (PspQueueSignalEntry Env P Thread n Entry i b).Process
      Entry.Address := by
  have hB : LinkedOrCompleted P (P.InsertBlocked Entry) Entry.Address := by
    refine Or.inl ⟨?_, rfl⟩
    rw [LinkCount_eq] at hDetached ⊢
    unfold KPROCESS.InsertBlocked
    simp only [List.countP_append, countP_address_singleton]
    omega
  have hC : LinkedOrCompleted P (P.Complete Entry) Entry.Address := by
    refine Or.inr ⟨?_, ?_⟩
    · rw [LinkCount_eq] at hDetached ⊢
      simp only [Complete_BlockedSignalListHead, Complete_SignalListHead,
        Complete_ThreadListHead]
      exact hDetached
    · unfold KPROCESS.CompletionCount KPROCESS.Complete
      rw [if_pos hRoutine]
      simp only [List.countP_append, countP_address_singleton]
  have hT : ∀ Target, Thread = some Target → LinkedOrCompleted P
      (P.SetThread Target { P.Thread Target with
        SignalListHead := (P.Thread Target).SignalListHead ++ [Entry] }) Entry.Address := by
    intro Target hTarget
    have ht := hThread Target hTarget
    refine Or.inl ⟨?_, rfl⟩
    rw [LinkCount_eq] at hDetached ⊢
    unfold KPROCESS.SetThread KPROCESS.Thread
    simp only
    rw [countP_flatMap_set_append _ _ _ _ ht, countP_address_singleton]
    omega
  have hQ : LinkedOrCompleted P
      { P with SignalListHead := P.SignalListHead ++ [Entry] } Entry.Address := by
    refine Or.inl ⟨?_, rfl⟩
    rw [LinkCount_eq] at hDetached ⊢
    simp only [List.countP_append, countP_address_singleton]
    omega
  unfold PspQueueSignalEntry
  split_ifs
  all_goals first
    | exact hB
    | exact hC
    | (split
       · exact hT _ rfl
       · exact hQ)

theorem PspQueueSignalPlace_LinkedOrCompleted (Env : KERNEL_ENVIRONMENT) (P : KPROCESS)
    (Thread : Option Nat) (n : Nat) (Entry : SIGNAL_QUEUE_ENTRY) (i b : Bool)
    (hDetached : P.LinkCount Entry.Address = 0) (hRoutine : Entry.CompletionRoutine = true)
    (hThread : ∀ Target, Thread = some Target → Target < P.ThreadListHead.length) :
    LinkedOrCompleted P (PspQueueSignalPlace Env P Thread n (some Entry) i b)
      Entry.Address := by
  have h := PspQueueSignalEntry_LinkedOrCompleted Env P Thread n
    { Entry with DestinationThread := Thread } i b hDetached hRoutine hThread
  unfold LinkedOrCompleted KPROCESS.LinkCount KPROCESS.CompletionCount at h ⊢
  unfold PspQueueSignalPlace
  rw [PspQueueSignalWake_LinkedEntries, PspQueueSignalWake_CompletedSignals]
  exact h

theorem PspQueueSignalNumber_number_kept (P : KPROCESS)
    (Thread : Option Nat) (n : Nat) (i b : Bool) :
    (PspQueueSignalNumber P Thread n i b).Process.LinkedEntries = P.LinkedEntries ∧
      (PspQueueSignalNumber P Thread n i b).Process.CompletedSignals = P.CompletedSignals := by
  unfold PspQueueSignalNumber
  cases Thread with
  | none => split_ifs <;> exact ⟨rfl, rfl⟩
  | some Target =>
    split_ifs <;>
      first
      | exact ⟨rfl, rfl⟩
      | exact ⟨LinkedEntries_SetThread_queue _ _ _ rfl, rfl⟩

theorem PspQueueSignalUnforced_number_kept (Env : KERNEL_ENVIRONMENT) (P : KPROCESS)
    (Thread : Option Nat) (n : Nat) :
    (PspQueueSignalUnforced Env P Thread n none).LinkedEntries = P.LinkedEntries ∧
      (PspQueueSignalUnforced Env P Thread n none).CompletedSignals = P.CompletedSignals := by
  unfold PspQueueSignalUnforced PspQueueSignalPlace PspQueueSignalPlacement
  simp only
  rw [PspQueueSignalWake_LinkedEntries, PspQueueSignalWake_CompletedSignals]
  exact PspQueueSignalNumber_number_kept P Thread n _ _

theorem PspQueueSignalToProcess_number_kept (Env : KERNEL_ENVIRONMENT) (P : KPROCESS)
    (n : Nat) :
    (PspQueueSignalToProcess Env P n none).2.LinkedEntries = P.LinkedEntries ∧
      (PspQueueSignalToProcess Env P n none).2.CompletedSignals = P.CompletedSignals := by
  unfold PspQueueSignalToProcess
  split
  · exact ⟨rfl, rfl⟩
  · simp only [Option.map_none']
    obtain ⟨h1, h2⟩ := PspQueueSignalUnforced_number_kept Env
      (if n == SIGNAL_STOP then
        if IS_SIGNAL_SET P.PendingSignals SIGNAL_KILL == false then
          { P with
            PendingSignals := REMOVE_SIGNAL P.PendingSignals SIGNAL_CONTINUE
            StopEvent := false }
        else P
      else if n == SIGNAL_CONTINUE then
        { P with
          PendingSignals := REMOVE_SIGNAL P.PendingSignals SIGNAL_STOP
          StopEvent := true }
      else if n == SIGNAL_KILL then
        { P with
          PendingSignals :=
            REMOVE_SIGNAL (REMOVE_SIGNAL P.PendingSignals SIGNAL_STOP) SIGNAL_CONTINUE
          StopEvent := true }
      else P) none n
    rw [h1, h2]
    split_ifs <;> exact ⟨rfl, rfl⟩

/-- A detached queue entry with a completion routine is passed to
`PspQueueSignal` for a thread of the process or for the process as a whole,
whatever the state of the thread and of the process. Without force, or with
force for a thread that is not running the signal, exactly one of two things
has happened to it after the call: it is linked at exactly one place (a
thread queue, the process queue or the blocked-deferred list) and its
completion routine has not been run, or it is linked nowhere and its
completion routine has been run exactly once. With force for a thread that is
running the signal the entry is linked nowhere and its completion routine has
not been run. -/
theorem PspQueueSignal_LinkedOrCompleted (Env : KERNEL_ENVIRONMENT) (Process : KPROCESS)
    (Thread : Option Nat) (SignalNumber : Nat) (SignalQueueEntry : SIGNAL_QUEUE_ENTRY)
    (Force : Bool)
    (hDetached : Process.LinkCount SignalQueueEntry.Address = 0)
    (hRoutine : SignalQueueEntry.CompletionRoutine = true)
    (hThread : ∀ Target, Thread = some Target → Target < Process.ThreadListHead.length)
    (hForce : Force = true → Thread ≠ none) :
    (¬ ForcedWhileRunning Process Thread SignalNumber Force →
        LinkedOrCompleted Process
          (PspQueueSignal Env Process Thread SignalNumber (some SignalQueueEntry) Force)
          SignalQueueEntry.Address) ∧
      (ForcedWhileRunning Process Thread SignalNumber Force →
        (PspQueueSignal Env Process Thread SignalNumber (some SignalQueueEntry)
            Force).LinkCount SignalQueueEntry.Address = 0 ∧
          (PspQueueSignal Env Process Thread SignalNumber (some SignalQueueEntry)
            Force).CompletionCount SignalQueueEntry.Address =
            Process.CompletionCount SignalQueueEntry.Address) := by
  cases Force with
  | false =>
    refine ⟨fun _ => ?_, fun h => by cases h.1⟩
    unfold PspQueueSignal
    rw [if_neg (by decide)]
    exact PspQueueSignalPlace_LinkedOrCompleted Env Process Thread SignalNumber
      SignalQueueEntry _ _ hDetached hRoutine hThread
  | true =>
    cases Thread with
    | none => exact absurd rfl (hForce rfl)
    | some Target =>
      have ht := hThread Target rfl
      have hL : (ForceUnblocked Process Target SignalNumber).LinkedEntries =
          Process.LinkedEntries := LinkedEntries_SetThread_queue _ _ _ rfl
      cases hRun : IS_SIGNAL_SET (Process.Thread Target).RunningSignals SignalNumber with
      | false =>
        refine ⟨fun _ => ?_, fun h => ?_⟩
        · have hP := PspQueueSignalPlace_LinkedOrCompleted Env
            (ForceUnblocked Process Target SignalNumber) (some Target) SignalNumber
            SignalQueueEntry false false
            (by unfold KPROCESS.LinkCount at hDetached ⊢; rw [hL]; exact hDetached) hRoutine
            (by intro T hT; cases hT; simpa using ht)
          rw [PspQueueSignal_forced Env Process Target SignalNumber (some SignalQueueEntry)
            hRun]
          unfold LinkedOrCompleted at hP ⊢
          have hCC : (ForceUnblocked Process Target SignalNumber).CompletionCount
              SignalQueueEntry.Address = Process.CompletionCount SignalQueueEntry.Address := by
            unfold KPROCESS.CompletionCount
            rw [ForceUnblocked_CompletedSignals]
          rw [hCC] at hP
          exact hP
        · obtain ⟨_, T, hT, hr⟩ := h
          cases hT
          rw [hRun] at hr
          cases hr
      | true =>
        refine ⟨fun h => absurd ⟨rfl, Target, rfl, hRun⟩ h, fun _ => ?_⟩
        rw [PspQueueSignal_forced_running Env Process Target SignalNumber
          (some SignalQueueEntry) hRun]
        obtain ⟨k1, k2⟩ := PspQueueSignalToProcess_number_kept Env
          (PspSetProcessExitStatusUnlocked (ForceUnblocked Process Target SignalNumber)
            .CHILD_SIGNAL_REASON_KILLED SignalNumber) SIGNAL_KILL
        unfold KPROCESS.LinkCount at hDetached
        unfold KPROCESS.LinkCount KPROCESS.CompletionCount
        rw [k1, k2]
        have hL2 : (PspSetProcessExitStatusUnlocked (ForceUnblocked Process Target SignalNumber)
            .CHILD_SIGNAL_REASON_KILLED SignalNumber).LinkedEntries = Process.LinkedEntries :=
          hL
        rw [hL2, PspSetProcessExitStatusUnlocked_CompletedSignals,
          ForceUnblocked_CompletedSignals]
        exact ⟨hDetached, rfl⟩

/-- C36: the code at an input where the claim fails. The entry
`ExampleFaultEntry` is detached and has a completion routine; it is passed with
force for the thread of `ExampleRunningProcess`, which is running the handler
of the signal of the entry. The call takes the early return that turns the
signal into a KILL of the process: afterwards the entry is linked on no list
and its completion routine has not been run, so it is neither linked once nor
completed once. The same entry forced on a thread that is not running the
signal is linked once, and sent to a process without threads it is
completed once. -/
theorem C36_forced_running_entry_dropped :
    ExampleRunningProcess.LinkCount ExampleFaultEntry.Address = 0 ∧
      ExampleFaultEntry.CompletionRoutine = true ∧
      IS_SIGNAL_SET (ExampleRunningProcess.Thread 0).RunningSignals
        SIGNAL_ACCESS_VIOLATION = true ∧
      (PspQueueSignal ExampleEnvironment ExampleRunningProcess (some 0)
        SIGNAL_ACCESS_VIOLATION (some ExampleFaultEntry) true).LinkCount
          ExampleFaultEntry.Address = 0 ∧
      (PspQueueSignal ExampleEnvironment ExampleRunningProcess (some 0)
        SIGNAL_ACCESS_VIOLATION (some ExampleFaultEntry) true).CompletionCount
          ExampleFaultEntry.Address = 0 ∧
      ¬ LinkedOrCompleted ExampleRunningProcess
        (PspQueueSignal ExampleEnvironment ExampleRunningProcess (some 0)
          SIGNAL_ACCESS_VIOLATION (some ExampleFaultEntry) true)
        ExampleFaultEntry.Address ∧
      (PspQueueSignal ExampleEnvironment ExampleProcess (some 0)
        SIGNAL_ACCESS_VIOLATION (some ExampleFaultEntry) true).LinkCount
          ExampleFaultEntry.Address = 1 ∧
      (PspQueueSignalToProcess ExampleEnvironment { ExampleProcess with ThreadCount := 0 }
        SIGNAL_ACCESS_VIOLATION (some ExampleFaultEntry)).2.CompletionCount
          ExampleFaultEntry.Address = 1 := by
  decide

/-! ## Unblocking a pending signal -/

theorem PspDequeuePendingSignal_standard (Env : KERNEL_ENVIRONMENT) (Process : KPROCESS)
    (t : Nat) (SignalParameters : SIGNAL_PARAMETERS)
    (hThread : t < Process.ThreadListHead.length)
    (hTracer : Process.HasTracer = false)
    (hNonMaskable : NonMaskablePending Process t = false)
    (hPending : (Process.Thread t).SignalPending ≠ .ThreadNoSignalPending)
    (hStandard : PendingSignalsStandard Process t)
    (hEffective : IS_SIGNAL_SET_EMPTY (EffectiveSignals Process t) = false) :
    ∃ Result, PspDequeuePendingSignal Env Process t SignalParameters = some Result ∧
      1 ≤ Result.DequeuedSignal ∧
      IS_SIGNAL_SET (EffectiveSignals Process t) Result.DequeuedSignal = true := by
  have hne : EffectiveSignals Process t ≠ 0 := by
    intro h0
    rw [h0] at hEffective
    simp [IS_SIGNAL_SET_EMPTY] at hEffective
  obtain ⟨k, hk⟩ := Nat.ne_zero_implies_bit_true hne
  have hk31 := effective_testBit_lt Process t k hStandard hk
  obtain ⟨hc1, hc2, hc3⟩ :=
    RtlCountTrailingZeros64_spec (EffectiveSignals Process t) k (by omega) hk
  have hC := DequeueCombinedSignalMask_eq Process t hStandard
  have hn : IS_SIGNAL_SET (EffectiveSignals Process t)
      (RtlCountTrailingZeros64 (EffectiveSignals Process t) + 1) = true := by
    rw [IS_SIGNAL_SET_eq]
    have : RtlCountTrailingZeros64 (EffectiveSignals Process t) < 64 := by omega
    simp [hc1, this]
  obtain ⟨f, hf⟩ : ∃ f, STANDARD_SIGNAL_COUNT -
      (RtlCountTrailingZeros64 (EffectiveSignals Process t) + 1) = f + 1 :=
    ⟨30 - RtlCountTrailingZeros64 (EffectiveSignals Process t), by
      simp only [STANDARD_SIGNAL_COUNT]; omega⟩
  have hmem : IS_SIGNAL_SET (Process.Thread t).PendingSignals
        (RtlCountTrailingZeros64 (EffectiveSignals Process t) + 1) = true ∨
      IS_SIGNAL_SET Process.PendingSignals
        (RtlCountTrailingZeros64 (EffectiveSignals Process t) + 1) = true := by
    have := hn
    simp only [EffectiveSignals, IS_SIGNAL_SET_REMOVE_SIGNAL,
      IS_SIGNAL_SET_REMOVE_SIGNALS_FROM_SET, IS_SIGNAL_SET_OR_SIGNAL_SETS, Bool.and_eq_true,
      Bool.or_eq_true] at this
    exact this.1.1.1.1
  have hfast : IS_SIGNAL_SET_EMPTY
      (ULONG (OR_SIGNAL_SETS (Process.Thread t).PendingSignals Process.PendingSignals)) =
        false := by
    cases hz : IS_SIGNAL_SET_EMPTY
      (ULONG (OR_SIGNAL_SETS (Process.Thread t).PendingSignals Process.PendingSignals))
    · rfl
    · exfalso
      rw [IS_SIGNAL_SET_EMPTY_iff] at hz
      have h1 : IS_SIGNAL_SET
          (ULONG (OR_SIGNAL_SETS (Process.Thread t).PendingSignals Process.PendingSignals))
          (RtlCountTrailingZeros64 (EffectiveSignals Process t) + 1) = true := by
        rw [IS_SIGNAL_SET_ULONG, IS_SIGNAL_SET_OR_SIGNAL_SETS]
        have : RtlCountTrailingZeros64 (EffectiveSignals Process t) < 32 := by omega
        rcases hmem with h | h <;> simp [h, this]
      rw [hz] at h1
      simp [IS_SIGNAL_SET] at h1
  have hTracer1 : (DequeueClearedPending Process t).HasTracer = false := by
    simp [DequeueClearedPending, hTracer]
  have hThread1 : t < (DequeueClearedPending Process t).ThreadListHead.length := by
    simp [DequeueClearedPending, hThread]
  obtain ⟨h1, -⟩ :=
    PspDequeueStandardSignals_hit Env t (Process.Thread t).PendingSignals
      Process.PendingSignals (EffectiveSignals Process t) f
      (RtlCountTrailingZeros64 (EffectiveSignals Process t) + 1)
      (DequeueSavedSignalMask Process t) (DequeueClearedPending Process t) hThread1 hTracer1 hn
      (by omega)
  rw [PspDequeuePendingSignal_eq Env Process t SignalParameters hThread hPending hNonMaskable]
  simp only [hfast, Bool.false_and, Bool.false_eq_true, if_false, DequeueStandardLoop, hC,
    hEffective, beq_self_eq_true, if_true, hf, h1]
  refine ⟨_, rfl, ?_, hn⟩
  simp

theorem PspQueueSignalEntry_keeps (Env : KERNEL_ENVIRONMENT) (P : KPROCESS)
    (Thread : Option Nat) (n : Nat) (Entry : SIGNAL_QUEUE_ENTRY) (i b : Bool) :
    (PspQueueSignalEntry Env P Thread n Entry i b).Process.PendingSignals = P.PendingSignals ∧
      (PspQueueSignalEntry Env P Thread n Entry i b).Process.DebugData = P.DebugData ∧
      ∀ u, ((PspQueueSignalEntry Env P Thread n Entry i b).Process.Thread u).PendingSignals =
          (P.Thread u).PendingSignals ∧
        ((PspQueueSignalEntry Env P Thread n Entry i b).Process.Thread u).RunningSignals =
          (P.Thread u).RunningSignals := by
  have hI : ∀ x, (P.InsertBlocked x).PendingSignals = P.PendingSignals ∧
      (P.InsertBlocked x).DebugData = P.DebugData ∧
      ∀ u, ((P.InsertBlocked x).Thread u).PendingSignals = (P.Thread u).PendingSignals ∧
        ((P.InsertBlocked x).Thread u).RunningSignals = (P.Thread u).RunningSignals :=
    fun x => ⟨by simp, by simp, fun u => ⟨by simp, by simp⟩⟩
  have hC : ∀ x, (P.Complete x).PendingSignals = P.PendingSignals ∧
      (P.Complete x).DebugData = P.DebugData ∧
      ∀ u, ((P.Complete x).Thread u).PendingSignals = (P.Thread u).PendingSignals ∧
        ((P.Complete x).Thread u).RunningSignals = (P.Thread u).RunningSignals :=
    fun x => ⟨by simp, by simp, fun u => ⟨by simp, by simp⟩⟩
  unfold PspQueueSignalEntry
  split_ifs
  all_goals first
    | exact hI _
    | exact hC _
    | (split
       · exact ⟨by simp, by simp, fun u =>
           ⟨SetThread_Thread_proj KTHREAD.PendingSignals _ _ _ _ rfl,
             SetThread_Thread_proj KTHREAD.RunningSignals _ _ _ _ rfl⟩⟩
       · exact ⟨rfl, rfl, fun u => ⟨rfl, rfl⟩⟩)

theorem PspQueueSignalUnforced_entry_keeps (Env : KERNEL_ENVIRONMENT) (P : KPROCESS)
    (Thread : Option Nat) (n : Nat) (Entry : SIGNAL_QUEUE_ENTRY) :
    (PspQueueSignalUnforced Env P Thread n (some Entry)).PendingSignals = P.PendingSignals ∧
      (PspQueueSignalUnforced Env P Thread n (some Entry)).DebugData = P.DebugData ∧
      ∀ u, ((PspQueueSignalUnforced Env P Thread n (some Entry)).Thread u).PendingSignals =
          (P.Thread u).PendingSignals ∧
        ((PspQueueSignalUnforced Env P Thread n (some Entry)).Thread u).RunningSignals =
          (P.Thread u).RunningSignals := by
  unfold PspQueueSignalUnforced PspQueueSignalPlace PspQueueSignalPlacement
  simp only
  obtain ⟨h1, h2, h3⟩ := PspQueueSignalEntry_keeps Env P Thread n
    { Entry with DestinationThread := Thread } (IS_SIGNAL_SET P.IgnoredSignals n)
    (match Thread with
      | some Target => IS_SIGNAL_BLOCKED (P.Thread Target) n
      | none => false)
  refine ⟨?_, ?_, fun u => ⟨?_, ?_⟩⟩
  · rw [PspQueueSignalWake_PendingSignals]; exact h1
  · rw [PspQueueSignalWake_DebugData]; exact h2
  · rw [PspQueueSignalWake_Thread_PendingSignals]; exact (h3 u).1
  · rw [PspQueueSignalWake_Thread_RunningSignals]; exact (h3 u).2

theorem PspRequeueBlockedList_keeps (Env : KERNEL_ENVIRONMENT) (P : KPROCESS) :
    (PspRequeueBlockedList Env P).PendingSignals = P.PendingSignals ∧
      (PspRequeueBlockedList Env P).DebugData = P.DebugData ∧
      ∀ u, ((PspRequeueBlockedList Env P).Thread u).PendingSignals =
          (P.Thread u).PendingSignals ∧
        ((PspRequeueBlockedList Env P).Thread u).RunningSignals =
          (P.Thread u).RunningSignals := by
  have hfold : ∀ (L : List SIGNAL_QUEUE_ENTRY) (Q : KPROCESS),
      (L.foldl (fun Current SignalQueueEntry =>
          PspQueueSignal Env Current SignalQueueEntry.DestinationThread
            SignalQueueEntry.Parameters.SignalNumber (some SignalQueueEntry) false)
        Q).PendingSignals = Q.PendingSignals ∧
      (L.foldl (fun Current SignalQueueEntry =>
          PspQueueSignal Env Current SignalQueueEntry.DestinationThread
            SignalQueueEntry.Parameters.SignalNumber (some SignalQueueEntry) false)
        Q).DebugData = Q.DebugData ∧
      ∀ u, ((L.foldl (fun Current SignalQueueEntry =>
          PspQueueSignal Env Current SignalQueueEntry.DestinationThread
            SignalQueueEntry.Parameters.SignalNumber (some SignalQueueEntry) false)
        Q).Thread u).PendingSignals = (Q.Thread u).PendingSignals ∧
        ((L.foldl (fun Current SignalQueueEntry =>
          PspQueueSignal Env Current SignalQueueEntry.DestinationThread
            SignalQueueEntry.Parameters.SignalNumber (some SignalQueueEntry) false)
        Q).Thread u).RunningSignals = (Q.Thread u).RunningSignals := by
    intro L
    induction L with
    | nil => intro Q; exact ⟨rfl, rfl, fun u => ⟨rfl, rfl⟩⟩
    | cons e L ih =>
      intro Q
      rw [List.foldl_cons]
      obtain ⟨a1, a2, a3⟩ := ih (PspQueueSignal Env Q e.DestinationThread
        e.Parameters.SignalNumber (some e) false)
      rw [PspQueueSignal_unforced] at a1 a2 a3 ⊢
      obtain ⟨b1, b2, b3⟩ := PspQueueSignalUnforced_entry_keeps Env Q e.DestinationThread
        e.Parameters.SignalNumber e
      exact ⟨a1.trans b1, a2.trans b2, fun u =>
        ⟨(a3 u).1.trans (b3 u).1, (a3 u).2.trans (b3 u).2⟩⟩
  unfold PspRequeueBlockedList
  split
  · obtain ⟨a1, a2, a3⟩ := hfold P.BlockedSignalListHead { P with BlockedSignalListHead := [] }
    exact ⟨a1, a2, a3⟩
  · exact ⟨rfl, rfl, fun u => ⟨rfl, rfl⟩⟩

theorem PsSetSignalMask_keeps (Env : KERNEL_ENVIRONMENT) (P : KPROCESS) (t : Nat)
    (m : SIGNAL_SET) (ht : t < P.ThreadListHead.length) :
    (PsSetSignalMask Env P t m).2.ThreadListHead.length = P.ThreadListHead.length ∧
      (PsSetSignalMask Env P t m).2.HasTracer = P.HasTracer ∧
      (PsSetSignalMask Env P t m).2.PendingSignals = P.PendingSignals ∧
      ((PsSetSignalMask Env P t m).2.Thread t).PendingSignals = (P.Thread t).PendingSignals ∧
      ((PsSetSignalMask Env P t m).2.Thread t).RunningSignals = (P.Thread t).RunningSignals ∧
      ((PsSetSignalMask Env P t m).2.Thread t).BlockedSignals =
        REMOVE_SIGNAL (REMOVE_SIGNAL (REMOVE_SIGNAL m SIGNAL_STOP) SIGNAL_KILL)
          SIGNAL_CONTINUE ∧
      ((PsSetSignalMask Env P t m).2.Thread t).SignalPending =
        Env.ThreadSignalPendingStateUnknown := by
  have hlen : (PspRequeueBlockedList Env (P.SetThread t { P.Thread t with
      BlockedSignals := REMOVE_SIGNAL (REMOVE_SIGNAL (REMOVE_SIGNAL m SIGNAL_STOP) SIGNAL_KILL)
        SIGNAL_CONTINUE })).ThreadListHead.length = P.ThreadListHead.length := by
    have := PspRequeueBlockedSignals_length Env (P.SetThread t { P.Thread t with
      BlockedSignals := REMOVE_SIGNAL (REMOVE_SIGNAL (REMOVE_SIGNAL m SIGNAL_STOP) SIGNAL_KILL)
        SIGNAL_CONTINUE }) t
    unfold PspRequeueBlockedSignals at this
    rw [length_SetThread, length_SetThread] at this
    exact this
  obtain ⟨k1, k2, k3⟩ := PspRequeueBlockedList_keeps Env (P.SetThread t { P.Thread t with
      BlockedSignals := REMOVE_SIGNAL (REMOVE_SIGNAL (REMOVE_SIGNAL m SIGNAL_STOP) SIGNAL_KILL)
        SIGNAL_CONTINUE })
  have hb := PspRequeueBlockedList_blocked Env (P.SetThread t { P.Thread t with
      BlockedSignals := REMOVE_SIGNAL (REMOVE_SIGNAL (REMOVE_SIGNAL m SIGNAL_STOP) SIGNAL_KILL)
        SIGNAL_CONTINUE }) t
  rw [Thread_SetThread_same _ _ _ ht] at hb
  have k3t := k3 t
  rw [Thread_SetThread_same _ _ _ ht] at k3t
  unfold PsSetSignalMask PspRequeueBlockedSignals
  simp only
  rw [Thread_SetThread_same _ _ _ (by rw [hlen]; exact ht)]
  refine ⟨by rw [length_SetThread]; exact hlen, ?_, ?_, k3t.1, k3t.2, hb, rfl⟩
  · unfold KPROCESS.HasTracer
    rw [SetThread_DebugData, k2, SetThread_DebugData]
  · rw [SetThread_PendingSignals, k1, SetThread_PendingSignals]

/-- C39: unblocking makes a deferred signal deliverable. The process has no
tracer, the standard signal `SignalNumber` (not STOP, KILL or CONTINUE) is the
only signal pending for the calling thread, nothing is pending for the
process, so neither KILL nor STOP is pending, and the thread is not running
the signal. After `PsSetSignalMask` with a mask that does not contain the
signal, the next `PspDequeuePendingSignal` of the thread returns the signal,
whatever the blocked set and the pending state of the thread were before the
mask change ("no signal pending" included) and whatever is queued or on the
blocked-deferred list. The pending state that `PspRequeueBlockedSignals` stores
as "unknown" is taken to be other than "no signal pending". -/
theorem C39_unblocked_signal_is_dequeued (Env : KERNEL_ENVIRONMENT) (Process : KPROCESS)
    (CurrentThread : Nat) (SignalNumber : Nat) (NewMask : SIGNAL_SET)
    (SignalParameters : SIGNAL_PARAMETERS)
    (hUnknown : Env.ThreadSignalPendingStateUnknown ≠ .ThreadNoSignalPending)
    (hThread : CurrentThread < Process.ThreadListHead.length)
    (hTracer : Process.HasTracer = false)
    (hSignal : 1 ≤ SignalNumber ∧ SignalNumber < STANDARD_SIGNAL_COUNT)
    (hMaskable : SignalNumber ≠ SIGNAL_STOP ∧ SignalNumber ≠ SIGNAL_KILL ∧
      SignalNumber ≠ SIGNAL_CONTINUE)
    (hPendingThread : (Process.Thread CurrentThread).PendingSignals = SIGNAL_BIT SignalNumber)
    (hPendingProcess : Process.PendingSignals = 0)
    (hRunning :
      IS_SIGNAL_SET (Process.Thread CurrentThread).RunningSignals SignalNumber = false)
    (hMask : IS_SIGNAL_SET NewMask SignalNumber = false) :
    ∃ Result,
      PspDequeuePendingSignal Env (PsSetSignalMask Env Process CurrentThread NewMask).2
          CurrentThread SignalParameters = some Result ∧
        Result.DequeuedSignal = SignalNumber := by
  obtain ⟨q1, q2, q3, q4, q5, q6, q7⟩ :=
    PsSetSignalMask_keeps Env Process CurrentThread NewMask hThread
  obtain ⟨hS1, hS2⟩ := hSignal
  simp only [STANDARD_SIGNAL_COUNT] at hS2
  obtain ⟨hm1, hm2, hm3⟩ := hMaskable
  simp only [SIGNAL_STOP] at hm1
  simp only [SIGNAL_KILL] at hm2
  have hbit : ∀ n, IS_SIGNAL_SET (SIGNAL_BIT SignalNumber) n =
      (decide (n - 1 < 64) && decide (SignalNumber - 1 = n - 1)) := by
    intro n
    rw [IS_SIGNAL_SET_eq, testBit_SIGNAL_BIT]
    by_cases h : n - 1 < 64 <;> simp [h]
  have hNonMaskable :
      NonMaskablePending (PsSetSignalMask Env Process CurrentThread NewMask).2
        CurrentThread = false := by
    unfold NonMaskablePending
    rw [q3, q4, hPendingThread, hPendingProcess, hbit, hbit]
    have e1 : ¬ (SignalNumber - 1 = SIGNAL_KILL - 1) := by simp only [SIGNAL_KILL]; omega
    have e2 : ¬ (SignalNumber - 1 = SIGNAL_STOP - 1) := by simp only [SIGNAL_STOP]; omega
    simp [e1, e2, IS_SIGNAL_SET]
  have hStandard :
      PendingSignalsStandard (PsSetSignalMask Env Process CurrentThread NewMask).2
        CurrentThread := by
    unfold PendingSignalsStandard
    rw [q3, q4, hPendingThread, hPendingProcess]
    refine ⟨?_, by simp⟩
    unfold SIGNAL_BIT
    rw [Nat.one_shiftLeft, Nat.mod_eq_of_lt (Nat.pow_lt_pow_right (by decide) (by omega))]
    exact Nat.pow_lt_pow_right (by decide) (by simp only [STANDARD_SIGNAL_COUNT]; omega)
  have hEff : ∀ n, IS_SIGNAL_SET
      (EffectiveSignals (PsSetSignalMask Env Process CurrentThread NewMask).2 CurrentThread)
        n = true → n - 1 = SignalNumber - 1 := by
    intro n hn
    simp only [EffectiveSignals, IS_SIGNAL_SET_REMOVE_SIGNAL,
      IS_SIGNAL_SET_REMOVE_SIGNALS_FROM_SET, IS_SIGNAL_SET_OR_SIGNAL_SETS, Bool.and_eq_true,
      Bool.or_eq_true, q3, q4, hPendingThread, hPendingProcess, hbit] at hn
    have := hn.1.1.1.1
    simp [IS_SIGNAL_SET] at this
    omega
  have hIn : IS_SIGNAL_SET
      (EffectiveSignals (PsSetSignalMask Env Process CurrentThread NewMask).2 CurrentThread)
        SignalNumber = true := by
    have e1 : ¬ (SIGNAL_KILL - 1 = SignalNumber - 1) := by simp only [SIGNAL_KILL]; omega
    have e2 : ¬ (SIGNAL_STOP - 1 = SignalNumber - 1) := by simp only [SIGNAL_STOP]; omega
    have e3 : SignalNumber - 1 < 64 := by omega
    simp only [EffectiveSignals, IS_SIGNAL_SET_REMOVE_SIGNAL,
      IS_SIGNAL_SET_REMOVE_SIGNALS_FROM_SET, IS_SIGNAL_SET_OR_SIGNAL_SETS, q3, q4, q5, q6,
      hPendingThread, hPendingProcess, hbit, hRunning, hMask]
    simp [e1, e2, e3]
  have hEffective : IS_SIGNAL_SET_EMPTY
      (EffectiveSignals (PsSetSignalMask Env Process CurrentThread NewMask).2 CurrentThread) =
        false := by
    cases hz : IS_SIGNAL_SET_EMPTY
      (EffectiveSignals (PsSetSignalMask Env Process CurrentThread NewMask).2 CurrentThread)
    · rfl
    · rw [IS_SIGNAL_SET_EMPTY_iff] at hz
      rw [hz] at hIn
      simp [IS_SIGNAL_SET] at hIn
  obtain ⟨Result, hR, hD1, hD2⟩ := PspDequeuePendingSignal_standard Env
    (PsSetSignalMask Env Process CurrentThread NewMask).2 CurrentThread SignalParameters
    (by rw [q1]; exact hThread) (by rw [q2]; exact hTracer) hNonMaskable
    (by rw [q7]; exact hUnknown) hStandard hEffective
  refine ⟨Result, hR, ?_⟩
  have := hEff _ hD2
  omega

theorem C39_unblocked_signal_is_dequeued_witness :
    (ExampleDeferredSignalProcess.Thread 0).SignalPending = .ThreadNoSignalPending ∧
      IS_SIGNAL_SET (ExampleDeferredSignalProcess.Thread 0).BlockedSignals 3 = true ∧
      ∃ Result,
        PspDequeuePendingSignal ExampleEnvironment
            (PsSetSignalMask ExampleEnvironment ExampleDeferredSignalProcess 0 0).2 0
            SIGNAL_PARAMETERS.Zero = some Result ∧
          Result.DequeuedSignal = 3 :=
  ⟨by decide, by decide,
    C39_unblocked_signal_is_dequeued ExampleEnvironment ExampleDeferredSignalProcess 0 3 0
      SIGNAL_PARAMETERS.Zero (by decide) (by decide) (by decide) (by decide) (by decide)
      (by decide) (by decide) (by decide) (by decide)⟩

/-! ## Default processing without a handler routine -/

/-- C40: a process without a signal handler routine never gets FALSE from
`PspSignalAttemptDefaultProcessing`: for every signal number, whatever the
handled and ignored sets and the rest of the state are, the routine returns
TRUE; so whenever it returns FALSE the handler routine is non-null. -/
theorem C40_no_handler_routine_returns_true (Env : KERNEL_ENVIRONMENT) (Process : KPROCESS)
    (Signal : Nat) :
    (PspSignalAttemptDefaultProcessing Env Process false Signal).1 = true ∧
      ∀ SignalHandlerRoutine : Bool,
        (PspSignalAttemptDefaultProcessing Env Process SignalHandlerRoutine Signal).1 = false →
          SignalHandlerRoutine = true := by
  have h : (PspSignalAttemptDefaultProcessing Env Process false Signal).1 = true := by
    unfold PspSignalAttemptDefaultProcessing
    split
    · rfl
    · split
      · rename_i h2
        simp at h2
      · split
        · rfl
        · split
          · rfl
          · show (PspSignalDefaultAction Process false Signal).Result = true
            unfold PspSignalDefaultAction
            split
            · rfl
            · split
              · rfl
              · split
                · rfl
                · rfl
  refine ⟨h, ?_⟩
  intro R hR
  cases R with
  | true => rfl
  | false => rw [h] at hR; cases hR

/-! ## Tracer break: the routine without a tracer -/

/-- C31: when no tracer is attached (the debug data is null or names no
tracing process), `PspTracerBreak` returns at once, for every signal number
and whatever the kernel debugger does: the parameter block comes back with the
signal number, and everything else in it, unchanged, TRAP and the signals that
are forwarded to the kernel debugger included; the value reported through
`ThreadStopHandled` is FALSE, no single step is set or cleared, nothing is
queued to a tracer and the state of the process is as it was. -/
theorem C31_no_tracer_returns_signal_unchanged (Env : KERNEL_ENVIRONMENT) (Process : KPROCESS)
    (CurrentThread : Nat) (Signal : SIGNAL_PARAMETERS) (InstructionPointer : Nat)
    (ThreadAlreadyStopped : Bool) (hTracer : Process.HasTracer = false) :
    PspTracerBreakBegin Env Process CurrentThread Signal InstructionPointer
        ThreadAlreadyStopped = .Returned ⟨Signal, false, [], [], Process⟩ ∧
      PspTracerBreak Env Process Signal = Signal := by
  refine ⟨?_, PspTracerBreak_no_tracer Env Process Signal hTracer⟩
  unfold PspTracerBreakBegin
  rw [if_pos (by rw [hTracer]; rfl), PspTracerBreak_no_tracer Env Process Signal hTracer]
  rfl

theorem C31_no_tracer_returns_signal_unchanged_witness :
    ExampleProcess.HasTracer = false ∧
      (PspForwardUserModeExceptionToKernel ExampleDebuggerEnvironment
        { SIGNAL_PARAMETERS.Zero with SignalNumber := SIGNAL_TRAP }).SignalNumber = 0 ∧
      (PspTracerBreakBegin ExampleDebuggerEnvironment ExampleProcess 0
          { SIGNAL_PARAMETERS.Zero with SignalNumber := SIGNAL_TRAP } 0 false =
          .Returned
            ⟨{ SIGNAL_PARAMETERS.Zero with SignalNumber := SIGNAL_TRAP }, false, [], [],
              ExampleProcess⟩ ∧
        PspTracerBreak ExampleDebuggerEnvironment ExampleProcess
          { SIGNAL_PARAMETERS.Zero with SignalNumber := SIGNAL_TRAP } =
          { SIGNAL_PARAMETERS.Zero with SignalNumber := SIGNAL_TRAP }) :=
  ⟨by decide, by decide,
    C31_no_tracer_returns_signal_unchanged ExampleDebuggerEnvironment ExampleProcess 0
      { SIGNAL_PARAMETERS.Zero with SignalNumber := SIGNAL_TRAP } 0 false (by decide)⟩

/-! ## Tracer break: a kill that is pending when the break begins -/

/-- C38: a tracer is attached, the tracer lock is free, and the break is not
ended by a trap outside the range of a range step, so that `PspTracerBreak`
comes to take the lock of the process. If KILL is in the pending set of the
process at that point, the routine returns: the signal number, with the rest
of the parameter block, is as it was, no stop is reported as handled, no child
signal is queued to the tracer, and the state of the process is the one before
the call but for the copy of the signal in the tracer signal information; so
the stop event is not unsignalled, the debug command is not invalidated, the
tracer stop is not requested, no thread is marked stopped, no STOP is posted
and the tracer lock is free again. -/
theorem C38_pending_kill_aborts_the_break (Env : KERNEL_ENVIRONMENT) (Process : KPROCESS)
    (DebugData : PROCESS_DEBUG_DATA) (CurrentThread : Nat) (Signal : SIGNAL_PARAMETERS)
    (InstructionPointer : Nat) (ThreadAlreadyStopped : Bool)
    (hDebugData : Process.DebugData = some DebugData)
    (hTracer : DebugData.TracingProcess ≠ none)
    (hLock : DebugData.TracerLock = false)
    (hRange : ¬ (Signal.SignalNumber = SIGNAL_TRAP ∧
      DebugData.DebugCommand.PreviousCommand = .DebugCommandRangeStep ∧
      PspTracerBreakInRange DebugData.BreakRange InstructionPointer = false))
    (hKill : IS_SIGNAL_SET Process.PendingSignals SIGNAL_KILL = true) :
    ∃ Break,
      PspTracerBreakBegin Env Process CurrentThread Signal InstructionPointer
          ThreadAlreadyStopped = .Returned Break ∧
        Break.Signal = Signal ∧ Break.StopHandled = false ∧
        Break.ChildSignalsToTracer = [] ∧
        Break.Process =
          { Process with
            DebugData := some { DebugData with TracerSignalInformation := Signal } } ∧
        Break.Process.StopEvent = Process.StopEvent ∧
        Break.Process.StoppedThreadCount = Process.StoppedThreadCount ∧
        Break.Process.PendingSignals = Process.PendingSignals ∧
        Break.Process.ThreadListHead = Process.ThreadListHead ∧
        (∀ After, Break.Process.DebugData = some After →
          After.DebugCommand = DebugData.DebugCommand ∧
          After.TracerStopRequested = DebugData.TracerStopRequested ∧
          After.AllStoppedEvent = DebugData.AllStoppedEvent ∧
          After.DebugLeaderThread = DebugData.DebugLeaderThread ∧
          After.TracerLock = false) := by
  have hHas : Process.HasTracer = true := by
    unfold KPROCESS.HasTracer
    rw [hDebugData]
    cases h : DebugData.TracingProcess with
    | none => exact absurd h hTracer
    | some T => simp [h]
  have hSync : ∀ Steps : List Bool,
      PspTracerBreakSynchronize Env
          (Process.SetDebugData fun DebugData => { DebugData with TracerLock := true })
          CurrentThread Signal ThreadAlreadyStopped Steps =
        .Returned ⟨Signal, false, Steps, [],
          { Process with
            DebugData := some { DebugData with TracerSignalInformation := Signal } }⟩ := by
    intro Steps
    unfold PspTracerBreakSynchronize
    have hk : IS_SIGNAL_SET (Process.SetDebugData fun DebugData =>
        { DebugData with TracerLock := true }).PendingSignals SIGNAL_KILL = true := hKill
    rw [if_pos (by rw [hk]; rfl)]
    unfold PspTracerBreakEnd KPROCESS.SetDebugData
    rw [if_pos (by decide)]
    simp only [hDebugData, Option.map_some', ← hLock]
  have hBegin : ∃ Steps : List Bool,
      PspTracerBreakBegin Env Process CurrentThread Signal InstructionPointer
          ThreadAlreadyStopped =
        .Returned ⟨Signal, false, Steps, [],
          { Process with
            DebugData := some { DebugData with TracerSignalInformation := Signal } }⟩ := by
    unfold PspTracerBreakBegin
    rw [if_neg (by rw [hHas]; decide)]
    simp only [hDebugData]
    rw [if_neg (by rw [hLock]; decide)]
    unfold PspTracerBreakLocked
    rw [if_neg (by simpa using hTracer)]
    split
    · rw [if_neg]
      · exact ⟨_, hSync _⟩
      · rename_i hc
        intro hr
        simp only [Bool.and_eq_true, beq_iff_eq, Bool.or_eq_true] at hc hr
        exact hRange ⟨hc.1, hr.1, hr.2⟩
    · exact ⟨_, hSync _⟩
  obtain ⟨Steps, hB⟩ := hBegin
  refine ⟨_, hB, rfl, rfl, rfl, rfl, rfl, rfl, rfl, rfl, ?_⟩
  intro After hAfter
  simp only [Option.some.injEq] at hAfter
  subst hAfter
  exact ⟨rfl, rfl, rfl, rfl, hLock⟩

theorem C38_pending_kill_aborts_the_break_witness :
    PspTracerBreakBegin ExampleEnvironment ExampleTracedProcess 0
        { SIGNAL_PARAMETERS.Zero with SignalNumber := 3 } 0 false =
        .WaitsForStopEvent
          ⟨{ SIGNAL_PARAMETERS.Zero with SignalNumber := 3 }, false, [],
            [(3, .CHILD_SIGNAL_REASON_TRAPPED)],
            { ExampleTracedProcess with
              StopEvent := false
              StoppedThreadCount := 1
              DebugData := some
                { TracingProcess := some 9
                  TracerLock := true
                  DebugLeaderThread := some 0
                  DebugCommand :=
                    { Command := .DebugCommandInvalid
                      PreviousCommand := .DebugCommandContinue }
                  TracerSignalInformation :=
                    { SIGNAL_PARAMETERS.Zero with SignalNumber := 3 } } }⟩ ∧
      ∃ Break,
        PspTracerBreakBegin ExampleEnvironment ExampleTracedKilledProcess 0
            { SIGNAL_PARAMETERS.Zero with SignalNumber := 3 } 0 false = .Returned Break ∧
          Break.Signal = { SIGNAL_PARAMETERS.Zero with SignalNumber := 3 } ∧
          Break.StopHandled = false ∧ Break.ChildSignalsToTracer = [] ∧
          Break.Process.StopEvent = true ∧ Break.Process.StoppedThreadCount = 0 ∧
          Break.Process.PendingSignals = SIGNAL_BIT SIGNAL_KILL :=
  ⟨by decide, by
    obtain ⟨Break, h1, h2, h3, h4, _, h6, h7, h8, _⟩ :=
      C38_pending_kill_aborts_the_break ExampleEnvironment ExampleTracedKilledProcess
        { TracingProcess := some 9 } 0 { SIGNAL_PARAMETERS.Zero with SignalNumber := 3 } 0
        false rfl (by decide) rfl (by decide) (by decide)
    exact ⟨Break, h1, h2, h3, h4, h6, h7, h8⟩⟩

/-! ## Dequeue: blocked signals and blocked entries -/

theorem BlockedEntryDeferred_mono (Env : KERNEL_ENVIRONMENT) (B P Q : KPROCESS)
    (x : SIGNAL_QUEUE_ENTRY)
    (hb : ∀ y, y ∈ P.BlockedSignalListHead → y ∈ Q.BlockedSignalListHead)
    (hc : ∀ y, y ∈ P.CompletedSignals → y ∈ Q.CompletedSignals)
    (h : BlockedEntryDeferred Env B P x) : BlockedEntryDeferred Env B Q x := by
  unfold BlockedEntryDeferred at h ⊢
  by_cases hd : EntryDiscarded Env B x = true
  · rw [if_pos hd] at h ⊢
    exact fun hr => hc x (h hr)
  · rw [if_neg hd] at h ⊢
    exact hb x h

theorem PspDequeueWalkQueue_grows (Env : KERNEL_ENVIRONMENT) (T : KTHREAD)
    (L : List SIGNAL_QUEUE_ENTRY) (P : KPROCESS) :
    (∀ y, y ∈ P.BlockedSignalListHead →
      y ∈ (PspDequeueWalkQueue Env T L P).Process.BlockedSignalListHead) ∧
    (∀ y, y ∈ P.CompletedSignals →
      y ∈ (PspDequeueWalkQueue Env T L P).Process.CompletedSignals) := by
  obtain ⟨bl, cs, h⟩ := PspDequeueWalkQueue_shape Env T L P
  rw [h]
  exact ⟨fun y hy => List.mem_append_left _ hy, fun y hy => List.mem_append_left _ hy⟩

theorem BlockedEntryDeferred_insert (Env : KERNEL_ENVIRONMENT) (B P : KPROCESS)
    (x e : SIGNAL_QUEUE_ENTRY) (h : BlockedEntryDeferred Env B P x) :
    BlockedEntryDeferred Env B (P.InsertBlocked e) x :=
  BlockedEntryDeferred_mono Env B P _ x
    (fun y hy => by simp [KPROCESS.InsertBlocked, hy]) (fun y hy => by simpa using hy) h

theorem BlockedEntryDeferred_complete (Env : KERNEL_ENVIRONMENT) (B P : KPROCESS)
    (x e : SIGNAL_QUEUE_ENTRY) (h : BlockedEntryDeferred Env B P x) :
    BlockedEntryDeferred Env B (P.Complete e) x :=
  BlockedEntryDeferred_mono Env B P _ x
    (fun y hy => by simpa using hy)
    (fun y hy => by unfold KPROCESS.Complete; split <;> simp [hy]) h

theorem PspDequeueWalkQueue_deferred (Env : KERNEL_ENVIRONMENT) (T : KTHREAD) (B : KPROCESS)
    (x : SIGNAL_QUEUE_ENTRY) (hb : IS_SIGNAL_BLOCKED T x.Parameters.SignalNumber = true) :
    ∀ (L : List SIGNAL_QUEUE_ENTRY) (P : KPROCESS), P.HasTracer = false →
      P.HandledSignals = B.HandledSignals →
      (x ∈ L ∨ BlockedEntryDeferred Env B P x) →
      x ∈ (PspDequeueWalkQueue Env T L P).Remaining ∨
        BlockedEntryDeferred Env B (PspDequeueWalkQueue Env T L P).Process x := by
  intro L
  induction L with
  | nil =>
    intro P _ _ h
    rcases h with h | h
    · simp at h
    · exact Or.inr h
  | cons e rest ih =>
    intro P hT hH hx
    simp only [PspDequeueWalkQueue, hT, Bool.false_eq_true, if_false]
    by_cases c1 : (IS_SIGNAL_SET P.HandledSignals e.Parameters.SignalNumber == false &&
        Env.IS_SIGNAL_DEFAULT_IGNORE e.Parameters.SignalNumber) = true
    · rw [if_pos c1]
      by_cases cc : (e.Parameters.SignalNumber == SIGNAL_CHILD_PROCESS_ACTIVITY) = true
      · rw [if_pos cc]
        apply ih _ (by simp [hT]) (by simp [hH])
        rcases hx with hx | hx
        · rcases List.mem_cons.mp hx with hxe | hxr
          · subst hxe
            right
            unfold BlockedEntryDeferred
            have hd : ¬ EntryDiscarded Env B x = true := by
              simp only [EntryDiscarded, Bool.and_eq_true, bne_iff_ne, ne_eq, not_and,
                not_not]
              intro _
              simpa using cc
            rw [if_neg hd]
            simp [KPROCESS.InsertBlocked]
          · exact Or.inl hxr
        · exact Or.inr (BlockedEntryDeferred_insert Env B P x e hx)
      · rw [if_neg cc]
        apply ih _ (by simp [hT]) (by simp [hH])
        rcases hx with hx | hx
        · rcases List.mem_cons.mp hx with hxe | hxr
          · subst hxe
            right
            unfold BlockedEntryDeferred
            have hd : EntryDiscarded Env B x = true := by
              simp only [EntryDiscarded, Bool.and_eq_true, bne_iff_ne, ne_eq]
              rw [← hH]
              exact ⟨by simpa using c1, by simpa using cc⟩
            rw [if_pos hd]
            intro hr
            simp [KPROCESS.Complete, hr]
          · exact Or.inl hxr
        · exact Or.inr (BlockedEntryDeferred_complete Env B P x e hx)
    · rw [if_neg c1]
      by_cases cb : IS_SIGNAL_BLOCKED T e.Parameters.SignalNumber = true
      · rw [if_pos cb]
        apply ih _ (by simp [hT]) (by simp [hH])
        rcases hx with hx | hx
        · rcases List.mem_cons.mp hx with hxe | hxr
          · subst hxe
            right
            unfold BlockedEntryDeferred
            have hd : ¬ EntryDiscarded Env B x = true := by
              simp only [EntryDiscarded, Bool.and_eq_true, bne_iff_ne, ne_eq, not_and]
              rw [← hH]
              intro h1
              exact absurd h1 (by simpa using c1)
            rw [if_neg hd]
            simp [KPROCESS.InsertBlocked]
          · exact Or.inl hxr
        · exact Or.inr (BlockedEntryDeferred_insert Env B P x e hx)
      · rw [if_neg cb]
        by_cases cd : (e.Delivered == false) = true
        · rw [if_pos cd]
          rcases hx with hx | hx
          · rcases List.mem_cons.mp hx with hxe | hxr
            · subst hxe
              exact absurd hb cb
            · exact Or.inl hxr
          · exact Or.inr hx
        · rw [if_neg cd]
          apply ih _ hT hH
          rcases hx with hx | hx
          · rcases List.mem_cons.mp hx with hxe | hxr
            · subst hxe
              exact absurd hb cb
            · exact Or.inl hxr
          · exact Or.inr hx

theorem PspDequeueWalkQueue_append (Env : KERNEL_ENVIRONMENT) (T : KTHREAD)
    (rest : List SIGNAL_QUEUE_ENTRY) :
    ∀ (pre : List SIGNAL_QUEUE_ENTRY) (P : KPROCESS),
      (∀ y ∈ pre, EntryEligible Env P T y = false) →
      PspDequeueWalkQueue Env T (pre ++ rest) P =
        PspDequeueWalkQueue Env T rest (PspDequeueWalkQueue Env T pre P).Process := by
  intro pre
  induction pre with
  | nil => intro P _; simp [PspDequeueWalkQueue]
  | cons y pre ih =>
    intro P hpre
    have hy := hpre y (List.mem_cons_self _ _)
    have hrest : ∀ (Q : KPROCESS), Q.HandledSignals = P.HandledSignals →
        PspDequeueWalkQueue Env T (pre ++ rest) Q =
          PspDequeueWalkQueue Env T rest (PspDequeueWalkQueue Env T pre Q).Process := by
      intro Q hQ
      apply ih Q
      intro z hz
      have := hpre z (List.mem_cons_of_mem _ hz)
      simpa [EntryEligible, hQ] using this
    simp only [List.cons_append, PspDequeueWalkQueue]
    by_cases c1 : (IS_SIGNAL_SET P.HandledSignals y.Parameters.SignalNumber == false &&
        Env.IS_SIGNAL_DEFAULT_IGNORE y.Parameters.SignalNumber) = true
    · rw [if_pos c1, if_pos c1]
      split_ifs <;> exact hrest _ (by simp)
    · rw [if_neg c1, if_neg c1]
      by_cases cb : IS_SIGNAL_BLOCKED T y.Parameters.SignalNumber = true
      · rw [if_pos cb, if_pos cb]
        exact hrest _ (by simp)
      · rw [if_neg cb, if_neg cb]
        by_cases cd : (y.Delivered == false) = true
        · exfalso
          simp only [EntryEligible] at hy
          simp only [Bool.not_eq_true] at c1 cb
          rw [c1, cb, cd] at hy
          simp at hy
        · rw [if_neg cd, if_neg cd]
          exact hrest _ rfl

theorem PspDequeueWalkQueue_prefix (Env : KERNEL_ENVIRONMENT) (T : KTHREAD) (B : KPROCESS)
    (x : SIGNAL_QUEUE_ENTRY) (hb : IS_SIGNAL_BLOCKED T x.Parameters.SignalNumber = true)
    (pre rest : List SIGNAL_QUEUE_ENTRY) (P : KPROCESS) (hT : P.HasTracer = false)
    (hH : P.HandledSignals = B.HandledSignals)
    (hpre : ∀ y ∈ pre, EntryEligible Env P T y = false) (hx : x ∈ pre) :
    BlockedEntryDeferred Env B (PspDequeueWalkQueue Env T (pre ++ rest) P).Process x := by
  rw [PspDequeueWalkQueue_append Env T rest pre P hpre]
  have h1 := PspDequeueWalkQueue_deferred Env T B x hb pre P hT hH (Or.inl hx)
  rw [(PspDequeueWalkQueue_none Env T pre P hpre).2] at h1
  rcases h1 with h | h
  · simp at h
  · obtain ⟨g1, g2⟩ := PspDequeueWalkQueue_grows Env T rest
      (PspDequeueWalkQueue Env T pre P).Process
    exact BlockedEntryDeferred_mono Env B _ _ x g1 g2 h

theorem PspDequeueScanProcessQueue_grows (Env : KERNEL_ENVIRONMENT) (t : Nat) (P : KPROCESS) :
    (∀ y, y ∈ P.BlockedSignalListHead →
      y ∈ (PspDequeueScanProcessQueue Env t P).2.BlockedSignalListHead) ∧
    (∀ y, y ∈ P.CompletedSignals →
      y ∈ (PspDequeueScanProcessQueue Env t P).2.CompletedSignals) :=
  PspDequeueWalkQueue_grows Env (P.Thread t) P.SignalListHead P

theorem PspDequeueScanThreadQueue_grows (Env : KERNEL_ENVIRONMENT) (t : Nat) (P : KPROCESS) :
    (∀ y, y ∈ P.BlockedSignalListHead →
      y ∈ (PspDequeueScanThreadQueue Env t P).2.BlockedSignalListHead) ∧
    (∀ y, y ∈ P.CompletedSignals →
      y ∈ (PspDequeueScanThreadQueue Env t P).2.CompletedSignals) := by
  obtain ⟨g1, g2⟩ := PspDequeueWalkQueue_grows Env (P.Thread t) (P.Thread t).SignalListHead P
  simp only [PspDequeueScanThreadQueue, SetThread_BlockedSignalListHead,
    SetThread_CompletedSignals]
  exact ⟨g1, g2⟩

theorem PspDequeueScanQueues_grows (Env : KERNEL_ENVIRONMENT) (t : Nat) (P : KPROCESS) :
    (∀ y, y ∈ P.BlockedSignalListHead →
      y ∈ (PspDequeueScanQueues Env t P).2.BlockedSignalListHead) ∧
    (∀ y, y ∈ P.CompletedSignals →
      y ∈ (PspDequeueScanQueues Env t P).2.CompletedSignals) := by
  obtain ⟨a1, a2⟩ := PspDequeueScanProcessQueue_grows Env t P
  unfold PspDequeueScanQueues
  split
  · exact ⟨a1, a2⟩
  · obtain ⟨b1, b2⟩ := PspDequeueScanThreadQueue_grows Env t (PspDequeueScanProcessQueue Env t P).2
    exact ⟨fun y hy => b1 y (a1 y hy), fun y hy => b2 y (a2 y hy)⟩

theorem PspDequeueScanProcessQueue_deferred (Env : KERNEL_ENVIRONMENT) (t : Nat)
    (B P : KPROCESS) (x : SIGNAL_QUEUE_ENTRY) (hT : P.HasTracer = false)
    (hH : P.HandledSignals = B.HandledSignals)
    (hb : IS_SIGNAL_BLOCKED (P.Thread t) x.Parameters.SignalNumber = true)
    (h : x ∈ P.SignalListHead ∨ BlockedEntryDeferred Env B P x) :
    x ∈ (PspDequeueScanProcessQueue Env t P).2.SignalListHead ∨
      BlockedEntryDeferred Env B (PspDequeueScanProcessQueue Env t P).2 x := by
  rcases PspDequeueWalkQueue_deferred Env (P.Thread t) B x hb P.SignalListHead P hT hH h
    with h1 | h1
  · exact Or.inl h1
  · exact Or.inr (BlockedEntryDeferred_mono Env B _ _ x (fun y hy => hy) (fun y hy => hy) h1)

theorem PspDequeueScanThreadQueue_deferred (Env : KERNEL_ENVIRONMENT) (t : Nat)
    (B P : KPROCESS) (x : SIGNAL_QUEUE_ENTRY) (hThread : t < P.ThreadListHead.length)
    (hT : P.HasTracer = false) (hH : P.HandledSignals = B.HandledSignals)
    (hb : IS_SIGNAL_BLOCKED (P.Thread t) x.Parameters.SignalNumber = true)
    (h : x ∈ (P.Thread t).SignalListHead ∨ BlockedEntryDeferred Env B P x) :
    x ∈ ((PspDequeueScanThreadQueue Env t P).2.Thread t).SignalListHead ∨
      BlockedEntryDeferred Env B (PspDequeueScanThreadQueue Env t P).2 x := by
  obtain ⟨bl0, cs0, h0⟩ := PspDequeueWalkQueue_shape Env (P.Thread t)
    (P.Thread t).SignalListHead P
  have hlen : t < (PspDequeueWalkQueue Env (P.Thread t) (P.Thread t).SignalListHead
      P).Process.ThreadListHead.length := by
    rw [h0]; exact hThread
  rcases PspDequeueWalkQueue_deferred Env (P.Thread t) B x hb (P.Thread t).SignalListHead P hT
    hH h with h1 | h1
  · left
    simp only [PspDequeueScanThreadQueue, Thread_SetThread_same _ _ _ hlen]
    exact h1
  · right
    refine BlockedEntryDeferred_mono Env B _ _ x ?_ ?_ h1
    · intro y hy
      simpa [PspDequeueScanThreadQueue] using hy
    · intro y hy
      simpa [PspDequeueScanThreadQueue] using hy

theorem PspDequeueScanQueues_deferred (Env : KERNEL_ENVIRONMENT) (t : Nat)
    (B P : KPROCESS) (x : SIGNAL_QUEUE_ENTRY) (hThread : t < P.ThreadListHead.length)
    (hT : P.HasTracer = false) (hH : P.HandledSignals = B.HandledSignals)
    (hb : IS_SIGNAL_BLOCKED (P.Thread t) x.Parameters.SignalNumber = true) :
    ((x ∈ P.SignalListHead ∨ BlockedEntryDeferred Env B P x) →
      (x ∈ (PspDequeueScanQueues Env t P).2.SignalListHead ∨
        BlockedEntryDeferred Env B (PspDequeueScanQueues Env t P).2 x)) ∧
    ((x ∈ (P.Thread t).SignalListHead ∨ BlockedEntryDeferred Env B P x) →
      (x ∈ ((PspDequeueScanQueues Env t P).2.Thread t).SignalListHead ∨
        BlockedEntryDeferred Env B (PspDequeueScanQueues Env t P).2 x)) := by
  obtain ⟨a1, a2, a3, a4⟩ := PspDequeueScanProcessQueue_frame Env t P
  have hth : ∀ u, (PspDequeueScanProcessQueue Env t P).2.Thread u = P.Thread u := by
    intro u; simp [KPROCESS.Thread, a4]
  obtain ⟨g1, g2⟩ := PspDequeueScanProcessQueue_grows Env t P
  have hp := PspDequeueScanProcessQueue_deferred Env t B P x hT hH hb
  unfold PspDequeueScanQueues
  split
  · refine ⟨hp, fun h => ?_⟩
    rcases h with h | h
    · left
      rw [hth]
      exact h
    · exact Or.inr (BlockedEntryDeferred_mono Env B _ _ x g1 g2 h)
  · obtain ⟨b1, b2, b3, b4, b5, b6, b7, b8⟩ :=
      PspDequeueScanThreadQueue_frame Env t (PspDequeueScanProcessQueue Env t P).2
    obtain ⟨k1, k2⟩ :=
      PspDequeueScanThreadQueue_grows Env t (PspDequeueScanProcessQueue Env t P).2
    refine ⟨fun h => ?_, fun h => ?_⟩
    · rcases hp h with h1 | h1
      · left
        rw [b4]
        exact h1
      · exact Or.inr (BlockedEntryDeferred_mono Env B _ _ x k1 k2 h1)
    · apply PspDequeueScanThreadQueue_deferred Env t B _ x (by rw [a4]; exact hThread)
        (a1.trans hT) (a2.trans hH) (by rw [hth]; exact hb)
      rcases h with h | h
      · left
        rw [hth]
        exact h
      · exact Or.inr (BlockedEntryDeferred_mono Env B _ _ x g1 g2 h)

theorem PspDequeueScanQueues_prefix (Env : KERNEL_ENVIRONMENT) (t : Nat)
    (B P : KPROCESS) (x : SIGNAL_QUEUE_ENTRY)
    (hT : P.HasTracer = false) (hH : P.HandledSignals = B.HandledSignals)
    (hb : IS_SIGNAL_BLOCKED (P.Thread t) x.Parameters.SignalNumber = true)
    (pre rest : List SIGNAL_QUEUE_ENTRY)
    (hsplit : P.SignalListHead ++ (P.Thread t).SignalListHead = pre ++ rest)
    (hpre : ∀ y ∈ pre, EntryEligible Env P (P.Thread t) y = false) (hx : x ∈ pre) :
    BlockedEntryDeferred Env B (PspDequeueScanQueues Env t P).2 x := by
  obtain ⟨a1, a2, a3, a4⟩ := PspDequeueScanProcessQueue_frame Env t P
  have hth : ∀ u, (PspDequeueScanProcessQueue Env t P).2.Thread u = P.Thread u := by
    intro u; simp [KPROCESS.Thread, a4]
  obtain ⟨g1, g2⟩ := PspDequeueScanQueues_grows Env t P
  rcases List.append_eq_append_iff.mp hsplit with ⟨a', h1, h2⟩ | ⟨c', h1, h2⟩
  · -- the prefix covers the process queue
    have hq : ∀ y ∈ P.SignalListHead, EntryEligible Env P (P.Thread t) y = false := by
      intro y hy
      exact hpre y (by rw [h1]; exact List.mem_append_left _ hy)
    have hnone := (PspDequeueWalkQueue_none Env (P.Thread t) P.SignalListHead P hq).1
    have hs : (PspDequeueScanProcessQueue Env t P).1 = none := hnone
    obtain ⟨k1, k2⟩ :=
      PspDequeueScanThreadQueue_grows Env t (PspDequeueScanProcessQueue Env t P).2
    unfold PspDequeueScanQueues
    rw [hs]
    simp only
    rw [h1] at hx
    rcases List.mem_append.mp hx with hx | hx
    · have hd := PspDequeueWalkQueue_prefix Env (P.Thread t) B x hb P.SignalListHead [] P hT hH
        hq hx
      rw [List.append_nil] at hd
      exact BlockedEntryDeferred_mono Env B _ _ x k1 k2
        (BlockedEntryDeferred_mono Env B _ _ x (fun y hy => hy) (fun y hy => hy) hd)
    · have hd := PspDequeueWalkQueue_prefix Env ((PspDequeueScanProcessQueue Env t P).2.Thread t)
        B x (by rw [hth]; exact hb) a' rest (PspDequeueScanProcessQueue Env t P).2
        (a1.trans hT) (a2.trans hH)
        (by
          intro y hy
          have := hpre y (by rw [h1]; exact List.mem_append_right _ hy)
          simpa [EntryEligible, hth, a2] using this) hx
      have hq2 : ((PspDequeueScanProcessQueue Env t P).2.Thread t).SignalListHead =
          a' ++ rest := by
        rw [hth]; exact h2
      rw [← hq2] at hd
      refine BlockedEntryDeferred_mono Env B _ _ x ?_ ?_ hd
      · intro y hy
        simpa [PspDequeueScanThreadQueue] using hy
      · intro y hy
        simpa [PspDequeueScanThreadQueue] using hy
  · -- the prefix ends inside the process queue
    have hd := PspDequeueWalkQueue_prefix Env (P.Thread t) B x hb pre c' P hT hH hpre hx
    rw [← h1] at hd
    have hd1 : BlockedEntryDeferred Env B (PspDequeueScanProcessQueue Env t P).2 x :=
      BlockedEntryDeferred_mono Env B _ _ x (fun y hy => hy) (fun y hy => hy) hd
    obtain ⟨k1, k2⟩ :=
      PspDequeueScanThreadQueue_grows Env t (PspDequeueScanProcessQueue Env t P).2
    unfold PspDequeueScanQueues
    split
    · exact hd1
    · exact BlockedEntryDeferred_mono Env B _ _ x k1 k2 hd1

theorem PspDequeueQueuedSignal_grows (Env : KERNEL_ENVIRONMENT) (t : Nat) (Saved : SIGNAL_SET) :
    ∀ (Fuel : Nat) (P : KPROCESS) (SP : SIGNAL_PARAMETERS),
      (∀ y, y ∈ P.BlockedSignalListHead →
        y ∈ (PspDequeueQueuedSignal Env t Saved Fuel P SP).Process.BlockedSignalListHead) ∧
      (∀ y, y ∈ P.CompletedSignals →
        y ∈ (PspDequeueQueuedSignal Env t Saved Fuel P SP).Process.CompletedSignals) := by
  intro Fuel
  induction Fuel with
  | zero => intro P SP; exact ⟨fun y hy => hy, fun y hy => hy⟩
  | succ f ih =>
    intro P SP
    obtain ⟨g1, g2⟩ := PspDequeueScanQueues_grows Env t P
    have r1 : ∀ y, y ∈ P.BlockedSignalListHead →
        y ∈ (PspRestoreSignalPending (PspDequeueScanQueues Env t P).2 t
          Saved).BlockedSignalListHead := by
      intro y hy; simpa using g1 y hy
    have r2 : ∀ y, y ∈ P.CompletedSignals →
        y ∈ (PspRestoreSignalPending (PspDequeueScanQueues Env t P).2 t
          Saved).CompletedSignals := by
      intro y hy; simpa using g2 y hy
    simp only [PspDequeueQueuedSignal]
    split
    · split
      · split
        · exact ⟨fun y hy => by simp [KPROCESS.InsertBlocked, g1 y hy],
            fun y hy => by simpa using r2 y hy⟩
        · exact ⟨fun y hy => by simpa using r1 y hy,
            fun y hy => by unfold KPROCESS.Complete; split <;> simp [g2 y hy]⟩
      · rename_i e _ _
        obtain ⟨i1, i2⟩ := ih
          ((PspRestoreSignalPending (PspDequeueScanQueues Env t P).2 t Saved).Complete e)
          (PspTracerBreak Env (PspRestoreSignalPending (PspDequeueScanQueues Env t P).2 t Saved)
            e.Parameters)
        exact ⟨fun y hy => i1 y (by simpa using r1 y hy),
          fun y hy => i2 y (by unfold KPROCESS.Complete; split <;> simp [g2 y hy])⟩
    · exact ⟨r1, r2⟩

theorem PspDequeueQueuedSignal_deferred (Env : KERNEL_ENVIRONMENT) (t : Nat)
    (Saved : SIGNAL_SET) (B : KPROCESS) (x : SIGNAL_QUEUE_ENTRY) :
    ∀ (Fuel : Nat) (P : KPROCESS) (SP : SIGNAL_PARAMETERS),
      t < P.ThreadListHead.length → P.HasTracer = false →
      P.HandledSignals = B.HandledSignals →
      IS_SIGNAL_BLOCKED (P.Thread t) x.Parameters.SignalNumber = true →
      ((x ∈ P.SignalListHead ∨ BlockedEntryDeferred Env B P x) →
        (x ∈ (PspDequeueQueuedSignal Env t Saved Fuel P SP).Process.SignalListHead ∨
          BlockedEntryDeferred Env B (PspDequeueQueuedSignal Env t Saved Fuel P SP).Process
            x)) ∧
      ((x ∈ (P.Thread t).SignalListHead ∨ BlockedEntryDeferred Env B P x) →
        (x ∈ ((PspDequeueQueuedSignal Env t Saved Fuel P SP).Process.Thread t).SignalListHead ∨
          BlockedEntryDeferred Env B (PspDequeueQueuedSignal Env t Saved Fuel P SP).Process
            x)) := by
  intro Fuel
  induction Fuel with
  | zero => intro P SP _ _ _ _; exact ⟨fun h => h, fun h => h⟩
  | succ f ih =>
    intro P SP hThread hT hH hb
    obtain ⟨q1, q2, q3, q4, _⟩ := PspDequeuePass Env t Saved P hThread hT
    obtain ⟨d1, d2⟩ := PspDequeueScanQueues_deferred Env t B P x hThread hT hH hb
    have e1 : (x ∈ P.SignalListHead ∨ BlockedEntryDeferred Env B P x) →
        (x ∈ (PspRestoreSignalPending (PspDequeueScanQueues Env t P).2 t
            Saved).SignalListHead ∨
          BlockedEntryDeferred Env B
            (PspRestoreSignalPending (PspDequeueScanQueues Env t P).2 t Saved) x) := by
      intro h
      rcases d1 h with h1 | h1
      · exact Or.inl (by simpa using h1)
      · exact Or.inr (BlockedEntryDeferred_mono Env B _ _ x (fun y hy => by simpa using hy)
          (fun y hy => by simpa using hy) h1)
    have e2 : (x ∈ (P.Thread t).SignalListHead ∨ BlockedEntryDeferred Env B P x) →
        (x ∈ ((PspRestoreSignalPending (PspDequeueScanQueues Env t P).2 t Saved).Thread
            t).SignalListHead ∨
          BlockedEntryDeferred Env B
            (PspRestoreSignalPending (PspDequeueScanQueues Env t P).2 t Saved) x) := by
      intro h
      rcases d2 h with h1 | h1
      · exact Or.inl (by simpa using h1)
      · exact Or.inr (BlockedEntryDeferred_mono Env B _ _ x (fun y hy => by simpa using hy)
          (fun y hy => by simpa using hy) h1)
    simp only [PspDequeueQueuedSignal]
    split
    · split
      · split
        · refine ⟨fun h => ?_, fun h => ?_⟩
          · rcases e1 h with h1 | h1
            · exact Or.inl (by simpa using h1)
            · exact Or.inr (BlockedEntryDeferred_insert Env B _ x _ h1)
          · rcases e2 h with h1 | h1
            · exact Or.inl (by simpa using h1)
            · exact Or.inr (BlockedEntryDeferred_insert Env B _ x _ h1)
        · refine ⟨fun h => ?_, fun h => ?_⟩
          · rcases e1 h with h1 | h1
            · exact Or.inl (by simpa using h1)
            · exact Or.inr (BlockedEntryDeferred_complete Env B _ x _ h1)
          · rcases e2 h with h1 | h1
            · exact Or.inl (by simpa using h1)
            · exact Or.inr (BlockedEntryDeferred_complete Env B _ x _ h1)
      · rename_i e _ _
        obtain ⟨i1, i2⟩ := ih
          ((PspRestoreSignalPending (PspDequeueScanQueues Env t P).2 t Saved).Complete e)
          (PspTracerBreak Env (PspRestoreSignalPending (PspDequeueScanQueues Env t P).2 t Saved)
            e.Parameters) (by simpa using q3) (by simpa using q1)
          (by rw [Complete_HandledSignals, q2]; exact hH)
          (by simpa [IS_SIGNAL_BLOCKED, q4] using hb)
        refine ⟨fun h => i1 ?_, fun h => i2 ?_⟩
        · rcases e1 h with h1 | h1
          · exact Or.inl (by simpa using h1)
          · exact Or.inr (BlockedEntryDeferred_complete Env B _ x _ h1)
        · rcases e2 h with h1 | h1
          · exact Or.inl (by simpa using h1)
          · exact Or.inr (BlockedEntryDeferred_complete Env B _ x _ h1)
    · exact ⟨e1, e2⟩

theorem PspDequeueQueuedSignal_prefix (Env : KERNEL_ENVIRONMENT) (t : Nat)
    (Saved : SIGNAL_SET) (B : KPROCESS) (x : SIGNAL_QUEUE_ENTRY) (Fuel : Nat) (P : KPROCESS)
    (SP : SIGNAL_PARAMETERS) (hT : P.HasTracer = false)
    (hH : P.HandledSignals = B.HandledSignals)
    (hb : IS_SIGNAL_BLOCKED (P.Thread t) x.Parameters.SignalNumber = true)
    (pre rest : List SIGNAL_QUEUE_ENTRY)
    (hsplit : P.SignalListHead ++ (P.Thread t).SignalListHead = pre ++ rest)
    (hpre : ∀ y ∈ pre, EntryEligible Env P (P.Thread t) y = false) (hx : x ∈ pre) :
    BlockedEntryDeferred Env B (PspDequeueQueuedSignal Env t Saved (Fuel + 1) P SP).Process x := by
  have hd := PspDequeueScanQueues_prefix Env t B P x hT hH hb pre rest hsplit hpre hx
  have hr : BlockedEntryDeferred Env B
      (PspRestoreSignalPending (PspDequeueScanQueues Env t P).2 t Saved) x :=
    BlockedEntryDeferred_mono Env B _ _ x (fun y hy => by simpa using hy)
      (fun y hy => by simpa using hy) hd
  simp only [PspDequeueQueuedSignal]
  split
  · split
    · split
      · exact BlockedEntryDeferred_insert Env B _ x _ hr
      · exact BlockedEntryDeferred_complete Env B _ x _ hr
    · rename_i e _ _
      obtain ⟨i1, i2⟩ := PspDequeueQueuedSignal_grows Env t Saved Fuel
        ((PspRestoreSignalPending (PspDequeueScanQueues Env t P).2 t Saved).Complete e)
        (PspTracerBreak Env (PspRestoreSignalPending (PspDequeueScanQueues Env t P).2 t Saved)
          e.Parameters)
      exact BlockedEntryDeferred_mono Env B _ _ x i1 i2
        (BlockedEntryDeferred_complete Env B _ x _ hr)
  · exact hr

theorem PspDequeueStandardSignals_skip (Env : KERNEL_ENVIRONMENT) (t Tm Pm C : Nat) :
    ∀ (Fuel n Saved : Nat) (P : KPROCESS),
      (∀ m, n ≤ m → m < n + Fuel → IS_SIGNAL_SET C m = false) →
      PspDequeueStandardSignals Env t Tm Pm C Fuel n Saved P = ⟨none, Saved, P⟩ := by
  intro Fuel
  induction Fuel with
  | zero => intro n Saved P _; rfl
  | succ f ih =>
    intro n Saved P h
    have h0 := h n (Nat.le_refl _) (by omega)
    simp only [PspDequeueStandardSignals, h0, Bool.false_eq_true, if_false]
    exact ih (n + 1) Saved P (fun m hm1 hm2 => h m (by omega) (by omega))

theorem DequeueStandardLoop_skip (Env : KERNEL_ENVIRONMENT) (P : KPROCESS) (t : Nat)
    (h : ∀ n, 1 ≤ n → n < STANDARD_SIGNAL_COUNT →
      IS_SIGNAL_SET (EffectiveSignals P t) n = false) :
    DequeueStandardLoop Env P t =
      ⟨none, DequeueSavedSignalMask P t, DequeueClearedPending P t⟩ := by
  unfold DequeueStandardLoop
  split
  · apply PspDequeueStandardSignals_skip
    intro m hm1 hm2
    simp only [STANDARD_SIGNAL_COUNT] at hm2 h
    have hm : m < 32 := by omega
    have hE := h m (by omega) hm
    rw [IS_SIGNAL_SET_eq] at hE ⊢
    rw [DequeueCombinedSignalMask_testBit]
    have h64 : m - 1 < 64 := by omega
    simp only [h64, decide_True, Bool.true_and] at hE
    simp [hE]
  · rfl

theorem PspDequeuePendingSignal_walked (Env : KERNEL_ENVIRONMENT) (Process : KPROCESS)
    (t : Nat) (SignalParameters : SIGNAL_PARAMETERS)
    (hThread : t < Process.ThreadListHead.length)
    (hTracer : Process.HasTracer = false)
    (hNonMaskable : NonMaskablePending Process t = false)
    (hPending : (Process.Thread t).SignalPending ≠ .ThreadNoSignalPending)
    (hStandard : ∀ n, 1 ≤ n → n < STANDARD_SIGNAL_COUNT →
      IS_SIGNAL_SET (EffectiveSignals Process t) n = false)
    (pre rest : List SIGNAL_QUEUE_ENTRY)
    (hsplit : Process.SignalListHead ++ (Process.Thread t).SignalListHead = pre ++ rest)
    (hpre : ∀ y ∈ pre, EntryEligible Env Process (Process.Thread t) y = false)
    (x : SIGNAL_QUEUE_ENTRY) (hx : x ∈ pre)
    (hb : IS_SIGNAL_BLOCKED (Process.Thread t) x.Parameters.SignalNumber = true) :
    ∃ Result, PspDequeuePendingSignal Env Process t SignalParameters = some Result ∧
      BlockedEntryDeferred Env Process Result.Process x := by
  obtain ⟨f1, f2, f3, f4, f5, f6, f7, f8⟩ := DequeueFrame_cleared t Process
  rw [PspDequeuePendingSignal_eq Env Process t SignalParameters hThread hPending hNonMaskable,
    DequeueStandardLoop_skip Env Process t hStandard]
  have hne : Process.SignalListHead ++ (Process.Thread t).SignalListHead ≠ [] := by
    rw [hsplit]
    intro h0
    rw [List.append_eq_nil] at h0
    rw [h0.1] at hx
    simp at hx
  have hfast : (IS_SIGNAL_SET_EMPTY
        (ULONG (OR_SIGNAL_SETS (Process.Thread t).PendingSignals Process.PendingSignals)) &&
      Process.SignalListHead.isEmpty && (Process.Thread t).SignalListHead.isEmpty) = false := by
    cases h1 : Process.SignalListHead with
    | nil =>
      cases h2 : (Process.Thread t).SignalListHead with
      | nil => rw [h1, h2] at hne; simp at hne
      | cons a l => simp
    | cons a l => simp
  rw [hfast]
  simp only [Bool.false_eq_true, if_false]
  refine ⟨_, rfl, ?_⟩
  apply PspDequeueQueuedSignal_prefix Env t _ Process x _ _ _ (f1.trans hTracer) f2
    (by simpa [IS_SIGNAL_BLOCKED, f4] using hb) pre rest (by rw [f5, f7]; exact hsplit) _ hx
  intro y hy
  rw [EntryEligible_cleared]
  exact hpre y hy

/-- C1: with no tracer attached, whatever the state of the thread and of its
process, `PspDequeuePendingSignal` returns whenever neither KILL nor STOP is
pending, and the signal number it returns is not in the blocked set of the
calling thread, which the call leaves as it was. A queue entry whose signal the
thread blocks is never the one returned: after the call it is still on its
queue, or the walk has come to it, and then it is on the blocked-deferred list
with its record as it was, the delivered flag included, unless the walk
discards it (signal not handled, ignored by default and not the child signal),
in which case it has been handed to its completion routine. The walk comes to
every entry in front of the first eligible entry, in the order process queue,
then queue of the thread: when the thread is not in "no signal pending" and
no standard signal is in the set `effective`, every blocked entry of a prefix
of that order without an eligible entry is on the blocked-deferred list, or
discarded, afterwards. -/
theorem C1_dequeued_signal_not_blocked (Env : KERNEL_ENVIRONMENT) (Process : KPROCESS)
    (t : Nat) (SignalParameters : SIGNAL_PARAMETERS)
    (hThread : t < Process.ThreadListHead.length)
    (hTracer : Process.HasTracer = false) :
    (NonMaskablePending Process t = false →
      ∃ Result, PspDequeuePendingSignal Env Process t SignalParameters = some Result) ∧
    ∀ Result, PspDequeuePendingSignal Env Process t SignalParameters = some Result →
      IS_SIGNAL_SET (Process.Thread t).BlockedSignals Result.DequeuedSignal = false ∧
      (Result.Process.Thread t).BlockedSignals = (Process.Thread t).BlockedSignals ∧
      (∀ Entry, IS_SIGNAL_BLOCKED (Process.Thread t) Entry.Parameters.SignalNumber = true →
        (Entry ∈ Process.SignalListHead →
          Entry ∈ Result.Process.SignalListHead ∨
            BlockedEntryDeferred Env Process Result.Process Entry) ∧
        (Entry ∈ (Process.Thread t).SignalListHead →
          Entry ∈ (Result.Process.Thread t).SignalListHead ∨
            BlockedEntryDeferred Env Process Result.Process Entry)) ∧
      ((Process.Thread t).SignalPending ≠ .ThreadNoSignalPending →
        (∀ n, 1 ≤ n → n < STANDARD_SIGNAL_COUNT →
          IS_SIGNAL_SET (EffectiveSignals Process t) n = false) →
        ∀ pre rest,
          Process.SignalListHead ++ (Process.Thread t).SignalListHead = pre ++ rest →
          (∀ y ∈ pre, EntryEligible Env Process (Process.Thread t) y = false) →
          ∀ Entry ∈ pre,
            IS_SIGNAL_BLOCKED (Process.Thread t) Entry.Parameters.SignalNumber = true →
            BlockedEntryDeferred Env Process Result.Process Entry) := by
  refine ⟨PspDequeuePendingSignal_returns Env Process t SignalParameters hThread, ?_⟩
  intro Result hResult
  have hwalk : (Process.Thread t).SignalPending ≠ .ThreadNoSignalPending →
      (∀ n, 1 ≤ n → n < STANDARD_SIGNAL_COUNT →
        IS_SIGNAL_SET (EffectiveSignals Process t) n = false) →
      ∀ pre rest,
        Process.SignalListHead ++ (Process.Thread t).SignalListHead = pre ++ rest →
        (∀ y ∈ pre, EntryEligible Env Process (Process.Thread t) y = false) →
        ∀ Entry ∈ pre,
          IS_SIGNAL_BLOCKED (Process.Thread t) Entry.Parameters.SignalNumber = true →
          BlockedEntryDeferred Env Process Result.Process Entry := by
    intro hp hst pre rest hsplit hpre Entry hx hb
    have hnm : NonMaskablePending Process t = false := by
      cases hnm : NonMaskablePending Process t
      · rfl
      · simp [PspDequeuePendingSignal, hp, PspCheckForNonMaskableSignals_none _ _ hnm]
          at hResult
    obtain ⟨R, hR, hd⟩ := PspDequeuePendingSignal_walked Env Process t SignalParameters hThread
      hTracer hnm hp hst pre rest hsplit hpre Entry hx hb
    rw [hR] at hResult
    simp only [Option.some.injEq] at hResult
    rw [← hResult]
    exact hd
  have hframe : ∀ Q : KPROCESS, DequeueFrame t Process Q →
      ∀ Entry : SIGNAL_QUEUE_ENTRY,
        (Entry ∈ Process.SignalListHead →
          Entry ∈ Q.SignalListHead ∨ BlockedEntryDeferred Env Process Q Entry) ∧
        (Entry ∈ (Process.Thread t).SignalListHead →
          Entry ∈ (Q.Thread t).SignalListHead ∨ BlockedEntryDeferred Env Process Q Entry) := by
    intro Q hQ Entry
    obtain ⟨_, _, _, _, a5, _, a7, _⟩ := hQ
    exact ⟨fun h => Or.inl (by rw [a5]; exact h), fun h => Or.inl (by rw [a7]; exact h)⟩
  by_cases hp : (Process.Thread t).SignalPending = .ThreadNoSignalPending
  · have hR := hResult
    simp only [PspDequeuePendingSignal, hp, beq_self_eq_true, if_true, Option.some.injEq]
      at hR
    subst hR
    exact ⟨IS_SIGNAL_SET_ULONG_MINUS_ONE _, rfl,
      fun x _ => ⟨fun h => Or.inl h, fun h => Or.inl h⟩, hwalk⟩
  · cases hnm : NonMaskablePending Process t
    · have hR := hResult
      rw [PspDequeuePendingSignal_eq Env Process t SignalParameters hThread hp hnm] at hR
      have hfl := DequeueFrame_loop Env t Process
      split at hR
      · simp only [Option.some.injEq] at hR
        rw [← hR] at hwalk ⊢
        exact ⟨IS_SIGNAL_SET_ULONG_MINUS_ONE _, (DequeueFrame_cleared t Process).2.2.2.1,
          fun x _ => hframe _ (DequeueFrame_cleared t Process) x, hwalk⟩
      · split at hR
        · rename_i S hS
          simp only [Option.some.injEq] at hR
          rw [← hR] at hwalk ⊢
          exact ⟨DequeueCombinedSignalMask_not_blocked _ _ _
              (DequeueStandardLoop_mem Env t Process S hTracer hS),
            hfl.2.2.2.1, fun x _ => hframe _ hfl x, hwalk⟩
        · simp only [Option.some.injEq] at hR
          rw [← hR] at hwalk ⊢
          obtain ⟨f1, f2, f3, f4, f5, f6, f7, f8⟩ := hfl
          obtain ⟨i1, i2, _⟩ := PspDequeueQueuedSignal_inv Env t
            (DequeueStandardLoop Env Process t).SavedSignalMask
            ((DequeueStandardLoop Env Process t).Process.SignalListHead.length +
              ((DequeueStandardLoop Env Process t).Process.Thread t).SignalListHead.length + 1)
            (DequeueStandardLoop Env Process t).Process SIGNAL_PARAMETERS.Zero
            (by rw [f3]; exact hThread) (f1.trans hTracer)
          rw [f4] at i1 i2
          refine ⟨i2, i1, ?_, hwalk⟩
          intro x hb
          obtain ⟨k1, k2⟩ := PspDequeueQueuedSignal_deferred Env t
            (DequeueStandardLoop Env Process t).SavedSignalMask Process x
            ((DequeueStandardLoop Env Process t).Process.SignalListHead.length +
              ((DequeueStandardLoop Env Process t).Process.Thread t).SignalListHead.length + 1)
            (DequeueStandardLoop Env Process t).Process SIGNAL_PARAMETERS.Zero
            (by rw [f3]; exact hThread) (f1.trans hTracer) f2
            (by simpa [IS_SIGNAL_BLOCKED, f4] using hb)
          exact ⟨fun h => k1 (Or.inl (by rw [f5]; exact h)),
            fun h => k2 (Or.inl (by rw [f7]; exact h))⟩
    · simp [PspDequeuePendingSignal, hp, PspCheckForNonMaskableSignals_none _ _ hnm] at hResult

/-- Witness of C1 on `ExampleBlockedQueueProcess`: the thread blocks signal 40;
the call returns a signal that is not blocked, and the entry of signal 40, which
is in front of the entry that is taken, is on the blocked-deferred list
afterwards. -/
theorem C1_dequeued_signal_not_blocked_witness :
    ∃ Result,
      PspDequeuePendingSignal ExampleEnvironment ExampleBlockedQueueProcess 0
        SIGNAL_PARAMETERS.Zero = some Result ∧
      IS_SIGNAL_SET (ExampleBlockedQueueProcess.Thread 0).BlockedSignals
        Result.DequeuedSignal = false ∧
      BlockedEntryDeferred ExampleEnvironment ExampleBlockedQueueProcess Result.Process
        ExampleEntry := by
  obtain ⟨h1, h2⟩ := C1_dequeued_signal_not_blocked ExampleEnvironment
    ExampleBlockedQueueProcess 0 SIGNAL_PARAMETERS.Zero (by decide) (by decide)
  obtain ⟨Result, hResult⟩ := h1 (by decide)
  obtain ⟨a, _, _, d⟩ := h2 Result hResult
  exact ⟨Result, hResult, a,
    d (by decide)
      (fun n hn1 hn2 =>
        (by decide : ∀ n, n < STANDARD_SIGNAL_COUNT → 1 ≤ n →
          IS_SIGNAL_SET (EffectiveSignals ExampleBlockedQueueProcess 0) n = false) n hn2 hn1)
      [ExampleEntry] [ExampleLastEntry] (by decide) (by decide) ExampleEntry (by decide)
      (by decide)⟩

/-- C1, a blocked entry whose signal is ignored by default: the thread of
`ExampleBlockedIgnoreProcess` blocks signal 22, which the process does not
handle and `ExampleEnvironment` ignores by default; the entry
`ExampleIgnoredEntry` of that signal is on the process queue, not delivered,
and no tracer is attached. `PspDequeuePendingSignal` returns -1 and the entry
is not on the blocked-deferred list afterwards: it has been handed to its
completion routine and is on no list. -/
theorem C1_blocked_default_ignore_entry_counterexample :
    ExampleBlockedIgnoreProcess.HasTracer = false ∧
      ExampleIgnoredEntry ∈ ExampleBlockedIgnoreProcess.SignalListHead ∧
      ExampleIgnoredEntry.Delivered = false ∧
      IS_SIGNAL_BLOCKED (ExampleBlockedIgnoreProcess.Thread 0)
        ExampleIgnoredEntry.Parameters.SignalNumber = true ∧
      (PspDequeuePendingSignal ExampleEnvironment ExampleBlockedIgnoreProcess 0
          SIGNAL_PARAMETERS.Zero).map
        (fun Result => (Result.DequeuedSignal, Result.Process.SignalListHead,
          Result.Process.BlockedSignalListHead, Result.Process.CompletedSignals)) =
        some (ULONG_MINUS_ONE, [], [], [ExampleIgnoredEntry]) := by
  decide

end PsSignals
